import Mathlib

/-!
BNG Blaster: stream scheduler, sendability gate and RX matcher.

A shallow embedding of `code/bngblaster/src/bbl_stream.c`.

Conventions of the embedding.

* C structures are Lean structures with the field names of the source.  A
  pointer that may be `NULL` is an `Option`.
* `uint64_t` arithmetic is arithmetic on `Nat` reduced modulo `2^64` at every
  operation that can wrap; narrower stores are reduced modulo their width.
* A function that mutates `*stream` takes the stream and returns the new
  stream next to its C return value.
* The session a stream points to (`stream->session`) is owned by the session
  state machines; its state at the time of a call is an argument of the call.
* Globals (`g_init_phase`, `g_traffic`, `g_ctx`) are explicit arguments.
-/

namespace BngBlaster

/-! Section: Machine integers and byte buffers. -/

/-- The modulus of `uint64_t` arithmetic. -/
def U64 : Nat := 18446744073709551616

/-- The modulus of `uint32_t` arithmetic. -/
def U32 : Nat := 4294967296

/-- The `n` little-endian bytes of `v` (the byte image of an `n`-byte store on
the little-endian hosts the tool runs on; the value is reduced modulo
`256^n`). -/
def le_bytes : Nat → Nat → List Nat
  | 0, _ => []
  | n + 1, v => (v % 256) :: le_bytes n (v / 256)

/-- The unsigned value of a little-endian byte string. -/
def le_value : List Nat → Nat
  | [] => 0
  | b :: bs => b + 256 * le_value bs

/-- Store: `*(T*)(buf + off) = bytes`, overwriting `bytes.length` bytes at
offset `off`.  -/
def poke (buf : List Nat) (off : Nat) (bytes : List Nat) : List Nat :=
  buf.take off ++ bytes ++ buf.drop (off + bytes.length)

/-- Load: the `n`-byte unsigned little-endian value at offset `off`. -/
def peek (buf : List Nat) (off n : Nat) : Nat :=
  le_value ((buf.drop off).take n)

/-! Section: Double arithmetic. -/

/-- The position of the highest bit of `n` that is set (the integer part of the
binary logarithm, 0 for `n < 2`), computed by at most `fuel` halvings. -/
def log2_fuel : Nat → Nat → Nat
  | 0, _ => 0
  | fuel + 1, n => if n < 2 then 0 else log2_fuel fuel (n / 2) + 1

/-- A finite non-negative value of the C type `double` (IEEE-754 binary64), as
the exact fraction `num / den`. -/
structure c_double where
  num : Nat := 0
  den : Nat := 1
deriving DecidableEq

/-- The binary64 value nearest to the non-negative rational `num / den`
(`den > 0`), ties to the even significand: the rounding that every double
operation and every conversion to `double` performs.  The value is scaled by
`2^u / 2^d` into the range of a 53-bit significand (`u` at most 1074, the
exponent of the smallest subnormal), rounded to an integer and scaled back.
Overflow to infinity (values from `2^1024` on) is not modelled. -/
def double_round (num den : Nat) : c_double :=
  if num = 0 then { num := 0, den := 1 }
  else
    let a := log2_fuel num num
    let b := log2_fuel den den
    let u0 := 52 + b - a
    let d0 := a - (52 + b)
    let low : Bool := decide (num * 2 ^ u0 < den * 2 ^ (52 + d0))
    let u1 := if low = true ∧ d0 = 0 then u0 + 1 else u0
    let d := if low = true ∧ d0 ≠ 0 then d0 - 1 else d0
    let u := min u1 1074
    let q := (num * 2 ^ u) / (den * 2 ^ d)
    let r := (num * 2 ^ u) % (den * 2 ^ d)
    let q := if den * 2 ^ d < 2 * r ∨ (2 * r = den * 2 ^ d ∧ q % 2 = 1) then q + 1 else q
    { num := q * 2 ^ d, den := 2 ^ u }

/-- The conversion of an unsigned integer to `double`. -/
def double_of_nat (n : Nat) : c_double := double_round n 1

/-- The product of two doubles. -/
def double_mul (x y : c_double) : c_double := double_round (x.num * y.num) (x.den * y.den)

/-- The sum of two doubles. -/
def double_add (x y : c_double) : c_double :=
  double_round (x.num * y.den + y.num * x.den) (x.den * y.den)

/-- The quotient of two doubles (`y` not zero). -/
def double_div (x y : c_double) : c_double := double_round (x.num * y.den) (x.den * y.num)

/-- The conversion of a non-negative double to an unsigned integer type, which
discards the fraction; the reduction to the width of the type is left to the
place of use. -/
def double_to_uint (x : c_double) : Nat := x.num / x.den

/-! Section: Time. -/

/-- The `struct timespec` of C. -/
structure timespec where
  tv_sec : Int := 0
  tv_nsec : Int := 0
deriving DecidableEq

/-- Modelled from the spec: `timespec_sub` lives in the common utility library,
which is not among the given sources.  It is the elapsed time `x − y` (the
`now − t0` of the pacing algorithm), normalised to `0 ≤ tv_nsec < 10^9`, and
zero when `x` is earlier than `y`. -/
def timespec_sub (x y : timespec) : timespec :=
  if x.tv_sec < y.tv_sec then { tv_sec := 0, tv_nsec := 0 }
  else if x.tv_nsec < y.tv_nsec then
    if x.tv_sec = y.tv_sec then { tv_sec := 0, tv_nsec := 0 }
    else { tv_sec := x.tv_sec - y.tv_sec - 1,
           tv_nsec := x.tv_nsec + 1000000000 - y.tv_nsec }
  else { tv_sec := x.tv_sec - y.tv_sec, tv_nsec := x.tv_nsec - y.tv_nsec }

/-! Section: Constants of headers that are not among the given sources. -/

/-- The enumeration constants of `bbl_session.h`, `bbl_access.h` and
`bbl_dhcpv6.h` that `bbl_stream.c` compares session fields with.  The headers
are not among the given sources, so their numeric values are parameters. -/
structure bbl_consts where
  BBL_ESTABLISHED : Nat
  ACCESS_TYPE_PPPOE : Nat
  ACCESS_TYPE_IPOE : Nat
  BBL_PPP_OPENED : Nat
  BBL_DHCP_BOUND : Nat
deriving DecidableEq

/-- Modelled from the spec: `BBL_SUB_TYPE_IPV4`, the `sub_type` byte of the BBL
header (`1=IPv4`). -/
def BBL_SUB_TYPE_IPV4 : Nat := 1

/-- Modelled from the spec: `BBL_SUB_TYPE_IPV6` (`2=IPv6`). -/
def BBL_SUB_TYPE_IPV6 : Nat := 2

/-- Modelled from the spec: `BBL_SUB_TYPE_IPV6PD` (`3=IPv6-PD`). -/
def BBL_SUB_TYPE_IPV6PD : Nat := 3

/-- Modelled from the spec: `BBL_TYPE_UNICAST_SESSION`, the `type` byte of the
BBL header (`1=unicast-session`). -/
def BBL_TYPE_UNICAST_SESSION : Nat := 1

/-- Modelled from the spec: `BBL_DIRECTION_UP`, the `direction` byte of the BBL
header (`1=up`). -/
def BBL_DIRECTION_UP : Nat := 1

/-- Modelled from the spec: `BBL_DIRECTION_DOWN` (`2=down`). -/
def BBL_DIRECTION_DOWN : Nat := 2

/-! Section: Data model. -/

/-- The fields of `bbl_stream_config_s` read by the scheduler, the RX matcher,
the template build and the creation of streams.  `pps` is a `double` in the
source; it is given by the non-negative rational `pps_num / pps_den` of the
configuration, of which it is the nearest double (`double_round`).
`direction` is a bit set of `BBL_DIRECTION_UP` and `BBL_DIRECTION_DOWN`;
`network_interface` and `a10nsp_interface` are the configured interface names
(`none` is `NULL`).  IPv4 addresses are the 32-bit words as stored (network byte
order), IPv6 addresses 16-byte arrays. -/
structure bbl_stream_config_s where
  stream_group_id : Nat := 0
  type : Nat := 0
  pps_num : Nat := 1
  pps_den : Nat := 1
  start_delay : Nat := 0
  max_packets : Nat := 0
  rx_mpls1_label : Nat := 0
  rx_mpls2_label : Nat := 0
  direction : Nat := 0
  network_interface : Option String := none
  a10nsp_interface : Option String := none
  session_traffic : Bool := false
  ipv4_destination_address : Nat := 0
  ipv4_network_address : Nat := 0
  ipv6_destination_address : List Nat := List.replicate 16 0
  ipv6_network_address : List Nat := List.replicate 16 0
  tx_mpls1 : Bool := false
  tx_mpls1_label : Nat := 0
deriving DecidableEq

/-- The counters of the L2TP session that `session->l2tp_session` points to,
with those of its tunnel (`tunnel->stats`), as far as `bbl_stream.c` updates
them. -/
structure bbl_l2tp_session_s where
  stats_data_tx : Nat := 0
  stats_data_rx : Nat := 0
  stats_data_ipv4_tx : Nat := 0
  stats_data_ipv4_rx : Nat := 0
  tunnel_stats_data_tx : Nat := 0
  tunnel_stats_data_rx : Nat := 0
deriving DecidableEq

/-- The counters of the A10NSP session that `session->a10nsp_session` points
to. -/
structure bbl_a10nsp_session_s where
  stats_packets_tx : Nat := 0
  stats_packets_rx : Nat := 0
deriving DecidableEq

/-- The fields of `bbl_session_s` used by `bbl_stream.c`.  The two IPv6
addresses are 16-byte arrays (`ipv6addr_t`); `l2tp_session` and
`a10nsp_session` are pointers (`none` is `NULL`); `stats_` fields are the
members of `stats`, `session_traffic_flows_verified` is
`session_traffic.flows_verified`.  The counters are declared in headers that
are not among the given sources; their width is not modelled. -/
structure bbl_session_s where
  session_state : Nat := 0
  access_type : Nat := 0
  l2tp : Bool := false
  l2tp_session : Option bbl_l2tp_session_s := none
  ipcp_state : Nat := 0
  ip6cp_state : Nat := 0
  icmpv6_ra_received : Bool := false
  ip_address : Nat := 0
  ipv6_address : List Nat := List.replicate 16 0
  delegated_ipv6_address : List Nat := List.replicate 16 0
  dhcpv6_state : Nat := 0
  session_id : Nat := 0
  outer_vlan_id : Nat := 0
  inner_vlan_id : Nat := 0
  session_traffic_active : Bool := false
  streams_active : Bool := false
  a10nsp_session : Option bbl_a10nsp_session_s := none
  session_traffic_flows_verified : Nat := 0
  stats_packets_tx : Nat := 0
  stats_bytes_tx : Nat := 0
  stats_accounting_packets_tx : Nat := 0
  stats_accounting_bytes_tx : Nat := 0
  stats_packets_rx : Nat := 0
  stats_bytes_rx : Nat := 0
  stats_accounting_packets_rx : Nat := 0
  stats_accounting_bytes_rx : Nat := 0
deriving DecidableEq

/-- The runtime state of one stream (`bbl_stream_s`).  `buf` is the cached
packet template: `none` is `NULL`, `some bytes` holds the `tx_len` bytes that
are handed to `io_send`.  `thread` is the TX worker the stream is assigned to,
named by the position of its IO handle in the TX handle list of the interface
(`none` is `NULL`: the stream is sent from the main loop). -/
structure bbl_stream_s where
  flow_id : Nat := 0
  flow_seq : Nat := 0
  config : bbl_stream_config_s := {}
  type : Nat := 0
  direction : Nat := 0
  session_traffic : Bool := false
  buf : Option (List Nat) := none
  tx_len : Nat := 0
  reset : Bool := false
  verified : Bool := false
  stop : Bool := false
  wait : Bool := false
  wait_start : timespec := {}
  send_window_start : timespec := {}
  send_window_packets : Nat := 0
  packets_tx : Nat := 0
  packets_rx : Nat := 0
  loss : Nat := 0
  wrong_session : Nat := 0
  reset_packets_tx : Nat := 0
  reset_packets_rx : Nat := 0
  reset_loss : Nat := 0
  reset_wrong_session : Nat := 0
  rx_first_seq : Nat := 0
  rx_last_seq : Nat := 0
  rx_len : Nat := 0
  rx_priority : Nat := 0
  rx_outer_vlan_pbit : Nat := 0
  rx_inner_vlan_pbit : Nat := 0
  rx_mpls1 : Bool := false
  rx_mpls1_label : Nat := 0
  rx_mpls1_exp : Nat := 0
  rx_mpls1_ttl : Nat := 0
  rx_mpls2 : Bool := false
  rx_mpls2_label : Nat := 0
  rx_mpls2_exp : Nat := 0
  rx_mpls2_ttl : Nat := 0
  min_delay_ns : Nat := 0
  max_delay_ns : Nat := 0
  thread : Option Nat := none
  last_sync_packets_tx : Nat := 0
  last_sync_packets_rx : Nat := 0
  last_sync_loss : Nat := 0
  last_sync_wrong_session : Nat := 0
deriving DecidableEq

/-- The part of the global context `g_ctx` used by `bbl_stream.c`:
`io_stream_max_ppi`, `traffic_stop_verified`, `stream_config` (the
`next`-linked list of the configured streams, head first),
`send_multicast_traffic`, `igmp_group_count` and
`multicast_traffic_network_interface` are members of `config`, the four flow
counters members of `stats`, `flow_id` is the counter from which new streams
take their flow id (a `uint64_t` like the `flow_id` of a stream).  The flow
counters are declared in a header that is not among the given sources; their
width is not modelled. -/
structure bbl_ctx_s where
  io_stream_max_ppi : Nat := 32
  traffic_stop_verified : Bool := false
  flow_id : Nat := 0
  stats_session_traffic_flows : Nat := 0
  stats_session_traffic_flows_verified : Nat := 0
  stats_stream_traffic_flows : Nat := 0
  stats_stream_traffic_flows_verified : Nat := 0
  stream_config : List bbl_stream_config_s := []
  send_multicast_traffic : Bool := false
  igmp_group_count : Nat := 0
  multicast_traffic_network_interface : Option String := none
deriving DecidableEq

/-! Section: The sendability gate. -/

/-- The test `*(uint64_t*)addr` of the source on a 16-byte address: the first
eight bytes read as one 64-bit word. -/
def ipv6_word0 (addr : List Nat) : Nat := le_value (addr.take 8)

/-- The code after the label `FREE:` of `bbl_stream_can_send`: release the
template and close the send window. -/
def bbl_stream_can_send_FREE (stream : bbl_stream_s) : bbl_stream_s :=
  let stream :=
    if stream.buf.isSome then { stream with buf := none, tx_len := 0 } else stream
  { stream with send_window_packets := 0 }

/-- The source function `bbl_stream_can_send`, returning the stream as it
leaves it and the result. -/
def bbl_stream_can_send (K : bbl_consts) (g_init_phase : Bool)
    (session : Option bbl_session_s) (stream : bbl_stream_s) :
    bbl_stream_s × Bool :=
  if g_init_phase then (stream, false)
  else if stream.reset then
    (bbl_stream_can_send_FREE { stream with reset := false, flow_seq := 1 }, false)
  else if stream.config.stream_group_id = 0 then (stream, true)
  else
    match session with
    | none => (bbl_stream_can_send_FREE stream, false)
    | some session =>
      if session.session_state = K.BBL_ESTABLISHED then
        if session.access_type = K.ACCESS_TYPE_PPPOE then
          if session.l2tp && session.l2tp_session.isNone then
            (bbl_stream_can_send_FREE stream, false)
          else if stream.config.type = BBL_SUB_TYPE_IPV4 then
            if session.ipcp_state = K.BBL_PPP_OPENED then (stream, true)
            else (bbl_stream_can_send_FREE stream, false)
          else if stream.config.type = BBL_SUB_TYPE_IPV6 then
            if session.ip6cp_state = K.BBL_PPP_OPENED ∧
               session.icmpv6_ra_received = true ∧
               ipv6_word0 session.ipv6_address ≠ 0 then (stream, true)
            else (bbl_stream_can_send_FREE stream, false)
          else if stream.config.type = BBL_SUB_TYPE_IPV6PD then
            if session.ip6cp_state = K.BBL_PPP_OPENED ∧
               session.icmpv6_ra_received = true ∧
               ipv6_word0 session.delegated_ipv6_address ≠ 0 ∧
               K.BBL_DHCP_BOUND ≤ session.dhcpv6_state then (stream, true)
            else (bbl_stream_can_send_FREE stream, false)
          else (bbl_stream_can_send_FREE stream, false)
        else if session.access_type = K.ACCESS_TYPE_IPOE then
          if stream.config.type = BBL_SUB_TYPE_IPV4 then
            if session.ip_address ≠ 0 then (stream, true)
            else (bbl_stream_can_send_FREE stream, false)
          else if stream.config.type = BBL_SUB_TYPE_IPV6 then
            if ipv6_word0 session.ipv6_address ≠ 0 ∧
               session.icmpv6_ra_received = true then (stream, true)
            else (bbl_stream_can_send_FREE stream, false)
          else if stream.config.type = BBL_SUB_TYPE_IPV6PD then
            if ipv6_word0 session.delegated_ipv6_address ≠ 0 ∧
               session.icmpv6_ra_received = true ∧
               K.BBL_DHCP_BOUND ≤ session.dhcpv6_state then (stream, true)
            else (bbl_stream_can_send_FREE stream, false)
          else (bbl_stream_can_send_FREE stream, false)
        else (bbl_stream_can_send_FREE stream, false)
      else (bbl_stream_can_send_FREE stream, false)

/-! Section: Rate pacing. -/

/-- The value of `packets_expected` in `bbl_stream_send_window`:
`time_elapsed.tv_sec * pps` is formed in double arithmetic and converted to
`uint64_t`, then `+= pps * ((double)time_elapsed.tv_nsec / 1000000000.0)` adds
in double arithmetic and converts again.  Every operation rounds to binary64
(the quotient, the two products and the sum separately; no fused
multiply-add) and each conversion to `uint64_t` discards the fraction.
`config->pps` is the double nearest to `pps_num / pps_den`. -/
def packets_expected (config : bbl_stream_config_s) (time_elapsed : timespec) : Nat :=
  let pps := double_round config.pps_num config.pps_den
  let whole := double_to_uint (double_mul (double_of_nat time_elapsed.tv_sec.toNat) pps) % U64
  double_to_uint
    (double_add (double_of_nat whole)
      (double_mul pps
        (double_div (double_of_nat time_elapsed.tv_nsec.toNat) (double_of_nat 1000000000))))
    % U64

/-- The second half of `bbl_stream_send_window` (from `if(stream->send_window_packets == 0)`
on): open a window or compute the packets due in the open one, then enforce
the optional packet limit. -/
def bbl_stream_send_window_pace (ctx : bbl_ctx_s) (stream : bbl_stream_s)
    (now : timespec) : bbl_stream_s × Nat :=
  let r : bbl_stream_s × Nat :=
    if stream.send_window_packets = 0 then
      ({ stream with send_window_start := { tv_sec := now.tv_sec, tv_nsec := now.tv_nsec } }, 1)
    else
      let time_elapsed := timespec_sub now stream.send_window_start
      let expected := packets_expected stream.config time_elapsed
      let packets :=
        if expected > stream.send_window_packets then expected - stream.send_window_packets
        else 1
      let packets :=
        if packets > ctx.io_stream_max_ppi then ctx.io_stream_max_ppi else packets
      (stream, packets)
  let stream := r.1
  let packets := r.2
  if stream.config.max_packets ≠ 0 ∧
     (stream.packets_tx + packets) % U64 > stream.config.max_packets then
    if stream.packets_tx < stream.config.max_packets then
      (stream, stream.config.max_packets - stream.packets_tx)
    else (stream, 0)
  else (stream, packets)

/-- The source function `bbl_stream_send_window`: the stream as it leaves it and
the number of packets to send in this tick. -/
def bbl_stream_send_window (ctx : bbl_ctx_s) (stream : bbl_stream_s)
    (now : timespec) : bbl_stream_s × Nat :=
  if stream.config.start_delay ≠ 0 ∧ stream.packets_tx = 0 then
    if stream.wait then
      if (timespec_sub now stream.wait_start).tv_sec < (stream.config.start_delay : Int) then
        (stream, 0)
      else bbl_stream_send_window_pace ctx stream now
    else
      ({ stream with
          wait := true,
          wait_start := { tv_sec := now.tv_sec, tv_nsec := now.tv_nsec } }, 0)
  else bbl_stream_send_window_pace ctx stream now

/-! Section: The transmit job. -/

/-- How a call of `bbl_stream_build_packet` ends.  The builders depend on the
packet encoder, which is not among the given sources; every builder either
returns `false` before it allocates (`refused`), or allocates and fails in
`encode_ethernet` (`encode_error`), or leaves the encoded template of `tx_len`
bytes in `stream->buf` (`built`). -/
inductive build_outcome where
  | refused
  | encode_error
  | built (bytes : List Nat)
deriving DecidableEq

/-- The effect of `bbl_stream_build_packet` on the stream, given how it ends. -/
def bbl_stream_build_packet (outcome : build_outcome) (stream : bbl_stream_s) :
    bbl_stream_s × Bool :=
  match outcome with
  | build_outcome.refused => (stream, false)
  | build_outcome.encode_error => ({ stream with buf := none, tx_len := 0 }, false)
  | build_outcome.built bytes =>
      ({ stream with buf := some bytes, tx_len := bytes.length }, true)

/-- What `bbl_stream_tx_job` reads from outside the stream in one run: the
globals, the state of the session the stream points to, the outcome of the
template build (used only if there is no cached template), the clock, and the
result of the successive `io_send` calls (`io_send i` is the result of call
number `i` of this run, counted from 0). -/
structure tx_env where
  g_init_phase : Bool := false
  g_traffic : Bool := true
  session : Option bbl_session_s := none
  build : build_outcome := build_outcome.refused
  now : timespec := {}
  io_send : Nat → Bool := fun _ => true

/-- The loop `while(packets)` of `bbl_stream_tx_job`: the stream after the loop
and the packets that `io_send` accepted, in order.  `calls` is the number of
`io_send` calls already made in this run.  The job runs the loop with a
template in `stream->buf` (the `none` case is never taken from the job); the
offset `tx_len - 16` of the source presupposes `tx_len ≥ 16`. -/
def bbl_stream_tx_loop (io_send : Nat → Bool) :
    Nat → Nat → bbl_stream_s → bbl_stream_s × List (List Nat)
  | 0, _, stream => (stream, [])
  | packets + 1, calls, stream =>
    match stream.buf with
    | none => (stream, [])
    | some buf =>
      let buf := poke buf (stream.tx_len - 16) (le_bytes 8 stream.flow_seq)
      let stream := { stream with buf := some buf }
      if io_send calls then
        let stream := { stream with
          send_window_packets := (stream.send_window_packets + 1) % U64,
          packets_tx := (stream.packets_tx + 1) % U64,
          flow_seq := (stream.flow_seq + 1) % U64 }
        let r := bbl_stream_tx_loop io_send packets (calls + 1) stream
        (r.1, buf.take stream.tx_len :: r.2)
      else (stream, [])

/-- The tail of `bbl_stream_tx_job` from `clock_gettime` on. -/
def bbl_stream_tx_job_send (ctx : bbl_ctx_s) (e : tx_env) (stream : bbl_stream_s) :
    bbl_stream_s × List (List Nat) :=
  let r := bbl_stream_send_window ctx stream e.now
  let stream := r.1
  let packets := r.2
  match stream.buf with
  | none => (stream, [])
  | some buf =>
    let buf := poke buf (stream.tx_len - 8) (le_bytes 4 (e.now.tv_sec % (U32 : Int)).toNat)
    let buf := poke buf (stream.tx_len - 4) (le_bytes 4 (e.now.tv_nsec % (U32 : Int)).toNat)
    bbl_stream_tx_loop e.io_send packets 0 { stream with buf := some buf }

/-- The part of `bbl_stream_tx_job` from the comment `Close send window` on,
entered with a template in `stream->buf`: close the send window and return
when traffic is stopped, else send. -/
def bbl_stream_tx_job_paced (ctx : bbl_ctx_s) (e : tx_env) (stream : bbl_stream_s) :
    bbl_stream_s × List (List Nat) :=
  if e.g_traffic = false ∨ stream.stop = true then
    ({ stream with send_window_packets := 0 }, [])
  else
    match e.session with
    | some session =>
      if stream.session_traffic then
        if session.session_traffic_active = false then
          ({ stream with send_window_packets := 0 }, [])
        else bbl_stream_tx_job_send ctx e stream
      else if session.streams_active = false then
        ({ stream with send_window_packets := 0 }, [])
      else bbl_stream_tx_job_send ctx e stream
    | none => bbl_stream_tx_job_send ctx e stream

/-- The source function `bbl_stream_tx_job`: the stream as it leaves it and the
packets that `io_send` accepted, in order. -/
def bbl_stream_tx_job (K : bbl_consts) (ctx : bbl_ctx_s) (e : tx_env)
    (stream : bbl_stream_s) : bbl_stream_s × List (List Nat) :=
  let c := bbl_stream_can_send K e.g_init_phase e.session stream
  let stream := c.1
  if c.2 = false then (stream, [])
  else
    let b : bbl_stream_s × Bool :=
      if stream.buf.isNone then bbl_stream_build_packet e.build stream else (stream, true)
    let stream := b.1
    if b.2 = false then (stream, [])
    else bbl_stream_tx_job_paced ctx e stream

/-- A run of the periodic timer: `bbl_stream_tx_job` once per tick, each tick
with its own environment; the packets accepted by `io_send` are collected in
order. -/
def bbl_stream_tx_run (K : bbl_consts) (ctx : bbl_ctx_s) :
    List tx_env → bbl_stream_s → bbl_stream_s × List (List Nat)
  | [], stream => (stream, [])
  | e :: es, stream =>
    let r := bbl_stream_tx_job K ctx e stream
    let rs := bbl_stream_tx_run K ctx es r.1
    (rs.1, r.2 ++ rs.2)

/-- The `flow_seq` field of a transmitted packet: the 64-bit word 16 bytes
before its end (offset +32 of the trailing 48-byte BBL header). -/
def bbl_flow_seq (packet : List Nat) : Nat := peek packet (packet.length - 16) 8

/-! Section: The receive matcher. -/

/-- One entry of the decoded MPLS label stack (`bbl_mpls_t`). -/
structure bbl_mpls_t where
  label : Nat := 0
  exp : Nat := 0
  ttl : Nat := 0
deriving DecidableEq

/-- The decoded BBL header (`bbl_bbl_t`). -/
structure bbl_bbl_t where
  type : Nat := 0
  sub_type : Nat := 0
  direction : Nat := 0
  session_id : Nat := 0
  outer_vlan_id : Nat := 0
  inner_vlan_id : Nat := 0
  flow_id : Nat := 0
  flow_seq : Nat := 0
  timestamp : timespec := {}
deriving DecidableEq

/-- The decoded ARP packet (`bbl_arp_t`): MAC addresses are 6-byte lists,
IPv4 addresses 32-bit numbers. -/
structure bbl_arp_t where
  code : Nat := 0
  sender : List Nat := List.replicate 6 0
  sender_ip : Nat := 0
  target : List Nat := List.replicate 6 0
  target_ip : Nat := 0
deriving DecidableEq

/-- The decoded ICMP message (`bbl_icmp_t`); `data` is the message after type
and code (for an echo: identifier, sequence number and payload). -/
structure bbl_icmp_t where
  type : Nat := 0
  code : Nat := 0
  data : List Nat := []
deriving DecidableEq

/-- The decoded UDP header (`bbl_udp_t`), of which the network handler reads
the payload classification `protocol`. -/
structure bbl_udp_t where
  src : Nat := 0
  dst : Nat := 0
  protocol : Nat := 0
deriving DecidableEq

/-- What `ipv4->next` points to. -/
inductive bbl_ipv4_next where
  | icmp (icmp : bbl_icmp_t)
  | udp (udp : bbl_udp_t)
  | other
deriving DecidableEq

/-- The decoded IPv4 header (`bbl_ipv4_t`). -/
structure bbl_ipv4_t where
  src : Nat := 0
  dst : Nat := 0
  ttl : Nat := 0
  tos : Nat := 0
  protocol : Nat := 0
  next : bbl_ipv4_next := bbl_ipv4_next.other
deriving DecidableEq

/-- The fields of the decoded ICMPv6 message (`bbl_icmpv6_t`) that
`bbl_network.c` reads or writes; `prefix_address` is `prefix.address`, the
target of a neighbor solicitation; the pointers `mac`, `data`, `dns1` and
`dns2` are optional values. -/
structure bbl_icmpv6_t where
  type : Nat := 0
  code : Nat := 0
  flags : Nat := 0
  prefix_address : List Nat := List.replicate 16 0
  mac : Option (List Nat) := none
  data : Option (List Nat) := none
  data_len : Nat := 0
  dns1 : Option (List Nat) := none
  dns2 : Option (List Nat) := none
deriving DecidableEq

/-- What `ipv6->next` points to. -/
inductive bbl_ipv6_next where
  | icmpv6 (icmpv6 : bbl_icmpv6_t)
  | other
deriving DecidableEq

/-- The decoded IPv6 header (`bbl_ipv6_t`); addresses are 16-byte lists. -/
structure bbl_ipv6_t where
  src : List Nat := List.replicate 16 0
  dst : List Nat := List.replicate 16 0
  ttl : Nat := 0
  tos : Nat := 0
  protocol : Nat := 0
  next : bbl_ipv6_next := bbl_ipv6_next.other
deriving DecidableEq

/-- What `eth->next` points to. -/
inductive bbl_ethernet_next where
  | arp (arp : bbl_arp_t)
  | ipv4 (ipv4 : bbl_ipv4_t)
  | ipv6 (ipv6 : bbl_ipv6_t)
  | other
deriving DecidableEq

/-- The fields of the decoded frame (`bbl_ethernet_header_t`) read by
`bbl_stream_rx` and by the network interface handlers.  The label stack
`eth->mpls`, a `next`-linked chain, is a list; `bbl` is `none` when the frame
carries no BBL header; `dst` and `src` are 6-byte lists. -/
structure bbl_ethernet_header_t where
  length : Nat := 0
  tos : Nat := 0
  vlan_outer_priority : Nat := 0
  vlan_inner_priority : Nat := 0
  mpls : List bbl_mpls_t := []
  bbl : Option bbl_bbl_t := none
  timestamp : timespec := {}
  dst : List Nat := List.replicate 6 0
  src : List Nat := List.replicate 6 0
  type : Nat := 0
  vlan_outer : Nat := 0
  vlan_inner : Nat := 0
  vlan_three : Nat := 0
  next : bbl_ethernet_next := bbl_ethernet_next.other
  qinq : Bool := false
deriving DecidableEq

/-- The source function `bbl_stream_delay`. -/
def bbl_stream_delay (stream : bbl_stream_s) (rx_timestamp bbl_timestamp : timespec) :
    bbl_stream_s :=
  let delay := timespec_sub rx_timestamp bbl_timestamp
  let delay_nsec := ((delay.tv_sec * 1000000000 + delay.tv_nsec) % (U64 : Int)).toNat
  let stream :=
    if delay_nsec > stream.max_delay_ns then { stream with max_delay_ns := delay_nsec }
    else stream
  if stream.min_delay_ns ≠ 0 then
    if delay_nsec < stream.min_delay_ns then { stream with min_delay_ns := delay_nsec }
    else stream
  else { stream with min_delay_ns := delay_nsec }

/-- The statements of `bbl_stream_rx` that record the observed frame attributes
at the head of the branch `Verify stream ...`. -/
def bbl_stream_rx_observe (eth : bbl_ethernet_header_t) (stream : bbl_stream_s) :
    bbl_stream_s :=
  let stream := { stream with
    rx_len := eth.length,
    rx_priority := eth.tos,
    rx_outer_vlan_pbit := eth.vlan_outer_priority,
    rx_inner_vlan_pbit := eth.vlan_inner_priority }
  match eth.mpls with
  | [] => stream
  | m1 :: rest =>
    let stream := { stream with
      rx_mpls1 := true, rx_mpls1_label := m1.label,
      rx_mpls1_exp := m1.exp, rx_mpls1_ttl := m1.ttl }
    match rest with
    | [] => stream
    | m2 :: _ =>
      { stream with
        rx_mpls2 := true, rx_mpls2_label := m2.label,
        rx_mpls2_exp := m2.exp, rx_mpls2_ttl := m2.ttl }

/-- The last statements of `bbl_stream_rx` on an accepted packet. -/
def bbl_stream_rx_count (eth : bbl_ethernet_header_t) (bbl : bbl_bbl_t)
    (stream : bbl_stream_s) : bbl_stream_s :=
  let stream := { stream with
    packets_rx := (stream.packets_rx + 1) % U64,
    rx_last_seq := bbl.flow_seq }
  bbl_stream_delay stream eth.timestamp bbl.timestamp

/-- The condition under which `bbl_stream_rx` counts a wrong session:
`session && stream->session_traffic`, and the VLANs or the session id of the
BBL header differ from those of `session`. -/
def bbl_stream_rx_session_mismatch (bbl : bbl_bbl_t) (session : Option bbl_session_s)
    (stream : bbl_stream_s) : Bool :=
  match session with
  | none => false
  | some session =>
    stream.session_traffic &&
      (bbl.outer_vlan_id != session.outer_vlan_id ||
       bbl.inner_vlan_id != session.inner_vlan_id ||
       bbl.session_id != session.session_id)

/-- The body of `bbl_stream_rx` once the flow lookup has found `stream`: the
stream as the call leaves it, and whether the call returns the stream (`true`)
or `NULL` (`false`). -/
def bbl_stream_rx_stream (eth : bbl_ethernet_header_t) (bbl : bbl_bbl_t)
    (session : Option bbl_session_s) (stream : bbl_stream_s) : bbl_stream_s × Bool :=
  if stream.rx_first_seq ≠ 0 then
    let stream :=
      if (stream.rx_last_seq + 1) % U64 < bbl.flow_seq then
        { stream with
          loss := (stream.loss + (bbl.flow_seq - (stream.rx_last_seq + 1) % U64)) % U64 }
      else stream
    (bbl_stream_rx_count eth bbl stream, true)
  else
    let stream := bbl_stream_rx_observe eth stream
    if stream.config.rx_mpls1_label ≠ 0 ∧
       stream.rx_mpls1_label ≠ stream.config.rx_mpls1_label then (stream, false)
    else if stream.config.rx_mpls1_label ≠ 0 ∧ stream.config.rx_mpls2_label ≠ 0 ∧
       stream.rx_mpls2_label ≠ stream.config.rx_mpls2_label then (stream, false)
    else if bbl.sub_type ≠ stream.type ∨ bbl.direction ≠ stream.direction then
      (stream, false)
    else if bbl_stream_rx_session_mismatch bbl session stream then
      ({ stream with wrong_session := (stream.wrong_session + 1) % U64 }, false)
    else
      (bbl_stream_rx_count eth bbl { stream with rx_first_seq := bbl.flow_seq }, true)

/-- The flow dictionary `g_ctx->stream_flow_dict`: the stream registered under
each `flow_id`, if any. -/
abbrev stream_flow_dict := Nat → Option bbl_stream_s

/-- The source function `bbl_stream_rx`.  `session` is its second argument (the
session the receiving interface attributed the frame to, or `NULL`).  The
result is the dictionary with the matched stream as the call leaves it, and
the returned stream (`none` for `NULL`). -/
def bbl_stream_rx (dict : stream_flow_dict) (eth : bbl_ethernet_header_t)
    (session : Option bbl_session_s) : stream_flow_dict × Option bbl_stream_s :=
  match eth.bbl with
  | none => (dict, none)
  | some bbl =>
    if bbl.type ≠ BBL_TYPE_UNICAST_SESSION then (dict, none)
    else
      match dict bbl.flow_id with
      | none => (dict, none)
      | some stream =>
        let r := bbl_stream_rx_stream eth bbl session stream
        (Function.update dict bbl.flow_id (some r.1), if r.2 then some r.1 else none)

/-- Successive calls of `bbl_stream_rx`, one per received frame; the results of
the calls are collected in order. -/
def bbl_stream_rx_run :
    List (bbl_ethernet_header_t × Option bbl_session_s) → stream_flow_dict →
      stream_flow_dict × List (Option bbl_stream_s)
  | [], dict => (dict, [])
  | (eth, session) :: rest, dict =>
    let r := bbl_stream_rx dict eth session
    let rs := bbl_stream_rx_run rest r.1
    (rs.1, r.2 :: rs.2)

/-! Section: Stream reset. -/

/-- The source function `bbl_stream_reset`; `none` is the `NULL` stream, for
which it returns at once. -/
def bbl_stream_reset (stream : Option bbl_stream_s) : Option bbl_stream_s :=
  match stream with
  | none => none
  | some stream =>
    some { stream with
      reset := true,
      reset_packets_tx := stream.packets_tx,
      reset_packets_rx := stream.packets_rx,
      reset_loss := stream.loss,
      reset_wrong_session := stream.wrong_session,
      min_delay_ns := 0,
      max_delay_ns := 0,
      rx_len := 0,
      rx_first_seq := 0,
      rx_last_seq := 0,
      rx_priority := 0,
      rx_outer_vlan_pbit := 0,
      rx_inner_vlan_pbit := 0,
      rx_mpls1 := false,
      rx_mpls1_exp := 0,
      rx_mpls1_ttl := 0,
      rx_mpls1_label := 0,
      rx_mpls2 := false,
      rx_mpls2_exp := 0,
      rx_mpls2_ttl := 0,
      rx_mpls2_label := 0,
      verified := false,
      stop := false }

/-! Section: Worker assignment. -/

/-- The field of `io_thread_s` (`io/io_def.h`) used to balance streams over the
TX workers; it is a `uint32_t`. -/
structure io_thread_s where
  pps_reserved : Nat := 0
deriving DecidableEq

/-- One frame of a PACKET_MMAP ring: the fields of its `struct tpacket2_hdr`
that `io_packet_mmap.c` uses, and the packet bytes of the frame (`tp_len` of
them count). -/
structure tpacket2_hdr where
  tp_status : Nat := 0
  tp_len : Nat := 0
  tp_vlan_tci : Nat := 0
  tp_vlan_tpid : Nat := 0
  packet : List Nat := []
deriving DecidableEq

/-- The fields of `io_handle_s` (`io/io_def.h`) read by `bbl_stream_add_jobs`
and by `io_packet_mmap.c`.  Every worker thread belongs to one IO handle
(`io->thread`, `thread->io`), so the thread is kept inside its handle; `none` is
a handle without thread.  The handles of an interface, chained through
`next`, are a list.  `ring` is the mapped ring as the list of its frames,
`req_tp_frame_nr` is `req.tp_frame_nr`; `cursor`, `queued`, `buf_len`,
`vlan_tci` and `vlan_tpid` are `uint16_t`, the members of `stats` (`stats_`)
are `uint64_t`.  `update_streams` and `stats.unknown` are used by
`io_packet_mmap.c` but not declared in the given `io_def.h`. -/
structure io_handle_s where
  thread : Option io_thread_s := none
  req_tp_frame_nr : Nat := 0
  ring : List tpacket2_hdr := []
  cursor : Nat := 0
  queued : Nat := 0
  update_streams : Bool := false
  buf : List Nat := []
  buf_len : Nat := 0
  vlan_tci : Nat := 0
  vlan_tpid : Nat := 0
  timestamp : timespec := {}
  stats_packets : Nat := 0
  stats_bytes : Nat := 0
  stats_protocol_errors : Nat := 0
  stats_io_errors : Nat := 0
  stats_no_buffer : Nat := 0
  stats_polled : Nat := 0
  stats_unknown : Nat := 0
deriving DecidableEq

/-- The loop `while(io && io->thread)` of `bbl_stream_add_jobs`: `index` is the
position of the head of the remaining handles, `thread` the position of the
thread selected so far and `pps_reserved` its reservation; the result is the
position of the thread finally selected. -/
def bbl_stream_add_jobs_select :
    List io_handle_s → Nat → Nat → Nat → Nat
  | [], _, thread, _ => thread
  | io :: rest, index, thread, pps_reserved =>
    match io.thread with
    | none => thread
    | some t =>
      if t.pps_reserved < pps_reserved then
        bbl_stream_add_jobs_select rest (index + 1) index t.pps_reserved
      else bbl_stream_add_jobs_select rest (index + 1) thread pps_reserved

/-- The statement `thread->pps_reserved += stream->config->pps`: the
`uint32_t` is converted to `double`, the sum is formed in double arithmetic,
which rounds it to binary64, and converted back to `uint32_t`, which discards
the fraction.  `config->pps` is the double nearest to `pps_num / pps_den`. -/
def pps_reserved_add (pps_reserved : Nat) (config : bbl_stream_config_s) : Nat :=
  double_to_uint
    (double_add (double_of_nat pps_reserved) (double_round config.pps_num config.pps_den))
    % U32

/-- Apply `thread->pps_reserved += stream->config->pps` to the thread of the
handle at position `thread`. -/
def bbl_stream_add_jobs_credit (config : bbl_stream_config_s) :
    List io_handle_s → Nat → List io_handle_s
  | [], _ => []
  | io :: rest, 0 =>
    match io.thread with
    | none => io :: rest
    | some t =>
      { io with thread := some { t with pps_reserved := pps_reserved_add t.pps_reserved config } }
        :: rest
  | io :: rest, thread + 1 => io :: bbl_stream_add_jobs_credit config rest thread

/-- The source function `bbl_stream_add_jobs`, applied to the TX handles
`stream->interface->io.tx`: the handles and the stream as it leaves them.  The
registration of the timers (`timer_add_periodic`) is not modelled.  The source
dereferences the first handle, so the list is not empty when it is called. -/
def bbl_stream_add_jobs (io_tx : List io_handle_s) (stream : bbl_stream_s) :
    List io_handle_s × bbl_stream_s :=
  match io_tx with
  | [] => (io_tx, stream)
  | io :: _ =>
    match io.thread with
    | none => (io_tx, stream)
    | some t =>
      let thread := bbl_stream_add_jobs_select io_tx 0 0 t.pps_reserved
      (bbl_stream_add_jobs_credit stream.config io_tx thread,
        { stream with thread := some thread })

/-- Successive calls of `bbl_stream_add_jobs` for the streams of one interface,
in order. -/
def bbl_stream_add_jobs_run : List bbl_stream_s → List io_handle_s → List io_handle_s
  | [], io_tx => io_tx
  | stream :: rest, io_tx =>
    bbl_stream_add_jobs_run rest (bbl_stream_add_jobs io_tx stream).1

/-- The reservation of the thread of a handle (0 for a handle without thread). -/
def io_pps_reserved (io : io_handle_s) : Nat :=
  match io.thread with
  | some t => t.pps_reserved
  | none => 0

/-! Section: Network interfaces. -/

/-- The constants that `bbl_network.c` takes from headers that are not among
the given sources: Ethernet types, protocol numbers, message codes, the
request bits of `send_requests`, the default TXQ size and the solicited-node
multicast address `ipv6_solicited_node_multicast`. -/
structure bbl_network_consts where
  ETH_TYPE_ARP : Nat
  ETH_TYPE_IPV4 : Nat
  ETH_TYPE_IPV6 : Nat
  ISIS_PROTOCOL_IDENTIFIER : Nat
  PROTOCOL_IPV4_UDP : Nat
  PROTOCOL_IPV4_ICMP : Nat
  PROTOCOL_IPV4_TCP : Nat
  IPV6_NEXT_HEADER_ICMPV6 : Nat
  UDP_PROTOCOL_QMX_LI : Nat
  UDP_PROTOCOL_L2TP : Nat
  ARP_REQUEST : Nat
  ARP_REPLY : Nat
  ICMP_TYPE_ECHO_REQUEST : Nat
  ICMP_TYPE_ECHO_REPLY : Nat
  IPV6_ICMPV6_NEIGHBOR_SOLICITATION : Nat
  IPV6_ICMPV6_NEIGHBOR_ADVERTISEMENT : Nat
  IPV6_ICMPV6_ECHO_REQUEST : Nat
  IPV6_ICMPV6_ECHO_REPLY : Nat
  BBL_IF_SEND_ARP_REQUEST : Nat
  BBL_IF_SEND_ICMPV6_NS : Nat
  BBL_TXQ_DEFAULT_SIZE : Nat
  ipv6_solicited_node_multicast : List Nat
deriving DecidableEq

/-- Modelled from the spec: the TXQ is a bounded ring of packet slots ("fixed
capacity", "nil if full"); its code is not among the given sources.  `slots`
holds the frames written and not yet read, oldest first, `size` is the number
of frames the ring can hold. -/
structure bbl_txq_s where
  size : Nat := 0
  slots : List bbl_ethernet_header_t := []
deriving DecidableEq

/-- Modelled from the spec: the result type `bbl_txq_result_t` of
`bbl_txq_to_buffer`, which is named by `bbl_network.c` but declared in a header
that is not among the given sources. -/
inductive bbl_txq_result_t where
  | BBL_TXQ_OK
  | BBL_TXQ_ENCODING_ERROR
  | BBL_TXQ_FULL
deriving DecidableEq

/-- Modelled from the spec: `bbl_txq_to_buffer` encodes the frame into the next
free slot of the ring; a full ring takes nothing (the back-pressure signal of
the specification), and neither does a frame that the encoder rejects.
`encode_ethernet` tells whether the encoder accepts a frame. -/
def bbl_txq_to_buffer (encode_ethernet : bbl_ethernet_header_t → Bool) (txq : bbl_txq_s)
    (eth : bbl_ethernet_header_t) : bbl_txq_s × bbl_txq_result_t :=
  if txq.size ≤ txq.slots.length then (txq, bbl_txq_result_t.BBL_TXQ_FULL)
  else if encode_ethernet eth then
    ({ txq with slots := txq.slots ++ [eth] }, bbl_txq_result_t.BBL_TXQ_OK)
  else (txq, bbl_txq_result_t.BBL_TXQ_ENCODING_ERROR)

/-- The fields of `bbl_network_interface_s` used by `bbl_network.c`.  MAC
addresses are 6-byte lists, IPv6 addresses 16-byte lists; `ip6_address` and
`ip6_len` are the prefix `ip6`; the two counters are `stats.icmp_rx` and
`stats.tcp_rx`.  The defaults are the zero bytes of `calloc`. -/
structure bbl_network_interface_s where
  name : String := ""
  vlan : Nat := 0
  mac : List Nat := List.replicate 6 0
  gateway_mac : List Nat := List.replicate 6 0
  ip_address : Nat := 0
  ip_len : Nat := 0
  gateway : Nat := 0
  ip6_address : List Nat := List.replicate 16 0
  ip6_len : Nat := 0
  ip6_ll : List Nat := List.replicate 16 0
  gateway6 : List Nat := List.replicate 16 0
  gateway6_solicited_node_multicast : List Nat := List.replicate 16 0
  send_requests : Nat := 0
  gateway_resolve_wait : Bool := false
  arp_resolved : Bool := false
  icmpv6_nd_resolved : Bool := false
  tx_label : bbl_mpls_t := {}
  txq : bbl_txq_s := {}
  stats_icmp_rx : Nat := 0
  stats_tcp_rx : Nat := 0
deriving DecidableEq

/-- The fields of `bbl_network_config_s` read by `bbl_network_interfaces_add`.
`mac_trailing` holds the two bytes that follow the 6-byte array `mac` in the
structure: the test `*(uint64_t*)network_config->mac` loads them together with
the MAC. -/
structure bbl_network_config_s where
  interface : String := ""
  vlan : Nat := 0
  mac : List Nat := List.replicate 6 0
  mac_trailing : List Nat := List.replicate 2 0
  gateway_mac : List Nat := List.replicate 6 0
  ip_address : Nat := 0
  ip_len : Nat := 0
  gateway : Nat := 0
  ip6_address : List Nat := List.replicate 16 0
  ip6_len : Nat := 0
  gateway6 : List Nat := List.replicate 16 0
  gateway_resolve_wait : Bool := false
  isis_instance_id : Nat := 0
deriving DecidableEq

/-- The fields of the physical interface `bbl_interface_s` used by
`bbl_network.c`: `access` tells whether the pointer `interface->access` is
set, `network` is the `next`-linked list of network interfaces (head first),
`stats_unknown` is `stats.unknown`. -/
structure bbl_interface_s where
  name : String := ""
  access : Bool := false
  mac : List Nat := List.replicate 6 0
  network : List bbl_network_interface_s := []
  stats_unknown : Nat := 0
deriving DecidableEq

/-- What `bbl_network.c` reads from the global context and the functions it
calls that are not among the given sources: the configured secondary
addresses, the identifiers of the configured IS-IS instances, whether the
encoder accepts a frame, the result of `bbl_tcp_network_interface_init` and of
`isis_adjacency_init`, and the effect of the handlers of other protocols on the
network interface. -/
structure bbl_network_env where
  secondary_ip_addresses : List Nat := []
  secondary_ip6_addresses : List (List Nat) := []
  isis_instances : List Nat := []
  encode_ethernet : bbl_ethernet_header_t → Bool := fun _ => true
  bbl_tcp_network_interface_init :
    bbl_network_interface_s → bbl_network_config_s → Bool := fun _ _ => true
  isis_adjacency_init :
    bbl_network_interface_s → bbl_network_config_s → Nat → Bool := fun _ _ _ => true
  bbl_qmx_li_handler_rx :
    bbl_network_interface_s → bbl_ethernet_header_t → bbl_network_interface_s := fun i _ => i
  bbl_l2tp_handler_rx :
    bbl_network_interface_s → bbl_ethernet_header_t → bbl_network_interface_s := fun i _ => i
  bbl_tcp_ipv4_rx :
    bbl_network_interface_s → bbl_ethernet_header_t → bbl_network_interface_s := fun i _ => i
  isis_handler_rx :
    bbl_network_interface_s → bbl_ethernet_header_t → bbl_network_interface_s := fun i _ => i

/-- The source function `bbl_network_interfaces_duplicate`. -/
def bbl_network_interfaces_duplicate (interface : bbl_interface_s) (vlan : Nat) : Bool :=
  interface.network.any (fun network_interface => decide (network_interface.vlan = vlan))

/-- Modelled from the spec: `bbl_interface_get` is not among the given sources;
it returns the interface with the given name, here the position of the first
such interface in the list of physical interfaces, or `none` for `NULL`. -/
def bbl_interface_get (interfaces : List bbl_interface_s) (name : String) : Option Nat :=
  if interfaces.findIdx (fun interface => interface.name == name) < interfaces.length then
    some (interfaces.findIdx (fun interface => interface.name == name))
  else none

/-- Modelled from the spec: `ipv6_addr_not_zero` and `ipv6_prefix_not_zero` are
not among the given sources; by their names they tell whether some byte of the
address is not zero. -/
def ipv6_addr_not_zero (addr : List Nat) : Bool := decide (le_value addr ≠ 0)

/-- The test `*(uint64_t*)network_config->mac & 0xffffffffffff00` of
`bbl_network_interfaces_add`: the 64-bit load covers the six bytes of the MAC
and the two bytes behind it, the mask keeps the bytes 1 to 6 of these eight. -/
def network_config_mac_set (config : bbl_network_config_s) : Bool :=
  decide (le_value ((config.mac ++ config.mac_trailing).take 8) &&& 0xffffffffffff00 ≠ 0)

/-- The link-local address that `bbl_network_interfaces_add` writes into the
zeroed array `ip6_ll` from the MAC of the network interface. -/
def network_interface_ip6_ll (mac : List Nat) : List Nat :=
  [0xfe, 0x80, 0, 0, 0, 0, 0, 0,
   mac.getD 0 0, mac.getD 1 0, mac.getD 2 0, 0xff, 0xfe,
   mac.getD 3 0, mac.getD 4 0, mac.getD 5 0]

/-- The body of the loop of `bbl_network_interfaces_add` from `calloc` to the
assignment of `gateway_resolve_wait`: the network interface created for one
configuration on the physical interface `interface`.  The sub-interface name is
built by `snprintf` into a buffer whose bound is not modelled. -/
def bbl_network_interface_new (K : bbl_network_consts) (config : bbl_network_config_s)
    (interface : bbl_interface_s) : bbl_network_interface_s :=
  let ifname :=
    if config.vlan ≠ 0 then config.interface ++ ":" ++ toString config.vlan
    else config.interface
  let n : bbl_network_interface_s :=
    { name := ifname,
      txq := { size := K.BBL_TXQ_DEFAULT_SIZE, slots := [] },
      vlan := config.vlan,
      mac := if network_config_mac_set config then config.mac else interface.mac,
      gateway_mac := config.gateway_mac }
  let n :=
    if config.ip_address ≠ 0 ∧ config.gateway ≠ 0 then
      { n with
        ip_address := config.ip_address,
        ip_len := config.ip_len,
        gateway := config.gateway,
        send_requests := n.send_requests ||| K.BBL_IF_SEND_ARP_REQUEST }
    else n
  let n := { n with ip6_ll := network_interface_ip6_ll n.mac }
  let n :=
    if ipv6_addr_not_zero config.ip6_address && ipv6_addr_not_zero config.gateway6 then
      { n with
        ip6_address := config.ip6_address,
        ip6_len := config.ip6_len,
        gateway6 := config.gateway6,
        gateway6_solicited_node_multicast :=
          K.ipv6_solicited_node_multicast.take 13 ++ (config.gateway6.drop 13).take 3,
        send_requests := n.send_requests ||| K.BBL_IF_SEND_ICMPV6_NS }
    else n
  { n with gateway_resolve_wait := config.gateway_resolve_wait }

/-- The source function `bbl_network_interfaces_add`, as a function of the
configuration list `g_ctx->config.network_config` and the physical interfaces:
the physical interfaces as it leaves them and its result.  A network interface
is linked to its physical interface before the TCP and IS-IS initialisation, so
it stays linked when these fail.  The global queue of network interfaces and
the timers are not modelled. -/
def bbl_network_interfaces_add (K : bbl_network_consts) (env : bbl_network_env) :
    List bbl_network_config_s → List bbl_interface_s → List bbl_interface_s × Bool
  | [], interfaces => (interfaces, true)
  | network_config :: rest, interfaces =>
    match bbl_interface_get interfaces network_config.interface with
    | none => (interfaces, false)
    | some i =>
      let interface := interfaces.getD i {}
      if interface.access ∧ network_config.vlan = 0 then (interfaces, false)
      else if bbl_network_interfaces_duplicate interface network_config.vlan then
        (interfaces, false)
      else
        let network_interface := bbl_network_interface_new K network_config interface
        let interfaces :=
          interfaces.set i { interface with network := network_interface :: interface.network }
        if env.bbl_tcp_network_interface_init network_interface network_config = false then
          (interfaces, false)
        else if network_config.isis_instance_id ≠ 0 ∧
            (network_config.isis_instance_id ∉ env.isis_instances ∨
              env.isis_adjacency_init network_interface network_config
                network_config.isis_instance_id = false) then
          (interfaces, false)
        else bbl_network_interfaces_add K env rest interfaces

/-- The source function `bbl_network_update_eth`.  The frame points to the one
label `interface->tx_label`, whose `next` is never set by the given sources. -/
def bbl_network_update_eth (interface : bbl_network_interface_s)
    (eth : bbl_ethernet_header_t) : bbl_ethernet_header_t :=
  { eth with
    dst := eth.src,
    src := interface.mac,
    vlan_outer := interface.vlan,
    vlan_inner := 0,
    vlan_three := 0,
    mpls := if interface.tx_label.label ≠ 0 then [interface.tx_label] else [] }

/-- Hand a frame to `bbl_txq_to_buffer` for the TXQ of the interface: the
interface with the TXQ as left by the call, and the result. -/
def bbl_network_txq_to_buffer (env : bbl_network_env) (interface : bbl_network_interface_s)
    (eth : bbl_ethernet_header_t) : bbl_network_interface_s × bbl_txq_result_t :=
  ({ interface with txq := (bbl_txq_to_buffer env.encode_ethernet interface.txq eth).1 },
    (bbl_txq_to_buffer env.encode_ethernet interface.txq eth).2)

/-- The frame that `bbl_network_arp_reply` makes of the received frame in
place before it hands it to the TXQ. -/
def bbl_network_arp_reply_eth (K : bbl_network_consts) (interface : bbl_network_interface_s)
    (eth : bbl_ethernet_header_t) (arp : bbl_arp_t) : bbl_ethernet_header_t :=
  { bbl_network_update_eth interface eth with
    next := bbl_ethernet_next.arp
      { arp with
        code := K.ARP_REPLY,
        sender := interface.mac,
        sender_ip := arp.target_ip,
        target := interface.gateway_mac,
        target_ip := interface.gateway } }

/-- The source function `bbl_network_arp_reply`. -/
def bbl_network_arp_reply (K : bbl_network_consts) (env : bbl_network_env)
    (interface : bbl_network_interface_s) (eth : bbl_ethernet_header_t) (arp : bbl_arp_t) :
    bbl_network_interface_s × bbl_txq_result_t :=
  bbl_network_txq_to_buffer env interface (bbl_network_arp_reply_eth K interface eth arp)

/-- The frame that `bbl_network_icmp_reply` makes of the received frame in
place before it hands it to the TXQ. -/
def bbl_network_icmp_reply_eth (K : bbl_network_consts) (interface : bbl_network_interface_s)
    (eth : bbl_ethernet_header_t) (ipv4 : bbl_ipv4_t) (icmp : bbl_icmp_t) :
    bbl_ethernet_header_t :=
  { bbl_network_update_eth interface eth with
    next := bbl_ethernet_next.ipv4
      { ipv4 with
        dst := ipv4.src,
        src := ipv4.dst,
        ttl := 64,
        next := bbl_ipv4_next.icmp { icmp with type := K.ICMP_TYPE_ECHO_REPLY } } }

/-- The source function `bbl_network_icmp_reply`. -/
def bbl_network_icmp_reply (K : bbl_network_consts) (env : bbl_network_env)
    (interface : bbl_network_interface_s) (eth : bbl_ethernet_header_t) (ipv4 : bbl_ipv4_t)
    (icmp : bbl_icmp_t) : bbl_network_interface_s × bbl_txq_result_t :=
  bbl_network_txq_to_buffer env interface (bbl_network_icmp_reply_eth K interface eth ipv4 icmp)

/-- The frame that `bbl_network_icmpv6_na` makes of the received frame in place
before it hands it to the TXQ. -/
def bbl_network_icmpv6_na_eth (K : bbl_network_consts) (interface : bbl_network_interface_s)
    (eth : bbl_ethernet_header_t) (ipv6 : bbl_ipv6_t) (icmpv6 : bbl_icmpv6_t) :
    bbl_ethernet_header_t :=
  { bbl_network_update_eth interface eth with
    next := bbl_ethernet_next.ipv6
      { ipv6 with
        dst := ipv6.src,
        src := icmpv6.prefix_address,
        ttl := 255,
        next := bbl_ipv6_next.icmpv6
          { icmpv6 with
            type := K.IPV6_ICMPV6_NEIGHBOR_ADVERTISEMENT,
            mac := some interface.mac,
            flags := 0,
            data := none,
            data_len := 0,
            dns1 := none,
            dns2 := none } } }

/-- The source function `bbl_network_icmpv6_na`. -/
def bbl_network_icmpv6_na (K : bbl_network_consts) (env : bbl_network_env)
    (interface : bbl_network_interface_s) (eth : bbl_ethernet_header_t) (ipv6 : bbl_ipv6_t)
    (icmpv6 : bbl_icmpv6_t) : bbl_network_interface_s × bbl_txq_result_t :=
  bbl_network_txq_to_buffer env interface (bbl_network_icmpv6_na_eth K interface eth ipv6 icmpv6)

/-- The frame that `bbl_network_icmpv6_echo_reply` makes of the received frame
in place before it hands it to the TXQ. -/
def bbl_network_icmpv6_echo_reply_eth (K : bbl_network_consts)
    (interface : bbl_network_interface_s) (eth : bbl_ethernet_header_t) (ipv6 : bbl_ipv6_t)
    (icmpv6 : bbl_icmpv6_t) : bbl_ethernet_header_t :=
  { bbl_network_update_eth interface eth with
    next := bbl_ethernet_next.ipv6
      { ipv6 with
        dst := ipv6.src,
        src := ipv6.dst,
        ttl := 255,
        next := bbl_ipv6_next.icmpv6 { icmpv6 with type := K.IPV6_ICMPV6_ECHO_REPLY } } }

/-- The source function `bbl_network_icmpv6_echo_reply`. -/
def bbl_network_icmpv6_echo_reply (K : bbl_network_consts) (env : bbl_network_env)
    (interface : bbl_network_interface_s) (eth : bbl_ethernet_header_t) (ipv6 : bbl_ipv6_t)
    (icmpv6 : bbl_icmpv6_t) : bbl_network_interface_s × bbl_txq_result_t :=
  bbl_network_txq_to_buffer env interface
    (bbl_network_icmpv6_echo_reply_eth K interface eth ipv6 icmpv6)

/-- The test `*(uint32_t*)interface->gateway_mac == 0` of the receive handlers:
the first four bytes of the gateway MAC read as one 32-bit word. -/
def gateway_mac_word0 (gateway_mac : List Nat) : Nat := le_value (gateway_mac.take 4)

/-- The loop of `bbl_network_rx_arp` over the secondary IPv4 addresses: reply
and return at the first address equal to the target. -/
def bbl_network_rx_arp_secondary (K : bbl_network_consts) (env : bbl_network_env)
    (interface : bbl_network_interface_s) (eth : bbl_ethernet_header_t) (arp : bbl_arp_t) :
    List Nat → bbl_network_interface_s
  | [] => interface
  | secondary_ip :: rest =>
    if arp.target_ip = secondary_ip then (bbl_network_arp_reply K env interface eth arp).1
    else bbl_network_rx_arp_secondary K env interface eth arp rest

/-- The source function `bbl_network_rx_arp`: the interface as it leaves it.
The decoder sets `eth->next` to the ARP packet of an ARP frame; a frame with
another payload does not reach the function and is left alone. -/
def bbl_network_rx_arp (K : bbl_network_consts) (env : bbl_network_env)
    (interface : bbl_network_interface_s) (eth : bbl_ethernet_header_t) :
    bbl_network_interface_s :=
  match eth.next with
  | bbl_ethernet_next.arp arp =>
    if arp.sender_ip = interface.gateway then
      let interface := { interface with arp_resolved := true }
      let interface :=
        if gateway_mac_word0 interface.gateway_mac = 0 then
          { interface with gateway_mac := arp.sender }
        else interface
      if arp.code = K.ARP_REQUEST then
        if arp.target_ip = interface.ip_address then
          (bbl_network_arp_reply K env interface eth arp).1
        else bbl_network_rx_arp_secondary K env interface eth arp env.secondary_ip_addresses
      else interface
    else interface
  | _ => interface

/-- The loop of `bbl_network_rx_icmpv6` over the secondary IPv6 addresses:
advertise and return at the first address equal to the target. -/
def bbl_network_rx_icmpv6_secondary (K : bbl_network_consts) (env : bbl_network_env)
    (interface : bbl_network_interface_s) (eth : bbl_ethernet_header_t) (ipv6 : bbl_ipv6_t)
    (icmpv6 : bbl_icmpv6_t) : List (List Nat) → bbl_network_interface_s
  | [] => interface
  | secondary_ip6 :: rest =>
    if icmpv6.prefix_address = secondary_ip6 then
      (bbl_network_icmpv6_na K env interface eth ipv6 icmpv6).1
    else bbl_network_rx_icmpv6_secondary K env interface eth ipv6 icmpv6 rest

/-- The source function `bbl_network_rx_icmpv6`: the interface as it leaves
it.  The decoder sets `eth->next` and `ipv6->next` to the IPv6 header and the
ICMPv6 message of an ICMPv6 frame; a frame with another payload does not reach
the function and is left alone. -/
def bbl_network_rx_icmpv6 (K : bbl_network_consts) (env : bbl_network_env)
    (interface : bbl_network_interface_s) (eth : bbl_ethernet_header_t) :
    bbl_network_interface_s :=
  match eth.next with
  | bbl_ethernet_next.ipv6 ipv6 =>
    match ipv6.next with
    | bbl_ipv6_next.icmpv6 icmpv6 =>
      let interface :=
        if ipv6.src = interface.gateway6 then
          let interface := { interface with icmpv6_nd_resolved := true }
          if gateway_mac_word0 interface.gateway_mac = 0 then
            { interface with gateway_mac := eth.src }
          else interface
        else interface
      if icmpv6.type = K.IPV6_ICMPV6_NEIGHBOR_SOLICITATION then
        if icmpv6.prefix_address = interface.ip6_address then
          (bbl_network_icmpv6_na K env interface eth ipv6 icmpv6).1
        else if icmpv6.prefix_address = interface.ip6_ll then
          (bbl_network_icmpv6_na K env interface eth ipv6 icmpv6).1
        else
          bbl_network_rx_icmpv6_secondary K env interface eth ipv6 icmpv6
            env.secondary_ip6_addresses
      else if icmpv6.type = K.IPV6_ICMPV6_ECHO_REQUEST then
        (bbl_network_icmpv6_echo_reply K env interface eth ipv6 icmpv6).1
      else interface
    | _ => interface
  | _ => interface

/-- The source function `bbl_network_rx_icmp`: the interface as it leaves it. -/
def bbl_network_rx_icmp (K : bbl_network_consts) (env : bbl_network_env)
    (interface : bbl_network_interface_s) (eth : bbl_ethernet_header_t) (ipv4 : bbl_ipv4_t) :
    bbl_network_interface_s :=
  match ipv4.next with
  | bbl_ipv4_next.icmp icmp =>
    if icmp.type = K.ICMP_TYPE_ECHO_REQUEST then
      (bbl_network_icmp_reply K env interface eth ipv4 icmp).1
    else interface
  | _ => interface

/-- The handlers that `bbl_network_rx_handler` calls. -/
inductive bbl_network_rx_call where
  | bbl_network_rx_arp
  | bbl_qmx_li_handler_rx
  | bbl_l2tp_handler_rx
  | bbl_network_rx_icmp
  | bbl_tcp_ipv4_rx
  | bbl_network_rx_icmpv6
  | isis_handler_rx
deriving DecidableEq

/-- The source function `bbl_network_rx_handler`: the network interface as it
leaves it, the counter `stats.unknown` of its physical interface, given as
`unknown` on entry, and the handler it called (`none` if it called none).  The
`switch` is a chain of tests, its case labels being distinct constants.  The
decoder sets `eth->next`, `ipv4->next` to the layer that `eth->type`,
`ipv4->protocol` name; a frame where they disagree does not come from the
decoder and is left alone. -/
def bbl_network_rx_handler (K : bbl_network_consts) (env : bbl_network_env)
    (interface : bbl_network_interface_s) (unknown : Nat) (eth : bbl_ethernet_header_t) :
    bbl_network_interface_s × Nat × Option bbl_network_rx_call :=
  if eth.type = K.ETH_TYPE_ARP then
    (bbl_network_rx_arp K env interface eth, unknown,
      some bbl_network_rx_call.bbl_network_rx_arp)
  else if eth.type = K.ETH_TYPE_IPV4 then
    if interface.mac ≠ eth.dst then (interface, unknown, none)
    else
      match eth.next with
      | bbl_ethernet_next.ipv4 ipv4 =>
        if ipv4.protocol = K.PROTOCOL_IPV4_UDP then
          match ipv4.next with
          | bbl_ipv4_next.udp udp =>
            if udp.protocol = K.UDP_PROTOCOL_QMX_LI then
              (env.bbl_qmx_li_handler_rx interface eth, unknown,
                some bbl_network_rx_call.bbl_qmx_li_handler_rx)
            else if udp.protocol = K.UDP_PROTOCOL_L2TP then
              (env.bbl_l2tp_handler_rx interface eth, unknown,
                some bbl_network_rx_call.bbl_l2tp_handler_rx)
            else (interface, unknown + 1, none)
          | _ => (interface, unknown, none)
        else if ipv4.protocol = K.PROTOCOL_IPV4_ICMP then
          (bbl_network_rx_icmp K env
            { interface with stats_icmp_rx := interface.stats_icmp_rx + 1 } eth ipv4, unknown,
            some bbl_network_rx_call.bbl_network_rx_icmp)
        else if ipv4.protocol = K.PROTOCOL_IPV4_TCP then
          (env.bbl_tcp_ipv4_rx
            { interface with stats_tcp_rx := interface.stats_tcp_rx + 1 } eth, unknown,
            some bbl_network_rx_call.bbl_tcp_ipv4_rx)
        else (interface, unknown + 1, none)
      | _ => (interface, unknown, none)
  else if eth.type = K.ETH_TYPE_IPV6 then
    match eth.next with
    | bbl_ethernet_next.ipv6 ipv6 =>
      if ipv6.protocol = K.IPV6_NEXT_HEADER_ICMPV6 then
        (bbl_network_rx_icmpv6 K env interface eth, unknown,
          some bbl_network_rx_call.bbl_network_rx_icmpv6)
      else (interface, unknown + 1, none)
    | _ => (interface, unknown, none)
  else if eth.type = K.ISIS_PROTOCOL_IDENTIFIER then
    (env.isis_handler_rx interface eth, unknown, some bbl_network_rx_call.isis_handler_rx)
  else (interface, unknown + 1, none)

/-! Section: Stream statistics. -/

/-- The members of `stats` of an access, network or A10NSP interface that
`bbl_stream.c` updates.  The three interface structures declare them under the
same names, in headers that are not among the given sources; their width is
not modelled.  An access interface has no `l2tp_data_` counters, a network or
A10NSP interface no `wrong_session` counters. -/
structure bbl_interface_stats_s where
  packets_tx : Nat := 0
  bytes_tx : Nat := 0
  stream_tx : Nat := 0
  packets_rx : Nat := 0
  bytes_rx : Nat := 0
  stream_rx : Nat := 0
  stream_loss : Nat := 0
  l2tp_data_tx : Nat := 0
  l2tp_data_rx : Nat := 0
  session_ipv4_tx : Nat := 0
  session_ipv4_rx : Nat := 0
  session_ipv4_loss : Nat := 0
  session_ipv4_wrong_session : Nat := 0
  session_ipv6_tx : Nat := 0
  session_ipv6_rx : Nat := 0
  session_ipv6_loss : Nat := 0
  session_ipv6_wrong_session : Nat := 0
  session_ipv6pd_tx : Nat := 0
  session_ipv6pd_rx : Nat := 0
  session_ipv6pd_loss : Nat := 0
  session_ipv6pd_wrong_session : Nat := 0
deriving DecidableEq

/-- The objects that the pointer fields `session`, `access_interface`,
`network_interface` and `a10nsp_interface` of a stream refer to (`none` is a
`NULL` pointer); of an interface, its `stats`. -/
structure bbl_stream_links where
  session : Option bbl_session_s := none
  access_interface : Option bbl_interface_stats_s := none
  network_interface : Option bbl_interface_stats_s := none
  a10nsp_interface : Option bbl_interface_stats_s := none
deriving DecidableEq

/-- The `switch(stream->type)` of `bbl_stream_tx_stats`: add the packets to the
session traffic TX counter of the stream type. -/
def bbl_stream_tx_stats_session (type packets : Nat) (stats : bbl_interface_stats_s) :
    bbl_interface_stats_s :=
  if type = BBL_SUB_TYPE_IPV4 then
    { stats with session_ipv4_tx := stats.session_ipv4_tx + packets }
  else if type = BBL_SUB_TYPE_IPV6 then
    { stats with session_ipv6_tx := stats.session_ipv6_tx + packets }
  else if type = BBL_SUB_TYPE_IPV6PD then
    { stats with session_ipv6pd_tx := stats.session_ipv6pd_tx + packets }
  else stats

/-- The `switch(stream->type)` of `bbl_stream_rx_stats`: add the packets and the
loss to the session traffic RX counters of the stream type. -/
def bbl_stream_rx_stats_session (type packets loss : Nat) (stats : bbl_interface_stats_s) :
    bbl_interface_stats_s :=
  if type = BBL_SUB_TYPE_IPV4 then
    { stats with
      session_ipv4_rx := stats.session_ipv4_rx + packets,
      session_ipv4_loss := stats.session_ipv4_loss + loss }
  else if type = BBL_SUB_TYPE_IPV6 then
    { stats with
      session_ipv6_rx := stats.session_ipv6_rx + packets,
      session_ipv6_loss := stats.session_ipv6_loss + loss }
  else if type = BBL_SUB_TYPE_IPV6PD then
    { stats with
      session_ipv6pd_rx := stats.session_ipv6pd_rx + packets,
      session_ipv6pd_loss := stats.session_ipv6pd_loss + loss }
  else stats

/-- The source function `bbl_stream_tx_stats`. -/
def bbl_stream_tx_stats (stream : bbl_stream_s) (links : bbl_stream_links)
    (packets bytes : Nat) : bbl_stream_links :=
  if stream.direction = BBL_DIRECTION_UP then
    match links.access_interface with
    | none => links
    | some access_interface =>
      let access_interface := { access_interface with
        packets_tx := access_interface.packets_tx + packets,
        bytes_tx := access_interface.bytes_tx + bytes,
        stream_tx := access_interface.stream_tx + packets }
      match links.session with
      | none => { links with access_interface := some access_interface }
      | some session =>
        let session := { session with
          stats_packets_tx := session.stats_packets_tx + packets,
          stats_bytes_tx := session.stats_bytes_tx + bytes,
          stats_accounting_packets_tx := session.stats_accounting_packets_tx + packets,
          stats_accounting_bytes_tx := session.stats_accounting_bytes_tx + bytes }
        let access_interface :=
          if stream.session_traffic then
            bbl_stream_tx_stats_session stream.type packets access_interface
          else access_interface
        { links with session := some session, access_interface := some access_interface }
  else
    match links.network_interface with
    | some network_interface =>
      let network_interface := { network_interface with
        packets_tx := network_interface.packets_tx + packets,
        bytes_tx := network_interface.bytes_tx + bytes,
        stream_tx := network_interface.stream_tx + packets }
      match links.session with
      | none => { links with network_interface := some network_interface }
      | some session =>
        let r : bbl_interface_stats_s × bbl_session_s :=
          match session.l2tp_session with
          | none => (network_interface, session)
          | some l2tp_session =>
            let l2tp_session := { l2tp_session with
              tunnel_stats_data_tx := l2tp_session.tunnel_stats_data_tx + packets,
              stats_data_tx := l2tp_session.stats_data_tx + packets }
            let l2tp_session :=
              if stream.type = BBL_SUB_TYPE_IPV4 then
                { l2tp_session with
                  stats_data_ipv4_tx := l2tp_session.stats_data_ipv4_tx + packets }
              else l2tp_session
            ({ network_interface with
                l2tp_data_tx := network_interface.l2tp_data_tx + packets },
              { session with l2tp_session := some l2tp_session })
        let network_interface :=
          if stream.session_traffic then bbl_stream_tx_stats_session stream.type packets r.1
          else r.1
        { links with session := some r.2, network_interface := some network_interface }
    | none =>
      match links.a10nsp_interface with
      | none => links
      | some a10nsp_interface =>
        let a10nsp_interface := { a10nsp_interface with
          packets_tx := a10nsp_interface.packets_tx + packets,
          bytes_tx := a10nsp_interface.bytes_tx + bytes,
          stream_tx := a10nsp_interface.stream_tx + packets }
        match links.session with
        | none => { links with a10nsp_interface := some a10nsp_interface }
        | some session =>
          let session :=
            match session.a10nsp_session with
            | none => session
            | some a10nsp_session =>
              { session with
                a10nsp_session := some { a10nsp_session with
                  stats_packets_tx := a10nsp_session.stats_packets_tx + packets } }
          let a10nsp_interface :=
            if stream.session_traffic then
              bbl_stream_tx_stats_session stream.type packets a10nsp_interface
            else a10nsp_interface
          { links with session := some session, a10nsp_interface := some a10nsp_interface }

/-- The source function `bbl_stream_rx_stats`. -/
def bbl_stream_rx_stats (stream : bbl_stream_s) (links : bbl_stream_links)
    (packets bytes loss : Nat) : bbl_stream_links :=
  if stream.direction = BBL_DIRECTION_DOWN then
    match links.access_interface with
    | none => links
    | some access_interface =>
      let access_interface := { access_interface with
        packets_rx := access_interface.packets_rx + packets,
        bytes_rx := access_interface.bytes_rx + bytes,
        stream_rx := access_interface.stream_rx + packets,
        stream_loss := access_interface.stream_loss + loss }
      match links.session with
      | none => { links with access_interface := some access_interface }
      | some session =>
        let session := { session with
          stats_packets_rx := session.stats_packets_rx + packets,
          stats_bytes_rx := session.stats_bytes_rx + bytes,
          stats_accounting_packets_rx := session.stats_accounting_packets_rx + packets,
          stats_accounting_bytes_rx := session.stats_accounting_bytes_rx + bytes }
        let access_interface :=
          if stream.session_traffic then
            bbl_stream_rx_stats_session stream.type packets loss access_interface
          else access_interface
        { links with session := some session, access_interface := some access_interface }
  else
    match links.network_interface with
    | some network_interface =>
      let network_interface := { network_interface with
        packets_rx := network_interface.packets_rx + packets,
        bytes_rx := network_interface.bytes_rx + bytes,
        stream_rx := network_interface.stream_rx + packets,
        stream_loss := network_interface.stream_loss + loss }
      match links.session with
      | none => { links with network_interface := some network_interface }
      | some session =>
        let r : bbl_interface_stats_s × bbl_session_s :=
          match session.l2tp_session with
          | none => (network_interface, session)
          | some l2tp_session =>
            let l2tp_session := { l2tp_session with
              tunnel_stats_data_rx := l2tp_session.tunnel_stats_data_rx + packets,
              stats_data_rx := l2tp_session.stats_data_rx + packets }
            let l2tp_session :=
              if stream.type = BBL_SUB_TYPE_IPV4 then
                { l2tp_session with
                  stats_data_ipv4_rx := l2tp_session.stats_data_ipv4_rx + packets }
              else l2tp_session
            ({ network_interface with
                l2tp_data_rx := network_interface.l2tp_data_rx + packets },
              { session with l2tp_session := some l2tp_session })
        let network_interface :=
          if stream.session_traffic then
            bbl_stream_rx_stats_session stream.type packets loss r.1
          else r.1
        { links with session := some r.2, network_interface := some network_interface }
    | none =>
      match links.a10nsp_interface with
      | none => links
      | some a10nsp_interface =>
        let a10nsp_interface := { a10nsp_interface with
          packets_rx := a10nsp_interface.packets_rx + packets,
          bytes_rx := a10nsp_interface.bytes_rx + bytes,
          stream_rx := a10nsp_interface.stream_rx + packets,
          stream_loss := a10nsp_interface.stream_loss + loss }
        match links.session with
        | none => { links with a10nsp_interface := some a10nsp_interface }
        | some session =>
          let session :=
            match session.a10nsp_session with
            | none => session
            | some a10nsp_session =>
              { session with
                a10nsp_session := some { a10nsp_session with
                  stats_packets_rx := a10nsp_session.stats_packets_rx + packets } }
          let a10nsp_interface :=
            if stream.session_traffic then
              bbl_stream_rx_stats_session stream.type packets loss a10nsp_interface
            else a10nsp_interface
          { links with session := some session, a10nsp_interface := some a10nsp_interface }

/-- The source function `bbl_stream_rx_wrong_session`. -/
def bbl_stream_rx_wrong_session (stream : bbl_stream_s) (links : bbl_stream_links) :
    bbl_stream_s × bbl_stream_links :=
  let packets := stream.wrong_session
  let packets_delta := (packets + U64 - stream.last_sync_wrong_session) % U64
  let stream := { stream with last_sync_wrong_session := packets }
  match links.access_interface with
  | none => (stream, links)
  | some access_interface =>
    let access_interface :=
      if stream.type = BBL_SUB_TYPE_IPV4 then
        { access_interface with
          session_ipv4_wrong_session :=
            access_interface.session_ipv4_wrong_session + packets_delta }
      else if stream.type = BBL_SUB_TYPE_IPV6 then
        { access_interface with
          session_ipv6_wrong_session :=
            access_interface.session_ipv6_wrong_session + packets_delta }
      else if stream.type = BBL_SUB_TYPE_IPV6PD then
        { access_interface with
          session_ipv6pd_wrong_session :=
            access_interface.session_ipv6pd_wrong_session + packets_delta }
      else access_interface
    (stream, { links with access_interface := some access_interface })

/-- The first part of `bbl_stream_ctrl`, up to the comment `Update rates.`: count
a wrong session, and mark a stream verified that has received its first
packet.  The result tells whether the function goes on (`true`) or returns
(`false`). -/
def bbl_stream_ctrl_verify (ctx : bbl_ctx_s) (links : bbl_stream_links)
    (stream : bbl_stream_s) : bbl_ctx_s × bbl_stream_links × bbl_stream_s × Bool :=
  let w : bbl_stream_s × bbl_stream_links :=
    if stream.wrong_session ≠ 0 then bbl_stream_rx_wrong_session stream links
    else (stream, links)
  let stream := w.1
  let links := w.2
  if stream.verified = false then
    let v : bbl_ctx_s × bbl_stream_links × bbl_stream_s :=
      if stream.rx_first_seq ≠ 0 then
        if stream.session_traffic then
          match links.session with
          | some session =>
            ({ ctx with
                stats_session_traffic_flows_verified :=
                  ctx.stats_session_traffic_flows_verified + 1 },
              { links with
                session := some { session with
                  session_traffic_flows_verified :=
                    session.session_traffic_flows_verified + 1 } },
              { stream with verified := true })
          | none => (ctx, links, stream)
        else
          ({ ctx with
              stats_stream_traffic_flows_verified :=
                ctx.stats_stream_traffic_flows_verified + 1 },
            links, { stream with verified := true })
      else (ctx, links, stream)
    let ctx := v.1
    let links := v.2.1
    let stream := v.2.2
    if stream.verified then
      if ctx.traffic_stop_verified then (ctx, links, { stream with stop := true }, true)
      else (ctx, links, stream, true)
    else (ctx, links, stream, false)
  else (ctx, links, stream, true)

/-- The second part of `bbl_stream_ctrl`, from the comment `Calculate TX
packets/bytes since last sync.` on. -/
def bbl_stream_ctrl_sync (links : bbl_stream_links) (stream : bbl_stream_s) :
    bbl_stream_links × bbl_stream_s :=
  let packets := stream.packets_tx
  let packets_delta := (packets + U64 - stream.last_sync_packets_tx) % U64
  let bytes_delta := (packets_delta * stream.tx_len) % U64
  let stream := { stream with last_sync_packets_tx := packets }
  let links := bbl_stream_tx_stats stream links packets_delta bytes_delta
  let packets := stream.packets_rx
  let packets_delta := (packets + U64 - stream.last_sync_packets_rx) % U64
  let bytes_delta := (packets_delta * stream.rx_len) % U64
  let stream := { stream with last_sync_packets_rx := packets }
  let packets := stream.loss
  let loss_delta := (packets + U64 - stream.last_sync_loss) % U64
  let stream := { stream with last_sync_loss := packets }
  (bbl_stream_rx_stats stream links packets_delta bytes_delta loss_delta, stream)

/-- The source function `bbl_stream_ctrl`: the global context, the objects the
stream points to and the stream as it leaves them.  The rate computation
(`bbl_compute_avg_rate`, not among the given sources) writes the rate fields of
the stream only, which are not modelled. -/
def bbl_stream_ctrl (ctx : bbl_ctx_s) (links : bbl_stream_links) (stream : bbl_stream_s) :
    bbl_ctx_s × bbl_stream_links × bbl_stream_s :=
  let v := bbl_stream_ctrl_verify ctx links stream
  if v.2.2.2 = false then (v.1, v.2.1, v.2.2.1)
  else
    let r := bbl_stream_ctrl_sync v.2.1 v.2.2.1
    (v.1, r.1, r.2)

/-! Section: Statements of the specification, for comparison with the code. -/

/-- An assignment of the enumeration constants (any assignment with distinct
access types would do), for evaluating the definitions on concrete inputs. -/
def sample_consts : bbl_consts :=
  { BBL_ESTABLISHED := 7, ACCESS_TYPE_PPPOE := 0, ACCESS_TYPE_IPOE := 1,
    BBL_PPP_OPENED := 3, BBL_DHCP_BOUND := 3 }

/-- The per-type prerequisite table of the specification (section 4.E), in its
words: an address "non-zero" is an address that is not all zero, "DHCPv6
bound" is a DHCPv6 state of at least bound. -/
def prerequisite_as_specified (K : bbl_consts) (s : bbl_session_s) (type : Nat) : Bool :=
  if s.access_type = K.ACCESS_TYPE_PPPOE then
    if type = BBL_SUB_TYPE_IPV4 then decide (s.ipcp_state = K.BBL_PPP_OPENED)
    else if type = BBL_SUB_TYPE_IPV6 then
      decide (s.ip6cp_state = K.BBL_PPP_OPENED) && s.icmpv6_ra_received &&
        decide (le_value s.ipv6_address ≠ 0)
    else if type = BBL_SUB_TYPE_IPV6PD then
      decide (s.ip6cp_state = K.BBL_PPP_OPENED) && s.icmpv6_ra_received &&
        decide (le_value s.delegated_ipv6_address ≠ 0) &&
        decide (K.BBL_DHCP_BOUND ≤ s.dhcpv6_state)
    else false
  else if s.access_type = K.ACCESS_TYPE_IPOE then
    if type = BBL_SUB_TYPE_IPV4 then decide (s.ip_address ≠ 0)
    else if type = BBL_SUB_TYPE_IPV6 then
      s.icmpv6_ra_received && decide (le_value s.ipv6_address ≠ 0)
    else if type = BBL_SUB_TYPE_IPV6PD then
      s.icmpv6_ra_received && decide (le_value s.delegated_ipv6_address ≠ 0) &&
        decide (K.BBL_DHCP_BOUND ≤ s.dhcpv6_state)
    else false
  else false

/-- The sendability gate in the words of the specification: the init phase is
over, the stream is not in reset, and the stream is raw or its session is
established and the prerequisite of the table holds. -/
def can_send_as_specified (K : bbl_consts) (g_init_phase : Bool)
    (session : Option bbl_session_s) (stream : bbl_stream_s) : Bool :=
  !g_init_phase && !stream.reset &&
    (decide (stream.config.stream_group_id = 0) ||
      match session with
      | none => false
      | some s =>
        decide (s.session_state = K.BBL_ESTABLISHED) &&
          prerequisite_as_specified K s stream.config.type)

/-- A PPPoE session in state established with IPCP opened, flagged as L2TP
while its L2TP session pointer is `NULL`. -/
def session_l2tp_pending : bbl_session_s :=
  { session_state := 7, access_type := 0, ipcp_state := 3, ip_address := 167772161,
    l2tp := true, l2tp_session := none }

/-- An established IPoE session that has received a router advertisement and
whose IPv6 address is `::1`: not zero, but with a zero first word. -/
def session_ipoe_low_address : bbl_session_s :=
  { session_state := 7, access_type := 1, icmpv6_ra_received := true,
    ipv6_address := [0, 0, 0, 0, 0, 0, 0, 0, 0, 0, 0, 0, 0, 0, 0, 1] }

/-- An established PPPoE session with IPCP opened and an address. -/
def session_pppoe_ipv4 : bbl_session_s :=
  { session_state := 7, access_type := 0, ipcp_state := 3, ip_address := 167772161,
    session_id := 1, outer_vlan_id := 100, inner_vlan_id := 7,
    session_traffic_active := true, streams_active := true }

/-- A session-bound IPv4 stream (stream group 1) that holds a template. -/
def stream_bound_ipv4 : bbl_stream_s :=
  { flow_id := 1, flow_seq := 1, type := 1, direction := 1,
    config := { stream_group_id := 1, type := 1 },
    buf := some (List.replicate 48 0), tx_len := 48, send_window_packets := 3 }

/-- The template a run of the job works with: none, the cached one, or the one
just built. -/
def template_of (e : tx_env) (stream : bbl_stream_s) (bf : Option (List Nat)) (tl : Nat) :
    Prop :=
  bf = none ∨ (bf = stream.buf ∧ tl = stream.tx_len) ∨
    ∃ bytes, e.build = build_outcome.built bytes ∧ bf = some bytes ∧ tl = bytes.length

/-- A template is usable when it holds the `tx_len` bytes that are sent and
these include the 16 trailing bytes of the BBL header that the job patches. -/
def template_ok (stream : bbl_stream_s) : Bool :=
  match stream.buf with
  | none => true
  | some b => decide (16 ≤ stream.tx_len ∧ stream.tx_len ≤ b.length)

/-- A build outcome is usable when the template built, if any, includes the 16
trailing bytes of the BBL header. -/
def build_ok : build_outcome → Bool
  | build_outcome.built bytes => decide (16 ≤ bytes.length)
  | _ => true

/-- Whether every tick of a run of the transmit job that finds the wait window
of the start delay open happens less than `start_delay` whole seconds after
`wait_start`. -/
def tx_run_within_start_delay (K : bbl_consts) (ctx : bbl_ctx_s) :
    List tx_env → bbl_stream_s → Bool
  | [], _ => true
  | e :: es, stream =>
    (!stream.wait ||
      decide ((timespec_sub e.now stream.wait_start).tv_sec <
        (stream.config.start_delay : Int))) &&
    tx_run_within_start_delay K ctx es (bbl_stream_tx_job K ctx e stream).1

/-- The expected packet count in the words of the specification:
`pps × (now − t0)` with the elapsed time in seconds, truncated once. -/
def expected_as_specified (config : bbl_stream_config_s) (time_elapsed : timespec) : Nat :=
  (config.pps_num * (time_elapsed.tv_sec.toNat * 1000000000 + time_elapsed.tv_nsec.toNat))
    / (config.pps_den * 1000000000)

/-- The packets of a tick in an open send window in the words of the
specification: `min(expected − n, io_stream_max_ppi)`. -/
def send_window_as_specified (ctx : bbl_ctx_s) (stream : bbl_stream_s) (now : timespec) :
    Int :=
  min ((expected_as_specified stream.config
      (timespec_sub now stream.send_window_start) : Int) - stream.send_window_packets)
    ctx.io_stream_max_ppi

/-- A raw IPv4 downstream stream at 1000 packets per second, as created. -/
def stream_raw : bbl_stream_s :=
  { flow_id := 1, flow_seq := 1, type := 1, direction := 2,
    config := { pps_num := 1000, pps_den := 1 } }

/-- A tick of the transmit job at the given time, with traffic enabled, a
64-byte template on offer and `io_send` succeeding. -/
def tick (sec nsec : Int) : tx_env :=
  { build := build_outcome.built (List.replicate 64 0),
    now := { tv_sec := sec, tv_nsec := nsec } }

/-- A tick of the transmit job at the given time at which `io_send` fails. -/
def tick_io_fails (sec nsec : Int) : tx_env :=
  { build := build_outcome.built (List.replicate 64 0),
    now := { tv_sec := sec, tv_nsec := nsec },
    io_send := fun _ => false }

/-- The `flow_seq` of the BBL header of a received frame (0 for a frame without
BBL header). -/
def eth_flow_seq (eth : bbl_ethernet_header_t) : Nat :=
  match eth.bbl with
  | some bbl => bbl.flow_seq
  | none => 0

/-- The `flow_id` of the BBL header of a received frame, if it has one. -/
def eth_flow_id (eth : bbl_ethernet_header_t) : Option Nat :=
  match eth.bbl with
  | some bbl => some bbl.flow_id
  | none => none

/-- The sequence numbers of a list of received frames, in arrival order. -/
def rx_flow_seqs (inputs : List (bbl_ethernet_header_t × Option bbl_session_s)) : List Nat :=
  inputs.map (fun x => eth_flow_seq x.1)

/-- Whether a frame passes the MPLS label checks of the branch
`Verify stream ...` of `bbl_stream_rx`, which compare the configured labels
with the labels on record in the stream once the frame has been observed. -/
def bbl_stream_rx_mpls_ok (eth : bbl_ethernet_header_t) (stream : bbl_stream_s) : Bool :=
  decide (stream.config.rx_mpls1_label = 0) ||
    (decide ((bbl_stream_rx_observe eth stream).rx_mpls1_label = stream.config.rx_mpls1_label) &&
      (decide (stream.config.rx_mpls2_label = 0) ||
        decide ((bbl_stream_rx_observe eth stream).rx_mpls2_label =
          stream.config.rx_mpls2_label)))

/-- A received downstream IPv4 test frame of flow 1 with the given sequence
number, session id and MPLS label stack. -/
def test_frame (flow_seq session_id : Nat) (mpls : List bbl_mpls_t) : bbl_ethernet_header_t :=
  { length := 128, mpls := mpls,
    bbl := some { type := 1, sub_type := 1, direction := 2, session_id := session_id,
                  outer_vlan_id := 100, inner_vlan_id := 7, flow_id := 1,
                  flow_seq := flow_seq } }

/-- A flow dictionary that holds the given stream under flow id 1. -/
def dict_of (stream : bbl_stream_s) : stream_flow_dict :=
  fun flow_id => if flow_id = 1 then some stream else none

/-- A session-traffic downstream IPv4 stream of flow 1, not yet verified, that
expects the outer RX MPLS label 100. -/
def stream_expecting_label : bbl_stream_s :=
  { flow_id := 1, flow_seq := 1, type := 1, direction := 2, session_traffic := true,
    config := { stream_group_id := 1, type := 1, rx_mpls1_label := 100 } }

/-- A session-bound downstream IPv4 stream of flow 1 from the stream
configuration (not session traffic), not yet verified. -/
def stream_bound_down : bbl_stream_s :=
  { flow_id := 1, flow_seq := 1, type := 1, direction := 2, session_traffic := false,
    config := { stream_group_id := 1, type := 1 } }

/-- The invariant of the template fields: a stream without template has
`tx_len = 0`.  It holds for a stream as allocated and is kept by the transmit
job and by a reset. -/
def template_released (stream : bbl_stream_s) : Prop :=
  stream.buf = none → stream.tx_len = 0

/-- The state of a stream after a reset has taken effect, in the words of the
specification: sequence number 1, reset flag clear, template released, send
window closed, RX state cleared, `verified` and `stop` false, and the
cumulative counters of `stream` kept. -/
def reset_as_specified (stream after : bbl_stream_s) : Prop :=
  after.flow_seq = 1 ∧ after.reset = false ∧
  after.buf = none ∧ after.tx_len = 0 ∧ after.send_window_packets = 0 ∧
  after.rx_first_seq = 0 ∧ after.rx_last_seq = 0 ∧ after.rx_len = 0 ∧
  after.min_delay_ns = 0 ∧ after.max_delay_ns = 0 ∧
  after.rx_mpls1 = false ∧ after.rx_mpls1_label = 0 ∧ after.rx_mpls1_exp = 0 ∧
  after.rx_mpls1_ttl = 0 ∧
  after.rx_mpls2 = false ∧ after.rx_mpls2_label = 0 ∧ after.rx_mpls2_exp = 0 ∧
  after.rx_mpls2_ttl = 0 ∧
  after.verified = false ∧ after.stop = false ∧
  after.packets_tx = stream.packets_tx ∧ after.packets_rx = stream.packets_rx ∧
  after.loss = stream.loss ∧ after.wrong_session = stream.wrong_session

/-- A session-bound IPv4 stream in the middle of a test: it holds a template,
has sent and received packets, is verified and has been stopped. -/
def stream_in_flight : bbl_stream_s :=
  { flow_id := 1, flow_seq := 42, type := 1, direction := 1,
    config := { stream_group_id := 1, type := 1 },
    buf := some (List.replicate 48 0), tx_len := 48, send_window_packets := 3,
    packets_tx := 41, packets_rx := 30, loss := 2, wrong_session := 1,
    rx_first_seq := 5, rx_last_seq := 40, rx_len := 128,
    min_delay_ns := 1000, max_delay_ns := 9000,
    rx_mpls1 := true, rx_mpls1_label := 100, rx_mpls1_ttl := 64,
    verified := true, stop := true }

/-- The reservations of the threads of a handle list, in list order. -/
def io_tx_pps_reserved (io_tx : List io_handle_s) : List Nat := io_tx.map io_pps_reserved

/-- Whether no credit of a run of `bbl_stream_add_jobs` over streams with
integer `pps` leaves the range of `uint32_t`: at every call the reservation of
the selected thread plus the `pps` of the stream is below `2^32`. -/
def bbl_stream_add_jobs_run_fits : List bbl_stream_s → List io_handle_s → Bool
  | [], _ => true
  | stream :: rest, io_tx =>
    (match (bbl_stream_add_jobs io_tx stream).2.thread with
      | some k =>
        decide ((io_tx_pps_reserved io_tx).getD k 0 + stream.config.pps_num < U32)
      | none => true) &&
    bbl_stream_add_jobs_run_fits rest (bbl_stream_add_jobs io_tx stream).1

/-- The credit in the words of the specification: the new reservation is the
old one plus the `pps` of the stream (`pps = pps_num / pps_den`, cleared of the
denominator). -/
def pps_reserved_as_specified (old new : Nat) (config : bbl_stream_config_s) : Bool :=
  decide (new * config.pps_den = old * config.pps_den + config.pps_num)

/-- Two TX handles with one idle worker thread each. -/
def io_tx_two : List io_handle_s := [{ thread := some {} }, { thread := some {} }]

/-- Three TX handles whose worker threads have reserved 3, 1 and 1 packets per
second. -/
def io_tx_three : List io_handle_s :=
  [{ thread := some { pps_reserved := 3 } }, { thread := some { pps_reserved := 1 } },
   { thread := some { pps_reserved := 1 } }]

/-- The gateway MAC after the learning step of `bbl_network_rx_arp` and
`bbl_network_rx_icmpv6`: the MAC of the sender if the packet is from the
gateway and the first four bytes of the gateway MAC read as one word are zero,
else the gateway MAC as it was. -/
def gateway_mac_learn (from_gateway : Bool) (gateway_mac sender : List Nat) : List Nat :=
  if from_gateway = true ∧ gateway_mac_word0 gateway_mac = 0 then sender else gateway_mac

/-- An assignment of the constants of the network interface code (the values
of the protocol standards; any assignment with distinct Ethernet types and
protocol numbers would do), for evaluating the definitions on concrete
inputs. -/
def sample_network_consts : bbl_network_consts :=
  { ETH_TYPE_ARP := 0x0806, ETH_TYPE_IPV4 := 0x0800, ETH_TYPE_IPV6 := 0x86dd,
    ISIS_PROTOCOL_IDENTIFIER := 0x83,
    PROTOCOL_IPV4_UDP := 17, PROTOCOL_IPV4_ICMP := 1, PROTOCOL_IPV4_TCP := 6,
    IPV6_NEXT_HEADER_ICMPV6 := 58,
    UDP_PROTOCOL_QMX_LI := 3, UDP_PROTOCOL_L2TP := 4,
    ARP_REQUEST := 1, ARP_REPLY := 2,
    ICMP_TYPE_ECHO_REQUEST := 8, ICMP_TYPE_ECHO_REPLY := 0,
    IPV6_ICMPV6_NEIGHBOR_SOLICITATION := 135, IPV6_ICMPV6_NEIGHBOR_ADVERTISEMENT := 136,
    IPV6_ICMPV6_ECHO_REQUEST := 128, IPV6_ICMPV6_ECHO_REPLY := 129,
    BBL_IF_SEND_ARP_REQUEST := 1, BBL_IF_SEND_ICMPV6_NS := 2,
    BBL_TXQ_DEFAULT_SIZE := 4096,
    ipv6_solicited_node_multicast := [0xff, 0x02, 0, 0, 0, 0, 0, 0, 0, 0, 0, 1, 0xff, 0, 0, 0] }

/-- The link-local address in the words of the specification: the modified
EUI-64 form, with the first byte of the MAC xor `0x02`. -/
def ip6_ll_as_specified (mac : List Nat) : List Nat :=
  [0xfe, 0x80, 0, 0, 0, 0, 0, 0,
   mac.getD 0 0 ^^^ 0x02, mac.getD 1 0, mac.getD 2 0, 0xff, 0xfe,
   mac.getD 3 0, mac.getD 4 0, mac.getD 5 0]

/-- A network configuration on the physical interface `eth0` with a configured
MAC, an IPv4 address and a gateway. -/
def network_config_sample : bbl_network_config_s :=
  { interface := "eth0", mac := [0x02, 0x11, 0x22, 0x33, 0x44, 0x55],
    ip_address := 167772162, ip_len := 24, gateway := 167772161 }

/-- A network interface with the MAC 02:11:22:33:44:55, the address 10.0.0.2
behind the gateway 10.0.0.1, IPv6 addresses, no gateway MAC yet and an empty
TXQ. -/
def network_interface_sample : bbl_network_interface_s :=
  { name := "eth0", mac := [0x02, 0x11, 0x22, 0x33, 0x44, 0x55],
    ip_address := 167772162, ip_len := 24, gateway := 167772161,
    ip6_address := [0x20, 0x01, 0x0d, 0xb8, 0, 0, 0, 0, 0, 0, 0, 0, 0, 0, 0, 2],
    ip6_ll := [0xfe, 0x80, 0, 0, 0, 0, 0, 0, 0x02, 0x11, 0x22, 0xff, 0xfe, 0x33, 0x44, 0x55],
    gateway6 := [0x20, 0x01, 0x0d, 0xb8, 0, 0, 0, 0, 0, 0, 0, 0, 0, 0, 0, 1],
    txq := { size := 4096 } }

/-- A received ARP frame with the given opcode, sender MAC, sender IP and
target IP. -/
def arp_frame (code : Nat) (sender : List Nat) (sender_ip target_ip : Nat) :
    bbl_ethernet_header_t :=
  { type := 0x0806, src := sender, dst := [0xff, 0xff, 0xff, 0xff, 0xff, 0xff],
    next := bbl_ethernet_next.arp
      { code := code, sender := sender, sender_ip := sender_ip, target_ip := target_ip } }

/-- The value `delay_nsec` that `bbl_stream_delay` computes from the two
timestamps. -/
def bbl_stream_delay_nsec (rx_timestamp bbl_timestamp : timespec) : Nat :=
  (((timespec_sub rx_timestamp bbl_timestamp).tv_sec * 1000000000 +
    (timespec_sub rx_timestamp bbl_timestamp).tv_nsec) % (U64 : Int)).toNat

/-- The value `delay_nsec` of a received frame (0 for a frame without BBL header). -/
def eth_delay_nsec (eth : bbl_ethernet_header_t) : Nat :=
  match eth.bbl with
  | some bbl => bbl_stream_delay_nsec eth.timestamp bbl.timestamp
  | none => 0

/-- The delay of a received frame in the words of the specification: RX
timestamp minus embedded TX timestamp, in nanoseconds. -/
def delay_ns_as_specified (eth : bbl_ethernet_header_t) : Int :=
  match eth.bbl with
  | some bbl =>
    (eth.timestamp.tv_sec - bbl.timestamp.tv_sec) * 1000000000 +
      (eth.timestamp.tv_nsec - bbl.timestamp.tv_nsec)
  | none => 0

/-- Whether the two timestamps of a frame are normalised, `0 ≤ tv_nsec < 10^9`. -/
def eth_timestamps_normalised (eth : bbl_ethernet_header_t) : Bool :=
  match eth.bbl with
  | some bbl =>
    decide (0 ≤ eth.timestamp.tv_nsec ∧ eth.timestamp.tv_nsec < 1000000000 ∧
      0 ≤ bbl.timestamp.tv_nsec ∧ bbl.timestamp.tv_nsec < 1000000000)
  | none => true

/-- The update of `min_delay_ns` in `bbl_stream_delay`: 0 stands for "not set". -/
def min_delay_step (min_delay_ns delay_nsec : Nat) : Nat :=
  if min_delay_ns ≠ 0 then min min_delay_ns delay_nsec else delay_nsec

/-- The delays of a list of received frames, as computed by the code, in arrival
order. -/
def rx_delays (inputs : List (bbl_ethernet_header_t × Option bbl_session_s)) : List Nat :=
  inputs.map (fun x => eth_delay_nsec x.1)

/-- A received downstream IPv4 test frame of flow 1 with the given sequence
number, sent at `tx` and received at `rx` (seconds, nanoseconds). -/
def test_frame_at (flow_seq : Nat) (tx rx : Int × Int) : bbl_ethernet_header_t :=
  { length := 128, timestamp := { tv_sec := rx.1, tv_nsec := rx.2 },
    bbl := some { type := 1, sub_type := 1, direction := 2, session_id := 1,
                  outer_vlan_id := 100, inner_vlan_id := 7, flow_id := 1,
                  flow_seq := flow_seq, timestamp := { tv_sec := tx.1, tv_nsec := tx.2 } } }

/-- The invariant of the network interfaces of the physical interfaces: on one
physical interface no two have the same VLAN, and none has VLAN 0 if the
physical interface is used for access. -/
def interfaces_vlans_ok (interfaces : List bbl_interface_s) : Prop :=
  ∀ interface ∈ interfaces,
    (interface.network.map (fun n => n.vlan)).Nodup ∧
    (interface.access = true → ∀ n ∈ interface.network, n.vlan ≠ 0)

/-- What a configuration is identified by for the duplicate check: the name of
its physical interface and its VLAN. -/
def network_config_key (config : bbl_network_config_s) : String × Nat :=
  (config.interface, config.vlan)

/-- Attaching a network interface to the physical interface at position `i`. -/
def interfaces_attach (interfaces : List bbl_interface_s) (i : Nat)
    (n : bbl_network_interface_s) : List bbl_interface_s :=
  interfaces.set i
    { interfaces.getD i {} with network := n :: (interfaces.getD i {}).network }

/-- Whether the layers of a decoded frame are those that its Ethernet type and
IPv4 protocol name, as the decoder leaves them: an IPv4 frame has an IPv4
header, a UDP packet a UDP header, an IPv6 frame an IPv6 header. -/
def eth_next_decoded (K : bbl_network_consts) (eth : bbl_ethernet_header_t) : Bool :=
  (decide (eth.type ≠ K.ETH_TYPE_IPV4) ||
    match eth.next with
    | bbl_ethernet_next.ipv4 ipv4 =>
      decide (ipv4.protocol ≠ K.PROTOCOL_IPV4_UDP) ||
        (match ipv4.next with
          | bbl_ipv4_next.udp _ => true
          | _ => false)
    | _ => false) &&
  (decide (eth.type ≠ K.ETH_TYPE_IPV6) ||
    match eth.next with
    | bbl_ethernet_next.ipv6 _ => true
    | _ => false)

/-- The frames for which the specification names a handler: ARP, IS-IS, IPv4
with ICMP, TCP, UDP-L2TP or UDP-QMX-LI, IPv6 with ICMPv6. -/
def frame_has_handler_as_specified (K : bbl_network_consts) (eth : bbl_ethernet_header_t) :
    Bool :=
  decide (eth.type = K.ETH_TYPE_ARP) || decide (eth.type = K.ISIS_PROTOCOL_IDENTIFIER) ||
  (decide (eth.type = K.ETH_TYPE_IPV4) &&
    match eth.next with
    | bbl_ethernet_next.ipv4 ipv4 =>
      decide (ipv4.protocol = K.PROTOCOL_IPV4_ICMP) ||
      decide (ipv4.protocol = K.PROTOCOL_IPV4_TCP) ||
      (decide (ipv4.protocol = K.PROTOCOL_IPV4_UDP) &&
        match ipv4.next with
        | bbl_ipv4_next.udp udp =>
          decide (udp.protocol = K.UDP_PROTOCOL_L2TP) ||
          decide (udp.protocol = K.UDP_PROTOCOL_QMX_LI)
        | _ => false)
    | _ => false) ||
  (decide (eth.type = K.ETH_TYPE_IPV6) &&
    match eth.next with
    | bbl_ethernet_next.ipv6 ipv6 => decide (ipv6.protocol = K.IPV6_NEXT_HEADER_ICMPV6)
    | _ => false)

/-- Whether the Ethernet types and the IPv4 protocol numbers that the handler
tells apart are distinct constants. -/
def network_consts_distinct (K : bbl_network_consts) : Bool :=
  decide (K.ETH_TYPE_ARP ≠ K.ETH_TYPE_IPV4) && decide (K.ETH_TYPE_ARP ≠ K.ETH_TYPE_IPV6) &&
  decide (K.ETH_TYPE_ARP ≠ K.ISIS_PROTOCOL_IDENTIFIER) &&
  decide (K.ETH_TYPE_IPV4 ≠ K.ETH_TYPE_IPV6) &&
  decide (K.ETH_TYPE_IPV4 ≠ K.ISIS_PROTOCOL_IDENTIFIER) &&
  decide (K.ETH_TYPE_IPV6 ≠ K.ISIS_PROTOCOL_IDENTIFIER) &&
  decide (K.PROTOCOL_IPV4_UDP ≠ K.PROTOCOL_IPV4_ICMP) &&
  decide (K.PROTOCOL_IPV4_UDP ≠ K.PROTOCOL_IPV4_TCP) &&
  decide (K.PROTOCOL_IPV4_ICMP ≠ K.PROTOCOL_IPV4_TCP)

/-- Two network configurations on `eth0`, with the VLANs 100 and 200. -/
def network_configs_two_vlans : List bbl_network_config_s :=
  [{ interface := "eth0", vlan := 100 }, { interface := "eth0", vlan := 200 }]

/-- A network configuration on `eth0` whose configured MAC 02:00:00:00:00:00
has its only non-zero byte first. -/
def network_config_mac_first_byte : bbl_network_config_s :=
  { interface := "eth0", mac := [0x02, 0, 0, 0, 0, 0] }

/-- A received IPv4 frame with the given destination MAC that carries a
protocol without handler (protocol number 99). -/
def ipv4_unhandled_frame (dst : List Nat) : bbl_ethernet_header_t :=
  { type := 0x0800, src := [0xaa, 0xbb, 0xcc, 0xdd, 0xee, 0xff], dst := dst,
    next := bbl_ethernet_next.ipv4 { src := 167772161, dst := 167772162, protocol := 99 } }

/-- The statistics of the interface a stream transmits on, as
`bbl_stream_tx_stats` selects it: the access interface for an upstream stream,
else the network interface, or the A10NSP interface if there is no network
interface. -/
def stream_tx_interface (stream : bbl_stream_s) (links : bbl_stream_links) :
    Option bbl_interface_stats_s :=
  if stream.direction = BBL_DIRECTION_UP then links.access_interface
  else
    match links.network_interface with
    | some network_interface => some network_interface
    | none => links.a10nsp_interface

/-- The statistics of the interface a stream is received on, as
`bbl_stream_rx_stats` selects it: the access interface for a downstream stream,
else the network interface, or the A10NSP interface if there is no network
interface. -/
def stream_rx_interface (stream : bbl_stream_s) (links : bbl_stream_links) :
    Option bbl_interface_stats_s :=
  if stream.direction = BBL_DIRECTION_DOWN then links.access_interface
  else
    match links.network_interface with
    | some network_interface => some network_interface
    | none => links.a10nsp_interface

/-- The four counters of an interface that the synchronisation of a stream is
specified for. -/
def stats_core (stats : bbl_interface_stats_s) : Nat × Nat × Nat × Nat :=
  (stats.packets_tx, stats.stream_tx, stats.stream_rx, stats.stream_loss)

/-- Whether the interfaces of two states of the objects of a stream are present
alike and agree on the four counters. -/
def links_core_eq (l l' : bbl_stream_links) : Prop :=
  l'.access_interface.map stats_core = l.access_interface.map stats_core ∧
  l'.network_interface.map stats_core = l.network_interface.map stats_core ∧
  l'.a10nsp_interface.map stats_core = l.a10nsp_interface.map stats_core

/-- The fields of a stream the synchronisation reads. -/
def stream_sync_fields (s : bbl_stream_s) : Nat × Nat × Nat × Nat × Nat × Nat × Nat × Nat × Nat :=
  (s.direction, s.packets_tx, s.packets_rx, s.loss, s.last_sync_packets_tx,
    s.last_sync_packets_rx, s.last_sync_loss, s.tx_len, s.rx_len)

/-- A verified downstream stream that has sent ten and received eight packets
and lost one since the last synchronisation. -/
def stream_synced_sample : bbl_stream_s :=
  { direction := BBL_DIRECTION_DOWN, verified := true, rx_first_seq := 1,
    packets_tx := 110, last_sync_packets_tx := 100,
    packets_rx := 58, last_sync_packets_rx := 50,
    loss := 3, last_sync_loss := 2, tx_len := 64, rx_len := 64 }

/-- A stream that has sent ten packets and not yet received one. -/
def stream_unverified_sample : bbl_stream_s :=
  { direction := BBL_DIRECTION_DOWN, verified := false, rx_first_seq := 0,
    packets_tx := 10, last_sync_packets_tx := 0 }

/-- The objects of a stream between a network interface and an access
interface, without a session. -/
def links_sample : bbl_stream_links :=
  { session := none,
    access_interface := some { stream_rx := 7, stream_loss := 1 },
    network_interface := some { packets_tx := 1000, stream_tx := 500 },
    a10nsp_interface := none }

/-! Section: Stream creation. -/

/-- The source function `bbl_network_interface_get` on the physical interfaces
from position `index` on: the first network interface if the name is `NULL`
(`none`), else the first one with the given name; the result gives the position
of its physical interface (`network_interface->interface`) with it. -/
def bbl_network_interface_get_from (interface_name : Option String) :
    List bbl_interface_s → Nat → Option (Nat × bbl_network_interface_s)
  | [], _ => none
  | interface :: rest, index =>
    match interface.network.find? (fun network_interface =>
        match interface_name with
        | none => true
        | some name => network_interface.name == name) with
    | some network_interface => some (index, network_interface)
    | none => bbl_network_interface_get_from interface_name rest (index + 1)

/-- The source function `bbl_network_interface_get` over the list of physical
interfaces `g_ctx->interface_qhead`. -/
def bbl_network_interface_get (interfaces : List bbl_interface_s)
    (interface_name : Option String) : Option (Nat × bbl_network_interface_s) :=
  bbl_network_interface_get_from interface_name interfaces 0

/-- What `bbl_stream_add` reads from its session: the physical interfaces
behind `session->access_interface`, `session->network_interface` and
`session->a10nsp_interface`, named by their position in the list of physical
interfaces (`none` is `NULL`). -/
structure bbl_session_interfaces where
  access_interface : Nat := 0
  network_interface : Option Nat := none
  a10nsp_interface : Option Nat := none
deriving DecidableEq

/-- The objects that the creation of streams writes: the global context, the
flow dictionary `g_ctx->stream_flow_dict`, and the TX handles
`interface->io.tx` of the physical interfaces by position.  `created` records
the streams in the order in which they were created; the lists
`session->streams` into which the source links them are not modelled. -/
structure bbl_stream_registry where
  ctx : bbl_ctx_s := {}
  stream_flow_dict : stream_flow_dict := fun _ => none
  io_tx : List (List io_handle_s) := []
  created : List bbl_stream_s := []

/-- The library call `dict_insert(g_ctx->stream_flow_dict, &stream->flow_id)`:
the member `inserted` of its result, which is false for a key that is
present. -/
def dict_insert (dict : stream_flow_dict) (flow_id : Nat) : Bool :=
  (dict flow_id).isNone

/-- The assignment `*result.datum_ptr = stream` after an insertion under
`flow_id`. -/
def dict_datum_set (dict : stream_flow_dict) (flow_id : Nat) (stream : bbl_stream_s) :
    stream_flow_dict :=
  fun key => if key = flow_id then some stream else dict key

/-- The block that `bbl_stream_add` has for each direction and `bbl_stream_init`
for RAW streams: allocate a stream (`calloc`: all fields zero), give it the
next flow id and `flow_seq = 1`, register it in the flow dictionary, assign it
to a TX thread of the physical interface at position `interface` and count it.
The result tells whether the function goes on (`true`) or returns `false`.
The dictionary holds a pointer to the stream; the model registers the stream as
it is at the end of the block.  `tx_interval` is not modelled. -/
def bbl_stream_add_direction (registry : bbl_stream_registry)
    (config : bbl_stream_config_s) (direction interface : Nat) :
    bbl_stream_registry × Bool :=
  let stream : bbl_stream_s :=
    { flow_id := registry.ctx.flow_id, flow_seq := 1, config := config,
      type := config.type, direction := direction }
  let registry : bbl_stream_registry :=
    { registry with ctx := { registry.ctx with flow_id := (registry.ctx.flow_id + 1) % U64 } }
  if dict_insert registry.stream_flow_dict stream.flow_id = false then (registry, false)
  else
    let jobs := bbl_stream_add_jobs (registry.io_tx.getD interface []) stream
    ({ ctx := { registry.ctx with
          stats_stream_traffic_flows := registry.ctx.stats_stream_traffic_flows + 1 },
        stream_flow_dict := dict_datum_set registry.stream_flow_dict stream.flow_id jobs.2,
        io_tx := registry.io_tx.set interface jobs.1,
        created := registry.created ++ [jobs.2] }, true)

/-- The selection of the interfaces at the head of `bbl_stream_add`: the
physical interface of the selected network interface and of the selected
A10NSP interface, by position (`none` is `NULL`).  `bbl_a10nsp_interface_get`
is not among the given sources: `a10nsp_interface_get` gives the position of
the physical interface of the A10NSP interface with a name, or `none` for
`NULL`. -/
def bbl_stream_add_select (interfaces : List bbl_interface_s)
    (a10nsp_interface_get : String → Option Nat) (config : bbl_stream_config_s)
    (session : bbl_session_interfaces) : Option Nat × Option Nat :=
  if config.network_interface.isSome then
    ((bbl_network_interface_get interfaces config.network_interface).map (fun n => n.1), none)
  else
    match config.a10nsp_interface with
    | some name => (none, a10nsp_interface_get name)
    | none =>
      if session.network_interface.isSome then (session.network_interface, none)
      else if session.a10nsp_interface.isSome then (none, session.a10nsp_interface)
      else (none, none)

/-- The two blocks of `bbl_stream_add`, for `BBL_DIRECTION_UP` on the physical
interface of the access interface of the session and for `BBL_DIRECTION_DOWN`
on the selected interface. -/
def bbl_stream_add_directions (registry : bbl_stream_registry)
    (config : bbl_stream_config_s) (access_interface interface : Nat) :
    bbl_stream_registry × Bool :=
  let up : bbl_stream_registry × Bool :=
    if config.direction &&& BBL_DIRECTION_UP ≠ 0 then
      bbl_stream_add_direction registry config BBL_DIRECTION_UP access_interface
    else (registry, true)
  if up.2 = false then (up.1, false)
  else if config.direction &&& BBL_DIRECTION_DOWN ≠ 0 then
    bbl_stream_add_direction up.1 config BBL_DIRECTION_DOWN interface
  else (up.1, true)

/-- The source function `bbl_stream_add`: select the interface (the A10NSP
interface before the network interface), return `false` if there is none, else
create the streams. -/
def bbl_stream_add (interfaces : List bbl_interface_s)
    (a10nsp_interface_get : String → Option Nat) (registry : bbl_stream_registry)
    (config : bbl_stream_config_s) (session : bbl_session_interfaces) :
    bbl_stream_registry × Bool :=
  let selected := bbl_stream_add_select interfaces a10nsp_interface_get config session
  let interface : Option Nat :=
    match selected.2 with
    | some a10nsp_interface => some a10nsp_interface
    | none => selected.1
  match interface with
  | none => (registry, false)
  | some interface =>
    bbl_stream_add_directions registry config session.access_interface interface

/-- The loop `Add RAW streams` of `bbl_stream_init` over the configured
streams. -/
def bbl_stream_init_raw (interfaces : List bbl_interface_s) :
    List bbl_stream_config_s → bbl_stream_registry → bbl_stream_registry × Bool
  | [], registry => (registry, true)
  | config :: rest, registry =>
    if config.stream_group_id = 0 then
      match bbl_network_interface_get interfaces config.network_interface with
      | none => (registry, false)
      | some network_interface =>
        if config.direction &&& BBL_DIRECTION_DOWN ≠ 0 then
          let down :=
            bbl_stream_add_direction registry config BBL_DIRECTION_DOWN network_interface.1
          if down.2 = false then (down.1, false)
          else bbl_stream_init_raw interfaces rest down.1
        else bbl_stream_init_raw interfaces rest registry
    else bbl_stream_init_raw interfaces rest registry

/-- The source function `bbl_stream_init`, as far as it creates streams: the
RAW streams, then the test for the network interface of multicast traffic.
The stream configurations it builds after that (multicast and session traffic)
are no streams and not part of this state. -/
def bbl_stream_init (interfaces : List bbl_interface_s) (registry : bbl_stream_registry) :
    bbl_stream_registry × Bool :=
  let raw := bbl_stream_init_raw interfaces registry.ctx.stream_config registry
  if raw.2 = false then (raw.1, false)
  else if raw.1.ctx.send_multicast_traffic && decide (raw.1.ctx.igmp_group_count ≠ 0) then
    match bbl_network_interface_get interfaces
        raw.1.ctx.multicast_traffic_network_interface with
    | none => (raw.1, false)
    | some _ => (raw.1, true)
  else (raw.1, true)

/-- One call that creates streams: `bbl_stream_init`, or `bbl_stream_add` for a
stream configuration and a session. -/
inductive bbl_stream_creation where
  | bbl_stream_init : bbl_stream_creation
  | bbl_stream_add (config : bbl_stream_config_s) (session : bbl_session_interfaces) :
      bbl_stream_creation
deriving DecidableEq

/-- The registry after one creating call. -/
def bbl_stream_creation_step (interfaces : List bbl_interface_s)
    (a10nsp_interface_get : String → Option Nat) (registry : bbl_stream_registry) :
    bbl_stream_creation → bbl_stream_registry
  | bbl_stream_creation.bbl_stream_init => (bbl_stream_init interfaces registry).1
  | bbl_stream_creation.bbl_stream_add config session =>
    (bbl_stream_add interfaces a10nsp_interface_get registry config session).1

/-- The registry after a sequence of creating calls. -/
def bbl_stream_creation_run (interfaces : List bbl_interface_s)
    (a10nsp_interface_get : String → Option Nat) :
    List bbl_stream_creation → bbl_stream_registry → bbl_stream_registry
  | [], registry => registry
  | call :: rest, registry =>
    bbl_stream_creation_run interfaces a10nsp_interface_get rest
      (bbl_stream_creation_step interfaces a10nsp_interface_get registry call)

/-- The invariant of stream creation from the counter value `f0` on: the
counter is `f0` plus the number of streams created, no flow id from the counter
on is registered, the k-th stream created has flow id `f0 + k - 1` and
`flow_seq = 1`, and every stream created has a flow id below the counter under
which it is registered. -/
def registry_dense (f0 : Nat) (registry : bbl_stream_registry) : Prop :=
  registry.ctx.flow_id = f0 + registry.created.length ∧
  (∀ key, registry.ctx.flow_id ≤ key → registry.stream_flow_dict key = none) ∧
  registry.created.map (fun s => (s.flow_id, s.flow_seq)) =
    (List.range registry.created.length).map (fun k => (f0 + k, 1)) ∧
  (∀ s ∈ registry.created,
    s.flow_id < registry.ctx.flow_id ∧ registry.stream_flow_dict s.flow_id = some s)

/-- A creating operation keeps the streams created before and keeps the
invariant as long as the counter does not reach `2^64`. -/
def creation_ok (op : bbl_stream_registry → bbl_stream_registry) : Prop :=
  (∀ registry, ∃ l, (op registry).created = registry.created ++ l) ∧
  (∀ N f0 registry, registry_dense f0 registry → (op registry).created.length ≤ N →
    f0 + N < U64 → registry_dense f0 (op registry))

/-- One physical interface `eth0` with one network interface. -/
def stream_interfaces_sample : List bbl_interface_s :=
  [{ name := "eth0", network := [{ name := "eth0" }] }]

/-- A registry at the counter value 1 with one RAW downstream stream
configured, no stream created yet. -/
def registry_sample : bbl_stream_registry :=
  { ctx := { flow_id := 1,
             stream_config := [{ stream_group_id := 0, direction := BBL_DIRECTION_DOWN }] },
    io_tx := [[{ thread := none }]] }

/-- The start of the program and one session with a stream configuration of
direction both (`BBL_DIRECTION_UP | BBL_DIRECTION_DOWN`). -/
def stream_creations_sample : List bbl_stream_creation :=
  [bbl_stream_creation.bbl_stream_init,
   bbl_stream_creation.bbl_stream_add { stream_group_id := 1, direction := 3 }
     { access_interface := 0, network_interface := some 0 }]

/-! Section: Ring I/O. -/

/-- The range of `uint16_t`. -/
def U16 : Nat := 65536

/-- The constants that `io_packet_mmap.c` takes from headers that are not among
the given sources: the frame states of `linux/if_packet.h`, and
`BBL_ETH_VLAN_ID_MAX` and `ETH_TYPE_QINQ`. -/
structure io_consts where
  TP_STATUS_KERNEL : Nat
  TP_STATUS_USER : Nat
  TP_STATUS_AVAILABLE : Nat
  TP_STATUS_SEND_REQUEST : Nat
  BBL_ETH_VLAN_ID_MAX : Nat
  ETH_TYPE_QINQ : Nat
deriving DecidableEq

/-- The frame at the cursor: `tphdr`, as computed by
`frame_ptr = io->ring + (io->cursor * io->req.tp_frame_size)`. -/
def io_tphdr (io : io_handle_s) : tpacket2_hdr := io.ring.getD io.cursor {}

/-- The source function `poll_kernel`; the system call `poll` itself is not
modelled. -/
def poll_kernel (io : io_handle_s) : io_handle_s :=
  { io with stats_polled := (io.stats_polled + 1) % U64 }

/-- What a TX burst does, in order: a control packet written to the frame
`slot`, the control source reporting nothing to send, a stream packet written
to the frame `slot`, and the call of `bbl_stream_io_stop`. -/
inductive io_tx_event where
  | control (slot : Nat)
  | control_empty
  | stream (slot : Nat)
  | stop
deriving DecidableEq

/-- The state of the TX side of one IO handle with what it sends from.
`bbl_tx` lists the results of the coming calls of `bbl_tx` (not among the given
sources): `some packet` is `PROTOCOL_SUCCESS` with the packet written to the
buffer, `none` any other result; after the list nothing is to send.  `txq` is
the TXQ `thread->txq` of a TX thread, oldest packet first.  `send_iter` lists
the results of the coming calls of `bbl_stream_io_send_iter` (not among the
given sources): `some packet` is a stream with these `tx_len` bytes in
`tx_buf`, `none` is `NULL`; the counters `tx_packets` and `flow_seq` of that
stream, which the burst increments, are not part of this state.  `events`
records what the bursts did, `sendto_calls` counts the calls of `sendto`. -/
structure io_tx_state where
  io : io_handle_s := {}
  bbl_tx : List (Option (List Nat)) := []
  txq : List (List Nat) := []
  send_iter : List (Option (List Nat)) := []
  events : List io_tx_event := []
  sendto_calls : Nat := 0
deriving DecidableEq

/-- What the TX functions read besides their state: `io_burst` is
`interface->config->io_burst`, `traffic` the value of
`g_traffic && g_init_phase == false && interface->state == INTERFACE_UP`,
`timestamp` the time of the tick, `sendto` the result of the call of `sendto`
that notifies the kernel. -/
structure io_tx_env where
  io_burst : Nat := 0
  traffic : Bool := true
  timestamp : timespec := {}
  sendto : Int := 0
deriving DecidableEq

/-- The end of the body of the loop `while(burst)`, from `tphdr->tp_len =
io->buf_len` to `Get next slot`, for a packet that has been written to the
frame at the cursor. -/
def io_packet_mmap_tx_slot (K : io_consts) (io : io_handle_s) (packet : List Nat) :
    io_handle_s :=
  { io with
    buf := packet,
    buf_len := packet.length % U16,
    ring := io.ring.set io.cursor
      { io_tphdr io with
        packet := packet,
        tp_len := packet.length % U16,
        tp_status := K.TP_STATUS_SEND_REQUEST },
    queued := (io.queued + 1) % U16,
    stats_packets := (io.stats_packets + 1) % U64,
    stats_bytes := (io.stats_bytes + packet.length % U16) % U64,
    cursor := ((io.cursor + 1) % io.req_tp_frame_nr) % U16 }

/-- The test `tphdr->tp_status != TP_STATUS_AVAILABLE` at the head of the loop
with what follows it: `io->stats.no_buffer++`, in a TX thread also
`poll_kernel`. -/
def io_packet_mmap_tx_no_buffer (thread : Bool) (io : io_handle_s) : io_handle_s :=
  let io := { io with stats_no_buffer := (io.stats_no_buffer + 1) % U64 }
  if thread then poll_kernel io else io

/-- The loop `while(burst)` of `io_packet_mmap_tx_job` and of
`io_packet_mmap_thread_tx_run_fn` (`thread`) once `ctrl` is false: stream
packets, up to `burst` of them. -/
def io_packet_mmap_tx_burst_streams (K : io_consts) (E : io_tx_env) (thread : Bool) :
    Nat → io_tx_state → io_tx_state
  | 0, s => s
  | burst + 1, s =>
    if (io_tphdr s.io).tp_status ≠ K.TP_STATUS_AVAILABLE then
      { s with io := io_packet_mmap_tx_no_buffer thread s.io }
    else if E.traffic = false then
      { s with events := s.events ++ [io_tx_event.stop] }
    else
      match s.send_iter with
      | [] => s
      | none :: rest => { s with send_iter := rest }
      | some packet :: rest =>
        io_packet_mmap_tx_burst_streams K E thread burst
          { s with
            send_iter := rest,
            io := io_packet_mmap_tx_slot K s.io packet,
            events := s.events ++ [io_tx_event.stream s.io.cursor] }

/-- The control source of a burst: `bbl_tx` in the main thread,
`bbl_txq_read_slot` with `bbl_txq_read_next` on the TXQ in a TX thread.
Modelled from the spec: the TXQ functions are not among the given sources;
`read_slot` returns the oldest slot or nil if the ring is empty, `read_next`
advances. -/
def io_packet_mmap_tx_control (thread : Bool) (s : io_tx_state) :
    Option (List Nat) × io_tx_state :=
  if thread then
    match s.txq with
    | [] => (none, s)
    | packet :: rest => (some packet, { s with txq := rest })
  else
    match s.bbl_tx with
    | [] => (none, s)
    | result :: rest => (result, { s with bbl_tx := rest })

/-- The loop `while(burst)` of `io_packet_mmap_tx_job` and of
`io_packet_mmap_thread_tx_run_fn` (`thread`), entered with `ctrl = true`:
control packets as long as the control source has one, then (`ctrl = false;
continue`) stream packets. -/
def io_packet_mmap_tx_burst (K : io_consts) (E : io_tx_env) (thread : Bool) :
    Nat → io_tx_state → io_tx_state
  | 0, s => s
  | burst + 1, s =>
    if (io_tphdr s.io).tp_status ≠ K.TP_STATUS_AVAILABLE then
      { s with io := io_packet_mmap_tx_no_buffer thread s.io }
    else
      match io_packet_mmap_tx_control thread s with
      | (some packet, s1) =>
        io_packet_mmap_tx_burst K E thread burst
          { s1 with
            io := io_packet_mmap_tx_slot K s1.io packet,
            events := s1.events ++ [io_tx_event.control s1.io.cursor] }
      | (none, s1) =>
        io_packet_mmap_tx_burst_streams K E thread (burst + 1)
          { s1 with events := s1.events ++ [io_tx_event.control_empty] }

/-- The end of `io_packet_mmap_tx_job` and of each turn of
`io_packet_mmap_thread_tx_run_fn`: `if(io->queued)` notify the kernel. -/
def io_packet_mmap_tx_notify (E : io_tx_env) (s : io_tx_state) : io_tx_state :=
  if s.io.queued ≠ 0 then
    if E.sendto < 0 then
      { s with
        sendto_calls := s.sendto_calls + 1,
        io := { s.io with stats_io_errors := (s.io.stats_io_errors + 1) % U64 } }
    else
      { s with sendto_calls := s.sendto_calls + 1, io := { s.io with queued := 0 } }
  else s

/-- The source function `io_packet_mmap_tx_job` up to the notification of the
kernel.  `io_stream_update_pps` (not among the given sources, called if
`io->update_streams`) and the writing of the capture file are not modelled. -/
def io_packet_mmap_tx_job_burst (K : io_consts) (E : io_tx_env) (s : io_tx_state) :
    io_tx_state :=
  if (io_tphdr s.io).tp_status ≠ K.TP_STATUS_AVAILABLE then
    { s with
      io := { poll_kernel s.io with
        stats_no_buffer := ((poll_kernel s.io).stats_no_buffer + 1) % U64 } }
  else
    io_packet_mmap_tx_burst K E false (E.io_burst % U16)
      { s with io := { s.io with timestamp := E.timestamp } }

/-- The source function `io_packet_mmap_tx_job`. -/
def io_packet_mmap_tx_job (K : io_consts) (E : io_tx_env) (s : io_tx_state) : io_tx_state :=
  io_packet_mmap_tx_notify E (io_packet_mmap_tx_job_burst K E s)

/-- One turn of the loop `while(thread->active)` of
`io_packet_mmap_thread_tx_run_fn` up to the notification of the kernel; a turn
that finds the frame at the cursor not available ends at `continue`
(the result `false`).  `E.timestamp` is the time `clock_gettime` returns. -/
def io_packet_mmap_thread_tx_run_fn_burst (K : io_consts) (E : io_tx_env)
    (s : io_tx_state) : io_tx_state × Bool :=
  if (io_tphdr s.io).tp_status ≠ K.TP_STATUS_AVAILABLE then
    ({ s with
      io := poll_kernel { s.io with stats_no_buffer := (s.io.stats_no_buffer + 1) % U64 } },
      false)
  else
    (io_packet_mmap_tx_burst K E true (E.io_burst % U16)
      { s with io := { s.io with timestamp := E.timestamp } }, true)

/-- One turn of the loop `while(thread->active)` of
`io_packet_mmap_thread_tx_run_fn`. -/
def io_packet_mmap_thread_tx_run_fn_turn (K : io_consts) (E : io_tx_env)
    (s : io_tx_state) : io_tx_state :=
  let b := io_packet_mmap_thread_tx_run_fn_burst K E s
  if b.2 then io_packet_mmap_tx_notify E b.1 else b.1

/-- The result of `decode_ethernet` (not among the given sources):
`PROTOCOL_SUCCESS` with the decoded frame, `UNKNOWN_PROTOCOL`, or another
error. -/
inductive io_decode_result where
  | success (eth : bbl_ethernet_header_t)
  | unknown_protocol
  | error
deriving DecidableEq

/-- What the RX job reads besides its state: the decoder `decode_ethernet` as a
function of the packet bytes and their length, and the time of the tick. -/
structure io_rx_env where
  decode_ethernet : List Nat → Nat → io_decode_result
  timestamp : timespec := {}

/-- The state of the RX side of one IO handle.  `handled` records the frames
given to `bbl_rx_handler` (not among the given sources) in order, `processed`
the positions of the ring frames the loop has gone through. -/
structure io_rx_state where
  io : io_handle_s := {}
  handled : List bbl_ethernet_header_t := []
  processed : List Nat := []
deriving DecidableEq

/-- The restoration of the VLAN tag that the kernel has stripped from the
frame, as `io_packet_mmap_rx_job` does it from `tp_vlan_tci` and
`tp_vlan_tpid`. -/
def io_packet_mmap_rx_vlan (K : io_consts) (tphdr : tpacket2_hdr)
    (eth : bbl_ethernet_header_t) : bbl_ethernet_header_t :=
  let vlan := tphdr.tp_vlan_tci &&& K.BBL_ETH_VLAN_ID_MAX
  if vlan ≠ 0 ∧ eth.vlan_outer ≠ vlan then
    { eth with
      vlan_inner := eth.vlan_outer,
      vlan_inner_priority := eth.vlan_outer_priority,
      vlan_outer := vlan,
      vlan_outer_priority := tphdr.tp_vlan_tci >>> 13,
      qinq := if tphdr.tp_vlan_tpid = K.ETH_TYPE_QINQ then true else eth.qinq }
  else eth

/-- The body of the loop `while(tphdr->tp_status & TP_STATUS_USER)` of
`io_packet_mmap_rx_job`: count and decode the frame at the cursor, hand it to
`bbl_rx_handler`, return the frame to the kernel and move the cursor.  The
writing of the capture file is not modelled. -/
def io_packet_mmap_rx_frame (K : io_consts) (E : io_rx_env) (s : io_rx_state) :
    io_rx_state :=
  let tphdr := io_tphdr s.io
  let io : io_handle_s :=
    { s.io with
      buf := tphdr.packet,
      buf_len := tphdr.tp_len % U16,
      stats_packets := (s.io.stats_packets + 1) % U64,
      stats_bytes := (s.io.stats_bytes + tphdr.tp_len % U16) % U64 }
  let s : io_rx_state :=
    match E.decode_ethernet tphdr.packet (tphdr.tp_len % U16) with
    | io_decode_result.success eth =>
      { s with
        io := io,
        handled := s.handled ++
          [{ io_packet_mmap_rx_vlan K tphdr eth with timestamp := io.timestamp }] }
    | io_decode_result.unknown_protocol =>
      { s with io := { io with stats_unknown := (io.stats_unknown + 1) % U64 } }
    | io_decode_result.error =>
      { s with io := { io with stats_protocol_errors := (io.stats_protocol_errors + 1) % U64 } }
  { s with
    io := { s.io with
      ring := s.io.ring.set s.io.cursor { tphdr with tp_status := K.TP_STATUS_KERNEL },
      cursor := ((s.io.cursor + 1) % s.io.req_tp_frame_nr) % U16 },
    processed := s.processed ++ [s.io.cursor] }

/-- The loop `while(tphdr->tp_status & TP_STATUS_USER)` of
`io_packet_mmap_rx_job`, for at most `fuel` tests of its condition; `none` if
the loop has not ended by then. -/
def io_packet_mmap_rx_loop (K : io_consts) (E : io_rx_env) :
    Nat → io_rx_state → Option io_rx_state
  | 0, _ => none
  | fuel + 1, s =>
    if (io_tphdr s.io).tp_status &&& K.TP_STATUS_USER ≠ 0 then
      io_packet_mmap_rx_loop K E fuel (io_packet_mmap_rx_frame K E s)
    else some s

/-- The source function `io_packet_mmap_rx_job`, its loop run for at most
`fuel` tests of the condition. -/
def io_packet_mmap_rx_job (K : io_consts) (E : io_rx_env) (fuel : Nat) (s : io_rx_state) :
    Option io_rx_state :=
  if (io_tphdr s.io).tp_status &&& K.TP_STATUS_USER = 0 then
    some { s with io := poll_kernel s.io }
  else
    io_packet_mmap_rx_loop K E fuel { s with io := { s.io with timestamp := E.timestamp } }

/-- The order of the events of one burst: control packets first, then, if the
control source has reported nothing to send, stream packets only, and a call of
`bbl_stream_io_stop` last if there is one. -/
def io_tx_events_ordered (events : List io_tx_event) : Prop :=
  ∃ (controls streams : List Nat) (tail : List io_tx_event),
    events = controls.map io_tx_event.control ++ tail ∧
    (tail = [] ∨
      tail = io_tx_event.control_empty :: streams.map io_tx_event.stream ∨
      tail = io_tx_event.control_empty :: (streams.map io_tx_event.stream ++
        [io_tx_event.stop]))

/-- The frames written by the events of a burst, in order. -/
def io_tx_slots : List io_tx_event → List Nat
  | [] => []
  | io_tx_event.control slot :: rest => slot :: io_tx_slots rest
  | io_tx_event.stream slot :: rest => slot :: io_tx_slots rest
  | _ :: rest => io_tx_slots rest

/-- The relation between the state before a burst and a state in which `n` more
frames have been written: the frames written are the `n` frames from the cursor
on in ring order, they are marked `TP_STATUS_SEND_REQUEST` and no other frame
has changed its status, `stats.packets` and `queued` have grown by `n` and the
cursor has advanced by `n` modulo the number of frames. -/
def io_tx_progress (K : io_consts) (s s' : io_tx_state) (n : Nat) : Prop :=
  s'.io.req_tp_frame_nr = s.io.req_tp_frame_nr ∧
  s'.io.ring.length = s.io.ring.length ∧
  s'.io.stats_packets = (s.io.stats_packets + n) % U64 ∧
  s'.io.queued = (s.io.queued + n) % U16 ∧
  s'.io.cursor = (s.io.cursor + n) % s.io.req_tp_frame_nr ∧
  s'.io.stats_io_errors = s.io.stats_io_errors ∧
  s'.sendto_calls = s.sendto_calls ∧
  ∃ events, s'.events = s.events ++ events ∧
    io_tx_slots events =
      (List.range n).map (fun i => (s.io.cursor + i) % s.io.req_tp_frame_nr) ∧
    ∀ j, (s'.io.ring.getD j {}).tp_status =
      if j ∈ io_tx_slots events then K.TP_STATUS_SEND_REQUEST
      else (s.io.ring.getD j {}).tp_status

/-- The frame states of `linux/if_packet.h` and the VLAN constants of the BNG
Blaster headers. -/
def io_consts_linux : io_consts :=
  { TP_STATUS_KERNEL := 0, TP_STATUS_USER := 1, TP_STATUS_AVAILABLE := 0,
    TP_STATUS_SEND_REQUEST := 1, BBL_ETH_VLAN_ID_MAX := 4095, ETH_TYPE_QINQ := 34984 }

/-- A TX handle on a ring of four available frames with the cursor at the last
one; one control packet and two stream packets are ready. -/
def io_tx_sample : io_tx_state :=
  { io := { req_tp_frame_nr := 4, ring := List.replicate 4 {}, cursor := 3 },
    bbl_tx := [some [1, 2], none],
    send_iter := [some [3], some [4], none] }

/-- A tick with a burst of three packets, traffic enabled, and a `sendto` that
succeeds. -/
def io_tx_env_sample : io_tx_env := { io_burst := 3, traffic := true, sendto := 0 }

/-- The same tick with a `sendto` that fails. -/
def io_tx_env_failing : io_tx_env := { io_burst := 3, traffic := true, sendto := -1 }

/-- The `k` positions of a ring of `frame_nr` frames from `cursor` on, in ring
order. -/
def ring_positions (frame_nr cursor k : Nat) : List Nat :=
  (List.range k).map (fun i => (cursor + i) % frame_nr)

/-- Whether the frame at a position of the ring is owned by the user. -/
def frame_user (K : io_consts) (ring : List tpacket2_hdr) (j : Nat) : Prop :=
  (ring.getD j {}).tp_status &&& K.TP_STATUS_USER ≠ 0

/-- A ring of four frames of which the frames 3 and 0 hold received packets. -/
def io_rx_sample : io_rx_state :=
  { io :=
      { req_tp_frame_nr := 4,
        cursor := 3,
        ring := [{ tp_status := 1, tp_len := 1, packet := [7] }, {}, {}, { tp_status := 1 }] } }

/-- A decoder that knows no protocol. -/
def io_rx_env_sample : io_rx_env :=
  { decode_ethernet := fun _ _ => io_decode_result.unknown_protocol }

/-! Section: The template build. -/

/-- A raw IPv4 stream at 1000 packets per second that holds a 64-byte
template. -/
def stream_raw_cached : bbl_stream_s :=
  { flow_id := 1, flow_seq := 1, type := 1, direction := 2,
    config := { pps_num := 1000, pps_den := 1 },
    buf := some (List.replicate 64 9), tx_len := 64 }

/-- Modelled from the spec: `BBL_TYPE_MULTICAST`, the `type` byte of the BBL
header of a multicast flow (`2=multicast`). -/
def BBL_TYPE_MULTICAST : Nat := 2

/-- The function `htobe32` of `endian.h` on the little-endian hosts the tool
runs on: the 32-bit word with its four bytes in reverse order. -/
def htobe32 (x : Nat) : Nat :=
  x % 256 * 16777216 + x / 256 % 256 * 65536 + x / 65536 % 256 * 256 + x / 16777216 % 256

/-- What the packet builders read from outside the stream and its session:
whether `bbl_network_interface_get(config->network_interface)` finds an
interface, whether `session->network_interface` is set, whether
`bbl_a10nsp_interface_get(config->a10nsp_interface)` finds an interface, and
the result of `encode_ethernet` on the frame of this stream as a function of
the BBL header handed to it (`none` is every result but `PROTOCOL_SUCCESS`).
The lookups and the encoder are not among the given sources. -/
structure build_env where
  config_network_interface : Bool := true
  session_network_interface : Bool := true
  a10nsp_interface : Bool := true
  encode_ethernet : bbl_bbl_t → Option (List Nat) := fun _ => none

/-- The BBL header that `bbl_stream_build_access_pppoe_packet` hands to
`encode_ethernet`, or `none` where the function returns false before it
allocates the buffer.  Of the header the fields of `bbl_bbl_t` are modelled;
`flow_seq` and `timestamp` are left zero by the builders. -/
def bbl_stream_build_access_pppoe_packet (B : build_env) (session : bbl_session_s)
    (stream : bbl_stream_s) : Option bbl_bbl_t :=
  let network_interface :=
    if stream.config.network_interface.isSome then B.config_network_interface
    else B.session_network_interface
  if network_interface = false then none
  else
    let bbl : bbl_bbl_t :=
      { type := BBL_TYPE_UNICAST_SESSION,
        session_id := session.session_id,
        outer_vlan_id := session.outer_vlan_id,
        inner_vlan_id := session.inner_vlan_id,
        flow_id := stream.flow_id,
        direction := BBL_DIRECTION_UP }
    if stream.config.type = BBL_SUB_TYPE_IPV4 then
      some { bbl with sub_type := BBL_SUB_TYPE_IPV4 }
    else if stream.config.type = BBL_SUB_TYPE_IPV6 ∨
        stream.config.type = BBL_SUB_TYPE_IPV6PD then
      some { bbl with sub_type := BBL_SUB_TYPE_IPV6 }
    else none

/-- The BBL header that `bbl_stream_build_a10nsp_pppoe_packet` hands to
`encode_ethernet`, or `none` where the function returns false before it
allocates the buffer. -/
def bbl_stream_build_a10nsp_pppoe_packet (B : build_env) (session : bbl_session_s)
    (stream : bbl_stream_s) : Option bbl_bbl_t :=
  if ¬ (B.a10nsp_interface = true ∧ session.a10nsp_session.isSome = true) then none
  else
    let bbl : bbl_bbl_t :=
      { direction :=
          if stream.direction = BBL_DIRECTION_UP then BBL_DIRECTION_UP
          else BBL_DIRECTION_DOWN }
    let bbl := { bbl with
      type := BBL_TYPE_UNICAST_SESSION,
      session_id := session.session_id,
      outer_vlan_id := session.outer_vlan_id,
      inner_vlan_id := session.inner_vlan_id,
      flow_id := stream.flow_id }
    if stream.config.type = BBL_SUB_TYPE_IPV4 then
      some { bbl with sub_type := BBL_SUB_TYPE_IPV4 }
    else if stream.config.type = BBL_SUB_TYPE_IPV6 ∨
        stream.config.type = BBL_SUB_TYPE_IPV6PD then
      some { bbl with sub_type := BBL_SUB_TYPE_IPV6 }
    else none

/-- The BBL header that `bbl_stream_build_a10nsp_ipoe_packet` hands to
`encode_ethernet`, or `none` where the function returns false before it
allocates the buffer. -/
def bbl_stream_build_a10nsp_ipoe_packet (B : build_env) (session : bbl_session_s)
    (stream : bbl_stream_s) : Option bbl_bbl_t :=
  if ¬ (B.a10nsp_interface = true ∧ session.a10nsp_session.isSome = true) then none
  else
    let bbl : bbl_bbl_t :=
      { direction :=
          if stream.direction = BBL_DIRECTION_UP then BBL_DIRECTION_UP
          else BBL_DIRECTION_DOWN }
    let bbl := { bbl with
      type := BBL_TYPE_UNICAST_SESSION,
      session_id := session.session_id,
      outer_vlan_id := session.outer_vlan_id,
      inner_vlan_id := session.inner_vlan_id,
      flow_id := stream.flow_id }
    if stream.config.type = BBL_SUB_TYPE_IPV4 then
      some { bbl with sub_type := BBL_SUB_TYPE_IPV4 }
    else if stream.config.type = BBL_SUB_TYPE_IPV6 ∨
        stream.config.type = BBL_SUB_TYPE_IPV6PD then
      some { bbl with sub_type := BBL_SUB_TYPE_IPV6 }
    else none

/-- The BBL header that `bbl_stream_build_access_ipoe_packet` hands to
`encode_ethernet`, or `none` where the function returns false before it
allocates the buffer. -/
def bbl_stream_build_access_ipoe_packet (B : build_env) (session : bbl_session_s)
    (stream : bbl_stream_s) : Option bbl_bbl_t :=
  let network_interface :=
    if stream.config.network_interface.isSome then B.config_network_interface
    else B.session_network_interface
  if network_interface = false then none
  else
    let bbl : bbl_bbl_t :=
      { type := BBL_TYPE_UNICAST_SESSION,
        session_id := session.session_id,
        outer_vlan_id := session.outer_vlan_id,
        inner_vlan_id := session.inner_vlan_id,
        flow_id := stream.flow_id,
        direction := BBL_DIRECTION_UP }
    if stream.config.type = BBL_SUB_TYPE_IPV4 then
      some { bbl with sub_type := BBL_SUB_TYPE_IPV4 }
    else if stream.config.type = BBL_SUB_TYPE_IPV6 ∨
        stream.config.type = BBL_SUB_TYPE_IPV6PD then
      some { bbl with sub_type := BBL_SUB_TYPE_IPV6 }
    else none

/-- The BBL header that `bbl_stream_build_network_packet` hands to
`encode_ethernet`, or `none` where the function returns false before it
allocates the buffer.  The function reads `stream->network_interface` without
a test; `bbl_stream_add` and the creation of raw streams set it for every
stream sent from a network interface. -/
def bbl_stream_build_network_packet (session : Option bbl_session_s)
    (stream : bbl_stream_s) : Option bbl_bbl_t :=
  let bbl : bbl_bbl_t := { type := BBL_TYPE_UNICAST_SESSION }
  let bbl :=
    match session with
    | some session =>
      { bbl with
        session_id := session.session_id,
        outer_vlan_id := session.outer_vlan_id,
        inner_vlan_id := session.inner_vlan_id }
    | none => bbl
  let bbl := { bbl with flow_id := stream.flow_id, direction := BBL_DIRECTION_DOWN }
  if stream.config.type = BBL_SUB_TYPE_IPV4 then
    if stream.config.ipv4_destination_address ≠ 0 then
      if stream.config.ipv4_destination_address &&& htobe32 0xf0000000 =
          htobe32 0xe0000000 then
        some { bbl with type := BBL_TYPE_MULTICAST, sub_type := BBL_SUB_TYPE_IPV4 }
      else some { bbl with sub_type := BBL_SUB_TYPE_IPV4 }
    else if session.isSome then some { bbl with sub_type := BBL_SUB_TYPE_IPV4 }
    else none
  else if stream.config.type = BBL_SUB_TYPE_IPV6 ∨
      stream.config.type = BBL_SUB_TYPE_IPV6PD then
    if ipv6_word0 stream.config.ipv6_destination_address ≠ 0 then
      some { bbl with sub_type := BBL_SUB_TYPE_IPV6 }
    else if session.isSome then some { bbl with sub_type := BBL_SUB_TYPE_IPV6 }
    else none
  else none

/-- The BBL header that `bbl_stream_build_l2tp_packet` hands to
`encode_ethernet`; the function does not return before the encoder. -/
def bbl_stream_build_l2tp_packet (session : bbl_session_s) (stream : bbl_stream_s) :
    Option bbl_bbl_t :=
  some
    { type := BBL_TYPE_UNICAST_SESSION,
      session_id := session.session_id,
      outer_vlan_id := session.outer_vlan_id,
      inner_vlan_id := session.inner_vlan_id,
      flow_id := stream.flow_id,
      direction := BBL_DIRECTION_DOWN,
      sub_type := BBL_SUB_TYPE_IPV4 }

/-- The dispatch of `bbl_stream_build_packet`: the BBL header of the builder
it selects, or `none` where it or the builder returns false before the
encoder.  `session` is `stream->session`. -/
def bbl_stream_build_packet_bbl (K : bbl_consts) (B : build_env)
    (session : Option bbl_session_s) (stream : bbl_stream_s) : Option bbl_bbl_t :=
  if stream.config.stream_group_id = 0 then bbl_stream_build_network_packet session stream
  else
    match session with
    | none => none
    | some s =>
      if s.access_type = K.ACCESS_TYPE_PPPOE then
        if s.l2tp_session.isSome then
          if stream.direction = BBL_DIRECTION_UP then
            bbl_stream_build_access_pppoe_packet B s stream
          else bbl_stream_build_l2tp_packet s stream
        else if s.a10nsp_session.isSome then
          bbl_stream_build_a10nsp_pppoe_packet B s stream
        else if stream.config.type = BBL_SUB_TYPE_IPV4 ∨
            stream.config.type = BBL_SUB_TYPE_IPV6 ∨
            stream.config.type = BBL_SUB_TYPE_IPV6PD then
          if stream.direction = BBL_DIRECTION_UP then
            bbl_stream_build_access_pppoe_packet B s stream
          else bbl_stream_build_network_packet session stream
        else none
      else if s.access_type = K.ACCESS_TYPE_IPOE then
        if s.a10nsp_session.isSome then bbl_stream_build_a10nsp_ipoe_packet B s stream
        else if stream.direction = BBL_DIRECTION_UP then
          bbl_stream_build_access_ipoe_packet B s stream
        else bbl_stream_build_network_packet session stream
      else none

/-- How `bbl_stream_build_packet` ends for a stream: refused where no header is
handed to the encoder, else by the result of `encode_ethernet`. -/
def bbl_stream_build_outcome (K : bbl_consts) (B : build_env)
    (session : Option bbl_session_s) (stream : bbl_stream_s) : build_outcome :=
  match bbl_stream_build_packet_bbl K B session stream with
  | none => build_outcome.refused
  | some bbl =>
    match B.encode_ethernet bbl with
    | none => build_outcome.encode_error
    | some bytes => build_outcome.built bytes

/-- A raw IPv4 stream without explicit destination address, as created. -/
def stream_raw_no_destination : bbl_stream_s :=
  { flow_id := 1, flow_seq := 1, type := 1, direction := 2, config := { type := 1 } }

/-- A tick of the transmit job for a stream without session, with the outcome
of the build as the builders compute it when the encoder would succeed. -/
def tick_raw_build (stream : bbl_stream_s) : tx_env :=
  { build := bbl_stream_build_outcome sample_consts
      { encode_ethernet := fun _ => some (List.replicate 64 0) } none stream }

/-- An established PPPoE session with IPv6 and a delegated prefix. -/
def session_pppoe_ipv6pd : bbl_session_s :=
  { session_state := 7, access_type := 0, ip6cp_state := 3, icmpv6_ra_received := true,
    ipv6_address := [32, 1, 13, 184, 0, 0, 0, 1, 0, 0, 0, 0, 0, 0, 0, 1],
    delegated_ipv6_address := [32, 1, 13, 184, 0, 1, 0, 0, 0, 0, 0, 0, 0, 0, 0, 1],
    dhcpv6_state := 3, session_id := 1, outer_vlan_id := 100, inner_vlan_id := 7,
    session_traffic_active := true, streams_active := true }

/-- The upstream IPv6-PD stream of flow 1 that `bbl_stream_add` creates from a
configuration of type `BBL_SUB_TYPE_IPV6PD`. -/
def stream_ipv6pd_up : bbl_stream_s :=
  { flow_id := 1, flow_seq := 1, type := 3, direction := 1,
    config := { stream_group_id := 1, type := 3, direction := 1 } }

/-- The frame of flow 1 received with the given BBL header, 128 bytes long. -/
def frame_of (bbl : bbl_bbl_t) : bbl_ethernet_header_t :=
  { length := 128, bbl := some bbl }

/-! Section: The threaded receive path. -/

/-- The result type `io_result_t` of `io/io_def.h`. -/
inductive io_result_t where
  | IO_SUCCESS
  | IO_REDIRECT
  | IO_ERROR
  | IO_DECODE_ERROR
  | IO_ENCODE_ERROR
  | IO_FULL
  | IO_EMPTY
deriving DecidableEq

/-- Modelled from the spec: one slot of the TXQ (`bbl_txq_slot_t`), "timestamp,
VLAN TCI, VLAN TPID, length, payload bytes"; the type is declared in a header
that is not among the given sources. -/
structure bbl_txq_slot_t where
  timestamp : timespec := {}
  vlan_tci : Nat := 0
  vlan_tpid : Nat := 0
  packet_len : Nat := 0
  packet : List Nat := []
deriving DecidableEq

/-- What the RX thread of an IO handle reads besides its state: the constant
`BBL_TXQ_BUFFER_LEN`, the classifier `packet_is_bbl` and the decoder
`decode_ethernet` as functions of the packet bytes and their length, and the
result of `bbl_rx_thread(io->interface, eth)` as a function of the frame.
None of them is among the given sources. -/
structure io_thread_rx_env where
  BBL_TXQ_BUFFER_LEN : Nat
  packet_is_bbl : List Nat → Nat → Bool
  decode_ethernet : List Nat → Nat → io_decode_result
  bbl_rx_thread : bbl_ethernet_header_t → Bool

/-- The state of the RX thread of one IO handle: the handle, the local variable
`cursor` of `io_packet_mmap_thread_rx_run_fn`, and the TXQ of the thread
(`thread->txq`).  Modelled from the spec: the TXQ is a bounded ring, `txq`
holds the slots written and not yet read, oldest first, `txq_size` is the
number of slots it can hold.  `rx_thread` records the frames given to
`bbl_rx_thread`, in order. -/
structure io_thread_rx_state where
  io : io_handle_s := {}
  cursor : Nat := 0
  txq_size : Nat := 0
  txq : List bbl_txq_slot_t := []
  rx_thread : List bbl_ethernet_header_t := []
deriving DecidableEq

/-- The restoration of the VLAN tag on the threaded receive path, as
`io_thread_rx_handler` does it from `io->vlan_tci` and `io->vlan_tpid` and
`io_thread_main_rx_job` from `slot->vlan_tci` and `slot->vlan_tpid`. -/
def io_thread_rx_vlan (K : io_consts) (vlan_tci vlan_tpid : Nat)
    (eth : bbl_ethernet_header_t) : bbl_ethernet_header_t :=
  if vlan_tci ≠ 0 then
    let vlan := vlan_tci &&& K.BBL_ETH_VLAN_ID_MAX
    { eth with
      vlan_inner := eth.vlan_outer,
      vlan_inner_priority := eth.vlan_outer_priority,
      vlan_outer := vlan,
      vlan_outer_priority := vlan_tci >>> 13,
      qinq := if vlan_tpid = K.ETH_TYPE_QINQ then true else eth.qinq }
  else eth

/-- The source function `redirect` of `io/io_thread.c`.  Modelled from the
spec: `bbl_txq_write_slot` returns a writable slot or nil if the ring is full,
`bbl_txq_write_next` advances. -/
def redirect (E : io_thread_rx_env) (s : io_thread_rx_state) :
    io_thread_rx_state × io_result_t :=
  if E.BBL_TXQ_BUFFER_LEN < s.io.buf_len then (s, io_result_t.IO_ERROR)
  else if s.txq.length < s.txq_size then
    ({ s with
        txq := s.txq ++
          [{ timestamp := s.io.timestamp,
             vlan_tci := s.io.vlan_tci,
             vlan_tpid := s.io.vlan_tpid,
             packet_len := s.io.buf_len,
             packet := s.io.buf.take s.io.buf_len }] },
      io_result_t.IO_REDIRECT)
  else (s, io_result_t.IO_FULL)

/-- The source function `io_thread_rx_handler`. -/
def io_thread_rx_handler (K : io_consts) (E : io_thread_rx_env) (s : io_thread_rx_state) :
    io_thread_rx_state × io_result_t :=
  let io : io_handle_s :=
    { s.io with
      stats_packets := (s.io.stats_packets + 1) % U64,
      stats_bytes := (s.io.stats_bytes + s.io.buf_len) % U64 }
  let s := { s with io := io }
  if E.packet_is_bbl io.buf io.buf_len then
    match E.decode_ethernet io.buf io.buf_len with
    | io_decode_result.success eth =>
      let eth : bbl_ethernet_header_t :=
        { io_thread_rx_vlan K io.vlan_tci io.vlan_tpid eth with timestamp := io.timestamp }
      let s := { s with rx_thread := s.rx_thread ++ [eth] }
      if E.bbl_rx_thread eth then (s, io_result_t.IO_SUCCESS)
      else redirect E s
    | io_decode_result.unknown_protocol =>
      redirect E { s with io := { io with stats_unknown := (io.stats_unknown + 1) % U64 } }
    | io_decode_result.error =>
      redirect E
        { s with io := { io with stats_protocol_errors := (io.stats_protocol_errors + 1) % U64 } }
  else redirect E s

/-- The frame at the local cursor of the RX thread. -/
def io_thread_tphdr (s : io_thread_rx_state) : tpacket2_hdr := s.io.ring.getD s.cursor {}

/-- The first statements of the body of the loop
`while(tphdr->tp_status & TP_STATUS_USER)` of
`io_packet_mmap_thread_rx_run_fn`: the frame at the cursor is loaded into the
IO handle. -/
def io_packet_mmap_thread_rx_load (s : io_thread_rx_state) : io_thread_rx_state :=
  { s with
    io := { s.io with
      buf := (io_thread_tphdr s).packet,
      buf_len := (io_thread_tphdr s).tp_len % U16,
      vlan_tci := (io_thread_tphdr s).tp_vlan_tci,
      vlan_tpid := (io_thread_tphdr s).tp_vlan_tpid } }

/-- The body of the loop `while(tphdr->tp_status & TP_STATUS_USER)` of
`io_packet_mmap_thread_rx_run_fn`: load the frame at the cursor into the IO
handle and process it; unless the handler reports `IO_FULL`, return the frame to
the kernel and move the cursor.  The second component tells whether the loop
is left by `break`. -/
def io_packet_mmap_thread_rx_frame (K : io_consts) (E : io_thread_rx_env)
    (s : io_thread_rx_state) : io_thread_rx_state × Bool :=
  let r := io_thread_rx_handler K E (io_packet_mmap_thread_rx_load s)
  if r.2 = io_result_t.IO_FULL then (r.1, true)
  else
    ({ r.1 with
        io := { r.1.io with
          ring := r.1.io.ring.set s.cursor
            { io_thread_tphdr s with tp_status := K.TP_STATUS_KERNEL } },
        cursor := ((s.cursor + 1) % s.io.req_tp_frame_nr) % U16 },
      false)

/-- The loop `while(tphdr->tp_status & TP_STATUS_USER)` of
`io_packet_mmap_thread_rx_run_fn`, for at most `fuel` tests of its condition;
`none` if the loop has not ended by then. -/
def io_packet_mmap_thread_rx_loop (K : io_consts) (E : io_thread_rx_env) :
    Nat → io_thread_rx_state → Option io_thread_rx_state
  | 0, _ => none
  | fuel + 1, s =>
    if (io_thread_tphdr s).tp_status &&& K.TP_STATUS_USER ≠ 0 then
      let r := io_packet_mmap_thread_rx_frame K E s
      if r.2 then some r.1 else io_packet_mmap_thread_rx_loop K E fuel r.1
    else some s

/-- One drain cycle of `io_packet_mmap_thread_rx_run_fn`, the body of its loop
`while(thread->active)`, with the inner loop run for at most `fuel` tests of
its condition.  `now` is the time `clock_gettime` returns in this cycle. -/
def io_packet_mmap_thread_rx_run_fn (K : io_consts) (E : io_thread_rx_env)
    (now : timespec) (fuel : Nat) (s : io_thread_rx_state) : Option io_thread_rx_state :=
  if (io_thread_tphdr s).tp_status &&& K.TP_STATUS_USER = 0 then some s
  else io_packet_mmap_thread_rx_loop K E fuel { s with io := { s.io with timestamp := now } }

/-- The loop `while((slot = bbl_txq_read_slot(thread->txq)))` of
`io_thread_main_rx_job` for one IO handle with a thread, over the slots the
TXQ holds: decode the packet of the slot, restore the VLAN tag and hand the
frame to `bbl_rx_handler`.  The state is that of the main-thread RX job
(`handled` records the frames given to `bbl_rx_handler`); the writing of the
capture file is not modelled. -/
def io_thread_main_rx_job (K : io_consts) (E : io_rx_env) :
    List bbl_txq_slot_t → io_rx_state → io_rx_state
  | [], s => s
  | slot :: rest, s =>
    let s : io_rx_state :=
      match E.decode_ethernet slot.packet slot.packet_len with
      | io_decode_result.success eth =>
        { s with
          handled := s.handled ++
            [{ io_thread_rx_vlan K slot.vlan_tci slot.vlan_tpid eth with
               timestamp := slot.timestamp }] }
      | io_decode_result.unknown_protocol =>
        { s with io := { s.io with stats_unknown := (s.io.stats_unknown + 1) % U64 } }
      | io_decode_result.error =>
        { s with
          io := { s.io with
            stats_protocol_errors := (s.io.stats_protocol_errors + 1) % U64 } }
    io_thread_main_rx_job K E rest s

/-- A decoder that reads every packet as the same untagged frame, and a thread
environment with it in which `bbl_rx_thread` consumes nothing. -/
def io_thread_rx_env_sample : io_thread_rx_env :=
  { BBL_TXQ_BUFFER_LEN := 4000,
    packet_is_bbl := fun _ _ => true,
    decode_ethernet := fun _ _ => io_decode_result.success {},
    bbl_rx_thread := fun _ => false }

/-- The main-thread environment with the same decoder. -/
def io_rx_env_untagged : io_rx_env :=
  { decode_ethernet := fun _ _ => io_decode_result.success {} }

/-- A ring of two frames of which frame 0 holds a priority-tagged packet: the
kernel reports the TCI `0xA000` (priority 5, VLAN id 0) with the TPID
`0x8100`. -/
def ring_priority_tagged : List tpacket2_hdr :=
  [{ tp_status := 1, tp_len := 2, tp_vlan_tci := 40960, tp_vlan_tpid := 33024,
     packet := [7, 8] }, {}]

/-- The RX thread state on the ring `ring_priority_tagged` with a TXQ of the
given size and content. -/
def io_thread_rx_sample (txq_size : Nat) (txq : List bbl_txq_slot_t) : io_thread_rx_state :=
  { io := { req_tp_frame_nr := 2, ring := ring_priority_tagged },
    txq_size := txq_size, txq := txq }

/-! Section: The verification state of the streams. -/

/-- The calls that change the verification state of the streams: a received
frame given to `bbl_stream_rx`, a run of the timer job `bbl_stream_ctrl` for
the stream of a flow id (with the objects the stream points to), and a call of
`bbl_stream_reset` for the stream of a flow id. -/
inductive stream_event where
  | rx (eth : bbl_ethernet_header_t) (session : Option bbl_session_s)
  | ctrl (flow_id : Nat) (links : bbl_stream_links)
  | reset (flow_id : Nat)

/-- Whether the event is a call of `bbl_stream_reset`. -/
def stream_event.is_reset : stream_event → Bool
  | stream_event.reset _ => true
  | _ => false

/-- The global context together with the streams of the flow dictionary. -/
structure stream_world where
  ctx : bbl_ctx_s := {}
  dict : stream_flow_dict := fun _ => none

/-- The effect of one event on the context and the streams. -/
def stream_world_step (w : stream_world) : stream_event → stream_world
  | stream_event.rx eth session => { w with dict := (bbl_stream_rx w.dict eth session).1 }
  | stream_event.ctrl flow_id links =>
    match w.dict flow_id with
    | none => w
    | some stream =>
      { ctx := (bbl_stream_ctrl w.ctx links stream).1,
        dict := Function.update w.dict flow_id (some (bbl_stream_ctrl w.ctx links stream).2.2) }
  | stream_event.reset flow_id =>
    match w.dict flow_id with
    | none => w
    | some stream =>
      { w with dict := Function.update w.dict flow_id (bbl_stream_reset (some stream)) }

/-- The effect of a sequence of events, in order. -/
def stream_world_run : List stream_event → stream_world → stream_world
  | [], w => w
  | e :: es, w => stream_world_run es (stream_world_step w e)

/-- Whether a stream counts as a verified stream-traffic flow: its `verified`
flag is set and it is not session traffic. -/
def stream_verified_flag (stream : Option bbl_stream_s) : Nat :=
  match stream with
  | some s => if s.verified = true ∧ s.session_traffic = false then 1 else 0
  | none => 0

/-- The number of streams among the given flow ids that are verified and are
not session traffic. -/
def verified_streams (flows : List Nat) (dict : stream_flow_dict) : Nat :=
  (flows.map (fun f => stream_verified_flag (dict f))).sum

/-- One stream of flow 1, created and counted, nothing verified. -/
def stream_world_sample : stream_world :=
  { ctx := { stats_stream_traffic_flows := 1 }, dict := dict_of stream_bound_down }

/-! Section: Session-traffic configurations. -/

/-- The constant `UINT16_MAX` of `stdint.h`. -/
def UINT16_MAX : Nat := 65535

/-- The members of `g_ctx->config` that the last part of `bbl_stream_init`
reads (the session-traffic rates, addresses and labels) and writes (the six
session-traffic stream configurations, `none` for `NULL`).  The rates are
declared in a header that is not among the given sources; like `pps` of a
stream configuration, to which they are assigned, they are modelled as exact
non-negative rationals `_num / _den`, zero being a zero numerator. -/
structure bbl_session_traffic_s where
  session_traffic_ipv4_pps_num : Nat := 0
  session_traffic_ipv4_pps_den : Nat := 1
  session_traffic_ipv6_pps_num : Nat := 0
  session_traffic_ipv6_pps_den : Nat := 1
  session_traffic_ipv6pd_pps_num : Nat := 0
  session_traffic_ipv6pd_pps_den : Nat := 1
  session_traffic_ipv4_address : Nat := 0
  session_traffic_ipv6_address : List Nat := List.replicate 16 0
  session_traffic_ipv4_label : Nat := 0
  session_traffic_ipv6_label : Nat := 0
  stream_config_session_ipv4_up : Option bbl_stream_config_s := none
  stream_config_session_ipv4_down : Option bbl_stream_config_s := none
  stream_config_session_ipv6_up : Option bbl_stream_config_s := none
  stream_config_session_ipv6_down : Option bbl_stream_config_s := none
  stream_config_session_ipv6pd_up : Option bbl_stream_config_s := none
  stream_config_session_ipv6pd_down : Option bbl_stream_config_s := none
deriving DecidableEq

/-- The stream configuration as `calloc` returns it: every field zero. -/
def bbl_stream_config_calloc : bbl_stream_config_s := { pps_num := 0, pps_den := 1 }

/-- The block `if(g_ctx->config.session_traffic_ipv4_pps)` of `bbl_stream_init`.
The `name` of a configuration is not modelled.  On the downstream
configuration the source sets `tx_mpls1` and copies the label when the label
is not zero; a zero label leaves both fields zero, so the label field equals
the configured label in both cases. -/
def bbl_stream_init_session_traffic_ipv4 (c : bbl_session_traffic_s) :
    bbl_session_traffic_s :=
  if c.session_traffic_ipv4_pps_num ≠ 0 then
    let up : bbl_stream_config_s :=
      { bbl_stream_config_calloc with
        stream_group_id := UINT16_MAX,
        type := BBL_SUB_TYPE_IPV4,
        direction := BBL_DIRECTION_UP,
        session_traffic := true,
        pps_num := c.session_traffic_ipv4_pps_num,
        pps_den := c.session_traffic_ipv4_pps_den,
        ipv4_network_address := c.session_traffic_ipv4_address }
    let down : bbl_stream_config_s :=
      { bbl_stream_config_calloc with
        stream_group_id := UINT16_MAX,
        type := BBL_SUB_TYPE_IPV4,
        direction := BBL_DIRECTION_DOWN,
        session_traffic := true,
        pps_num := c.session_traffic_ipv4_pps_num,
        pps_den := c.session_traffic_ipv4_pps_den,
        ipv4_network_address := c.session_traffic_ipv4_address,
        tx_mpls1 := decide (c.session_traffic_ipv4_label ≠ 0),
        tx_mpls1_label := c.session_traffic_ipv4_label }
    { c with
      stream_config_session_ipv4_up := some up,
      stream_config_session_ipv4_down := some down }
  else c

/-- The block `if(g_ctx->config.session_traffic_ipv6_pps)` of
`bbl_stream_init`. -/
def bbl_stream_init_session_traffic_ipv6 (c : bbl_session_traffic_s) :
    bbl_session_traffic_s :=
  if c.session_traffic_ipv6_pps_num ≠ 0 then
    let up : bbl_stream_config_s :=
      { bbl_stream_config_calloc with
        stream_group_id := UINT16_MAX,
        type := BBL_SUB_TYPE_IPV6,
        direction := BBL_DIRECTION_UP,
        session_traffic := true,
        pps_num := c.session_traffic_ipv6_pps_num,
        pps_den := c.session_traffic_ipv6_pps_den,
        ipv6_network_address := c.session_traffic_ipv6_address }
    let down : bbl_stream_config_s :=
      { bbl_stream_config_calloc with
        stream_group_id := UINT16_MAX,
        type := BBL_SUB_TYPE_IPV6,
        direction := BBL_DIRECTION_DOWN,
        session_traffic := true,
        pps_num := c.session_traffic_ipv6_pps_num,
        pps_den := c.session_traffic_ipv6_pps_den,
        ipv6_network_address := c.session_traffic_ipv6_address,
        tx_mpls1 := decide (c.session_traffic_ipv6_label ≠ 0),
        tx_mpls1_label := c.session_traffic_ipv6_label }
    { c with
      stream_config_session_ipv6_up := some up,
      stream_config_session_ipv6_down := some down }
  else c

/-- The block `if(g_ctx->config.session_traffic_ipv6pd_pps)` of
`bbl_stream_init`. -/
def bbl_stream_init_session_traffic_ipv6pd (c : bbl_session_traffic_s) :
    bbl_session_traffic_s :=
  if c.session_traffic_ipv6pd_pps_num ≠ 0 then
    let up : bbl_stream_config_s :=
      { bbl_stream_config_calloc with
        stream_group_id := UINT16_MAX,
        type := BBL_SUB_TYPE_IPV6PD,
        direction := BBL_DIRECTION_UP,
        session_traffic := true,
        pps_num := c.session_traffic_ipv6_pps_num,
        pps_den := c.session_traffic_ipv6_pps_den,
        ipv6_network_address := c.session_traffic_ipv6_address }
    let down : bbl_stream_config_s :=
      { bbl_stream_config_calloc with
        stream_group_id := UINT16_MAX,
        type := BBL_SUB_TYPE_IPV6PD,
        direction := BBL_DIRECTION_DOWN,
        session_traffic := true,
        pps_num := c.session_traffic_ipv6_pps_num,
        pps_den := c.session_traffic_ipv6_pps_den,
        ipv6_network_address := c.session_traffic_ipv6_address,
        tx_mpls1 := decide (c.session_traffic_ipv6_label ≠ 0),
        tx_mpls1_label := c.session_traffic_ipv6_label }
    { c with
      stream_config_session_ipv6pd_up := some up,
      stream_config_session_ipv6pd_down := some down }
  else c

/-- The last part of `bbl_stream_init`, from the comment `Add session traffic
stream configurations` on: the three blocks in order. -/
def bbl_stream_init_session_traffic (c : bbl_session_traffic_s) : bbl_session_traffic_s :=
  bbl_stream_init_session_traffic_ipv6pd
    (bbl_stream_init_session_traffic_ipv6 (bbl_stream_init_session_traffic_ipv4 c))

/-- The rate of an optional stream configuration as the pair of numerator and
denominator. -/
def config_pps (config : Option bbl_stream_config_s) : Option (Nat × Nat) :=
  config.map (fun c => (c.pps_num, c.pps_den))

/-- The type, the direction and the session-traffic mark of an optional stream
configuration. -/
def config_kind (config : Option bbl_stream_config_s) : Option (Nat × Nat × Bool) :=
  config.map (fun c => (c.type, c.direction, c.session_traffic))

/-! Section: The IS-IS P2P hello. -/

/-- The constants of the IS-IS headers that `isis_p2p_hello.c` uses; the headers
are not among the given sources. -/
structure isis_consts where
  ISIS_P2P_ADJACENCY_STATE_UP : Nat
  ISIS_P2P_ADJACENCY_STATE_INIT : Nat
  ISIS_P2P_ADJACENCY_STATE_DOWN : Nat
  ISIS_TLV_P2P_ADJACENCY_STATE : Nat
  ISIS_LEVELS : Nat
  ISIS_SYSTEM_ID_LEN : Nat
  ISIS_OFFSET_P2P_HELLO_LEVEL : Nat
  ISIS_OFFSET_P2P_HELLO_SYSTEM_ID : Nat
deriving DecidableEq

/-- One TLV of a received PDU (`isis_tlv_t`): its type and its value bytes. -/
structure isis_tlv_t where
  type : Nat := 0
  value : List Nat := []
deriving DecidableEq

/-- A received PDU (`isis_pdu_t`): its bytes, and its TLVs in the order in
which `isis_pdu_first_tlv` and `isis_pdu_next_tlv` (not among the given
sources) return them. -/
structure isis_pdu_t where
  pdu : List Nat := []
  tlvs : List isis_tlv_t := []
deriving DecidableEq

/-- The fields of the peer of an adjacency (`isis_peer_t`) that the handler
writes. -/
structure isis_peer_t where
  level : Nat := 0
  system_id : List Nat := []
deriving DecidableEq

/-- The fields of the P2P adjacency (`isis_adjacency_p2p_t`) that the handler
reads or writes; `stats_hello_rx` is `stats.hello_rx`, whose width is not
modelled, and `peer` is the object `adjacency->peer` points to. -/
structure isis_adjacency_p2p_t where
  state : Nat := 0
  timeout : Nat := 0
  stats_hello_rx : Nat := 0
  peer : isis_peer_t := {}
deriving DecidableEq

/-- The loop over the TLVs of `isis_p2p_hello_handler_rx`: `state` points to
the value of the last TLV of type `ISIS_TLV_P2P_ADJACENCY_STATE`. -/
def isis_p2p_hello_state (K : isis_consts) :
    List isis_tlv_t → Option (List Nat) → Option (List Nat)
  | [], state => state
  | tlv :: rest, state =>
    isis_p2p_hello_state K rest
      (if tlv.type = K.ISIS_TLV_P2P_ADJACENCY_STATE then some tlv.value else state)

/-- The source function `isis_p2p_hello_handler_rx`.  `auth_valid` is the
result of `isis_pdu_validate_auth(pdu, auth, key)` (not among the given
sources); `isis_adjacency` tells for each level index below `ISIS_LEVELS`
whether `interface->isis_adjacency[i]` is set; `adjacency` is
`interface->isis_adjacency_p2p`.  The result is the adjacency as the call leaves
it, the level indices for which `isis_adjacency_up` and `isis_lsp_self_update`
are called, in order, and whether the authentication failure is logged. -/
def isis_p2p_hello_handler_rx (K : isis_consts) (auth_valid : Bool)
    (isis_adjacency : Nat → Bool) (adjacency : Option isis_adjacency_p2p_t)
    (pdu : isis_pdu_t) : Option isis_adjacency_p2p_t × List Nat × Bool :=
  match adjacency with
  | none => (none, [], false)
  | some adjacency =>
    let adjacency := { adjacency with stats_hello_rx := adjacency.stats_hello_rx + 1 }
    let log : Bool := !auth_valid
    let adjacency := { adjacency with timeout := 0 }
    let peer : isis_peer_t :=
      { adjacency.peer with
        level := pdu.pdu.getD K.ISIS_OFFSET_P2P_HELLO_LEVEL 0 &&& 3,
        system_id :=
          (pdu.pdu.drop K.ISIS_OFFSET_P2P_HELLO_SYSTEM_ID).take K.ISIS_SYSTEM_ID_LEN }
    let adjacency := { adjacency with peer := peer }
    let state := isis_p2p_hello_state K pdu.tlvs none
    let new_state : Nat :=
      match state with
      | none => K.ISIS_P2P_ADJACENCY_STATE_UP
      | some value =>
        if value.getD 0 0 = K.ISIS_P2P_ADJACENCY_STATE_UP then K.ISIS_P2P_ADJACENCY_STATE_UP
        else if value.getD 0 0 = K.ISIS_P2P_ADJACENCY_STATE_INIT then
          K.ISIS_P2P_ADJACENCY_STATE_UP
        else if value.getD 0 0 = K.ISIS_P2P_ADJACENCY_STATE_DOWN then
          K.ISIS_P2P_ADJACENCY_STATE_INIT
        else K.ISIS_P2P_ADJACENCY_STATE_UP
    let up :=
      if adjacency.state ≠ new_state ∧ new_state = K.ISIS_P2P_ADJACENCY_STATE_UP then
        (List.range K.ISIS_LEVELS).filter (fun i => isis_adjacency i)
      else []
    (some { adjacency with state := new_state }, up, log)

/-- The values of the constants in RFC 5303 and ISO 10589: adjacency states Up
0, Initializing 1, Down 2, the TLV type 240, two levels, six bytes of system
id; the level byte of a P2P hello is at offset 8 and the system id at offset
9. -/
def isis_consts_sample : isis_consts :=
  { ISIS_P2P_ADJACENCY_STATE_UP := 0, ISIS_P2P_ADJACENCY_STATE_INIT := 1,
    ISIS_P2P_ADJACENCY_STATE_DOWN := 2, ISIS_TLV_P2P_ADJACENCY_STATE := 240,
    ISIS_LEVELS := 2, ISIS_SYSTEM_ID_LEN := 6,
    ISIS_OFFSET_P2P_HELLO_LEVEL := 8, ISIS_OFFSET_P2P_HELLO_SYSTEM_ID := 9 }

/-- A P2P hello of a level-2 system with the system id 6.6.6.6.6.6 that
announces the adjacency state Initializing. -/
def isis_hello_sample : isis_pdu_t :=
  { pdu := [131, 20, 1, 0, 17, 1, 0, 0, 2, 6, 6, 6, 6, 6, 6, 0, 30],
    tlvs := [{ type := 240, value := [1] }] }

/-- An adjacency that is down, with three hellos sent since the last one
received, whose peer is known as a level-1 system 1.1.1.1.1.1. -/
def isis_adjacency_sample : isis_adjacency_p2p_t :=
  { state := 2, timeout := 3, stats_hello_rx := 7,
    peer := { level := 1, system_id := [1, 1, 1, 1, 1, 1] } }

/-! Section: Samples and statements for the label record of the receive matcher. -/

/-- A downstream IPv4 stream of flow 1 from the stream configuration (not
session traffic), as `bbl_stream_add` creates it, whose configuration expects
the outer RX MPLS label 100. -/
def stream_down_expecting_label : bbl_stream_s :=
  { flow_id := 1, flow_seq := 1, type := 1, direction := 2,
    config := { stream_group_id := 1, type := 1, direction := 2, rx_mpls1_label := 100 } }

/-- A received IPv4 test frame of flow 1 whose BBL header has the direction up,
with the given sequence number and MPLS label stack. -/
def test_frame_up (flow_seq : Nat) (mpls : List bbl_mpls_t) : bbl_ethernet_header_t :=
  { length := 128, mpls := mpls,
    bbl := some { type := 1, sub_type := 1, direction := 1, session_id := 1,
                  outer_vlan_id := 100, inner_vlan_id := 7, flow_id := 1,
                  flow_seq := flow_seq } }

/-- The MPLS fields (`rx_mpls`, label, exp, ttl) on record for the label at
position `i` of the stack (0 the outer, 1 the inner label) once a frame has
been observed: those of the label if the frame carries one at this position,
else the fields `old` as they were. -/
def mpls_on_record (mpls : List bbl_mpls_t) (i : Nat) (old : Bool × Nat × Nat × Nat) :
    Bool × Nat × Nat × Nat :=
  match mpls.get? i with
  | some m => (true, m.label, m.exp, m.ttl)
  | none => old

/-! Section: Theorems about double arithmetic. -/

theorem log2_fuel_spec : ∀ (fuel n : Nat), n ≤ fuel → n ≠ 0 →
    2 ^ log2_fuel fuel n ≤ n ∧ n < 2 ^ (log2_fuel fuel n + 1) := by
  intro fuel
  induction fuel with
  | zero => intro n h h0; omega
  | succ f ih =>
    intro n h h0
    unfold log2_fuel
    by_cases h2 : n < 2
    · rw [if_pos h2]
      simp only [pow_zero, zero_add, pow_one]
      omega
    · rw [if_neg h2]
      obtain ⟨i1, i2⟩ := ih (n / 2) (by omega) (by omega)
      rw [pow_succ, pow_succ, pow_succ]
      rw [pow_succ] at i2
      omega

/-- The rounding returns a fraction with a denominator that is not zero. -/
theorem double_round_den (num den : Nat) : (double_round num den).den ≠ 0 := by
  unfold double_round
  split_ifs
  · simp
  · simp only []
    exact Nat.pos_iff_ne_zero.mp (Nat.pow_pos (by decide))

/-- The rounding is exact on the integers below `2^53`: for `num / den = k` it
returns a fraction of value `k`. -/
theorem double_round_exact (num den k : Nat) (hden : den ≠ 0) (hk : k < 2 ^ 53)
    (h : num = k * den) :
    (double_round num den).num = k * (double_round num den).den := by
  unfold double_round
  by_cases h0 : num = 0
  · rw [if_pos h0]
    have : k = 0 := by
      rw [h0] at h
      rcases Nat.mul_eq_zero.mp h.symm with h1 | h1
      · exact h1
      · exact absurd h1 hden
    simp [this]
  · rw [if_neg h0]
    simp only []
    obtain ⟨a1, a2⟩ := log2_fuel_spec num num (le_refl _) h0
    obtain ⟨b1, b2⟩ := log2_fuel_spec den den (le_refl _) hden
    generalize log2_fuel num num = a at a1 a2 ⊢
    generalize log2_fuel den den = b at b1 b2 ⊢
    -- the shift down ends at zero
    have hab : a ≤ 53 + b := by
      by_contra hc
      have h1 : 2 ^ (54 + b) ≤ 2 ^ a := Nat.pow_le_pow_right (by decide) (by omega)
      have h2 : num < 2 ^ 53 * 2 ^ (b + 1) := by
        rw [h]
        exact Nat.mul_lt_mul'' hk b2
      rw [← pow_add] at h2
      have h3 : 53 + (b + 1) = 54 + b := by omega
      rw [h3] at h2
      omega
    have hd : (if (decide (num * 2 ^ (52 + b - a) < den * 2 ^ (52 + (a - (52 + b)))) = true ∧
        a - (52 + b) ≠ 0) then a - (52 + b) - 1 else a - (52 + b)) = 0 := by
      by_cases hc : a ≤ 52 + b
      · have : a - (52 + b) = 0 := by omega
        rw [this]
        simp
      · have e1 : a - (52 + b) = 1 := by omega
        have e2 : 52 + b - a = 0 := by omega
        rw [e1, e2]
        have hlow : num * 2 ^ 0 < den * 2 ^ (52 + 1) := by
          rw [pow_zero, Nat.mul_one, h, Nat.mul_comm k den]
          exact Nat.mul_lt_mul_of_pos_left hk (Nat.pos_of_ne_zero hden)
        have hlow2 : num < den * 9007199254740992 := by
          rw [pow_zero, Nat.mul_one] at hlow
          exact hlow
        simp [hlow2]
    rw [hd]
    simp only [pow_zero, Nat.mul_one]
    generalize min (if (decide (num * 2 ^ (52 + b - a) < den * 2 ^ (52 + (a - (52 + b)))) = true ∧
        a - (52 + b) = 0) then 52 + b - a + 1 else 52 + b - a) 1074 = u
    have hdiv : num * 2 ^ u / den = k * 2 ^ u := by
      rw [h, Nat.mul_right_comm]
      exact Nat.mul_div_cancel _ (Nat.pos_of_ne_zero hden)
    have hmod : num * 2 ^ u % den = 0 := by
      rw [h, Nat.mul_right_comm]
      exact Nat.mul_mod_left _ _
    rw [hdiv, hmod]
    have hden0 : 0 < den := Nat.pos_of_ne_zero hden
    rw [if_neg (by omega)]

/-- The conversion of an integer below `2^53` to `double` and back is the
identity. -/
theorem double_of_nat_exact (n : Nat) (hn : n < 2 ^ 53) :
    (double_of_nat n).num = n * (double_of_nat n).den :=
  double_round_exact n 1 n (by decide) hn (by rw [Nat.mul_one])

/-- The sum of two doubles whose values are integers with a sum below `2^53`
is that sum. -/
theorem double_add_exact (x y : c_double) (j k : Nat) (hx : x.num = j * x.den)
    (hy : y.num = k * y.den) (hxd : x.den ≠ 0) (hyd : y.den ≠ 0) (hjk : j + k < 2 ^ 53) :
    double_to_uint (double_add x y) = j + k := by
  have h := double_round_exact (x.num * y.den + y.num * x.den) (x.den * y.den) (j + k)
    (Nat.mul_ne_zero hxd hyd) hjk (by rw [hx, hy]; ring)
  unfold double_to_uint double_add
  rw [h]
  exact Nat.mul_div_cancel _ (Nat.pos_of_ne_zero (double_round_den _ _))

/-- For a stream with an integer `pps` and a sum below `2^32` the credit
`thread->pps_reserved += pps` is the exact sum. -/
theorem pps_reserved_add_int (pps_reserved : Nat) (config : bbl_stream_config_s)
    (hden : config.pps_den = 1) (hfit : pps_reserved + config.pps_num < U32) :
    pps_reserved_add pps_reserved config = pps_reserved + config.pps_num := by
  have h32 : U32 < 2 ^ 53 := by decide
  unfold pps_reserved_add
  rw [double_add_exact (double_of_nat pps_reserved)
    (double_round config.pps_num config.pps_den) pps_reserved config.pps_num
    (double_of_nat_exact pps_reserved (by omega))
    (double_round_exact config.pps_num config.pps_den config.pps_num (by rw [hden]; decide)
      (by omega) (by rw [hden, Nat.mul_one]))
    (double_round_den _ _) (double_round_den _ _) (by omega)]
  exact Nat.mod_eq_of_lt hfit

/-! Section: Theorems about the sendability gate. -/

/-- A little-endian word is zero exactly when all its bytes are zero. -/
theorem le_value_eq_zero_iff (l : List Nat) : le_value l = 0 ↔ ∀ b ∈ l, b = 0 := by
  induction l with
  | nil => simp [le_value]
  | cons b bs ih => simp [le_value, ih]

/-- The word test on an address holds exactly when one of its first eight bytes is
not zero. -/
theorem ipv6_word0_ne_zero_iff (addr : List Nat) :
    ipv6_word0 addr ≠ 0 ↔ ∃ b ∈ addr.take 8, b ≠ 0 := by
  unfold ipv6_word0
  rw [Ne, le_value_eq_zero_iff]
  push_neg
  rfl

set_option maxHeartbeats 2000000 in
/-- The three ways `bbl_stream_can_send` ends once the init phase is over:
`true` with the stream untouched, or `false` through the label `FREE:`, with or
without a reset taking effect first. -/
theorem can_send_after_init (K : bbl_consts) (session : Option bbl_session_s)
    (stream : bbl_stream_s) :
    (stream.reset = false ∧ bbl_stream_can_send K false session stream = (stream, true)) ∨
    bbl_stream_can_send K false session stream =
      (bbl_stream_can_send_FREE stream, false) ∨
    (stream.reset = true ∧ bbl_stream_can_send K false session stream =
      (bbl_stream_can_send_FREE { stream with reset := false, flow_seq := 1 }, false)) := by
  generalize hr : bbl_stream_can_send K false session stream = r
  unfold bbl_stream_can_send at hr
  simp only [Bool.false_eq_true, if_false] at hr
  cases session with
  | none =>
    simp only at hr
    split_ifs at hr with h1 h2 <;> rw [← hr]
    · exact Or.inr (Or.inr ⟨h1, by with_reducible rfl⟩)
    · exact Or.inl ⟨by simpa using h1, by with_reducible rfl⟩
    · exact Or.inr (Or.inl (by with_reducible rfl))
  | some s =>
    simp only at hr
    split_ifs at hr with h1 <;> rw [← hr]
    all_goals first
      | exact Or.inl ⟨by simpa using h1, by with_reducible rfl⟩
      | exact Or.inr (Or.inl (by with_reducible rfl))
      | exact Or.inr (Or.inr ⟨h1, by with_reducible rfl⟩)

/-- C5 (as amended): `bbl_stream_can_send` returns true exactly when the init
phase is over, the reset flag is clear, and the stream is raw or its session is
established and, for PPPoE, not an L2TP session without L2TP session pointer,
and the prerequisite of its access and stream type holds, where an address
counts as present when its first eight bytes are not all zero and DHCPv6 as
bound when its state is at least bound. -/
theorem can_send_iff (K : bbl_consts)
    (hK : K.ACCESS_TYPE_PPPOE ≠ K.ACCESS_TYPE_IPOE) (g_init_phase : Bool)
    (session : Option bbl_session_s) (stream : bbl_stream_s) :
    (bbl_stream_can_send K g_init_phase session stream).2 = true ↔
      g_init_phase = false ∧ stream.reset = false ∧
      (stream.config.stream_group_id = 0 ∨
        ∃ s, session = some s ∧ s.session_state = K.BBL_ESTABLISHED ∧
          ((s.access_type = K.ACCESS_TYPE_PPPOE ∧
              ¬ (s.l2tp = true ∧ s.l2tp_session = none) ∧
              ((stream.config.type = BBL_SUB_TYPE_IPV4 ∧
                  s.ipcp_state = K.BBL_PPP_OPENED) ∨
               (stream.config.type = BBL_SUB_TYPE_IPV6 ∧
                  s.ip6cp_state = K.BBL_PPP_OPENED ∧ s.icmpv6_ra_received = true ∧
                  ∃ b ∈ s.ipv6_address.take 8, b ≠ 0) ∨
               (stream.config.type = BBL_SUB_TYPE_IPV6PD ∧
                  s.ip6cp_state = K.BBL_PPP_OPENED ∧ s.icmpv6_ra_received = true ∧
                  (∃ b ∈ s.delegated_ipv6_address.take 8, b ≠ 0) ∧
                  K.BBL_DHCP_BOUND ≤ s.dhcpv6_state))) ∨
           (s.access_type = K.ACCESS_TYPE_IPOE ∧
              ((stream.config.type = BBL_SUB_TYPE_IPV4 ∧ s.ip_address ≠ 0) ∨
               (stream.config.type = BBL_SUB_TYPE_IPV6 ∧
                  s.icmpv6_ra_received = true ∧
                  ∃ b ∈ s.ipv6_address.take 8, b ≠ 0) ∨
               (stream.config.type = BBL_SUB_TYPE_IPV6PD ∧
                  s.icmpv6_ra_received = true ∧
                  (∃ b ∈ s.delegated_ipv6_address.take 8, b ≠ 0) ∧
                  K.BBL_DHCP_BOUND ≤ s.dhcpv6_state))))) := by
  simp only [← ipv6_word0_ne_zero_iff]
  unfold bbl_stream_can_send
  cases session with
  | none =>
    by_cases hg : g_init_phase = true <;> by_cases hr : stream.reset = true <;>
      by_cases h0 : stream.config.stream_group_id = 0 <;> simp [hg, hr, h0]
  | some s =>
    by_cases hg : g_init_phase = true
    · simp [hg]
    by_cases hr : stream.reset = true
    · simp [hg, hr]
    by_cases h0 : stream.config.stream_group_id = 0
    · simp [hg, hr, h0]
    by_cases he : s.session_state = K.BBL_ESTABLISHED
    swap
    · simp [hg, hr, h0, he]
    by_cases hp : s.access_type = K.ACCESS_TYPE_PPPOE
    · have hi : s.access_type ≠ K.ACCESS_TYPE_IPOE := by rw [hp]; exact hK
      by_cases hl : (s.l2tp && s.l2tp_session.isNone) = true
      · have hl2 : s.l2tp = true ∧ s.l2tp_session = none := by
          simpa [Option.isNone_iff_eq_none] using hl
        simp [hg, hr, h0, he, hp, hl, hl2, hK]
      · have hl2 : ¬ (s.l2tp = true ∧ s.l2tp_session = none) := by
          simpa [Option.isNone_iff_eq_none] using hl
        simp only [hg, hr, h0, he, hp, hl, hl2, hK]
        by_cases t4 : stream.config.type = BBL_SUB_TYPE_IPV4
        · simp [t4, BBL_SUB_TYPE_IPV4, BBL_SUB_TYPE_IPV6, BBL_SUB_TYPE_IPV6PD]
          split_ifs <;> simp_all
        by_cases t6 : stream.config.type = BBL_SUB_TYPE_IPV6
        · simp [t6, BBL_SUB_TYPE_IPV4, BBL_SUB_TYPE_IPV6, BBL_SUB_TYPE_IPV6PD]
          split_ifs <;> simp_all
        by_cases tp : stream.config.type = BBL_SUB_TYPE_IPV6PD
        · simp [tp, BBL_SUB_TYPE_IPV4, BBL_SUB_TYPE_IPV6, BBL_SUB_TYPE_IPV6PD]
          split_ifs <;> simp_all
        simp [t4, t6, tp]
    · by_cases hi : s.access_type = K.ACCESS_TYPE_IPOE
      swap
      · simp [hg, hr, h0, he, hp, hi]
      simp only [hg, hr, h0, he, hp, hi]
      by_cases t4 : stream.config.type = BBL_SUB_TYPE_IPV4
      · simp [t4, BBL_SUB_TYPE_IPV4, BBL_SUB_TYPE_IPV6, BBL_SUB_TYPE_IPV6PD]
        split_ifs <;> simp_all
      by_cases t6 : stream.config.type = BBL_SUB_TYPE_IPV6
      · simp [t6, BBL_SUB_TYPE_IPV4, BBL_SUB_TYPE_IPV6, BBL_SUB_TYPE_IPV6PD]
        split_ifs <;> simp_all
        aesop
      by_cases tp : stream.config.type = BBL_SUB_TYPE_IPV6PD
      · simp [tp, BBL_SUB_TYPE_IPV4, BBL_SUB_TYPE_IPV6, BBL_SUB_TYPE_IPV6PD]
        split_ifs <;> simp_all
      simp [t4, t6, tp]

/-- The gate characterisation applied to an established PPPoE session with IPCP
opened and an IPv4 stream: the gate is open. -/
theorem can_send_iff_witness :
    sample_consts.ACCESS_TYPE_PPPOE ≠ sample_consts.ACCESS_TYPE_IPOE ∧
    (bbl_stream_can_send sample_consts false (some session_pppoe_ipv4)
      stream_bound_ipv4).2 = true :=
  ⟨by decide,
   (can_send_iff sample_consts (by decide) false (some session_pppoe_ipv4)
      stream_bound_ipv4).mpr (by
        refine ⟨rfl, rfl, Or.inr ⟨session_pppoe_ipv4, rfl, rfl, Or.inl ⟨rfl, ?_, Or.inl ⟨rfl, rfl⟩⟩⟩⟩
        decide)⟩

/-- C5 (as stated) fails: for a PPPoE session with IPCP opened whose L2TP
session pointer is still `NULL`, and for an IPoE session whose non-zero IPv6
address has a zero first word, the stated condition holds and
`bbl_stream_can_send` returns false. -/
theorem can_send_as_specified_counterexample :
    (can_send_as_specified sample_consts false (some session_l2tp_pending)
        stream_bound_ipv4 = true ∧
      (bbl_stream_can_send sample_consts false (some session_l2tp_pending)
        stream_bound_ipv4).2 = false) ∧
    (can_send_as_specified sample_consts false (some session_ipoe_low_address)
        { stream_bound_ipv4 with config := { stream_group_id := 1, type := 2 } } = true ∧
      (bbl_stream_can_send sample_consts false (some session_ipoe_low_address)
        { stream_bound_ipv4 with config := { stream_group_id := 1, type := 2 } }).2 = false) := by
  decide

/-- C10 (as amended): once the init phase is over, whenever
`bbl_stream_can_send` returns false for a stream that holds a template, the
template is released (`buf = NULL`, `tx_len = 0`) and `send_window_packets` is
0 afterwards. -/
theorem can_send_false_releases_template (K : bbl_consts)
    (session : Option bbl_session_s) (stream : bbl_stream_s)
    (hbuf : stream.buf.isSome = true)
    (hret : (bbl_stream_can_send K false session stream).2 = false) :
    (bbl_stream_can_send K false session stream).1.buf = none ∧
    (bbl_stream_can_send K false session stream).1.tx_len = 0 ∧
    (bbl_stream_can_send K false session stream).1.send_window_packets = 0 := by
  rcases can_send_after_init K session stream with ⟨_, h⟩ | h | ⟨_, h⟩
  · rw [h] at hret; cases hret
  · rw [h]; simp [bbl_stream_can_send_FREE, hbuf]
  · rw [h]; simp [bbl_stream_can_send_FREE, hbuf]

/-- The release applied to a stream with a template whose PPPoE session waits
for its L2TP session. -/
theorem can_send_false_releases_template_witness :
    (bbl_stream_can_send sample_consts false (some session_l2tp_pending)
        stream_bound_ipv4).1.buf = none ∧
    (bbl_stream_can_send sample_consts false (some session_l2tp_pending)
        stream_bound_ipv4).1.tx_len = 0 ∧
    (bbl_stream_can_send sample_consts false (some session_l2tp_pending)
        stream_bound_ipv4).1.send_window_packets = 0 :=
  can_send_false_releases_template sample_consts (some session_l2tp_pending)
    stream_bound_ipv4 (by decide) (by decide)

/-- C10 (as stated) fails: during the init phase `bbl_stream_can_send` returns
false at once and a stream that holds a template keeps it, with its `tx_len`
and `send_window_packets`. -/
theorem can_send_init_phase_counterexample :
    (bbl_stream_can_send sample_consts true (some session_pppoe_ipv4)
        stream_bound_ipv4).2 = false ∧
    (bbl_stream_can_send sample_consts true (some session_pppoe_ipv4)
        stream_bound_ipv4).1.buf = some (List.replicate 48 0) ∧
    (bbl_stream_can_send sample_consts true (some session_pppoe_ipv4)
        stream_bound_ipv4).1.tx_len = 48 ∧
    (bbl_stream_can_send sample_consts true (some session_pppoe_ipv4)
        stream_bound_ipv4).1.send_window_packets = 3 := by
  decide

/-! Section: Theorems about rate pacing and the transmit job. -/

/-- The packets due in an open send window before the packet limit applies. -/
theorem send_window_pace_le (ctx : bbl_ctx_s) (stream : bbl_stream_s) (now : timespec) :
    (bbl_stream_send_window_pace ctx stream now).2 ≤ max ctx.io_stream_max_ppi 1 := by
  unfold bbl_stream_send_window_pace U64
  by_cases hn : stream.send_window_packets = 0
  · simp only [hn, if_true]
    split_ifs <;> simp
    omega
  · simp only [hn, if_false]
    split_ifs <;> simp <;> omega

/-- The window returned by `bbl_stream_send_window` is at most the burst cap, or 1
for a cap of 0. -/
theorem send_window_le (ctx : bbl_ctx_s) (stream : bbl_stream_s) (now : timespec) :
    (bbl_stream_send_window ctx stream now).2 ≤ max ctx.io_stream_max_ppi 1 := by
  unfold bbl_stream_send_window
  split_ifs
  · simp
  · exact send_window_pace_le ctx stream now
  · simp
  · exact send_window_pace_le ctx stream now

/-- The pacing half of `bbl_stream_send_window` changes at most `send_window_start`. -/
theorem send_window_pace_frame (ctx : bbl_ctx_s) (stream : bbl_stream_s) (now : timespec) :
    ∃ t, (bbl_stream_send_window_pace ctx stream now).1 =
      { stream with send_window_start := t } := by
  unfold bbl_stream_send_window_pace
  by_cases hn : stream.send_window_packets = 0
  · simp only [hn, if_true]
    split_ifs <;> exact ⟨_, rfl⟩
  · simp only [hn, if_false]
    split_ifs <;> exact ⟨_, rfl⟩

/-- The function `bbl_stream_send_window` changes at most `wait`, `wait_start` and
`send_window_start`. -/
theorem send_window_frame (ctx : bbl_ctx_s) (stream : bbl_stream_s) (now : timespec) :
    ∃ w ws t, (bbl_stream_send_window ctx stream now).1 =
      { stream with wait := w, wait_start := ws, send_window_start := t } := by
  unfold bbl_stream_send_window
  split_ifs
  · exact ⟨_, _, _, rfl⟩
  · obtain ⟨t, ht⟩ := send_window_pace_frame ctx stream now
    exact ⟨_, _, t, ht⟩
  · exact ⟨_, _, _, rfl⟩
  · obtain ⟨t, ht⟩ := send_window_pace_frame ctx stream now
    exact ⟨_, _, t, ht⟩

/-- The pacing half of `bbl_stream_send_window` never grants more than the packets
left under `max_packets`. -/
theorem send_window_pace_limit (ctx : bbl_ctx_s) (stream : bbl_stream_s) (now : timespec)
    (hN : stream.config.max_packets ≠ 0)
    (hle : stream.packets_tx ≤ stream.config.max_packets)
    (h64 : stream.config.max_packets + max ctx.io_stream_max_ppi 1 < U64) :
    stream.packets_tx + (bbl_stream_send_window_pace ctx stream now).2 ≤
      stream.config.max_packets := by
  have hb := send_window_pace_le ctx stream now
  revert hb
  unfold bbl_stream_send_window_pace
  unfold U64 at *
  by_cases hn : stream.send_window_packets = 0
  · simp only [hn, if_true]
    split_ifs <;> simp <;> omega
  · simp only [hn, if_false]
    split_ifs <;> simp <;> omega

/-- The function `bbl_stream_send_window` never grants more than the packets left
under `max_packets`. -/
theorem send_window_limit (ctx : bbl_ctx_s) (stream : bbl_stream_s) (now : timespec)
    (hN : stream.config.max_packets ≠ 0)
    (hle : stream.packets_tx ≤ stream.config.max_packets)
    (h64 : stream.config.max_packets + max ctx.io_stream_max_ppi 1 < U64) :
    stream.packets_tx + (bbl_stream_send_window ctx stream now).2 ≤
      stream.config.max_packets := by
  unfold bbl_stream_send_window
  split_ifs
  · simpa using hle
  · exact send_window_pace_limit ctx stream now hN hle h64
  · simpa using hle
  · exact send_window_pace_limit ctx stream now hN hle h64

/-- The value of `bbl_stream_send_window` in an open window without start delay or
packet limit. -/
theorem send_window_open_value (ctx : bbl_ctx_s) (stream : bbl_stream_s) (now : timespec)
    (hn : stream.send_window_packets ≠ 0)
    (hdelay : stream.config.start_delay = 0 ∨ stream.packets_tx ≠ 0 ∨
      (stream.wait = true ∧
        ¬ (timespec_sub now stream.wait_start).tv_sec < (stream.config.start_delay : Int)))
    (hmax : stream.config.max_packets = 0) :
    bbl_stream_send_window ctx stream now =
      (stream,
        if packets_expected stream.config (timespec_sub now stream.send_window_start) >
            stream.send_window_packets then
          min (packets_expected stream.config (timespec_sub now stream.send_window_start) -
            stream.send_window_packets) ctx.io_stream_max_ppi
        else min 1 ctx.io_stream_max_ppi) := by
  have hp : bbl_stream_send_window_pace ctx stream now =
      (stream,
        if packets_expected stream.config (timespec_sub now stream.send_window_start) >
            stream.send_window_packets then
          min (packets_expected stream.config (timespec_sub now stream.send_window_start) -
            stream.send_window_packets) ctx.io_stream_max_ppi
        else min 1 ctx.io_stream_max_ppi) := by
    unfold bbl_stream_send_window_pace
    simp only [hn, if_false, hmax, ne_eq, not_true_eq_false, false_and]
    split_ifs <;> simp <;> omega
  unfold bbl_stream_send_window
  rcases hdelay with h | h | ⟨hw, h⟩
  · simp [h, hp]
  · simp [h, hp]
  · by_cases hc : stream.config.start_delay ≠ 0 ∧ stream.packets_tx = 0
    · simp only [hc, hw, h, if_true, if_false, and_self, ne_eq, not_false_eq_true]
      simpa using hp
    · simp only [hc, if_false]
      exact hp

/-- An `n`-byte image has `n` bytes. -/
theorem length_le_bytes (n v : Nat) : (le_bytes n v).length = n := by
  induction n generalizing v with
  | zero => rfl
  | succ n ih => simp [le_bytes, ih]

/-- Reading back an `n`-byte image gives the value modulo `256^n`. -/
theorem le_value_le_bytes (n v : Nat) : le_value (le_bytes n v) = v % 256 ^ n := by
  induction n generalizing v with
  | zero => simp [le_bytes, le_value, Nat.mod_one]
  | succ n ih =>
    simp only [le_bytes, le_value, ih]
    rw [pow_succ, Nat.mul_comm (256 ^ n) 256, Nat.mod_mul]

/-- A store inside the buffer keeps its length. -/
theorem length_poke (buf : List Nat) (off : Nat) (bytes : List Nat)
    (h : off + bytes.length ≤ buf.length) : (poke buf off bytes).length = buf.length := by
  simp only [poke, List.length_append, List.length_take, List.length_drop]
  omega

/-- A load at the offset of a store reads the stored bytes. -/
theorem peek_poke_same (buf : List Nat) (off : Nat) (bytes : List Nat)
    (h : off + bytes.length ≤ buf.length) :
    peek (poke buf off bytes) off bytes.length = le_value bytes := by
  have h1 : (buf.take off).length = off := by
    simp only [List.length_take]; omega
  unfold peek poke
  rw [List.append_assoc, List.drop_append_eq_append_drop, h1, Nat.sub_self, List.drop_zero,
    List.drop_eq_nil_of_le (le_of_eq h1), List.nil_append, List.take_left']
  rfl

/-- A load inside a prefix of the buffer reads the same bytes. -/
theorem peek_take (buf : List Nat) (k off n : Nat) (h : off + n ≤ k) :
    peek (buf.take k) off n = peek buf off n := by
  unfold peek
  rw [List.drop_take, List.take_take, Nat.min_eq_left (by omega)]

/-- The packet handed to `io_send` after the patch of `flow_seq` carries that
`flow_seq`. -/
theorem flow_seq_of_sent (b : List Nat) (tx_len fs : Nat) (h16 : 16 ≤ tx_len)
    (hlen : tx_len ≤ b.length) (hfs : fs < U64) :
    bbl_flow_seq ((poke b (tx_len - 16) (le_bytes 8 fs)).take tx_len) = fs := by
  have hl : (poke b (tx_len - 16) (le_bytes 8 fs)).length = b.length :=
    length_poke b (tx_len - 16) (le_bytes 8 fs) (by rw [length_le_bytes]; omega)
  have ht : ((poke b (tx_len - 16) (le_bytes 8 fs)).take tx_len).length = tx_len := by
    rw [List.length_take, hl]; omega
  unfold bbl_flow_seq
  rw [ht, peek_take _ _ _ _ (by omega)]
  have := peek_poke_same b (tx_len - 16) (le_bytes 8 fs) (by rw [length_le_bytes]; omega)
  rw [length_le_bytes] at this
  rw [this, le_value_le_bytes]
  unfold U64 at hfs
  omega

/-- The send loop on a usable template: the accepted packets carry consecutive
sequence numbers from `stream.flow_seq`, and the counters advance by their
number. -/
theorem tx_loop_spec (io_send : Nat → Bool) (packets : Nat) :
    ∀ (calls : Nat) (stream : bbl_stream_s) (b : List Nat),
      stream.buf = some b → 16 ≤ stream.tx_len → stream.tx_len ≤ b.length →
      stream.flow_seq < U64 → stream.packets_tx < U64 →
      ((bbl_stream_tx_loop io_send packets calls stream).2.map bbl_flow_seq =
          (List.range (bbl_stream_tx_loop io_send packets calls stream).2.length).map
            (fun i => (stream.flow_seq + i) % U64)) ∧
      (bbl_stream_tx_loop io_send packets calls stream).2.length ≤ packets ∧
      ∃ b' n, b'.length = b.length ∧
        (bbl_stream_tx_loop io_send packets calls stream).1 =
          { stream with
            buf := some b',
            send_window_packets := n,
            packets_tx := (stream.packets_tx +
              (bbl_stream_tx_loop io_send packets calls stream).2.length) % U64,
            flow_seq := (stream.flow_seq +
              (bbl_stream_tx_loop io_send packets calls stream).2.length) % U64 } := by
  induction packets with
  | zero =>
    intro calls stream b hb h16 hlen hfs hptx
    simp only [bbl_stream_tx_loop, List.map_nil, List.length_nil, List.range_zero,
      le_refl, true_and, Nat.add_zero]
    refine ⟨b, stream.send_window_packets, rfl, ?_⟩
    rw [Nat.mod_eq_of_lt hfs, Nat.mod_eq_of_lt hptx, ← hb]
  | succ p ih =>
    intro calls stream b hb h16 hlen hfs hptx
    have hl : (poke b (stream.tx_len - 16) (le_bytes 8 stream.flow_seq)).length = b.length :=
      length_poke b _ _ (by rw [length_le_bytes]; omega)
    simp only [bbl_stream_tx_loop, hb]
    by_cases hio : io_send calls = true
    · simp only [hio, if_true]
      have hm : ∀ x : Nat, x % U64 < U64 := fun x => Nat.mod_lt _ (by unfold U64; omega)
      obtain ⟨h1, h2, b', n, hb', h3⟩ := ih (calls + 1)
        { stream with
          buf := some (poke b (stream.tx_len - 16) (le_bytes 8 stream.flow_seq)),
          send_window_packets := (stream.send_window_packets + 1) % U64,
          packets_tx := (stream.packets_tx + 1) % U64,
          flow_seq := (stream.flow_seq + 1) % U64 }
        (poke b (stream.tx_len - 16) (le_bytes 8 stream.flow_seq)) rfl h16
        (by rw [hl]; exact hlen) (hm _) (hm _)
      refine ⟨?_, ?_, b', n, by rw [hb', hl], ?_⟩
      · simp only [List.map_cons, List.length_cons, List.range_succ_eq_map, h1,
          List.map_map, Nat.add_zero]
        rw [flow_seq_of_sent b stream.tx_len stream.flow_seq h16 hlen hfs,
          Nat.mod_eq_of_lt hfs]
        congr 1
        apply List.map_congr_left
        intro i _
        simp only [Function.comp, U64]
        omega
      · simp only [List.length_cons]; omega
      · rw [h3]
        simp only [List.length_cons, U64]
        congr 1 <;> omega
    · simp only [hio, Bool.false_eq_true, if_false, List.map_nil, List.length_nil,
        List.range_zero, Nat.zero_le, true_and, Nat.add_zero]
      refine ⟨_, stream.send_window_packets, hl, ?_⟩
      rw [Nat.mod_eq_of_lt hfs, Nat.mod_eq_of_lt hptx]

/-- During the init phase `bbl_stream_can_send` returns false and leaves the
stream untouched. -/
theorem can_send_init_phase (K : bbl_consts) (session : Option bbl_session_s)
    (stream : bbl_stream_s) :
    bbl_stream_can_send K true session stream = (stream, false) := by
  unfold bbl_stream_can_send
  simp

/-- The code at `FREE:` changes at most `buf`, `tx_len` and `send_window_packets`. -/
theorem can_send_FREE_frame (stream : bbl_stream_s) :
    ∃ bf tl, (bf = none ∨ (bf = stream.buf ∧ tl = stream.tx_len)) ∧
      bbl_stream_can_send_FREE stream =
        { stream with buf := bf, tx_len := tl, send_window_packets := 0 } := by
  unfold bbl_stream_can_send_FREE
  by_cases h : stream.buf.isSome = true
  · exact ⟨none, 0, Or.inl rfl, by simp [h]⟩
  · exact ⟨stream.buf, stream.tx_len, Or.inr ⟨rfl, rfl⟩, by simp [h]⟩

/-- The code at `FREE:` leaves no template. -/
theorem can_send_FREE_buf_none (stream : bbl_stream_s) :
    ∃ tl, bbl_stream_can_send_FREE stream =
      { stream with buf := none, tx_len := tl, send_window_packets := 0 } := by
  unfold bbl_stream_can_send_FREE
  cases h : stream.buf with
  | none => exact ⟨stream.tx_len, by simp [h]⟩
  | some b => exact ⟨0, by simp [h]⟩

/-- With a template at hand the job either closes the send window or enters the
send part. -/
theorem tx_job_paced_cases (ctx : bbl_ctx_s) (e : tx_env) (stream : bbl_stream_s) :
    bbl_stream_tx_job_paced ctx e stream = ({ stream with send_window_packets := 0 }, []) ∨
    bbl_stream_tx_job_paced ctx e stream = bbl_stream_tx_job_send ctx e stream := by
  unfold bbl_stream_tx_job_paced
  cases e.session with
  | none => simp only; split_ifs <;> simp
  | some s => simp only; split_ifs <;> simp

/-- The four ways a run of `bbl_stream_tx_job` goes: init phase, a reset taking
effect, a return without sending, or the send part on a template. -/
theorem tx_job_cases (K : bbl_consts) (ctx : bbl_ctx_s) (e : tx_env) (stream : bbl_stream_s) :
    (e.g_init_phase = true ∧ bbl_stream_tx_job K ctx e stream = (stream, [])) ∨
    (e.g_init_phase = false ∧ stream.reset = true ∧ ∃ tl,
      bbl_stream_tx_job K ctx e stream =
        ({ stream with
            reset := false, flow_seq := 1, buf := none, tx_len := tl,
            send_window_packets := 0 }, [])) ∨
    (∃ bf tl n, template_of e stream bf tl ∧
      bbl_stream_tx_job K ctx e stream =
        ({ stream with buf := bf, tx_len := tl, send_window_packets := n }, [])) ∨
    (stream.reset = false ∧ ∃ b tl, template_of e stream (some b) tl ∧
      bbl_stream_tx_job K ctx e stream =
        bbl_stream_tx_job_send ctx e { stream with buf := some b, tx_len := tl }) := by
  cases hg : e.g_init_phase with
  | true =>
    left
    refine ⟨rfl, ?_⟩
    unfold bbl_stream_tx_job
    simp [hg, can_send_init_phase]
  | false =>
    right
    rcases can_send_after_init K e.session stream with ⟨hreset, h⟩ | h | ⟨hr, h⟩
    · right
      have hjob : bbl_stream_tx_job K ctx e stream =
          (if ((if stream.buf.isNone then bbl_stream_build_packet e.build stream
                else (stream, true)).2 = false) then
            ((if stream.buf.isNone then bbl_stream_build_packet e.build stream
                else (stream, true)).1, [])
           else bbl_stream_tx_job_paced ctx e
            (if stream.buf.isNone then bbl_stream_build_packet e.build stream
                else (stream, true)).1) := by
        unfold bbl_stream_tx_job
        simp only [hg, h]
        rfl
      rw [hjob]
      cases hb : stream.buf with
      | some b =>
        simp only [Option.isNone_some, Bool.false_eq_true, Bool.true_eq_false, if_false]
        have hs : stream = { stream with buf := some b, tx_len := stream.tx_len } := by
          simp [← hb]
        rcases tx_job_paced_cases ctx e stream with hp | hp
        · left
          exact ⟨stream.buf, stream.tx_len, 0, Or.inr (Or.inl ⟨rfl, rfl⟩), by rw [hp]⟩
        · right
          refine ⟨hreset, b, stream.tx_len, Or.inr (Or.inl ⟨hb.symm, rfl⟩), ?_⟩
          rw [hp, ← hs]
      | none =>
        simp only [Option.isNone_none, if_true]
        cases hbuild : e.build with
        | refused =>
          left
          refine ⟨stream.buf, stream.tx_len, stream.send_window_packets,
            Or.inr (Or.inl ⟨rfl, rfl⟩), ?_⟩
          simp [bbl_stream_build_packet]
        | encode_error =>
          left
          refine ⟨none, 0, stream.send_window_packets, Or.inl rfl, ?_⟩
          simp [bbl_stream_build_packet]
        | built bytes =>
          simp only [bbl_stream_build_packet, Bool.true_eq_false, if_false]
          rcases tx_job_paced_cases ctx e
            { stream with buf := some bytes, tx_len := bytes.length } with hp | hp
          · left
            exact ⟨some bytes, bytes.length, 0, Or.inr (Or.inr ⟨bytes, hbuild, rfl, rfl⟩),
              by rw [hp]⟩
          · right
            exact ⟨hreset, bytes, bytes.length, Or.inr (Or.inr ⟨bytes, hbuild, rfl, rfl⟩), hp⟩
    · right; left
      obtain ⟨bf, tl, hbf, hF⟩ := can_send_FREE_frame stream
      refine ⟨bf, tl, 0, ?_, ?_⟩
      · rcases hbf with hbf | hbf
        · exact Or.inl hbf
        · exact Or.inr (Or.inl hbf)
      · unfold bbl_stream_tx_job
        simp only [hg, h, if_true, hF]
    · left
      obtain ⟨tl, hF⟩ := can_send_FREE_buf_none { stream with reset := false, flow_seq := 1 }
      refine ⟨rfl, hr, tl, ?_⟩
      unfold bbl_stream_tx_job
      simp only [hg, h, if_true, hF]

/-- The send part on a usable template: consecutive sequence numbers, at most the
granted window, counters advanced by the number of accepted packets. -/
theorem tx_job_send_spec (ctx : bbl_ctx_s) (e : tx_env) (stream : bbl_stream_s) (b : List Nat)
    (hb : stream.buf = some b) (h16 : 16 ≤ stream.tx_len) (hlen : stream.tx_len ≤ b.length)
    (hfs : stream.flow_seq < U64) (hptx : stream.packets_tx < U64) :
    ((bbl_stream_tx_job_send ctx e stream).2.map bbl_flow_seq =
        (List.range (bbl_stream_tx_job_send ctx e stream).2.length).map
          (fun i => (stream.flow_seq + i) % U64)) ∧
    (bbl_stream_tx_job_send ctx e stream).2.length ≤
      (bbl_stream_send_window ctx stream e.now).2 ∧
    ∃ b' n, b'.length = b.length ∧
      (bbl_stream_tx_job_send ctx e stream).1 =
        { (bbl_stream_send_window ctx stream e.now).1 with
          buf := some b',
          send_window_packets := n,
          packets_tx :=
            (stream.packets_tx + (bbl_stream_tx_job_send ctx e stream).2.length) % U64,
          flow_seq :=
            (stream.flow_seq + (bbl_stream_tx_job_send ctx e stream).2.length) % U64 } := by
  obtain ⟨w, ws, t, hsw⟩ := send_window_frame ctx stream e.now
  have hjob : bbl_stream_tx_job_send ctx e stream =
      bbl_stream_tx_loop e.io_send (bbl_stream_send_window ctx stream e.now).2 0
        { (bbl_stream_send_window ctx stream e.now).1 with
          buf := some (poke (poke b (stream.tx_len - 8)
              (le_bytes 4 (e.now.tv_sec % (U32 : Int)).toNat)) (stream.tx_len - 4)
              (le_bytes 4 (e.now.tv_nsec % (U32 : Int)).toNat)) } := by
    unfold bbl_stream_tx_job_send
    simp only [hsw, hb]
  have hl1 : (poke b (stream.tx_len - 8)
      (le_bytes 4 (e.now.tv_sec % (U32 : Int)).toNat)).length = b.length :=
    length_poke _ _ _ (by rw [length_le_bytes]; omega)
  have hl2 : (poke (poke b (stream.tx_len - 8)
      (le_bytes 4 (e.now.tv_sec % (U32 : Int)).toNat)) (stream.tx_len - 4)
      (le_bytes 4 (e.now.tv_nsec % (U32 : Int)).toNat)).length = b.length := by
    rw [length_poke _ _ _ (by rw [length_le_bytes, hl1]; omega), hl1]
  rw [hjob]
  obtain ⟨h1, h2, b', n, hb', h3⟩ := tx_loop_spec e.io_send
    (bbl_stream_send_window ctx stream e.now).2 0
    { (bbl_stream_send_window ctx stream e.now).1 with
      buf := some (poke (poke b (stream.tx_len - 8)
          (le_bytes 4 (e.now.tv_sec % (U32 : Int)).toNat)) (stream.tx_len - 4)
          (le_bytes 4 (e.now.tv_nsec % (U32 : Int)).toNat)) }
    _ rfl (by rw [hsw]; exact h16) (by rw [hsw, hl2]; exact hlen)
    (by rw [hsw]; exact hfs) (by rw [hsw]; exact hptx)
  refine ⟨?_, h2, b', n, by rw [hb', hl2], ?_⟩
  · rw [h1]; simp only [hsw]
  · rw [h3]; simp only [hsw]

/-- The send loop accepts at most `packets` packets and advances `packets_tx` by
their number. -/
theorem tx_loop_counters (io_send : Nat → Bool) (packets : Nat) :
    ∀ (calls : Nat) (stream : bbl_stream_s), stream.packets_tx < U64 →
      (bbl_stream_tx_loop io_send packets calls stream).2.length ≤ packets ∧
      ∃ bf n fs,
        (bbl_stream_tx_loop io_send packets calls stream).1 =
          { stream with
            buf := bf,
            send_window_packets := n,
            packets_tx := (stream.packets_tx +
              (bbl_stream_tx_loop io_send packets calls stream).2.length) % U64,
            flow_seq := fs } := by
  induction packets with
  | zero =>
    intro calls stream hptx
    simp only [bbl_stream_tx_loop, List.length_nil, le_refl, true_and, Nat.add_zero]
    refine ⟨stream.buf, stream.send_window_packets, stream.flow_seq, ?_⟩
    rw [Nat.mod_eq_of_lt hptx]
  | succ p ih =>
    intro calls stream hptx
    cases hb : stream.buf with
    | none =>
      simp only [bbl_stream_tx_loop, hb, List.length_nil, Nat.zero_le, true_and, Nat.add_zero]
      refine ⟨none, stream.send_window_packets, stream.flow_seq, ?_⟩
      rw [Nat.mod_eq_of_lt hptx, ← hb]
    | some b =>
      simp only [bbl_stream_tx_loop, hb]
      by_cases hio : io_send calls = true
      · simp only [hio, if_true]
        obtain ⟨h2, bf, n, fs, h3⟩ := ih (calls + 1)
          { stream with
            buf := some (poke b (stream.tx_len - 16) (le_bytes 8 stream.flow_seq)),
            send_window_packets := (stream.send_window_packets + 1) % U64,
            packets_tx := (stream.packets_tx + 1) % U64,
            flow_seq := (stream.flow_seq + 1) % U64 }
          (Nat.mod_lt _ (by unfold U64; omega))
        refine ⟨?_, bf, n, fs, ?_⟩
        · simp only [List.length_cons]; omega
        · rw [h3]
          simp only [List.length_cons, U64]
          congr 1
          omega
      · simp only [hio, Bool.false_eq_true, if_false, List.length_nil, Nat.zero_le, true_and,
          Nat.add_zero]
        refine ⟨some (poke b (stream.tx_len - 16) (le_bytes 8 stream.flow_seq)),
          stream.send_window_packets, stream.flow_seq, ?_⟩
        rw [Nat.mod_eq_of_lt hptx]

/-- The send part accepts at most the granted window and advances `packets_tx` by
the number of accepted packets. -/
theorem tx_job_send_counters (ctx : bbl_ctx_s) (e : tx_env) (stream : bbl_stream_s)
    (hptx : stream.packets_tx < U64) :
    (bbl_stream_tx_job_send ctx e stream).2.length ≤
      (bbl_stream_send_window ctx stream e.now).2 ∧
    ∃ bf n fs,
      (bbl_stream_tx_job_send ctx e stream).1 =
        { (bbl_stream_send_window ctx stream e.now).1 with
          buf := bf,
          send_window_packets := n,
          packets_tx :=
            (stream.packets_tx + (bbl_stream_tx_job_send ctx e stream).2.length) % U64,
          flow_seq := fs } := by
  obtain ⟨w, ws, t, hsw⟩ := send_window_frame ctx stream e.now
  cases hb : stream.buf with
  | none =>
    have hjob : bbl_stream_tx_job_send ctx e stream =
        ((bbl_stream_send_window ctx stream e.now).1, []) := by
      unfold bbl_stream_tx_job_send
      simp only [hsw, hb]
    rw [hjob]
    simp only [List.length_nil, Nat.zero_le, true_and, Nat.add_zero]
    refine ⟨none, stream.send_window_packets, stream.flow_seq, ?_⟩
    rw [Nat.mod_eq_of_lt hptx, hsw]
    simp [hb]
  | some b =>
    have hjob : bbl_stream_tx_job_send ctx e stream =
        bbl_stream_tx_loop e.io_send (bbl_stream_send_window ctx stream e.now).2 0
          { (bbl_stream_send_window ctx stream e.now).1 with
            buf := some (poke (poke b (stream.tx_len - 8)
                (le_bytes 4 (e.now.tv_sec % (U32 : Int)).toNat)) (stream.tx_len - 4)
                (le_bytes 4 (e.now.tv_nsec % (U32 : Int)).toNat)) } := by
      unfold bbl_stream_tx_job_send
      simp only [hsw, hb]
    rw [hjob]
    obtain ⟨h2, bf, n, fs, h3⟩ := tx_loop_counters e.io_send
      (bbl_stream_send_window ctx stream e.now).2 0
      { (bbl_stream_send_window ctx stream e.now).1 with
        buf := some (poke (poke b (stream.tx_len - 8)
            (le_bytes 4 (e.now.tv_sec % (U32 : Int)).toNat)) (stream.tx_len - 4)
            (le_bytes 4 (e.now.tv_nsec % (U32 : Int)).toNat)) }
      (by rw [hsw]; exact hptx)
    refine ⟨h2, bf, n, fs, ?_⟩
    rw [h3]; simp only [hsw]

/-- One run of the job keeps the configuration and advances `packets_tx` by the
number of accepted packets, which is at most a window granted for a stream
with the same counters. -/
theorem tx_job_counters (K : bbl_consts) (ctx : bbl_ctx_s) (e : tx_env) (stream : bbl_stream_s)
    (hptx : stream.packets_tx < U64) :
    (bbl_stream_tx_job K ctx e stream).1.config = stream.config ∧
    (bbl_stream_tx_job K ctx e stream).1.packets_tx =
      (stream.packets_tx + (bbl_stream_tx_job K ctx e stream).2.length) % U64 ∧
    ((bbl_stream_tx_job K ctx e stream).2 = [] ∨
      ∃ bf tl, (bbl_stream_tx_job K ctx e stream).2.length ≤
        (bbl_stream_send_window ctx { stream with buf := bf, tx_len := tl } e.now).2) := by
  rcases tx_job_cases K ctx e stream with ⟨_, h⟩ | ⟨_, _, tl, h⟩ | ⟨bf, tl, n, _, h⟩ |
      ⟨_, b, tl, _, h⟩
  · rw [h]; simp [Nat.mod_eq_of_lt hptx]
  · rw [h]; simp [Nat.mod_eq_of_lt hptx]
  · rw [h]; simp [Nat.mod_eq_of_lt hptx]
  · obtain ⟨h1, bf, n, fs, h2⟩ := tx_job_send_counters ctx e
      { stream with buf := some b, tx_len := tl } hptx
    obtain ⟨w, ws, t, hsw⟩ := send_window_frame ctx
      { stream with buf := some b, tx_len := tl } e.now
    rw [h]
    refine ⟨?_, ?_, Or.inr ⟨some b, tl, h1⟩⟩
    · rw [h2, hsw]
    · rw [h2]

/-- The template a run works with is usable when the cached one and the built one are. -/
theorem template_of_ok (e : tx_env) (stream : bbl_stream_s) (b : List Nat) (tl : Nat)
    (h : template_of e stream (some b) tl) (htmpl : template_ok stream = true)
    (hbuild : build_ok e.build = true) : 16 ≤ tl ∧ tl ≤ b.length := by
  rcases h with h | ⟨h1, h2⟩ | ⟨bytes, h1, h2, h3⟩
  · cases h
  · unfold template_ok at htmpl
    rw [← h1] at htmpl
    rw [h2]
    simpa using htmpl
  · rw [h1] at hbuild
    cases h2
    rw [h3]
    exact ⟨by simpa [build_ok] using hbuild, le_refl _⟩

/-- Replacing the template by the one a run works with keeps the stream usable. -/
theorem template_ok_of (e : tx_env) (stream : bbl_stream_s) (bf : Option (List Nat))
    (tl n : Nat) (h : template_of e stream bf tl) (htmpl : template_ok stream = true)
    (hbuild : build_ok e.build = true) :
    template_ok { stream with buf := bf, tx_len := tl, send_window_packets := n } = true := by
  cases bf with
  | none => rfl
  | some b =>
    have := template_of_ok e stream b tl h htmpl hbuild
    simp [template_ok, this]

/-- One run of the job without pending reset: consecutive sequence numbers from
`stream.flow_seq`, and `flow_seq` advanced by the number of accepted packets. -/
theorem tx_job_spec (K : bbl_consts) (ctx : bbl_ctx_s) (e : tx_env) (stream : bbl_stream_s)
    (hreset : stream.reset = false) (htmpl : template_ok stream = true)
    (hbuild : build_ok e.build = true)
    (hfs : stream.flow_seq < U64) (hptx : stream.packets_tx < U64) :
    ((bbl_stream_tx_job K ctx e stream).2.map bbl_flow_seq =
        (List.range (bbl_stream_tx_job K ctx e stream).2.length).map
          (fun i => (stream.flow_seq + i) % U64)) ∧
    (bbl_stream_tx_job K ctx e stream).1.flow_seq =
      (stream.flow_seq + (bbl_stream_tx_job K ctx e stream).2.length) % U64 ∧
    (bbl_stream_tx_job K ctx e stream).1.reset = false ∧
    template_ok (bbl_stream_tx_job K ctx e stream).1 = true := by
  rcases tx_job_cases K ctx e stream with ⟨_, h⟩ | ⟨_, hr, _⟩ | ⟨bf, tl, n, ht, h⟩ |
      ⟨_, b, tl, ht, h⟩
  · rw [h]; simp [Nat.mod_eq_of_lt hfs, hreset, htmpl]
  · rw [hreset] at hr; cases hr
  · rw [h]
    refine ⟨by simp, by simp [Nat.mod_eq_of_lt hfs], hreset, ?_⟩
    exact template_ok_of e stream bf tl n ht htmpl hbuild
  · obtain ⟨h16, hlen⟩ := template_of_ok e stream b tl ht htmpl hbuild
    obtain ⟨h1, _, b', n, hb', h2⟩ := tx_job_send_spec ctx e
      { stream with buf := some b, tx_len := tl } b rfl h16 hlen hfs hptx
    obtain ⟨w, ws, t, hsw⟩ := send_window_frame ctx
      { stream with buf := some b, tx_len := tl } e.now
    rw [h]
    refine ⟨h1, by rw [h2], by rw [h2, hsw]; exact hreset, ?_⟩
    rw [h2, hsw]
    simp [template_ok, h16, hb', hlen]

/-- A run of ticks without pending reset: consecutive sequence numbers from
`stream.flow_seq`. -/
theorem tx_run_spec (K : bbl_consts) (ctx : bbl_ctx_s) (envs : List tx_env) :
    ∀ stream : bbl_stream_s, stream.reset = false → template_ok stream = true →
      (∀ e ∈ envs, build_ok e.build = true) →
      stream.flow_seq < U64 → stream.packets_tx < U64 →
      ((bbl_stream_tx_run K ctx envs stream).2.map bbl_flow_seq =
          (List.range (bbl_stream_tx_run K ctx envs stream).2.length).map
            (fun i => (stream.flow_seq + i) % U64)) ∧
      (bbl_stream_tx_run K ctx envs stream).1.flow_seq =
        (stream.flow_seq + (bbl_stream_tx_run K ctx envs stream).2.length) % U64 ∧
      (bbl_stream_tx_run K ctx envs stream).1.reset = false := by
  induction envs with
  | nil =>
    intro stream hreset _ _ hfs _
    simp [bbl_stream_tx_run, Nat.mod_eq_of_lt hfs, hreset]
  | cons e es ih =>
    intro stream hreset htmpl hbuild hfs hptx
    obtain ⟨h1, h2, h3, h4⟩ := tx_job_spec K ctx e stream hreset htmpl
      (hbuild e (List.mem_cons_self _ _)) hfs hptx
    have hptx' := (tx_job_counters K ctx e stream hptx).2.1
    have hm : ∀ x : Nat, x % U64 < U64 := fun x => Nat.mod_lt _ (by unfold U64; omega)
    obtain ⟨i1, i2, i3⟩ := ih (bbl_stream_tx_job K ctx e stream).1 h3 h4
      (fun e' he' => hbuild e' (List.mem_cons_of_mem _ he'))
      (by rw [h2]; exact hm _) (by rw [hptx']; exact hm _)
    simp only [bbl_stream_tx_run, List.map_append, List.length_append]
    refine ⟨?_, ?_, i3⟩
    · rw [h1, i1, List.range_add, List.map_append, List.map_map, h2]
      congr 1
      apply List.map_congr_left
      intro i _
      simp only [Function.comp, U64]
      omega
    · rw [i2, h2]
      simp only [U64]
      omega

/-- A run of ticks keeps the configuration and advances `packets_tx` by the number
of accepted packets. -/
theorem tx_run_counters (K : bbl_consts) (ctx : bbl_ctx_s) (envs : List tx_env) :
    ∀ stream : bbl_stream_s, stream.packets_tx < U64 →
      (bbl_stream_tx_run K ctx envs stream).1.config = stream.config ∧
      (bbl_stream_tx_run K ctx envs stream).1.packets_tx =
        (stream.packets_tx + (bbl_stream_tx_run K ctx envs stream).2.length) % U64 := by
  induction envs with
  | nil =>
    intro stream hptx
    simp [bbl_stream_tx_run, Nat.mod_eq_of_lt hptx]
  | cons e es ih =>
    intro stream hptx
    obtain ⟨h1, h2, _⟩ := tx_job_counters K ctx e stream hptx
    obtain ⟨i1, i2⟩ := ih (bbl_stream_tx_job K ctx e stream).1
      (by rw [h2]; exact Nat.mod_lt _ (by unfold U64; omega))
    simp only [bbl_stream_tx_run, List.length_append]
    refine ⟨by rw [i1, h1], ?_⟩
    rw [i2, h2]
    simp only [U64]
    omega

/-- A run of ticks that starts with a reset pending: nothing is sent until the
reset takes effect, and the sequence numbers then start at 1. -/
theorem tx_run_reset_pending (K : bbl_consts) (ctx : bbl_ctx_s) (envs : List tx_env) :
    ∀ stream : bbl_stream_s, stream.reset = true →
      (∀ e ∈ envs, build_ok e.build = true) → stream.packets_tx < U64 →
      ((bbl_stream_tx_run K ctx envs stream).2.map bbl_flow_seq =
          (List.range (bbl_stream_tx_run K ctx envs stream).2.length).map
            (fun i => (1 + i) % U64)) ∧
      ((bbl_stream_tx_run K ctx envs stream).1.reset = false →
        (bbl_stream_tx_run K ctx envs stream).1.flow_seq =
          (1 + (bbl_stream_tx_run K ctx envs stream).2.length) % U64) := by
  induction envs with
  | nil =>
    intro stream hreset _ _
    simp [bbl_stream_tx_run, hreset]
  | cons e es ih =>
    intro stream hreset hbuild hptx
    have hb' : ∀ e' ∈ es, build_ok e'.build = true :=
      fun e' he' => hbuild e' (List.mem_cons_of_mem _ he')
    rcases tx_job_cases K ctx e stream with ⟨_, h⟩ | ⟨_, _, tl, h⟩ | ⟨bf, tl, n, _, h⟩ |
        ⟨hr, _⟩
    · simp only [bbl_stream_tx_run, h, List.nil_append]
      exact ih stream hreset hb' hptx
    · simp only [bbl_stream_tx_run, h, List.nil_append]
      obtain ⟨i1, i2, _⟩ := tx_run_spec K ctx es
        { stream with
          reset := false, flow_seq := 1, buf := none, tx_len := tl,
          send_window_packets := 0 }
        rfl rfl hb' (by unfold U64; simp) hptx
      exact ⟨i1, fun _ => i2⟩
    · simp only [bbl_stream_tx_run, h, List.nil_append]
      exact ih { stream with buf := bf, tx_len := tl, send_window_packets := n } hreset hb' hptx
    · rw [hreset] at hr; cases hr

/-- Inside the wait window of the start delay `bbl_stream_send_window` returns 0. -/
theorem send_window_waits (ctx : bbl_ctx_s) (stream : bbl_stream_s) (now : timespec)
    (hD : stream.config.start_delay ≠ 0) (h0 : stream.packets_tx = 0)
    (hw : stream.wait = true →
      (timespec_sub now stream.wait_start).tv_sec < (stream.config.start_delay : Int)) :
    (bbl_stream_send_window ctx stream now).2 = 0 := by
  unfold bbl_stream_send_window
  cases hwait : stream.wait with
  | true => simp [hD, h0, hwait, hw hwait]
  | false => simp [hD, h0, hwait]

/-- Inside the wait window of the start delay one run of the job sends nothing. -/
theorem tx_job_waits (K : bbl_consts) (ctx : bbl_ctx_s) (e : tx_env) (stream : bbl_stream_s)
    (hD : stream.config.start_delay ≠ 0) (h0 : stream.packets_tx = 0)
    (hw : stream.wait = true →
      (timespec_sub e.now stream.wait_start).tv_sec < (stream.config.start_delay : Int)) :
    (bbl_stream_tx_job K ctx e stream).2 = [] ∧
    (bbl_stream_tx_job K ctx e stream).1.packets_tx = 0 ∧
    (bbl_stream_tx_job K ctx e stream).1.config = stream.config := by
  have hptx : stream.packets_tx < U64 := by rw [h0]; unfold U64; omega
  obtain ⟨h1, h2, h3⟩ := tx_job_counters K ctx e stream hptx
  have hnil : (bbl_stream_tx_job K ctx e stream).2 = [] := by
    rcases h3 with h3 | ⟨bf, tl, h3⟩
    · exact h3
    · rw [send_window_waits ctx { stream with buf := bf, tx_len := tl } e.now hD h0 hw] at h3
      exact List.length_eq_zero.mp (Nat.le_zero.mp h3)
  refine ⟨hnil, ?_, h1⟩
  rw [h2, hnil, h0]
  rfl

/-- A run of ticks inside the wait window of the start delay sends nothing. -/
theorem tx_run_waits (K : bbl_consts) (ctx : bbl_ctx_s) (envs : List tx_env) :
    ∀ stream : bbl_stream_s, stream.config.start_delay ≠ 0 → stream.packets_tx = 0 →
      tx_run_within_start_delay K ctx envs stream = true →
      (bbl_stream_tx_run K ctx envs stream).2 = [] := by
  induction envs with
  | nil => intro stream _ _ _; rfl
  | cons e es ih =>
    intro stream hD h0 hin
    simp only [tx_run_within_start_delay, Bool.and_eq_true, Bool.or_eq_true,
      Bool.not_eq_true', decide_eq_true_eq] at hin
    have hw : stream.wait = true →
        (timespec_sub e.now stream.wait_start).tv_sec < (stream.config.start_delay : Int) := by
      intro hwait
      rcases hin.1 with h | h
      · rw [hwait] at h; cases h
      · exact h
    obtain ⟨j1, j2, j3⟩ := tx_job_waits K ctx e stream hD h0 hw
    simp only [bbl_stream_tx_run, j1, List.nil_append]
    exact ih _ (by rw [j3]; exact hD) j2 hin.2

/-- One run of the job keeps `packets_tx` within `max_packets`. -/
theorem tx_job_max_packets (K : bbl_consts) (ctx : bbl_ctx_s) (e : tx_env)
    (stream : bbl_stream_s)
    (hN : stream.config.max_packets ≠ 0)
    (hle : stream.packets_tx ≤ stream.config.max_packets)
    (h64 : stream.config.max_packets + max ctx.io_stream_max_ppi 1 < U64) :
    (bbl_stream_tx_job K ctx e stream).1.config = stream.config ∧
    (bbl_stream_tx_job K ctx e stream).1.packets_tx =
      stream.packets_tx + (bbl_stream_tx_job K ctx e stream).2.length ∧
    (bbl_stream_tx_job K ctx e stream).1.packets_tx ≤ stream.config.max_packets := by
  have hptx : stream.packets_tx < U64 := by omega
  obtain ⟨h1, h2, h3⟩ := tx_job_counters K ctx e stream hptx
  have hlen : stream.packets_tx + (bbl_stream_tx_job K ctx e stream).2.length ≤
      stream.config.max_packets := by
    rcases h3 with h3 | ⟨bf, tl, h3⟩
    · rw [h3]; exact hle
    · have := send_window_limit ctx { stream with buf := bf, tx_len := tl } e.now hN hle h64
      simp only at this
      omega
  rw [Nat.mod_eq_of_lt (by omega)] at h2
  exact ⟨h1, h2, by rw [h2]; exact hlen⟩

/-- A run of ticks keeps `packets_tx` within `max_packets`. -/
theorem tx_run_max_packets (K : bbl_consts) (ctx : bbl_ctx_s) (envs : List tx_env) :
    ∀ stream : bbl_stream_s, stream.config.max_packets ≠ 0 →
      stream.packets_tx ≤ stream.config.max_packets →
      stream.config.max_packets + max ctx.io_stream_max_ppi 1 < U64 →
      (bbl_stream_tx_run K ctx envs stream).1.packets_tx =
        stream.packets_tx + (bbl_stream_tx_run K ctx envs stream).2.length ∧
      (bbl_stream_tx_run K ctx envs stream).1.packets_tx ≤ stream.config.max_packets := by
  induction envs with
  | nil => intro stream _ hle _; exact ⟨rfl, hle⟩
  | cons e es ih =>
    intro stream hN hle h64
    obtain ⟨j1, j2, j3⟩ := tx_job_max_packets K ctx e stream hN hle h64
    obtain ⟨i1, i2⟩ := ih (bbl_stream_tx_job K ctx e stream).1 (by rw [j1]; exact hN)
      (by rw [j1]; exact j3) (by rw [j1]; exact h64)
    rw [j1] at i2
    simp only [bbl_stream_tx_run, List.length_append]
    exact ⟨by rw [i1, j2]; omega, i2⟩

/-! Section: The claims about rate pacing and the transmit job. -/

/-- C1: counting from a stream's creation (`flow_seq = 1`) or from a pending
reset, which takes effect in `bbl_stream_can_send`, over any run of
`bbl_stream_tx_job` the packets that `io_send` accepted carry the `flow_seq`
values 1, 2, 3, ... in that order; `packets_tx` has advanced by exactly the
number of accepted packets and `flow_seq` is one more than that number, so a
failed `io_send` consumes no sequence number.  (Templates include the BBL
header, and the 64-bit counters do not wrap during the run.) -/
theorem flow_seq_sequence (K : bbl_consts) (ctx : bbl_ctx_s) (envs : List tx_env)
    (stream : bbl_stream_s)
    (hstart : stream.reset = true ∨ stream.flow_seq = 1)
    (htmpl : template_ok stream = true)
    (hbuild : ∀ e ∈ envs, build_ok e.build = true)
    (hrange : stream.packets_tx + (bbl_stream_tx_run K ctx envs stream).2.length + 1 < U64) :
    (bbl_stream_tx_run K ctx envs stream).2.map bbl_flow_seq =
      List.range' 1 (bbl_stream_tx_run K ctx envs stream).2.length ∧
    (bbl_stream_tx_run K ctx envs stream).1.packets_tx =
      stream.packets_tx + (bbl_stream_tx_run K ctx envs stream).2.length ∧
    ((bbl_stream_tx_run K ctx envs stream).1.reset = false →
      (bbl_stream_tx_run K ctx envs stream).1.flow_seq =
        1 + (bbl_stream_tx_run K ctx envs stream).2.length) := by
  have hptx : stream.packets_tx < U64 := by omega
  have hmap : (List.range (bbl_stream_tx_run K ctx envs stream).2.length).map
      (fun i => (1 + i) % U64) =
      List.range' 1 (bbl_stream_tx_run K ctx envs stream).2.length := by
    rw [List.range'_eq_map_range]
    apply List.map_congr_left
    intro i hi
    rw [List.mem_range] at hi
    exact Nat.mod_eq_of_lt (by omega)
  have hpk := (tx_run_counters K ctx envs stream hptx).2
  rw [Nat.mod_eq_of_lt (by omega)] at hpk
  refine ⟨?_, hpk, ?_⟩
  · by_cases hr : stream.reset = true
    · rw [(tx_run_reset_pending K ctx envs stream hr hbuild hptx).1, hmap]
    · have hfs : stream.flow_seq = 1 := by
        rcases hstart with h | h
        · exact absurd h hr
        · exact h
      have := (tx_run_spec K ctx envs stream (by simpa using hr) htmpl hbuild
        (by rw [hfs]; unfold U64; omega) hptx).1
      rw [hfs] at this
      rw [this, hmap]
  · intro hfin
    by_cases hr : stream.reset = true
    · rw [(tx_run_reset_pending K ctx envs stream hr hbuild hptx).2 hfin]
      exact Nat.mod_eq_of_lt (by omega)
    · have hfs : stream.flow_seq = 1 := by
        rcases hstart with h | h
        · exact absurd h hr
        · exact h
      have := (tx_run_spec K ctx envs stream (by simpa using hr) htmpl hbuild
        (by rw [hfs]; unfold U64; omega) hptx).2.1
      rw [hfs] at this
      rw [this]
      exact Nat.mod_eq_of_lt (by omega)

set_option maxRecDepth 100000 in
/-- The sequence law on a run of three ticks of a fresh raw stream, the second
of which fails in `io_send`: two packets are sent, carrying 1 and 2. -/
theorem flow_seq_sequence_witness :
    (bbl_stream_tx_run sample_consts {}
        [tick 5 0, tick_io_fails 5 1000000, tick 5 2000000] stream_raw).2.map bbl_flow_seq =
      List.range' 1 2 ∧
    (bbl_stream_tx_run sample_consts {}
        [tick 5 0, tick_io_fails 5 1000000, tick 5 2000000] stream_raw).1.packets_tx = 2 ∧
    (bbl_stream_tx_run sample_consts {}
        [tick 5 0, tick_io_fails 5 1000000, tick 5 2000000] stream_raw).1.flow_seq = 3 := by
  have h := flow_seq_sequence sample_consts {}
    [tick 5 0, tick_io_fails 5 1000000, tick 5 2000000] stream_raw
    (Or.inr rfl) (by decide) (by decide) (by decide)
  have hlen : (bbl_stream_tx_run sample_consts {}
      [tick 5 0, tick_io_fails 5 1000000, tick 5 2000000] stream_raw).2.length = 2 := by
    decide
  rw [hlen] at h
  exact ⟨h.1, h.2.1, h.2.2 (by decide)⟩

/-- C3: with `max_packets = N > 0` and `packets_tx ≤ N`,
`bbl_stream_send_window` returns a count `p` with `packets_tx + p ≤ N`; every
run of `bbl_stream_tx_job` keeps `packets_tx ≤ N`; and once `packets_tx = N`
the window is 0 and no run sends anything more.  (`N` plus the burst cap stays
in the 64-bit range.) -/
theorem max_packets_cap (K : bbl_consts) (ctx : bbl_ctx_s) (stream : bbl_stream_s)
    (hN : stream.config.max_packets ≠ 0)
    (hle : stream.packets_tx ≤ stream.config.max_packets)
    (h64 : stream.config.max_packets + max ctx.io_stream_max_ppi 1 < U64) :
    (∀ now, stream.packets_tx + (bbl_stream_send_window ctx stream now).2 ≤
        stream.config.max_packets) ∧
    (∀ envs, (bbl_stream_tx_run K ctx envs stream).1.packets_tx ≤
        stream.config.max_packets) ∧
    (stream.packets_tx = stream.config.max_packets →
      (∀ now, (bbl_stream_send_window ctx stream now).2 = 0) ∧
      ∀ envs, (bbl_stream_tx_run K ctx envs stream).2 = [] ∧
        (bbl_stream_tx_run K ctx envs stream).1.packets_tx = stream.config.max_packets) := by
  refine ⟨fun now => send_window_limit ctx stream now hN hle h64,
    fun envs => (tx_run_max_packets K ctx envs stream hN hle h64).2, ?_⟩
  intro hfull
  refine ⟨fun now => ?_, fun envs => ?_⟩
  · have := send_window_limit ctx stream now hN hle h64
    omega
  · obtain ⟨h1, h2⟩ := tx_run_max_packets K ctx envs stream hN hle h64
    have hlen : (bbl_stream_tx_run K ctx envs stream).2.length = 0 := by omega
    exact ⟨List.length_eq_zero.mp hlen, by omega⟩

/-- The cap on a stream limited to 3 packets, over five ticks that would
otherwise send more: `packets_tx` ends at 3. -/
theorem max_packets_cap_witness :
    (bbl_stream_tx_run sample_consts {}
      [tick 5 0, tick 5 1000000, tick 5 2000000, tick 6 0, tick 7 0]
      { stream_raw with config := { pps_num := 1000, pps_den := 1, max_packets := 3 } }
      ).1.packets_tx ≤ 3 :=
  (max_packets_cap sample_consts {}
    { stream_raw with config := { pps_num := 1000, pps_den := 1, max_packets := 3 } }
    (by decide) (by decide) (by decide)).2.1
    [tick 5 0, tick 5 1000000, tick 5 2000000, tick 6 0, tick 7 0]

/-- C4: with `start_delay = D > 0` and `packets_tx = 0`,
`bbl_stream_send_window` returns 0 on the call that opens the wait window,
recording `wait_start = now`, and on every later call less than `D` whole
seconds after `wait_start`; hence a run of `bbl_stream_tx_job` whose ticks all
fall within the wait window hands no packet to `io_send`. -/
theorem start_delay_holds_back (K : bbl_consts) (ctx : bbl_ctx_s) (stream : bbl_stream_s)
    (hD : stream.config.start_delay ≠ 0) (h0 : stream.packets_tx = 0) :
    (stream.wait = false → ∀ now,
      bbl_stream_send_window ctx stream now =
        ({ stream with wait := true, wait_start := now }, 0)) ∧
    (stream.wait = true → ∀ now,
      (timespec_sub now stream.wait_start).tv_sec < (stream.config.start_delay : Int) →
      bbl_stream_send_window ctx stream now = (stream, 0)) ∧
    (∀ envs, tx_run_within_start_delay K ctx envs stream = true →
      (bbl_stream_tx_run K ctx envs stream).2 = []) := by
  refine ⟨fun hw now => ?_, fun hw now hlt => ?_,
    fun envs hin => tx_run_waits K ctx envs stream hD h0 hin⟩
  · unfold bbl_stream_send_window
    simp [hD, h0, hw]
  · unfold bbl_stream_send_window
    simp [hD, h0, hw, hlt]

/-- The start delay of 3 seconds on a fresh stream whose first tick is at time
5: the ticks up to time 7.999999999 send nothing. -/
theorem start_delay_holds_back_witness :
    (bbl_stream_tx_run sample_consts {}
      [tick 5 0, tick 5 1000000, tick 6 2000000, tick 7 999999999]
      { stream_raw with config := { pps_num := 1000, pps_den := 1, start_delay := 3 } }
      ).2 = [] :=
  (start_delay_holds_back sample_consts {}
    { stream_raw with config := { pps_num := 1000, pps_den := 1, start_delay := 3 } }
    (by decide) (by decide)).2.2
    [tick 5 0, tick 5 1000000, tick 6 2000000, tick 7 999999999] (by decide)

/-- C6 (as amended): the value returned by `bbl_stream_send_window` is at most
`io_stream_max_ppi`, or at most 1 when `io_stream_max_ppi` is 0. -/
theorem send_window_burst_bound (ctx : bbl_ctx_s) (stream : bbl_stream_s) (now : timespec) :
    (bbl_stream_send_window ctx stream now).2 ≤ max ctx.io_stream_max_ppi 1 :=
  send_window_le ctx stream now

/-- C6 (as stated) fails: with `io_stream_max_ppi = 0` the call that opens a
send window returns 1. -/
theorem send_window_burst_counterexample :
    (bbl_stream_send_window { io_stream_max_ppi := 0 } stream_raw
        { tv_sec := 5, tv_nsec := 0 }).2 = 1 ∧
    ¬ ((bbl_stream_send_window { io_stream_max_ppi := 0 } stream_raw
        { tv_sec := 5, tv_nsec := 0 }).2 ≤
      ({ io_stream_max_ppi := 0 } : bbl_ctx_s).io_stream_max_ppi) := by
  decide

/-- C7 (as amended): in an open send window (`send_window_packets = n > 0`)
with no pending start delay and no packet limit, `bbl_stream_send_window`
leaves the stream unchanged and returns `min(expected − n, io_stream_max_ppi)`
when `expected > n` and `min(1, io_stream_max_ppi)` otherwise, where `expected`
is computed in double arithmetic as the code does (`packets_expected`): the
double product of the whole elapsed seconds and `pps`, converted to an integer,
plus the double product of `pps` and the double quotient of the elapsed
nanoseconds by `10^9`, the double sum converted to an integer again; every
operation rounds to the nearest double and every conversion discards the
fraction. -/
theorem send_window_open_window (ctx : bbl_ctx_s) (stream : bbl_stream_s) (now : timespec)
    (hn : stream.send_window_packets ≠ 0)
    (hdelay : stream.config.start_delay = 0 ∨ stream.packets_tx ≠ 0 ∨
      (stream.wait = true ∧
        ¬ (timespec_sub now stream.wait_start).tv_sec < (stream.config.start_delay : Int)))
    (hmax : stream.config.max_packets = 0) :
    bbl_stream_send_window ctx stream now =
      (stream,
        if packets_expected stream.config (timespec_sub now stream.send_window_start) >
            stream.send_window_packets then
          min (packets_expected stream.config (timespec_sub now stream.send_window_start) -
            stream.send_window_packets) ctx.io_stream_max_ppi
        else min 1 ctx.io_stream_max_ppi) :=
  send_window_open_value ctx stream now hn hdelay hmax

set_option maxRecDepth 100000 in
/-- The open-window value for a stream at 1000 packets per second that has
sent 2 packets in its window, 10 ms after the window opened: 8 packets are
due. -/
theorem send_window_open_window_witness :
    (bbl_stream_send_window {}
      { stream_raw with send_window_packets := 2, packets_tx := 2,
                        send_window_start := { tv_sec := 5, tv_nsec := 0 } }
      { tv_sec := 5, tv_nsec := 10000000 }).2 = 8 := by
  rw [send_window_open_window {}
    { stream_raw with send_window_packets := 2, packets_tx := 2,
                      send_window_start := { tv_sec := 5, tv_nsec := 0 } }
    { tv_sec := 5, tv_nsec := 10000000 } (by decide) (Or.inl rfl) rfl]
  decide

set_option maxRecDepth 100000 in
/-- C7 (as stated) fails: one millisecond into the window of a stream at 1000
packets per second that has sent 1 packet, `expected − n` is 0 and the code
returns 1; at 1.5 packets per second, 3.4 s into a window with 1 packet sent,
the code's `expected`, converted to an integer twice, is 4, not 5, and it
returns 3, not 4; and at 100 packets per second, 0.29 s into a window with 1
packet sent, the double arithmetic gives `expected` 28, not 29 (the double
nearest to 0.29 is below 0.29), and the code returns 27, not 28. -/
theorem send_window_open_window_counterexample :
    ((bbl_stream_send_window {}
        { stream_raw with send_window_packets := 1, packets_tx := 1,
                          send_window_start := { tv_sec := 5, tv_nsec := 0 } }
        { tv_sec := 5, tv_nsec := 1000000 }).2 = 1 ∧
      send_window_as_specified {}
        { stream_raw with send_window_packets := 1, packets_tx := 1,
                          send_window_start := { tv_sec := 5, tv_nsec := 0 } }
        { tv_sec := 5, tv_nsec := 1000000 } = 0) ∧
    ((bbl_stream_send_window {}
        { stream_raw with config := { pps_num := 3, pps_den := 2 },
                          send_window_packets := 1, packets_tx := 1,
                          send_window_start := { tv_sec := 5, tv_nsec := 0 } }
        { tv_sec := 8, tv_nsec := 400000000 }).2 = 3 ∧
      send_window_as_specified {}
        { stream_raw with config := { pps_num := 3, pps_den := 2 },
                          send_window_packets := 1, packets_tx := 1,
                          send_window_start := { tv_sec := 5, tv_nsec := 0 } }
        { tv_sec := 8, tv_nsec := 400000000 } = 4) ∧
    (packets_expected { pps_num := 100, pps_den := 1 } { tv_sec := 0, tv_nsec := 290000000 } =
        28 ∧
      (bbl_stream_send_window {}
        { stream_raw with config := { pps_num := 100, pps_den := 1 },
                          send_window_packets := 1, packets_tx := 1,
                          send_window_start := { tv_sec := 5, tv_nsec := 0 } }
        { tv_sec := 5, tv_nsec := 290000000 }).2 = 27 ∧
      send_window_as_specified {}
        { stream_raw with config := { pps_num := 100, pps_den := 1 },
                          send_window_packets := 1, packets_tx := 1,
                          send_window_start := { tv_sec := 5, tv_nsec := 0 } }
        { tv_sec := 5, tv_nsec := 290000000 } = 28) := by
  decide

/-! Section: Theorems about the receive matcher. -/

/-- The function `bbl_stream_delay` changes at most the two delay fields. -/
theorem stream_delay_frame (stream : bbl_stream_s) (rx_timestamp bbl_timestamp : timespec) :
    ∃ mn mx, bbl_stream_delay stream rx_timestamp bbl_timestamp =
      { stream with min_delay_ns := mn, max_delay_ns := mx } := by
  unfold bbl_stream_delay
  simp only
  split_ifs <;> exact ⟨_, _, rfl⟩

/-- Recording the observed attributes changes at most the twelve `rx_` attribute
fields. -/
theorem stream_rx_observe_frame (eth : bbl_ethernet_header_t) (stream : bbl_stream_s) :
    ∃ a1 a2 a3 a4 b1 b2 b3 b4 c1 c2 c3 c4, bbl_stream_rx_observe eth stream =
      { stream with
        rx_len := a1, rx_priority := a2, rx_outer_vlan_pbit := a3, rx_inner_vlan_pbit := a4,
        rx_mpls1 := b1, rx_mpls1_label := b2, rx_mpls1_exp := b3, rx_mpls1_ttl := b4,
        rx_mpls2 := c1, rx_mpls2_label := c2, rx_mpls2_exp := c3, rx_mpls2_ttl := c4 } := by
  unfold bbl_stream_rx_observe
  cases eth.mpls with
  | nil => exact ⟨_, _, _, _, _, _, _, _, _, _, _, _, rfl⟩
  | cons m1 rest =>
    cases rest with
    | nil => exact ⟨_, _, _, _, _, _, _, _, _, _, _, _, rfl⟩
    | cons m2 _ => exact ⟨_, _, _, _, _, _, _, _, _, _, _, _, rfl⟩

/-- Counting an accepted packet increments `packets_rx`, sets `rx_last_seq` and
updates the delays. -/
theorem stream_rx_count_frame (eth : bbl_ethernet_header_t) (bbl : bbl_bbl_t)
    (stream : bbl_stream_s) :
    ∃ mn mx, bbl_stream_rx_count eth bbl stream =
      { stream with
        packets_rx := (stream.packets_rx + 1) % U64,
        rx_last_seq := bbl.flow_seq,
        min_delay_ns := mn, max_delay_ns := mx } := by
  unfold bbl_stream_rx_count
  obtain ⟨mn, mx, h⟩ := stream_delay_frame
    { stream with packets_rx := (stream.packets_rx + 1) % U64, rx_last_seq := bbl.flow_seq }
    eth.timestamp bbl.timestamp
  exact ⟨mn, mx, h⟩

/-- How `bbl_stream_rx` treats a packet for a stream that is not yet verified:
it is rejected with the observed attributes recorded, plus a `wrong_session`
increment in the case of a session mismatch, or it is accepted and becomes the
first packet of the stream. -/
theorem stream_rx_first_cases (eth : bbl_ethernet_header_t) (bbl : bbl_bbl_t)
    (session : Option bbl_session_s) (stream : bbl_stream_s)
    (hfirst : stream.rx_first_seq = 0) :
    bbl_stream_rx_stream eth bbl session stream = (bbl_stream_rx_observe eth stream, false) ∨
    bbl_stream_rx_stream eth bbl session stream =
      ({ bbl_stream_rx_observe eth stream with
          wrong_session := (stream.wrong_session + 1) % U64 }, false) ∨
    bbl_stream_rx_stream eth bbl session stream =
      (bbl_stream_rx_count eth bbl
        { bbl_stream_rx_observe eth stream with rx_first_seq := bbl.flow_seq }, true) := by
  obtain ⟨a1, a2, a3, a4, b1, b2, b3, b4, c1, c2, c3, c4, ho⟩ :=
    stream_rx_observe_frame eth stream
  unfold bbl_stream_rx_stream
  simp only [hfirst, ne_eq, not_true_eq_false, if_false]
  split_ifs
  · exact Or.inl rfl
  · exact Or.inl rfl
  · exact Or.inl rfl
  · right; left
    rw [ho]
  · right; right; rfl

/-- How `bbl_stream_rx` treats a packet for a verified stream: always accepted,
with the gap to the last sequence number added to `loss`. -/
theorem stream_rx_verified (eth : bbl_ethernet_header_t) (bbl : bbl_bbl_t)
    (session : Option bbl_session_s) (stream : bbl_stream_s)
    (hfirst : stream.rx_first_seq ≠ 0) :
    bbl_stream_rx_stream eth bbl session stream =
      (bbl_stream_rx_count eth bbl
        (if (stream.rx_last_seq + 1) % U64 < bbl.flow_seq then
          { stream with
            loss := (stream.loss + (bbl.flow_seq - (stream.rx_last_seq + 1) % U64)) % U64 }
         else stream), true) := by
  unfold bbl_stream_rx_stream
  simp only [hfirst, ne_eq, not_false_eq_true, if_true]

/-- A call of `bbl_stream_rx` that returns a stream has found it in the dictionary
and stored it back as the matcher left it. -/
theorem stream_rx_accepted (dict : stream_flow_dict) (eth : bbl_ethernet_header_t)
    (session : Option bbl_session_s) (h : (bbl_stream_rx dict eth session).2 ≠ none) :
    ∃ b s, eth.bbl = some b ∧ dict b.flow_id = some s ∧
      (bbl_stream_rx_stream eth b session s).2 = true ∧
      (bbl_stream_rx dict eth session).1 =
        Function.update dict b.flow_id (some (bbl_stream_rx_stream eth b session s).1) := by
  unfold bbl_stream_rx at h ⊢
  cases hb : eth.bbl with
  | none => simp [hb] at h
  | some b =>
    simp only [hb] at h ⊢
    by_cases ht : b.type ≠ BBL_TYPE_UNICAST_SESSION
    · simp [ht] at h
    · simp only [ht, if_false] at h ⊢
      cases hd : dict b.flow_id with
      | none => simp [hd] at h
      | some s =>
        simp only [hd] at h ⊢
        refine ⟨b, s, rfl, hd, ?_, rfl⟩
        by_contra hr
        simp [hr] at h

/-- The maximum of a list with a start value is the larger of the start value and
the maximum of the list. -/
theorem foldr_max_init (a : Nat) (l : List Nat) :
    l.foldr max a = max a (l.foldr max 0) := by
  induction l with
  | nil => simp
  | cons x xs ih => simp only [List.foldr_cons, ih]; omega

/-- The loss equation is kept by every packet accepted after the first, as
long as the sequence numbers increase. -/
theorem rx_run_in_order (f : Nat)
    (inputs : List (bbl_ethernet_header_t × Option bbl_session_s)) :
    ∀ (dict : stream_flow_dict) (s : bbl_stream_s), dict f = some s →
      1 ≤ s.rx_first_seq → s.rx_first_seq ≤ s.rx_last_seq → s.rx_last_seq < U64 →
      s.packets_rx + s.loss = s.rx_last_seq - s.rx_first_seq + 1 →
      (∀ x ∈ inputs, eth_flow_id x.1 = some f) →
      (∀ r ∈ (bbl_stream_rx_run inputs dict).2, r ≠ none) →
      (∀ x ∈ inputs, eth_flow_seq x.1 < U64) →
      (s.rx_last_seq :: rx_flow_seqs inputs).Pairwise (· < ·) →
      ∃ s', (bbl_stream_rx_run inputs dict).1 f = some s' ∧
        s'.rx_first_seq = s.rx_first_seq ∧
        s'.rx_last_seq = (rx_flow_seqs inputs).foldr max s.rx_last_seq ∧
        s'.packets_rx + s'.loss = s'.rx_last_seq - s'.rx_first_seq + 1 := by
  induction inputs with
  | nil =>
    intro dict s hd h1 h2 h3 heq _ _ _ _
    exact ⟨s, hd, rfl, rfl, heq⟩
  | cons x xs ih =>
    intro dict s hd h1 h2 h3 heq hflow hacc hseq hord
    obtain ⟨eth, session⟩ := x
    have hacc1 : (bbl_stream_rx dict eth session).2 ≠ none :=
      hacc _ (by simp [bbl_stream_rx_run])
    obtain ⟨b, s1, hb, hd1, _, hdict⟩ := stream_rx_accepted dict eth session hacc1
    have hfid : b.flow_id = f := by
      have := hflow (eth, session) (List.mem_cons_self _ _)
      simpa [eth_flow_id, hb] using this
    rw [hfid] at hd1 hdict
    rw [hd] at hd1
    cases hd1
    have hq : eth_flow_seq eth = b.flow_seq := by simp [eth_flow_seq, hb]
    have hqlt : b.flow_seq < U64 := by
      rw [← hq]; exact hseq (eth, session) (List.mem_cons_self _ _)
    have hgt : s.rx_last_seq < b.flow_seq := by
      rw [← hq]
      have hmem : eth_flow_seq eth ∈ rx_flow_seqs ((eth, session) :: xs) := by
        simp [rx_flow_seqs]
      exact List.rel_of_pairwise_cons hord hmem
    have hne : s.rx_first_seq ≠ 0 := by omega
    obtain ⟨mn, mx, hcount⟩ := stream_rx_count_frame eth b
      (if (s.rx_last_seq + 1) % U64 < b.flow_seq then
        { s with loss := (s.loss + (b.flow_seq - (s.rx_last_seq + 1) % U64)) % U64 }
       else s)
    have hs1 := stream_rx_verified eth b session s hne
    rw [hcount] at hs1
    have hmod : (s.rx_last_seq + 1) % U64 = s.rx_last_seq + 1 :=
      Nat.mod_eq_of_lt (by omega)
    have hord' : (b.flow_seq :: rx_flow_seqs xs).Pairwise (· < ·) := by
      have := (List.pairwise_cons.mp hord).2
      simpa [rx_flow_seqs, hq] using this
    have hstep : bbl_stream_rx_run ((eth, session) :: xs) dict =
        ((bbl_stream_rx_run xs (bbl_stream_rx dict eth session).1).1,
          (bbl_stream_rx dict eth session).2 ::
            (bbl_stream_rx_run xs (bbl_stream_rx dict eth session).1).2) := rfl
    rw [hstep]
    have hacc' : ∀ r ∈ (bbl_stream_rx_run xs (bbl_stream_rx dict eth session).1).2,
        r ≠ none := by
      intro r hr
      exact hacc r (by rw [hstep]; exact List.mem_cons_of_mem _ hr)
    rw [hdict, hs1] at hacc' ⊢
    simp only at hacc' ⊢
    obtain ⟨s', e1, e2, e3, e4⟩ := ih _ _ (Function.update_same f _ dict)
      (by split_ifs <;> exact h1)
      (by split_ifs <;> simp only <;> omega)
      (by simpa using hqlt)
      (by
        unfold U64 at *
        split_ifs <;> simp only <;> omega)
      (fun x hx => hflow x (List.mem_cons_of_mem _ hx))
      hacc'
      (fun x hx => hseq x (List.mem_cons_of_mem _ hx))
      (by simpa using hord')
    refine ⟨s', e1, ?_, ?_, e4⟩
    · rw [e2]; split_ifs <;> rfl
    · rw [e3]
      simp only [rx_flow_seqs, List.map_cons, List.foldr_cons, hq]
      rw [foldr_max_init b.flow_seq, foldr_max_init s.rx_last_seq]
      omega

/-- C2 (as amended): starting from a fresh or reset stream (`rx_first_seq = 0`,
`packets_rx = loss = 0`), for every non-empty sequence of test packets of its
flow accepted by `bbl_stream_rx` that arrive with strictly increasing
`flow_seq`, each at least 1, `packets_rx + loss = M − rx_first_seq + 1`, where
`M` is the largest `flow_seq` among them. -/
theorem loss_equation_in_order (dict : stream_flow_dict) (f : Nat) (s0 : bbl_stream_s)
    (inputs : List (bbl_ethernet_header_t × Option bbl_session_s))
    (hs0 : dict f = some s0) (hfirst : s0.rx_first_seq = 0)
    (hrx : s0.packets_rx = 0) (hloss : s0.loss = 0)
    (hne : inputs ≠ [])
    (hflow : ∀ x ∈ inputs, eth_flow_id x.1 = some f)
    (hacc : ∀ r ∈ (bbl_stream_rx_run inputs dict).2, r ≠ none)
    (hseq : ∀ x ∈ inputs, 1 ≤ eth_flow_seq x.1 ∧ eth_flow_seq x.1 < U64)
    (hord : (rx_flow_seqs inputs).Pairwise (· < ·)) :
    ∃ s, (bbl_stream_rx_run inputs dict).1 f = some s ∧
      s.packets_rx + s.loss = (rx_flow_seqs inputs).foldr max 0 - s.rx_first_seq + 1 := by
  cases inputs with
  | nil => exact absurd rfl hne
  | cons x xs =>
    obtain ⟨eth, session⟩ := x
    have hacc1 : (bbl_stream_rx dict eth session).2 ≠ none :=
      hacc _ (by simp [bbl_stream_rx_run])
    obtain ⟨b, s1, hb, hd1, hr, hdict⟩ := stream_rx_accepted dict eth session hacc1
    have hfid : b.flow_id = f := by
      have := hflow (eth, session) (List.mem_cons_self _ _)
      simpa [eth_flow_id, hb] using this
    rw [hfid] at hd1 hdict
    rw [hs0] at hd1
    cases hd1
    have hq : eth_flow_seq eth = b.flow_seq := by simp [eth_flow_seq, hb]
    have hq1 := hseq (eth, session) (List.mem_cons_self _ _)
    simp only [hq] at hq1
    obtain ⟨a1, a2, a3, a4, b1, b2, b3, b4, c1, c2, c3, c4, ho⟩ :=
      stream_rx_observe_frame eth s0
    obtain ⟨mn, mx, hcount⟩ := stream_rx_count_frame eth b
      { bbl_stream_rx_observe eth s0 with rx_first_seq := b.flow_seq }
    have hs1 : bbl_stream_rx_stream eth b session s0 =
        (bbl_stream_rx_count eth b
          { bbl_stream_rx_observe eth s0 with rx_first_seq := b.flow_seq }, true) := by
      rcases stream_rx_first_cases eth b session s0 hfirst with h | h | h
      · rw [h] at hr; cases hr
      · rw [h] at hr; cases hr
      · exact h
    rw [hcount, ho] at hs1
    have hstep : bbl_stream_rx_run ((eth, session) :: xs) dict =
        ((bbl_stream_rx_run xs (bbl_stream_rx dict eth session).1).1,
          (bbl_stream_rx dict eth session).2 ::
            (bbl_stream_rx_run xs (bbl_stream_rx dict eth session).1).2) := rfl
    rw [hstep]
    have hacc' : ∀ r ∈ (bbl_stream_rx_run xs (bbl_stream_rx dict eth session).1).2,
        r ≠ none := by
      intro r hr
      exact hacc r (by rw [hstep]; exact List.mem_cons_of_mem _ hr)
    rw [hdict, hs1] at hacc' ⊢
    simp only at hacc' ⊢
    have hord' : (b.flow_seq :: rx_flow_seqs xs).Pairwise (· < ·) := by
      simpa [rx_flow_seqs, hq] using hord
    obtain ⟨s', e1, e2, e3, e4⟩ := rx_run_in_order f xs _ _ (Function.update_same f _ dict)
      (by simpa using hq1.1) (by simp) (by simpa using hq1.2)
      (by simp [hrx, hloss, U64])
      (fun x hx => hflow x (List.mem_cons_of_mem _ hx))
      hacc'
      (fun x hx => (hseq x (List.mem_cons_of_mem _ hx)).2)
      (by simpa using hord')
    refine ⟨s', e1, ?_⟩
    rw [e4, e3]
    simp only [rx_flow_seqs, List.map_cons, List.foldr_cons, hq]
    rw [foldr_max_init b.flow_seq]

/-- The loss equation on the accepted sequence 3, 4, 9 of a fresh stream. -/
theorem loss_equation_in_order_witness :
    ∃ s, (bbl_stream_rx_run
        [(test_frame 3 1 [], none), (test_frame 4 1 [], none), (test_frame 9 1 [], none)]
        (dict_of stream_bound_down)).1 1 = some s ∧
      s.packets_rx + s.loss =
        (rx_flow_seqs
          [(test_frame 3 1 [], none), (test_frame 4 1 [], none),
           (test_frame 9 1 [], none)]).foldr max 0 - s.rx_first_seq + 1 :=
  loss_equation_in_order (dict_of stream_bound_down) 1 stream_bound_down
    [(test_frame 3 1 [], none), (test_frame 4 1 [], none), (test_frame 9 1 [], none)]
    rfl rfl rfl rfl (by decide) (by decide) (by decide) (by decide) (by decide)

/-- C2 (as stated) fails: the packets 1, 3, 2, accepted in this order from a
fresh stream, leave `packets_rx + loss = 4`, while `M − rx_first_seq + 1 = 3`. -/
theorem loss_equation_reordered_counterexample :
    (∀ r ∈ (bbl_stream_rx_run
        [(test_frame 1 1 [], none), (test_frame 3 1 [], none), (test_frame 2 1 [], none)]
        (dict_of stream_bound_down)).2, r ≠ none) ∧
    ((bbl_stream_rx_run
        [(test_frame 1 1 [], none), (test_frame 3 1 [], none), (test_frame 2 1 [], none)]
        (dict_of stream_bound_down)).1 1).map (fun s => s.packets_rx + s.loss) = some 4 ∧
    ((bbl_stream_rx_run
        [(test_frame 1 1 [], none), (test_frame 3 1 [], none), (test_frame 2 1 [], none)]
        (dict_of stream_bound_down)).1 1).map
      (fun s => (rx_flow_seqs
        [(test_frame 1 1 [], none), (test_frame 3 1 [], none),
         (test_frame 2 1 [], none)]).foldr max 0 - s.rx_first_seq + 1) = some 3 := by
  decide

/-- What the label check of `bbl_stream_rx` does achieve: a frame for a stream
that is not yet verified and expects the outer label `L ≠ 0` is rejected, with
`packets_rx` and `rx_first_seq` unchanged, when its outer label is present and
differs from `L`, and also when it carries no label and no label is on record
in the stream (as after creation or reset). -/
theorem mpls_wrong_label_rejected (eth : bbl_ethernet_header_t) (bbl : bbl_bbl_t)
    (session : Option bbl_session_s) (stream : bbl_stream_s)
    (hfirst : stream.rx_first_seq = 0)
    (hL : stream.config.rx_mpls1_label ≠ 0)
    (hwrong : (∃ m rest, eth.mpls = m :: rest ∧ m.label ≠ stream.config.rx_mpls1_label) ∨
      (eth.mpls = [] ∧ stream.rx_mpls1_label ≠ stream.config.rx_mpls1_label)) :
    (bbl_stream_rx_stream eth bbl session stream).2 = false ∧
    (bbl_stream_rx_stream eth bbl session stream).1.packets_rx = stream.packets_rx ∧
    (bbl_stream_rx_stream eth bbl session stream).1.rx_first_seq = 0 := by
  obtain ⟨a1, a2, a3, a4, b1, b2, b3, b4, c1, c2, c3, c4, ho⟩ :=
    stream_rx_observe_frame eth stream
  have hc : (bbl_stream_rx_observe eth stream).config = stream.config := by rw [ho]
  have hlab : (bbl_stream_rx_observe eth stream).rx_mpls1_label ≠
      stream.config.rx_mpls1_label := by
    rcases hwrong with ⟨m, rest, hm, hne⟩ | ⟨hm, hne⟩
    · unfold bbl_stream_rx_observe
      rw [hm]
      cases rest <;> exact hne
    · unfold bbl_stream_rx_observe
      rw [hm]
      exact hne
  have hr : bbl_stream_rx_stream eth bbl session stream =
      (bbl_stream_rx_observe eth stream, false) := by
    unfold bbl_stream_rx_stream
    simp only [hfirst, ne_eq, not_true_eq_false, if_false]
    rw [if_pos (by rw [hc]; exact ⟨hL, hlab⟩)]
  rw [hr]
  refine ⟨rfl, ?_, ?_⟩
  · rw [ho]
  · rw [ho]; exact hfirst

/-- C8, the code at the failing input: a stream that expects the outer label
100 first receives a frame of its flow with label 100 whose BBL header has the
wrong direction, which is rejected, then a frame of its flow without any MPLS
label; the second frame is accepted (`packets_rx = 1`, `rx_first_seq = 2`),
because the label check reads the label recorded from the first frame. -/
theorem mpls_stale_label_accepted :
    stream_down_expecting_label.rx_first_seq = 0 ∧
    stream_down_expecting_label.session_traffic = false ∧
    (bbl_stream_rx_run
        [(test_frame_up 1 [{ label := 100, exp := 0, ttl := 64 }], none),
         (test_frame 2 1 [], none)]
        (dict_of stream_down_expecting_label)).2.map Option.isSome = [false, true] ∧
    ((bbl_stream_rx_run
        [(test_frame_up 1 [{ label := 100, exp := 0, ttl := 64 }], none)]
        (dict_of stream_down_expecting_label)).1 1).map
      (fun s => (s.packets_rx, s.rx_first_seq, s.rx_mpls1_label)) = some (0, 0, 100) ∧
    ((bbl_stream_rx_run
        [(test_frame_up 1 [{ label := 100, exp := 0, ttl := 64 }], none),
         (test_frame 2 1 [], none)]
        (dict_of stream_down_expecting_label)).1 1).map
      (fun s => (s.packets_rx, s.rx_first_seq)) = some (1, 2) := by
  decide

/-- C9 (as amended): for a session-traffic stream that is not yet verified and
a test packet of its flow, received with a session, that passes the MPLS label
and the subtype and direction checks and whose BBL `session_id`, outer VLAN or
inner VLAN differs from those of that session, `bbl_stream_rx` returns `NULL`,
increments `wrong_session` by one and leaves `packets_rx`, `rx_first_seq` and
`rx_last_seq` unchanged. -/
theorem wrong_session_counted (dict : stream_flow_dict) (eth : bbl_ethernet_header_t)
    (bbl : bbl_bbl_t) (session : bbl_session_s) (stream : bbl_stream_s)
    (hb : eth.bbl = some bbl) (ht : bbl.type = BBL_TYPE_UNICAST_SESSION)
    (hd : dict bbl.flow_id = some stream)
    (hfirst : stream.rx_first_seq = 0)
    (hst : stream.session_traffic = true)
    (hmpls : bbl_stream_rx_mpls_ok eth stream = true)
    (hsub : bbl.sub_type = stream.type) (hdir : bbl.direction = stream.direction)
    (hmis : bbl.session_id ≠ session.session_id ∨
      bbl.outer_vlan_id ≠ session.outer_vlan_id ∨
      bbl.inner_vlan_id ≠ session.inner_vlan_id)
    (hrange : stream.wrong_session + 1 < U64) :
    (bbl_stream_rx dict eth (some session)).2 = none ∧
    ∃ s, (bbl_stream_rx dict eth (some session)).1 bbl.flow_id = some s ∧
      s.wrong_session = stream.wrong_session + 1 ∧
      s.packets_rx = stream.packets_rx ∧
      s.rx_first_seq = stream.rx_first_seq ∧
      s.rx_last_seq = stream.rx_last_seq := by
  obtain ⟨a1, a2, a3, a4, b1, b2, b3, b4, c1, c2, c3, c4, ho⟩ :=
    stream_rx_observe_frame eth stream
  have hmm : bbl_stream_rx_session_mismatch bbl (some session)
      (bbl_stream_rx_observe eth stream) = true := by
    rw [ho]
    simp only [bbl_stream_rx_session_mismatch, hst, Bool.true_and, Bool.or_eq_true, bne_iff_ne]
    tauto
  have hs : bbl_stream_rx_stream eth bbl (some session) stream =
      ({ bbl_stream_rx_observe eth stream with
          wrong_session := (stream.wrong_session + 1) % U64 }, false) := by
    unfold bbl_stream_rx_mpls_ok at hmpls
    simp only [Bool.or_eq_true, Bool.and_eq_true, decide_eq_true_eq] at hmpls
    unfold bbl_stream_rx_stream
    simp only [hfirst, ne_eq, not_true_eq_false, if_false, hmm, if_true]
    have hc : (bbl_stream_rx_observe eth stream).config = stream.config := by rw [ho]
    have hty : (bbl_stream_rx_observe eth stream).type = stream.type := by rw [ho]
    have hdi : (bbl_stream_rx_observe eth stream).direction = stream.direction := by rw [ho]
    have hws : (bbl_stream_rx_observe eth stream).wrong_session = stream.wrong_session := by
      rw [ho]
    rw [hc, hty, hdi, hws]
    rw [if_neg (by tauto), if_neg (by tauto), if_neg (by simp [hsub, hdir])]
  unfold bbl_stream_rx
  simp only [hb, ht, ne_eq, not_true_eq_false, if_false, hd, hs, Bool.false_eq_true]
  refine ⟨trivial, _, Function.update_same _ _ _, ?_, ?_, ?_, ?_⟩
  · exact Nat.mod_eq_of_lt hrange
  · rw [ho]
  · rw [ho]
  · rw [ho]

/-- The wrong-session count on a session-traffic stream that receives a test
packet carrying session id 2 from a session with id 1. -/
theorem wrong_session_counted_witness :
    (bbl_stream_rx (dict_of { stream_bound_down with session_traffic := true })
        (test_frame 1 2 []) (some session_pppoe_ipv4)).2 = none ∧
    ∃ s, (bbl_stream_rx (dict_of { stream_bound_down with session_traffic := true })
        (test_frame 1 2 []) (some session_pppoe_ipv4)).1 1 = some s ∧
      s.wrong_session = 0 + 1 ∧ s.packets_rx = 0 ∧ s.rx_first_seq = 0 ∧ s.rx_last_seq = 0 :=
  wrong_session_counted (dict_of { stream_bound_down with session_traffic := true })
    (test_frame 1 2 [])
    { type := 1, sub_type := 1, direction := 2, session_id := 2,
      outer_vlan_id := 100, inner_vlan_id := 7, flow_id := 1, flow_seq := 1 }
    session_pppoe_ipv4 { stream_bound_down with session_traffic := true }
    rfl rfl rfl rfl rfl (by decide) rfl rfl (by decide) (by decide)

/-- C9 (as stated) fails: a session-bound stream that is not session traffic
accepts a packet with a foreign session id (`packets_rx = 1`, `wrong_session`
unchanged), and a session-traffic stream whose subtype does not match the
packet rejects it without counting a wrong session. -/
theorem wrong_session_counterexample :
    ((bbl_stream_rx (dict_of stream_bound_down) (test_frame 1 2 [])
        (some session_pppoe_ipv4)).2.map
      (fun s => (s.packets_rx, s.rx_first_seq, s.wrong_session)) = some (1, 1, 0)) ∧
    ((bbl_stream_rx (dict_of { stream_bound_down with session_traffic := true, type := 2 })
        (test_frame 1 2 []) (some session_pppoe_ipv4)).2 = none ∧
     ((bbl_stream_rx (dict_of { stream_bound_down with session_traffic := true, type := 2 })
        (test_frame 1 2 []) (some session_pppoe_ipv4)).1 1).map
      (fun s => s.wrong_session) = some 0) := by
  decide

/-! Section: Theorems about stream reset and stopped traffic. -/

/-- A pending reset takes effect in `bbl_stream_can_send` once the init phase is
over. -/
theorem can_send_reset (K : bbl_consts) (session : Option bbl_session_s)
    (stream : bbl_stream_s) (hr : stream.reset = true) :
    bbl_stream_can_send K false session stream =
      (bbl_stream_can_send_FREE { stream with reset := false, flow_seq := 1 }, false) := by
  unfold bbl_stream_can_send
  simp only [Bool.false_eq_true, if_false, hr, if_true]

/-- With traffic stopped the part of the job behind the template closes the send
window and returns. -/
theorem tx_job_paced_stopped (ctx : bbl_ctx_s) (e : tx_env) (stream : bbl_stream_s)
    (hstop : stream.stop = true ∨ e.g_traffic = false) :
    bbl_stream_tx_job_paced ctx e stream = ({ stream with send_window_packets := 0 }, []) := by
  unfold bbl_stream_tx_job_paced
  rw [if_pos (Or.symm hstop)]

/-- The ways a run of `bbl_stream_tx_job` goes while traffic is stopped: init
phase, a reset taking effect, a failed template build, or a return with the send
window closed. -/
theorem tx_job_stopped_cases (K : bbl_consts) (ctx : bbl_ctx_s) (e : tx_env)
    (stream : bbl_stream_s) (hstop : stream.stop = true ∨ e.g_traffic = false) :
    (e.g_init_phase = true ∧ bbl_stream_tx_job K ctx e stream = (stream, [])) ∨
    (e.g_init_phase = false ∧ stream.reset = true ∧ ∃ tl,
      bbl_stream_tx_job K ctx e stream =
        ({ stream with
            reset := false, flow_seq := 1, buf := none, tx_len := tl,
            send_window_packets := 0 }, [])) ∨
    (e.g_init_phase = false ∧ stream.reset = false ∧ stream.buf = none ∧
      (∀ b, e.build ≠ build_outcome.built b) ∧ ∃ tl,
      bbl_stream_tx_job K ctx e stream = ({ stream with buf := none, tx_len := tl }, [])) ∨
    (e.g_init_phase = false ∧ stream.reset = false ∧ ∃ bf tl,
      bbl_stream_tx_job K ctx e stream =
        ({ stream with buf := bf, tx_len := tl, send_window_packets := 0 }, [])) := by
  by_cases hg : e.g_init_phase = true
  · left
    refine ⟨hg, ?_⟩
    unfold bbl_stream_tx_job
    simp [hg, can_send_init_phase]
  have hg : e.g_init_phase = false := by simpa using hg
  right
  by_cases hr : stream.reset = true
  · left
    obtain ⟨tl, hF⟩ := can_send_FREE_buf_none { stream with reset := false, flow_seq := 1 }
    refine ⟨hg, hr, tl, ?_⟩
    unfold bbl_stream_tx_job
    simp only [hg, can_send_reset K e.session stream hr, if_true, hF]
  have hr : stream.reset = false := by simpa using hr
  right
  rcases can_send_after_init K e.session stream with ⟨_, h⟩ | h | ⟨hr2, _⟩
  · have hjob : bbl_stream_tx_job K ctx e stream =
          (if ((if stream.buf.isNone then bbl_stream_build_packet e.build stream
                else (stream, true)).2 = false) then
            ((if stream.buf.isNone then bbl_stream_build_packet e.build stream
                else (stream, true)).1, [])
           else bbl_stream_tx_job_paced ctx e
            (if stream.buf.isNone then bbl_stream_build_packet e.build stream
                else (stream, true)).1) := by
        unfold bbl_stream_tx_job
        simp only [hg, h]
        rfl
    rw [hjob]
    cases hb : stream.buf with
    | some b =>
      right
      refine ⟨hg, hr, stream.buf, stream.tx_len, ?_⟩
      simp only [Option.isNone_some, Bool.false_eq_true, Bool.true_eq_false, if_false]
      rw [tx_job_paced_stopped ctx e stream hstop]
    | none =>
      cases hbuild : e.build with
      | refused =>
        left
        refine ⟨hg, hr, rfl, (by intro b hb2; cases hb2), stream.tx_len, ?_⟩
        simp [bbl_stream_build_packet, ← hb]
      | encode_error =>
        left
        refine ⟨hg, hr, rfl, (by intro b hb2; cases hb2), 0, ?_⟩
        simp [bbl_stream_build_packet]
      | built bytes =>
        right
        refine ⟨hg, hr, some bytes, bytes.length, ?_⟩
        simp only [Option.isNone_none, if_true, bbl_stream_build_packet, Bool.true_eq_false,
          if_false]
        exact tx_job_paced_stopped ctx e
          { stream with buf := some bytes, tx_len := bytes.length } hstop
  · right
    obtain ⟨bf, tl, _, hF⟩ := can_send_FREE_frame stream
    refine ⟨hg, hr, bf, tl, ?_⟩
    unfold bbl_stream_tx_job
    simp only [hg, h, if_true, hF]
  · rw [hr] at hr2; cases hr2

/-- The send loop keeps `tx_len` and does not release the template. -/
theorem tx_loop_template (io_send : Nat → Bool) (packets : Nat) :
    ∀ (calls : Nat) (stream : bbl_stream_s),
      (bbl_stream_tx_loop io_send packets calls stream).1.tx_len = stream.tx_len ∧
      ((bbl_stream_tx_loop io_send packets calls stream).1.buf = none → stream.buf = none) := by
  induction packets with
  | zero => intro calls stream; simp [bbl_stream_tx_loop]
  | succ p ih =>
    intro calls stream
    cases hb : stream.buf with
    | none => simp [bbl_stream_tx_loop, hb]
    | some b =>
      simp only [bbl_stream_tx_loop, hb]
      by_cases hio : io_send calls = true
      · simp only [hio, if_true]
        obtain ⟨h1, h2⟩ := ih (calls + 1)
          { stream with
            buf := some (poke b (stream.tx_len - 16) (le_bytes 8 stream.flow_seq)),
            send_window_packets := (stream.send_window_packets + 1) % U64,
            packets_tx := (stream.packets_tx + 1) % U64,
            flow_seq := (stream.flow_seq + 1) % U64 }
        refine ⟨h1, fun h => ?_⟩
        have := h2 h
        cases this
      · simp [hio]

/-- The sendability gate keeps the invariant of the template fields. -/
theorem can_send_template_released (K : bbl_consts) (g_init_phase : Bool)
    (session : Option bbl_session_s) (stream : bbl_stream_s)
    (h : template_released stream) :
    template_released (bbl_stream_can_send K g_init_phase session stream).1 := by
  have hF : ∀ s : bbl_stream_s, template_released s →
      template_released (bbl_stream_can_send_FREE s) := by
    intro s hs
    unfold template_released bbl_stream_can_send_FREE
    cases hb : s.buf with
    | none => simpa [hb] using hs hb
    | some b => simp [hb]
  cases g_init_phase with
  | true => rw [can_send_init_phase]; exact h
  | false =>
    rcases can_send_after_init K session stream with ⟨_, h2⟩ | h2 | ⟨_, h2⟩
    · rw [h2]; exact h
    · rw [h2]; exact hF _ h
    · rw [h2]; exact hF _ h

/-- The send part keeps `tx_len` and does not release the template. -/
theorem tx_job_send_template (ctx : bbl_ctx_s) (e : tx_env) (stream : bbl_stream_s) :
    (bbl_stream_tx_job_send ctx e stream).1.tx_len = stream.tx_len ∧
    ((bbl_stream_tx_job_send ctx e stream).1.buf = none → stream.buf = none) := by
  obtain ⟨w, ws, t, hsw⟩ := send_window_frame ctx stream e.now
  cases hb : stream.buf with
  | none =>
    unfold bbl_stream_tx_job_send
    simp only [hsw, hb]
    simp
  | some b =>
    have hjob : bbl_stream_tx_job_send ctx e stream =
        bbl_stream_tx_loop e.io_send (bbl_stream_send_window ctx stream e.now).2 0
          { (bbl_stream_send_window ctx stream e.now).1 with
            buf := some (poke (poke b (stream.tx_len - 8)
                (le_bytes 4 (e.now.tv_sec % (U32 : Int)).toNat)) (stream.tx_len - 4)
                (le_bytes 4 (e.now.tv_nsec % (U32 : Int)).toNat)) } := by
      unfold bbl_stream_tx_job_send
      simp only [hsw, hb]
    rw [hjob]
    obtain ⟨h1, h2⟩ := tx_loop_template e.io_send (bbl_stream_send_window ctx stream e.now).2 0
          { (bbl_stream_send_window ctx stream e.now).1 with
            buf := some (poke (poke b (stream.tx_len - 8)
                (le_bytes 4 (e.now.tv_sec % (U32 : Int)).toNat)) (stream.tx_len - 4)
                (le_bytes 4 (e.now.tv_nsec % (U32 : Int)).toNat)) }
    refine ⟨?_, fun h => ?_⟩
    · rw [h1, hsw]
    · have := h2 h
      cases this

/-- The transmit job keeps the invariant of the template fields. -/
theorem tx_job_template_released (K : bbl_consts) (ctx : bbl_ctx_s) (e : tx_env)
    (stream : bbl_stream_s) (h : template_released stream) :
    template_released (bbl_stream_tx_job K ctx e stream).1 := by
  have hc := can_send_template_released K e.g_init_phase e.session stream h
  generalize hcs : bbl_stream_can_send K e.g_init_phase e.session stream = c at hc
  have hjob : bbl_stream_tx_job K ctx e stream =
      (if c.2 = false then (c.1, [])
       else if (if c.1.buf.isNone then bbl_stream_build_packet e.build c.1
                else (c.1, true)).2 = false then
          ((if c.1.buf.isNone then bbl_stream_build_packet e.build c.1 else (c.1, true)).1, [])
        else bbl_stream_tx_job_paced ctx e
          (if c.1.buf.isNone then bbl_stream_build_packet e.build c.1 else (c.1, true)).1) := by
    unfold bbl_stream_tx_job
    simp only [hcs]
  rw [hjob]
  have hb : template_released
      (if c.1.buf.isNone then bbl_stream_build_packet e.build c.1 else (c.1, true)).1 := by
    by_cases hn : c.1.buf.isNone = true
    · rw [if_pos hn]
      unfold template_released bbl_stream_build_packet
      cases e.build with
      | refused => exact hc
      | encode_error => simp
      | built bytes => simp
    · rw [if_neg hn]; exact hc
  generalize (if c.1.buf.isNone then bbl_stream_build_packet e.build c.1 else (c.1, true)) = b
    at hb
  by_cases h1 : c.2 = false
  · rw [if_pos h1]; exact hc
  rw [if_neg h1]
  by_cases h2 : b.2 = false
  · rw [if_pos h2]; exact hb
  rw [if_neg h2]
  rcases tx_job_paced_cases ctx e b.1 with hp | hp
  · rw [hp]; exact hb
  · rw [hp]
    obtain ⟨t1, t2⟩ := tx_job_send_template ctx e b.1
    intro hnone
    rw [t1]
    exact hb (t2 hnone)

/-- A reset keeps the invariant of the template fields. -/
theorem reset_template_released (stream : bbl_stream_s) (h : template_released stream) :
    ∀ r, bbl_stream_reset (some stream) = some r → template_released r := by
  intro r hr
  simp only [bbl_stream_reset, Option.some.injEq] at hr
  rw [← hr]
  exact h

/-- C11: for every non-null stream (with the invariant of the template fields,
`tx_len = 0` when there is no template), after `bbl_stream_reset` followed by
one call of `bbl_stream_can_send` with the init phase over, that call returns
false, `flow_seq = 1`, the reset flag is clear, the template is released
(`buf = NULL`, `tx_len = 0`), `send_window_packets = 0`, the RX state is cleared
(first and last sequence number, length, delays, observed MPLS), `verified` and
`stop` are false, and `packets_tx`, `packets_rx`, `loss` and `wrong_session` are
unchanged. -/
theorem reset_then_can_send (K : bbl_consts) (session : Option bbl_session_s)
    (stream : bbl_stream_s) (hinv : stream.buf = none → stream.tx_len = 0) :
    ∃ r, bbl_stream_reset (some stream) = some r ∧
      (bbl_stream_can_send K false session r).2 = false ∧
      reset_as_specified stream (bbl_stream_can_send K false session r).1 := by
  refine ⟨_, rfl, ?_⟩
  rw [can_send_reset K session _ rfl]
  unfold reset_as_specified bbl_stream_can_send_FREE
  cases hb : stream.buf with
  | none => simp [hb, hinv hb]
  | some b => simp [hb]

/-- The reset applied to a stopped, verified stream in the middle of a test,
followed by a call of the gate for its established session. -/
theorem reset_then_can_send_witness :
    ∃ r, bbl_stream_reset (some stream_in_flight) = some r ∧
      (bbl_stream_can_send sample_consts false (some session_pppoe_ipv4) r).2 = false ∧
      reset_as_specified stream_in_flight
        (bbl_stream_can_send sample_consts false (some session_pppoe_ipv4) r).1 :=
  reset_then_can_send sample_consts (some session_pppoe_ipv4) stream_in_flight (by decide)

/-- C12 (as amended): if `stream.stop` is set or `g_traffic` is false when
`bbl_stream_tx_job` runs, the job hands no packet to `io_send` and leaves
`packets_tx` unchanged; `flow_seq` is unchanged unless the init phase is over
and a reset is pending, in which case it becomes 1; `send_window_packets` is 0
when the job returns if the init phase is over and the stream holds a template
or the template build succeeds, and in every case it is 0 or as it was. -/
theorem tx_job_stopped (K : bbl_consts) (ctx : bbl_ctx_s) (e : tx_env)
    (stream : bbl_stream_s) (hstop : stream.stop = true ∨ e.g_traffic = false) :
    (bbl_stream_tx_job K ctx e stream).2 = [] ∧
    (bbl_stream_tx_job K ctx e stream).1.packets_tx = stream.packets_tx ∧
    (bbl_stream_tx_job K ctx e stream).1.flow_seq =
      (if e.g_init_phase = false ∧ stream.reset = true then 1 else stream.flow_seq) ∧
    (e.g_init_phase = false →
      (stream.buf.isSome = true ∨ ∃ bytes, e.build = build_outcome.built bytes) →
      (bbl_stream_tx_job K ctx e stream).1.send_window_packets = 0) ∧
    ((bbl_stream_tx_job K ctx e stream).1.send_window_packets = 0 ∨
      (bbl_stream_tx_job K ctx e stream).1.send_window_packets = stream.send_window_packets) := by
  rcases tx_job_stopped_cases K ctx e stream hstop with
    ⟨hg, h⟩ | ⟨hg, hr, tl, h⟩ | ⟨hg, hr, hb, hbuild, tl, h⟩ | ⟨hg, hr, bf, tl, h⟩
  · rw [h]
    refine ⟨rfl, rfl, ?_, ?_, Or.inr rfl⟩
    · simp [hg]
    · intro hg2; rw [hg] at hg2; cases hg2
  · rw [h]
    refine ⟨rfl, rfl, ?_, fun _ _ => rfl, Or.inl rfl⟩
    simp [hg, hr]
  · rw [h]
    refine ⟨rfl, rfl, ?_, ?_, Or.inr rfl⟩
    · simp [hr]
    · intro _ hor
      rcases hor with hs | ⟨b, hb2⟩
      · rw [hb] at hs; cases hs
      · exact absurd hb2 (hbuild b)
  · rw [h]
    refine ⟨rfl, rfl, ?_, fun _ _ => rfl, Or.inl rfl⟩
    simp [hr]

/-- The stopped job applied to a stopped stream that holds a template, with its
session established. -/
theorem tx_job_stopped_witness :
    (bbl_stream_tx_job sample_consts {} { session := some session_pppoe_ipv4 }
      stream_in_flight).2 = [] ∧
    (bbl_stream_tx_job sample_consts {} { session := some session_pppoe_ipv4 }
      stream_in_flight).1.packets_tx = 41 ∧
    (bbl_stream_tx_job sample_consts {} { session := some session_pppoe_ipv4 }
      stream_in_flight).1.flow_seq = 42 ∧
    (bbl_stream_tx_job sample_consts {} { session := some session_pppoe_ipv4 }
      stream_in_flight).1.send_window_packets = 0 :=
  have h := tx_job_stopped sample_consts {} { session := some session_pppoe_ipv4 }
    stream_in_flight (Or.inl (by decide))
  ⟨h.1, h.2.1, h.2.2.1, h.2.2.2.1 (by decide) (Or.inl (by decide))⟩

/-- C12 (as stated) fails: with `g_traffic` false and the init phase over, a job
that runs for a stream just reset by `bbl_stream_reset`, whose `flow_seq` is
still 42, changes `flow_seq` to 1. -/
theorem tx_job_stopped_counterexample :
    (bbl_stream_reset (some stream_in_flight)).map
      (fun stream =>
        (stream.flow_seq,
          (bbl_stream_tx_job sample_consts {}
            { g_traffic := false, session := some session_pppoe_ipv4 } stream).1.flow_seq)) =
      some (42, 1) := by
  decide

/-! Section: Theorems about the worker assignment. -/

/-- The scan of `bbl_stream_add_jobs` over handles that all have a thread ends at
the first position with the least reservation. -/
theorem add_jobs_select_spec :
    ∀ (l : List io_handle_s) (pre : List Nat) (thread pr : Nat),
      (∀ io ∈ l, io.thread.isSome = true) →
      thread < pre.length → pr = pre.getD thread 0 →
      (∀ j, j < pre.length → pr ≤ pre.getD j 0) →
      (∀ j, j < thread → pr < pre.getD j 0) →
      bbl_stream_add_jobs_select l pre.length thread pr < (pre ++ io_tx_pps_reserved l).length ∧
      (∀ j, j < (pre ++ io_tx_pps_reserved l).length →
        (pre ++ io_tx_pps_reserved l).getD (bbl_stream_add_jobs_select l pre.length thread pr) 0 ≤
          (pre ++ io_tx_pps_reserved l).getD j 0) ∧
      (∀ j, j < bbl_stream_add_jobs_select l pre.length thread pr →
        (pre ++ io_tx_pps_reserved l).getD (bbl_stream_add_jobs_select l pre.length thread pr) 0 <
          (pre ++ io_tx_pps_reserved l).getD j 0) := by
  intro l
  induction l with
  | nil =>
    intro pre thread pr _ hlt hpr hmin hfirst
    simp only [bbl_stream_add_jobs_select, io_tx_pps_reserved, List.map_nil, List.append_nil]
    subst hpr
    exact ⟨hlt, hmin, hfirst⟩
  | cons io rest ih =>
    intro pre thread pr hall hlt hpr hmin hfirst
    have hio := hall io (List.mem_cons_self _ _)
    have hrest : ∀ x ∈ rest, x.thread.isSome = true :=
      fun x hx => hall x (List.mem_cons_of_mem _ hx)
    cases ht : io.thread with
    | none => rw [ht] at hio; cases hio
    | some t =>
      have hf : io_pps_reserved io = t.pps_reserved := by simp [io_pps_reserved, ht]
      have happ : pre ++ io_tx_pps_reserved (io :: rest) =
          (pre ++ [t.pps_reserved]) ++ io_tx_pps_reserved rest := by
        simp [io_tx_pps_reserved, hf]
      have hlen : (pre ++ [t.pps_reserved]).length = pre.length + 1 := by simp
      have hget : ∀ j, j < pre.length →
          (pre ++ [t.pps_reserved]).getD j 0 = pre.getD j 0 := by
        intro j hj
        exact List.getD_append _ _ _ _ hj
      have hlast : (pre ++ [t.pps_reserved]).getD pre.length 0 = t.pps_reserved := by
        rw [List.getD_append_right _ _ _ _ (le_refl _)]
        simp
      rw [happ]
      by_cases hc : t.pps_reserved < pr
      · have hsel : bbl_stream_add_jobs_select (io :: rest) pre.length thread pr =
            bbl_stream_add_jobs_select rest (pre ++ [t.pps_reserved]).length pre.length
              t.pps_reserved := by
          simp only [bbl_stream_add_jobs_select, ht, hc, if_true, hlen]
        rw [hsel]
        apply ih (pre ++ [t.pps_reserved]) pre.length t.pps_reserved hrest
        · rw [hlen]; exact Nat.lt_succ_self _
        · exact hlast.symm
        · intro j hj
          rw [hlen] at hj
          rcases Nat.lt_succ_iff_lt_or_eq.mp hj with hj | hj
          · rw [hget j hj]
            exact le_of_lt (lt_of_lt_of_le hc (hmin j hj))
          · rw [hj, hlast]
        · intro j hj
          rw [hget j hj]
          exact lt_of_lt_of_le hc (hmin j hj)
      · have hsel : bbl_stream_add_jobs_select (io :: rest) pre.length thread pr =
            bbl_stream_add_jobs_select rest (pre ++ [t.pps_reserved]).length thread pr := by
          simp only [bbl_stream_add_jobs_select, ht, hc, if_false, hlen]
        rw [hsel]
        apply ih (pre ++ [t.pps_reserved]) thread pr hrest
        · rw [hlen]; exact Nat.lt_succ_of_lt hlt
        · rw [hget thread hlt]; exact hpr
        · intro j hj
          rw [hlen] at hj
          rcases Nat.lt_succ_iff_lt_or_eq.mp hj with hj | hj
          · rw [hget j hj]
            exact hmin j hj
          · rw [hj, hlast]
            exact Nat.le_of_not_lt hc
        · intro j hj
          rw [hget j (lt_trans hj hlt)]
          exact hfirst j hj

/-- Crediting the thread at a position of a handle list whose handles all have a
thread replaces the reservation at that position and nothing else. -/
theorem add_jobs_credit_spec (config : bbl_stream_config_s) :
    ∀ (l : List io_handle_s) (k : Nat), (∀ io ∈ l, io.thread.isSome = true) →
      io_tx_pps_reserved (bbl_stream_add_jobs_credit config l k) =
        (io_tx_pps_reserved l).set k
          (pps_reserved_add ((io_tx_pps_reserved l).getD k 0) config) ∧
      (∀ io ∈ bbl_stream_add_jobs_credit config l k, io.thread.isSome = true) ∧
      (bbl_stream_add_jobs_credit config l k).length = l.length := by
  intro l
  induction l with
  | nil =>
    intro k _
    simp [bbl_stream_add_jobs_credit, io_tx_pps_reserved]
  | cons io rest ih =>
    intro k hall
    have hio := hall io (List.mem_cons_self _ _)
    have hrest : ∀ x ∈ rest, x.thread.isSome = true :=
      fun x hx => hall x (List.mem_cons_of_mem _ hx)
    cases k with
    | zero =>
      cases ht : io.thread with
      | none => rw [ht] at hio; cases hio
      | some t =>
        refine ⟨?_, ?_, ?_⟩
        · simp [bbl_stream_add_jobs_credit, ht, io_tx_pps_reserved, io_pps_reserved]
        · intro x hx
          simp only [bbl_stream_add_jobs_credit, ht, List.mem_cons] at hx
          rcases hx with hx | hx
          · rw [hx]; rfl
          · exact hrest x hx
        · simp [bbl_stream_add_jobs_credit, ht]
    | succ k =>
      obtain ⟨h1, h2, h3⟩ := ih k hrest
      refine ⟨?_, ?_, ?_⟩
      · simp only [bbl_stream_add_jobs_credit]
        unfold io_tx_pps_reserved at h1 ⊢
        simp only [List.map_cons, List.set_cons_succ, List.getD_cons_succ, h1]
      · intro x hx
        simp only [bbl_stream_add_jobs_credit, List.mem_cons] at hx
        rcases hx with hx | hx
        · rw [hx]; exact hio
        · exact h2 x hx
      · simp [bbl_stream_add_jobs_credit, h3]

/-- What `bbl_stream_add_jobs` does on handles that all have a thread: the
stream goes to the first thread with the least reservation, and that
reservation alone is credited. -/
theorem add_jobs_spec (io_tx : List io_handle_s) (stream : bbl_stream_s)
    (hne : io_tx ≠ []) (hall : ∀ io ∈ io_tx, io.thread.isSome = true) :
    ∃ k, k < io_tx.length ∧
      (bbl_stream_add_jobs io_tx stream).2 = { stream with thread := some k } ∧
      (∀ j, j < io_tx.length →
        (io_tx_pps_reserved io_tx).getD k 0 ≤ (io_tx_pps_reserved io_tx).getD j 0) ∧
      (∀ j, j < k →
        (io_tx_pps_reserved io_tx).getD k 0 < (io_tx_pps_reserved io_tx).getD j 0) ∧
      io_tx_pps_reserved (bbl_stream_add_jobs io_tx stream).1 =
        (io_tx_pps_reserved io_tx).set k
          (pps_reserved_add ((io_tx_pps_reserved io_tx).getD k 0) stream.config) ∧
      (∀ io ∈ (bbl_stream_add_jobs io_tx stream).1, io.thread.isSome = true) ∧
      (bbl_stream_add_jobs io_tx stream).1.length = io_tx.length := by
  cases io_tx with
  | nil => exact absurd rfl hne
  | cons io rest =>
    have hio := hall io (List.mem_cons_self _ _)
    have hrest : ∀ x ∈ rest, x.thread.isSome = true :=
      fun x hx => hall x (List.mem_cons_of_mem _ hx)
    cases ht : io.thread with
    | none => rw [ht] at hio; cases hio
    | some t =>
      have hsel0 : bbl_stream_add_jobs_select (io :: rest) 0 0 t.pps_reserved =
          bbl_stream_add_jobs_select rest [t.pps_reserved].length 0 t.pps_reserved := by
        simp [bbl_stream_add_jobs_select, ht]
      have hL : io_tx_pps_reserved (io :: rest) =
          [t.pps_reserved] ++ io_tx_pps_reserved rest := by
        simp [io_tx_pps_reserved, io_pps_reserved, ht]
      have hspec := add_jobs_select_spec rest [t.pps_reserved] 0 t.pps_reserved hrest
        (by simp) (by simp) (by intro j hj; simp at hj; simp [hj])
        (by intro j hj; exact absurd hj (Nat.not_lt_zero _))
      rw [← hsel0, ← hL] at hspec
      obtain ⟨h1, h2, h3⟩ := hspec
      have hlen : (io_tx_pps_reserved (io :: rest)).length = (io :: rest).length := by
        simp [io_tx_pps_reserved]
      rw [hlen] at h1 h2
      obtain ⟨c1, c2, c3⟩ := add_jobs_credit_spec stream.config (io :: rest)
        (bbl_stream_add_jobs_select (io :: rest) 0 0 t.pps_reserved) hall
      have hjob : bbl_stream_add_jobs (io :: rest) stream =
          (bbl_stream_add_jobs_credit stream.config (io :: rest)
              (bbl_stream_add_jobs_select (io :: rest) 0 0 t.pps_reserved),
            { stream with
              thread := some (bbl_stream_add_jobs_select (io :: rest) 0 0 t.pps_reserved) }) := by
        simp only [bbl_stream_add_jobs, ht]
      rw [hjob]
      exact ⟨_, h1, rfl, h2, h3, c1, c2, c3⟩

/-- Crediting a least entry of a list whose entries differ by at most `P` with
at most `P` keeps the entries within `P` of each other. -/
theorem balanced_set (P p : Nat) (L : List Nat) (k : Nat) (hk : k < L.length)
    (hp : p ≤ P) (hmin : ∀ j, j < L.length → L.getD k 0 ≤ L.getD j 0)
    (hbal : ∀ a ∈ L, ∀ b ∈ L, a ≤ b + P) :
    ∀ a ∈ L.set k (L.getD k 0 + p), ∀ b ∈ L.set k (L.getD k 0 + p), a ≤ b + P := by
  have hmem : L.getD k 0 ∈ L := by
    rw [List.getD_eq_getElem _ _ hk]
    exact List.getElem_mem _
  have hle : ∀ b ∈ L, L.getD k 0 ≤ b := by
    intro b hb
    obtain ⟨j, hj, hjb⟩ := List.getElem_of_mem hb
    have := hmin j hj
    rw [List.getD_eq_getElem _ _ hj, hjb] at this
    exact this
  intro a ha b hb
  rcases List.mem_or_eq_of_mem_set ha with ha | ha <;>
    rcases List.mem_or_eq_of_mem_set hb with hb | hb
  · exact hbal a ha b hb
  · have := hbal a ha _ hmem
    omega
  · have := hle b hb
    omega
  · omega

/-- A run of `bbl_stream_add_jobs` without overflow keeps the reservations
within `P` of each other. -/
theorem add_jobs_run_balanced (P : Nat) :
    ∀ (streams : List bbl_stream_s) (io_tx : List io_handle_s),
      io_tx ≠ [] → (∀ io ∈ io_tx, io.thread.isSome = true) →
      (∀ s ∈ streams, s.config.pps_den = 1 ∧ s.config.pps_num ≤ P) →
      bbl_stream_add_jobs_run_fits streams io_tx = true →
      (∀ a ∈ io_tx_pps_reserved io_tx, ∀ b ∈ io_tx_pps_reserved io_tx, a ≤ b + P) →
      ∀ a ∈ io_tx_pps_reserved (bbl_stream_add_jobs_run streams io_tx),
        ∀ b ∈ io_tx_pps_reserved (bbl_stream_add_jobs_run streams io_tx), a ≤ b + P := by
  intro streams
  induction streams with
  | nil =>
    intro io_tx _ _ _ _ hbal
    exact hbal
  | cons s rest ih =>
    intro io_tx hne hall hint hfits hbal
    obtain ⟨k, hk, hthr, hmin, _, hcred, hall2, hlen⟩ := add_jobs_spec io_tx s hne hall
    obtain ⟨hden, hP⟩ := hint s (List.mem_cons_self _ _)
    simp only [bbl_stream_add_jobs_run_fits, hthr, Bool.and_eq_true, decide_eq_true_eq] at hfits
    obtain ⟨hfit, hfits2⟩ := hfits
    have hadd : pps_reserved_add ((io_tx_pps_reserved io_tx).getD k 0) s.config =
        (io_tx_pps_reserved io_tx).getD k 0 + s.config.pps_num := by
      exact pps_reserved_add_int _ _ hden hfit
    rw [hadd] at hcred
    have hlenL : (io_tx_pps_reserved io_tx).length = io_tx.length := by
      simp [io_tx_pps_reserved]
    have hne2 : (bbl_stream_add_jobs io_tx s).1 ≠ [] := by
      intro h0
      rw [h0] at hlen
      cases io_tx with
      | nil => exact hne rfl
      | cons _ _ => simp at hlen
    simp only [bbl_stream_add_jobs_run]
    apply ih (bbl_stream_add_jobs io_tx s).1 hne2 hall2
      (fun x hx => hint x (List.mem_cons_of_mem _ hx)) hfits2
    rw [hcred]
    exact balanced_set P s.config.pps_num (io_tx_pps_reserved io_tx) k (by rw [hlenL]; exact hk)
      hP (by rw [hlenL]; exact hmin) hbal

/-- C19: starting from TX worker threads that all have `pps_reserved = 0`, after
`bbl_stream_add_jobs` has assigned any finite sequence of streams whose integer
`pps` are each at most `P`, with no credit overflowing 32 bits, any two
reservations differ by at most `P` (so the largest exceeds the smallest by at
most `P`). -/
theorem pps_reserved_balanced (P : Nat) (streams : List bbl_stream_s)
    (io_tx : List io_handle_s) (hne : io_tx ≠ [])
    (hall : ∀ io ∈ io_tx, io.thread.isSome = true)
    (hzero : ∀ io ∈ io_tx, io_pps_reserved io = 0)
    (hint : ∀ s ∈ streams, s.config.pps_den = 1 ∧ s.config.pps_num ≤ P)
    (hfits : bbl_stream_add_jobs_run_fits streams io_tx = true) :
    ∀ a ∈ io_tx_pps_reserved (bbl_stream_add_jobs_run streams io_tx),
      ∀ b ∈ io_tx_pps_reserved (bbl_stream_add_jobs_run streams io_tx), a ≤ b + P := by
  apply add_jobs_run_balanced P streams io_tx hne hall hint hfits
  intro a ha b hb
  simp only [io_tx_pps_reserved, List.mem_map] at ha
  obtain ⟨io, hio, rfl⟩ := ha
  rw [hzero io hio]
  exact Nat.zero_le _

set_option maxRecDepth 100000 in
/-- The balance for three streams of 5, 3 and 4 packets per second assigned to
two idle workers. -/
theorem pps_reserved_balanced_witness :
    io_tx_pps_reserved (bbl_stream_add_jobs_run
      [{ config := { pps_num := 5 } }, { config := { pps_num := 3 } },
       { config := { pps_num := 4 } }] io_tx_two) = [5, 7] ∧
    7 ≤ 5 + 5 :=
  ⟨by decide,
   pps_reserved_balanced 5
    [{ config := { pps_num := 5 } }, { config := { pps_num := 3 } },
     { config := { pps_num := 4 } }] io_tx_two (by decide) (by decide) (by decide) (by decide)
    (by decide) 7 (by decide) 5 (by decide)⟩

/-- C20 (as amended): when the interface's TX handles are all owned by worker
threads, `bbl_stream_add_jobs` assigns the stream to the first thread in list
order whose `pps_reserved` is minimal, replaces that reservation by the sum of
the old value and the `pps` of the stream as double arithmetic gives it (the
sum rounded to the nearest double), converted to `uint32_t` (the fraction
discarded, modulo `2^32`), which is the sum itself when `pps` is an integer and
the sum is below `2^32`, and leaves every other reservation unchanged. -/
theorem add_jobs_first_minimal (io_tx : List io_handle_s) (stream : bbl_stream_s)
    (hne : io_tx ≠ []) (hall : ∀ io ∈ io_tx, io.thread.isSome = true) :
    ∃ k, k < io_tx.length ∧
      (bbl_stream_add_jobs io_tx stream).2.thread = some k ∧
      (∀ j, j < io_tx.length →
        (io_tx_pps_reserved io_tx).getD k 0 ≤ (io_tx_pps_reserved io_tx).getD j 0) ∧
      (∀ j, j < k →
        (io_tx_pps_reserved io_tx).getD k 0 < (io_tx_pps_reserved io_tx).getD j 0) ∧
      io_tx_pps_reserved (bbl_stream_add_jobs io_tx stream).1 =
        (io_tx_pps_reserved io_tx).set k
          (double_to_uint
            (double_add (double_of_nat ((io_tx_pps_reserved io_tx).getD k 0))
              (double_round stream.config.pps_num stream.config.pps_den)) % U32) ∧
      (stream.config.pps_den = 1 →
        (io_tx_pps_reserved io_tx).getD k 0 + stream.config.pps_num < U32 →
        io_tx_pps_reserved (bbl_stream_add_jobs io_tx stream).1 =
          (io_tx_pps_reserved io_tx).set k
            ((io_tx_pps_reserved io_tx).getD k 0 + stream.config.pps_num)) := by
  obtain ⟨k, hk, hthr, hmin, hfirst, hcred, _, _⟩ := add_jobs_spec io_tx stream hne hall
  refine ⟨k, hk, by rw [hthr], hmin, hfirst, hcred, ?_⟩
  intro hden hfit
  rw [hcred, pps_reserved_add_int _ _ hden hfit]

/-- The assignment of a stream of 5 packets per second to workers with
reservations 3, 1 and 1. -/
theorem add_jobs_first_minimal_witness :
    ∃ k, k < io_tx_three.length ∧
      (bbl_stream_add_jobs io_tx_three { config := { pps_num := 5 } }).2.thread = some k ∧
      (∀ j, j < io_tx_three.length →
        (io_tx_pps_reserved io_tx_three).getD k 0 ≤ (io_tx_pps_reserved io_tx_three).getD j 0) ∧
      (∀ j, j < k →
        (io_tx_pps_reserved io_tx_three).getD k 0 < (io_tx_pps_reserved io_tx_three).getD j 0) ∧
      io_tx_pps_reserved (bbl_stream_add_jobs io_tx_three { config := { pps_num := 5 } }).1 =
        (io_tx_pps_reserved io_tx_three).set k
          (double_to_uint
            (double_add (double_of_nat ((io_tx_pps_reserved io_tx_three).getD k 0))
              (double_round 5 1)) % U32) ∧
      ((1 : Nat) = 1 →
        (io_tx_pps_reserved io_tx_three).getD k 0 + 5 < U32 →
        io_tx_pps_reserved (bbl_stream_add_jobs io_tx_three { config := { pps_num := 5 } }).1 =
          (io_tx_pps_reserved io_tx_three).set k
            ((io_tx_pps_reserved io_tx_three).getD k 0 + 5)) :=
  add_jobs_first_minimal io_tx_three { config := { pps_num := 5 } } (by decide) (by decide)

set_option maxRecDepth 100000 in
/-- C20 (as stated) fails: a stream of 1/2 packet per second is assigned to the
first of two idle workers, whose reservation stays 0 instead of increasing by
the `pps` of the stream; and a stream of `1 - 2^-53` packets per second
assigned to a worker with the reservation 1 makes it 2, the double sum being
rounded up before the conversion. -/
theorem add_jobs_fractional_pps_counterexample :
    (bbl_stream_add_jobs io_tx_two { config := { pps_num := 1, pps_den := 2 } }).2.thread =
      some 0 ∧
    io_tx_pps_reserved
      (bbl_stream_add_jobs io_tx_two { config := { pps_num := 1, pps_den := 2 } }).1 = [0, 0] ∧
    pps_reserved_as_specified 0
      ((io_tx_pps_reserved
        (bbl_stream_add_jobs io_tx_two { config := { pps_num := 1, pps_den := 2 } }).1).getD 0 0)
      { pps_num := 1, pps_den := 2 } = false ∧
    io_tx_pps_reserved io_tx_three = [3, 1, 1] ∧
    io_tx_pps_reserved
      (bbl_stream_add_jobs io_tx_three
        { config := { pps_num := 9007199254740991, pps_den := 9007199254740992 } }).1 =
      [3, 2, 1] := by
  decide

/-! Section: Theorems about network interfaces. -/

/-- Handing a frame to the TXQ changes at most the TXQ of the interface. -/
theorem network_txq_to_buffer_frame (env : bbl_network_env)
    (interface : bbl_network_interface_s) (eth : bbl_ethernet_header_t) :
    ∃ txq, (bbl_network_txq_to_buffer env interface eth).1 = { interface with txq := txq } ∧
      (txq = interface.txq ∨
        (interface.txq.slots.length < interface.txq.size ∧ env.encode_ethernet eth = true ∧
          txq = { interface.txq with slots := interface.txq.slots ++ [eth] })) := by
  refine ⟨(bbl_txq_to_buffer env.encode_ethernet interface.txq eth).1, rfl, ?_⟩
  unfold bbl_txq_to_buffer
  by_cases hfull : interface.txq.size ≤ interface.txq.slots.length
  · left; simp [hfull]
  · by_cases henc : env.encode_ethernet eth = true
    · right
      exact ⟨Nat.lt_of_not_le hfull, henc, by simp [hfull, henc]⟩
    · left; simp [hfull, henc]

/-- A TXQ with a free slot takes a frame that the encoder accepts. -/
theorem network_txq_to_buffer_accepted (env : bbl_network_env)
    (interface : bbl_network_interface_s) (eth : bbl_ethernet_header_t)
    (hroom : interface.txq.slots.length < interface.txq.size)
    (henc : env.encode_ethernet eth = true) :
    (bbl_network_txq_to_buffer env interface eth).1 =
      { interface with
        txq := { interface.txq with slots := interface.txq.slots ++ [eth] } } := by
  unfold bbl_network_txq_to_buffer bbl_txq_to_buffer
  simp [Nat.not_le.mpr hroom, henc]

/-- The loop over the secondary IPv4 addresses replies exactly when the target is
one of them. -/
theorem rx_arp_secondary_spec (K : bbl_network_consts) (env : bbl_network_env)
    (interface : bbl_network_interface_s) (eth : bbl_ethernet_header_t) (arp : bbl_arp_t)
    (l : List Nat) :
    bbl_network_rx_arp_secondary K env interface eth arp l =
      if arp.target_ip ∈ l then (bbl_network_arp_reply K env interface eth arp).1
      else interface := by
  induction l with
  | nil => simp [bbl_network_rx_arp_secondary]
  | cons a rest ih =>
    unfold bbl_network_rx_arp_secondary
    by_cases h : arp.target_ip = a
    · simp [h]
    · simp [h, ih]

/-- The loop over the secondary IPv6 addresses advertises exactly when the target
is one of them. -/
theorem rx_icmpv6_secondary_spec (K : bbl_network_consts) (env : bbl_network_env)
    (interface : bbl_network_interface_s) (eth : bbl_ethernet_header_t) (ipv6 : bbl_ipv6_t)
    (icmpv6 : bbl_icmpv6_t) (l : List (List Nat)) :
    bbl_network_rx_icmpv6_secondary K env interface eth ipv6 icmpv6 l =
      if icmpv6.prefix_address ∈ l then (bbl_network_icmpv6_na K env interface eth ipv6 icmpv6).1
      else interface := by
  induction l with
  | nil => simp [bbl_network_rx_icmpv6_secondary]
  | cons a rest ih =>
    unfold bbl_network_rx_icmpv6_secondary
    by_cases h : icmpv6.prefix_address = a
    · simp [h]
    · simp [h, ih]

/-- What `bbl_network_rx_arp` does with an ARP frame: it marks ARP resolved and
learns the gateway MAC if the sender is the gateway, and it hands the reply to
the TXQ if moreover the packet is a request for the address of the interface
or for a secondary address. -/
theorem rx_arp_spec (K : bbl_network_consts) (env : bbl_network_env)
    (interface : bbl_network_interface_s) (eth : bbl_ethernet_header_t) (arp : bbl_arp_t)
    (hnext : eth.next = bbl_ethernet_next.arp arp) :
    bbl_network_rx_arp K env interface eth =
      if arp.sender_ip = interface.gateway ∧ arp.code = K.ARP_REQUEST ∧
          (arp.target_ip = interface.ip_address ∨
            arp.target_ip ∈ env.secondary_ip_addresses) then
        (bbl_network_arp_reply K env
          { interface with
            arp_resolved := true,
            gateway_mac := gateway_mac_learn true interface.gateway_mac arp.sender }
          eth arp).1
      else
        { interface with
          arp_resolved := interface.arp_resolved || decide (arp.sender_ip = interface.gateway),
          gateway_mac :=
            gateway_mac_learn (decide (arp.sender_ip = interface.gateway))
              interface.gateway_mac arp.sender } := by
  unfold bbl_network_rx_arp gateway_mac_learn
  simp only [hnext, rx_arp_secondary_spec]
  by_cases hgw : arp.sender_ip = interface.gateway
  · by_cases hword : gateway_mac_word0 interface.gateway_mac = 0
    · by_cases hreq : arp.code = K.ARP_REQUEST
      · by_cases hip : arp.target_ip = interface.ip_address
        · simp [hgw, hword, hreq, hip]
        · by_cases hsec : arp.target_ip ∈ env.secondary_ip_addresses
          · simp [hgw, hword, hreq, hip, hsec]
          · simp [hgw, hword, hreq, hip, hsec]
      · simp [hgw, hword, hreq]
    · by_cases hreq : arp.code = K.ARP_REQUEST
      · by_cases hip : arp.target_ip = interface.ip_address
        · simp [hgw, hword, hreq, hip]
        · by_cases hsec : arp.target_ip ∈ env.secondary_ip_addresses
          · simp [hgw, hword, hreq, hip, hsec]
          · simp [hgw, hword, hreq, hip, hsec]
      · simp [hgw, hword, hreq]
  · simp [hgw]

/-- A frame without ARP payload is left alone by `bbl_network_rx_arp`. -/
theorem rx_arp_other (K : bbl_network_consts) (env : bbl_network_env)
    (interface : bbl_network_interface_s) (eth : bbl_ethernet_header_t)
    (hnext : ∀ arp, eth.next ≠ bbl_ethernet_next.arp arp) :
    bbl_network_rx_arp K env interface eth = interface := by
  unfold bbl_network_rx_arp
  cases h : eth.next with
  | arp arp => exact absurd h (hnext arp)
  | ipv4 _ => rfl
  | ipv6 _ => rfl
  | other => rfl

/-- The fields of the interface that `bbl_network_rx_arp` leaves as they are, and
the two it sets. -/
theorem rx_arp_frame (K : bbl_network_consts) (env : bbl_network_env)
    (interface : bbl_network_interface_s) (eth : bbl_ethernet_header_t) (arp : bbl_arp_t)
    (hnext : eth.next = bbl_ethernet_next.arp arp) :
    ∃ txq, bbl_network_rx_arp K env interface eth =
      { interface with
        arp_resolved := interface.arp_resolved || decide (arp.sender_ip = interface.gateway),
        gateway_mac :=
          gateway_mac_learn (decide (arp.sender_ip = interface.gateway))
            interface.gateway_mac arp.sender,
        txq := txq } := by
  rw [rx_arp_spec K env interface eth arp hnext]
  split_ifs with h
  · obtain ⟨txq, h1, _⟩ := network_txq_to_buffer_frame env
      { interface with
        arp_resolved := true,
        gateway_mac := gateway_mac_learn true interface.gateway_mac arp.sender }
      (bbl_network_arp_reply_eth K
        { interface with
          arp_resolved := true,
          gateway_mac := gateway_mac_learn true interface.gateway_mac arp.sender } eth arp)
    refine ⟨txq, ?_⟩
    unfold bbl_network_arp_reply
    rw [h1]
    simp [h.1]
  · exact ⟨interface.txq, rfl⟩

/-- Learning the gateway MAC twice from the same sender is learning it once. -/
theorem gateway_mac_learn_idem (from_gateway : Bool) (gateway_mac sender : List Nat) :
    gateway_mac_learn from_gateway (gateway_mac_learn from_gateway gateway_mac sender) sender =
      gateway_mac_learn from_gateway gateway_mac sender := by
  unfold gateway_mac_learn
  by_cases h1 : from_gateway = true ∧ gateway_mac_word0 gateway_mac = 0
  · simp only [h1, and_self, if_true, true_and]
    split_ifs <;> rfl
  · rw [if_neg h1, if_neg h1]

/-- What `bbl_network_rx_icmpv6` does with an ICMPv6 frame: the learning step,
then the advertisement for a solicited address of the interface or the echo
reply. -/
theorem rx_icmpv6_spec (K : bbl_network_consts) (env : bbl_network_env)
    (interface : bbl_network_interface_s) (eth : bbl_ethernet_header_t) (ipv6 : bbl_ipv6_t)
    (icmpv6 : bbl_icmpv6_t)
    (hnext : eth.next = bbl_ethernet_next.ipv6 ipv6)
    (hnext6 : ipv6.next = bbl_ipv6_next.icmpv6 icmpv6) :
    bbl_network_rx_icmpv6 K env interface eth =
      if icmpv6.type = K.IPV6_ICMPV6_NEIGHBOR_SOLICITATION then
        if icmpv6.prefix_address = interface.ip6_address ∨
            icmpv6.prefix_address = interface.ip6_ll ∨
            icmpv6.prefix_address ∈ env.secondary_ip6_addresses then
          (bbl_network_icmpv6_na K env
            { interface with
              icmpv6_nd_resolved :=
                interface.icmpv6_nd_resolved || decide (ipv6.src = interface.gateway6),
              gateway_mac :=
                gateway_mac_learn (decide (ipv6.src = interface.gateway6))
                  interface.gateway_mac eth.src }
            eth ipv6 icmpv6).1
        else
          { interface with
            icmpv6_nd_resolved :=
              interface.icmpv6_nd_resolved || decide (ipv6.src = interface.gateway6),
            gateway_mac :=
              gateway_mac_learn (decide (ipv6.src = interface.gateway6))
                interface.gateway_mac eth.src }
      else if icmpv6.type = K.IPV6_ICMPV6_ECHO_REQUEST then
        (bbl_network_icmpv6_echo_reply K env
          { interface with
            icmpv6_nd_resolved :=
              interface.icmpv6_nd_resolved || decide (ipv6.src = interface.gateway6),
            gateway_mac :=
              gateway_mac_learn (decide (ipv6.src = interface.gateway6))
                interface.gateway_mac eth.src }
          eth ipv6 icmpv6).1
      else
        { interface with
          icmpv6_nd_resolved :=
            interface.icmpv6_nd_resolved || decide (ipv6.src = interface.gateway6),
          gateway_mac :=
            gateway_mac_learn (decide (ipv6.src = interface.gateway6))
              interface.gateway_mac eth.src } := by
  have hlearn :
      (if ipv6.src = interface.gateway6 then
          if gateway_mac_word0
              ({ interface with icmpv6_nd_resolved := true } : bbl_network_interface_s).gateway_mac
                = 0 then
            { ({ interface with icmpv6_nd_resolved := true } : bbl_network_interface_s) with
              gateway_mac := eth.src }
          else { interface with icmpv6_nd_resolved := true }
        else interface) =
      { interface with
        icmpv6_nd_resolved :=
          interface.icmpv6_nd_resolved || decide (ipv6.src = interface.gateway6),
        gateway_mac :=
          gateway_mac_learn (decide (ipv6.src = interface.gateway6))
            interface.gateway_mac eth.src } := by
    unfold gateway_mac_learn
    by_cases hgw : ipv6.src = interface.gateway6
    · by_cases hword : gateway_mac_word0 interface.gateway_mac = 0
      · simp [hgw, hword]
      · simp [hgw, hword]
    · simp [hgw]
  unfold bbl_network_rx_icmpv6
  simp only [hnext, hnext6, rx_icmpv6_secondary_spec]
  rw [hlearn]
  by_cases hns : icmpv6.type = K.IPV6_ICMPV6_NEIGHBOR_SOLICITATION
  · simp only [hns, if_true]
    by_cases h1 : icmpv6.prefix_address = interface.ip6_address
    · simp [h1]
    · by_cases h2 : icmpv6.prefix_address = interface.ip6_ll
      · simp [h1, h2]
      · by_cases h3 : icmpv6.prefix_address ∈ env.secondary_ip6_addresses
        · simp [h1, h2, h3]
        · simp [h1, h2, h3]
  · simp only [hns, if_false]

/-- The fields of the interface that `bbl_network_rx_icmpv6` leaves as they are,
and the two it sets. -/
theorem rx_icmpv6_frame (K : bbl_network_consts) (env : bbl_network_env)
    (interface : bbl_network_interface_s) (eth : bbl_ethernet_header_t) (ipv6 : bbl_ipv6_t)
    (icmpv6 : bbl_icmpv6_t)
    (hnext : eth.next = bbl_ethernet_next.ipv6 ipv6)
    (hnext6 : ipv6.next = bbl_ipv6_next.icmpv6 icmpv6) :
    ∃ txq, bbl_network_rx_icmpv6 K env interface eth =
      { interface with
        icmpv6_nd_resolved :=
          interface.icmpv6_nd_resolved || decide (ipv6.src = interface.gateway6),
        gateway_mac :=
          gateway_mac_learn (decide (ipv6.src = interface.gateway6))
            interface.gateway_mac eth.src,
        txq := txq } := by
  rw [rx_icmpv6_spec K env interface eth ipv6 icmpv6 hnext hnext6]
  split_ifs
  · obtain ⟨txq, h1, _⟩ := network_txq_to_buffer_frame env
      { interface with
        icmpv6_nd_resolved :=
          interface.icmpv6_nd_resolved || decide (ipv6.src = interface.gateway6),
        gateway_mac :=
          gateway_mac_learn (decide (ipv6.src = interface.gateway6))
            interface.gateway_mac eth.src }
      (bbl_network_icmpv6_na_eth K
        { interface with
          icmpv6_nd_resolved :=
            interface.icmpv6_nd_resolved || decide (ipv6.src = interface.gateway6),
          gateway_mac :=
            gateway_mac_learn (decide (ipv6.src = interface.gateway6))
              interface.gateway_mac eth.src } eth ipv6 icmpv6)
    refine ⟨txq, ?_⟩
    unfold bbl_network_icmpv6_na
    rw [h1]
  · exact ⟨interface.txq, rfl⟩
  · obtain ⟨txq, h1, _⟩ := network_txq_to_buffer_frame env
      { interface with
        icmpv6_nd_resolved :=
          interface.icmpv6_nd_resolved || decide (ipv6.src = interface.gateway6),
        gateway_mac :=
          gateway_mac_learn (decide (ipv6.src = interface.gateway6))
            interface.gateway_mac eth.src }
      (bbl_network_icmpv6_echo_reply_eth K
        { interface with
          icmpv6_nd_resolved :=
            interface.icmpv6_nd_resolved || decide (ipv6.src = interface.gateway6),
          gateway_mac :=
            gateway_mac_learn (decide (ipv6.src = interface.gateway6))
              interface.gateway_mac eth.src } eth ipv6 icmpv6)
    refine ⟨txq, ?_⟩
    unfold bbl_network_icmpv6_echo_reply
    rw [h1]
  · exact ⟨interface.txq, rfl⟩

/-- A frame without ICMPv6 payload is left alone by `bbl_network_rx_icmpv6`. -/
theorem rx_icmpv6_other (K : bbl_network_consts) (env : bbl_network_env)
    (interface : bbl_network_interface_s) (eth : bbl_ethernet_header_t)
    (hnext : ∀ ipv6 icmpv6, eth.next = bbl_ethernet_next.ipv6 ipv6 →
      ipv6.next ≠ bbl_ipv6_next.icmpv6 icmpv6) :
    bbl_network_rx_icmpv6 K env interface eth = interface := by
  unfold bbl_network_rx_icmpv6
  cases h : eth.next with
  | arp _ => rfl
  | ipv4 _ => rfl
  | other => rfl
  | ipv6 ipv6 =>
    cases h6 : ipv6.next with
    | icmpv6 icmpv6 => exact absurd h6 (hnext ipv6 icmpv6 h)
    | other => simp [h6]

/-- Processing a frame twice with `bbl_network_rx_arp` leaves the gateway MAC and
the resolved flag as after processing it once. -/
theorem rx_arp_twice (K : bbl_network_consts) (env : bbl_network_env)
    (interface : bbl_network_interface_s) (eth : bbl_ethernet_header_t) :
    (bbl_network_rx_arp K env (bbl_network_rx_arp K env interface eth) eth).gateway_mac =
      (bbl_network_rx_arp K env interface eth).gateway_mac ∧
    (bbl_network_rx_arp K env (bbl_network_rx_arp K env interface eth) eth).arp_resolved =
      (bbl_network_rx_arp K env interface eth).arp_resolved := by
  by_cases hnext : ∃ arp, eth.next = bbl_ethernet_next.arp arp
  · obtain ⟨arp, hnext⟩ := hnext
    obtain ⟨txq1, h1⟩ := rx_arp_frame K env interface eth arp hnext
    obtain ⟨txq2, h2⟩ := rx_arp_frame K env (bbl_network_rx_arp K env interface eth) eth arp hnext
    rw [h2]
    simp only [h1, gateway_mac_learn_idem, true_and]
    cases interface.arp_resolved <;> cases decide (arp.sender_ip = interface.gateway) <;> rfl
  · have hother : ∀ arp, eth.next ≠ bbl_ethernet_next.arp arp :=
      fun arp h => hnext ⟨arp, h⟩
    rw [rx_arp_other K env _ eth hother, rx_arp_other K env _ eth hother]
    exact ⟨rfl, rfl⟩

/-- Processing a frame twice with `bbl_network_rx_icmpv6` leaves the gateway MAC
and the resolved flag as after processing it once. -/
theorem rx_icmpv6_twice (K : bbl_network_consts) (env : bbl_network_env)
    (interface : bbl_network_interface_s) (eth : bbl_ethernet_header_t) :
    (bbl_network_rx_icmpv6 K env (bbl_network_rx_icmpv6 K env interface eth) eth).gateway_mac =
      (bbl_network_rx_icmpv6 K env interface eth).gateway_mac ∧
    (bbl_network_rx_icmpv6 K env
        (bbl_network_rx_icmpv6 K env interface eth) eth).icmpv6_nd_resolved =
      (bbl_network_rx_icmpv6 K env interface eth).icmpv6_nd_resolved := by
  by_cases hnext : ∃ ipv6 icmpv6, eth.next = bbl_ethernet_next.ipv6 ipv6 ∧
      ipv6.next = bbl_ipv6_next.icmpv6 icmpv6
  · obtain ⟨ipv6, icmpv6, hnext, hnext6⟩ := hnext
    obtain ⟨txq1, h1⟩ := rx_icmpv6_frame K env interface eth ipv6 icmpv6 hnext hnext6
    obtain ⟨txq2, h2⟩ := rx_icmpv6_frame K env (bbl_network_rx_icmpv6 K env interface eth) eth
      ipv6 icmpv6 hnext hnext6
    rw [h2]
    simp only [h1, gateway_mac_learn_idem, true_and]
    cases interface.icmpv6_nd_resolved <;> cases decide (ipv6.src = interface.gateway6) <;> rfl
  · have hother : ∀ ipv6 icmpv6, eth.next = bbl_ethernet_next.ipv6 ipv6 →
        ipv6.next ≠ bbl_ipv6_next.icmpv6 icmpv6 :=
      fun ipv6 icmpv6 h h6 => hnext ⟨ipv6, icmpv6, h, h6⟩
    rw [rx_icmpv6_other K env _ eth hother, rx_icmpv6_other K env _ eth hother]
    exact ⟨rfl, rfl⟩

/-- The link-local address of a new network interface is built from its MAC. -/
theorem network_interface_new_ip6_ll (K : bbl_network_consts) (config : bbl_network_config_s)
    (interface : bbl_interface_s) :
    (bbl_network_interface_new K config interface).ip6_ll =
      network_interface_ip6_ll (bbl_network_interface_new K config interface).mac := by
  unfold bbl_network_interface_new
  simp only
  split_ifs <;> rfl

/-- An entry of a list read with a default is in the list or is the default. -/
theorem getD_mem_or_default {α : Type} (l : List α) (i : Nat) (d : α) :
    l.getD i d ∈ l ∨ l.getD i d = d := by
  by_cases h : i < l.length
  · left
    rw [List.getD_eq_getElem _ _ h]
    exact List.getElem_mem _
  · right
    exact List.getD_eq_default _ _ (Nat.le_of_not_lt h)

/-- Every network interface attached after a run of `bbl_network_interfaces_add`
was attached before or has the link-local address built from its MAC. -/
theorem interfaces_add_ip6_ll (K : bbl_network_consts) (env : bbl_network_env)
    (configs : List bbl_network_config_s) :
    ∀ (interfaces : List bbl_interface_s),
      ∀ interface ∈ (bbl_network_interfaces_add K env configs interfaces).1,
        ∀ n ∈ interface.network,
          (∃ old ∈ interfaces, n ∈ old.network) ∨
          n.ip6_ll = network_interface_ip6_ll n.mac := by
  induction configs with
  | nil =>
    intro interfaces interface hi n hn
    exact Or.inl ⟨interface, hi, hn⟩
  | cons config rest ih =>
    intro interfaces interface hi n hn
    have hset : ∀ i, ∀ x ∈ interfaces.set i
        { interfaces.getD i {} with
          network := bbl_network_interface_new K config (interfaces.getD i {}) ::
            (interfaces.getD i {}).network },
        ∀ m ∈ x.network,
          (∃ old ∈ interfaces, m ∈ old.network) ∨
          m.ip6_ll = network_interface_ip6_ll m.mac := by
      intro i x hx m hm
      rcases List.mem_or_eq_of_mem_set hx with hx | hx
      · exact Or.inl ⟨x, hx, hm⟩
      · rw [hx] at hm
        rcases List.mem_cons.mp hm with hm | hm
        · right
          rw [hm]
          exact network_interface_new_ip6_ll K config _
        · rcases getD_mem_or_default interfaces i {} with hd | hd
          · exact Or.inl ⟨_, hd, hm⟩
          · rw [hd] at hm
            cases hm
    unfold bbl_network_interfaces_add at hi
    cases hget : bbl_interface_get interfaces config.interface with
    | none =>
      rw [hget] at hi
      exact Or.inl ⟨interface, hi, hn⟩
    | some i =>
      rw [hget] at hi
      simp only at hi
      split_ifs at hi
      · exact Or.inl ⟨interface, hi, hn⟩
      · exact Or.inl ⟨interface, hi, hn⟩
      · exact hset i interface hi n hn
      · exact hset i interface hi n hn
      · rcases ih _ interface hi n hn with ⟨old, hold, hm⟩ | h
        · exact hset i old hold n hm
        · exact Or.inr h

/-- C13 (as amended): for every interface MAC address aa:bb:cc:dd:ee:ff, the
link-local IPv6 address that `bbl_network_interfaces_add` stores in `ip6_ll` of
a network interface it creates is fe80:0000:0000:0000 followed by the eight
bytes aa, bb, cc, 0xff, 0xfe, dd, ee, ff: the first byte of the MAC is stored
as it is. -/
theorem interfaces_add_link_local (K : bbl_network_consts) (env : bbl_network_env)
    (configs : List bbl_network_config_s) (interfaces : List bbl_interface_s)
    (interface : bbl_interface_s) (n : bbl_network_interface_s)
    (hinterface : interface ∈ (bbl_network_interfaces_add K env configs interfaces).1)
    (hn : n ∈ interface.network)
    (hnew : ∀ old ∈ interfaces, n ∉ old.network) :
    n.ip6_ll =
      [0xfe, 0x80, 0, 0, 0, 0, 0, 0,
       n.mac.getD 0 0, n.mac.getD 1 0, n.mac.getD 2 0, 0xff, 0xfe,
       n.mac.getD 3 0, n.mac.getD 4 0, n.mac.getD 5 0] := by
  rcases interfaces_add_ip6_ll K env configs interfaces interface hinterface n hn with
    ⟨old, hold, hm⟩ | h
  · exact absurd hm (hnew old hold)
  · exact h

/-- The link-local address of the network interface created for the sample
configuration on `eth0`. -/
theorem interfaces_add_link_local_witness :
    (bbl_network_interface_new sample_network_consts network_config_sample
        { name := "eth0" }).ip6_ll =
      [0xfe, 0x80, 0, 0, 0, 0, 0, 0, 0x02, 0x11, 0x22, 0xff, 0xfe, 0x33, 0x44, 0x55] :=
  interfaces_add_link_local sample_network_consts {} [network_config_sample]
    [{ name := "eth0" }]
    { name := "eth0",
      network := [bbl_network_interface_new sample_network_consts network_config_sample
        { name := "eth0" }] }
    (bbl_network_interface_new sample_network_consts network_config_sample { name := "eth0" })
    (by decide) (by decide) (by decide)

/-- C13 (as stated) fails: for the configured MAC 02:11:22:33:44:55
`bbl_network_interfaces_add` stores fe80::0211:22ff:fe33:4455, whose ninth byte
is 0x02, while the modified EUI-64 address of the specification has 0x00
there. -/
theorem interfaces_add_link_local_counterexample :
    ((bbl_network_interfaces_add sample_network_consts {} [network_config_sample]
        [{ name := "eth0" }]).1.map
      (fun interface => interface.network.map (fun n => (n.mac, n.ip6_ll)))) =
      [[([0x02, 0x11, 0x22, 0x33, 0x44, 0x55],
         [0xfe, 0x80, 0, 0, 0, 0, 0, 0, 0x02, 0x11, 0x22, 0xff, 0xfe, 0x33, 0x44, 0x55])]] ∧
    ip6_ll_as_specified [0x02, 0x11, 0x22, 0x33, 0x44, 0x55] =
      [0xfe, 0x80, 0, 0, 0, 0, 0, 0, 0x00, 0x11, 0x22, 0xff, 0xfe, 0x33, 0x44, 0x55] := by
  decide

/-- The first four bytes of a MAC read as one word are zero exactly when each of
them is zero. -/
theorem gateway_mac_word0_eq_zero_iff (gateway_mac : List Nat) :
    gateway_mac_word0 gateway_mac = 0 ↔ ∀ b ∈ gateway_mac.take 4, b = 0 := by
  unfold gateway_mac_word0
  exact le_value_eq_zero_iff _

/-- C14 (as amended): `bbl_network_rx_arp` and `bbl_network_rx_icmpv6` change
the interface's `gateway_mac` only when the packet comes from the configured
gateway (ARP sender IP = gateway, resp. IPv6 source = gateway6) and the first
four bytes of `gateway_mac` are zero, in which case it becomes the sender's MAC
(the ARP sender address, resp. the Ethernet source); a `gateway_mac` with a
non-zero byte among its first four is never overwritten. -/
theorem gateway_mac_learned (K : bbl_network_consts) (env : bbl_network_env)
    (interface : bbl_network_interface_s) (eth : bbl_ethernet_header_t) :
    (∀ arp, eth.next = bbl_ethernet_next.arp arp →
      (bbl_network_rx_arp K env interface eth).gateway_mac =
        if arp.sender_ip = interface.gateway ∧ (∀ b ∈ interface.gateway_mac.take 4, b = 0)
        then arp.sender else interface.gateway_mac) ∧
    (∀ ipv6 icmpv6, eth.next = bbl_ethernet_next.ipv6 ipv6 →
      ipv6.next = bbl_ipv6_next.icmpv6 icmpv6 →
      (bbl_network_rx_icmpv6 K env interface eth).gateway_mac =
        if ipv6.src = interface.gateway6 ∧ (∀ b ∈ interface.gateway_mac.take 4, b = 0)
        then eth.src else interface.gateway_mac) := by
  constructor
  · intro arp hnext
    obtain ⟨txq, h⟩ := rx_arp_frame K env interface eth arp hnext
    rw [h]
    simp only [gateway_mac_learn, decide_eq_true_eq, gateway_mac_word0_eq_zero_iff]
  · intro ipv6 icmpv6 hnext hnext6
    obtain ⟨txq, h⟩ := rx_icmpv6_frame K env interface eth ipv6 icmpv6 hnext hnext6
    rw [h]
    simp only [gateway_mac_learn, decide_eq_true_eq, gateway_mac_word0_eq_zero_iff]

/-- C14 (as stated) fails: the gateway MAC 00:00:00:00:00:01, which has a
non-zero byte, is overwritten by the sender MAC of an ARP reply from the
gateway. -/
theorem gateway_mac_overwritten_counterexample :
    ({ network_interface_sample with gateway_mac := [0, 0, 0, 0, 0, 1] } :
      bbl_network_interface_s).gateway_mac = [0, 0, 0, 0, 0, 1] ∧
    (bbl_network_rx_arp sample_network_consts {}
      { network_interface_sample with gateway_mac := [0, 0, 0, 0, 0, 1] }
      (arp_frame 2 [0xaa, 0xbb, 0xcc, 0xdd, 0xee, 0xff] 167772161 167772162)).gateway_mac =
      [0xaa, 0xbb, 0xcc, 0xdd, 0xee, 0xff] := by
  decide

/-- C15: for every network-interface state and every ARP packet (resp. ICMPv6
packet, in particular a neighbor advertisement), from the gateway or not,
processing the same packet twice with `bbl_network_rx_arp` (resp.
`bbl_network_rx_icmpv6`) leaves `gateway_mac` and the resolved flag
(`arp_resolved`, resp. `icmpv6_nd_resolved`) equal to their values after
processing it once. -/
theorem gateway_learning_idempotent (K : bbl_network_consts) (env : bbl_network_env)
    (interface : bbl_network_interface_s) (eth : bbl_ethernet_header_t) :
    ((bbl_network_rx_arp K env (bbl_network_rx_arp K env interface eth) eth).gateway_mac =
        (bbl_network_rx_arp K env interface eth).gateway_mac ∧
      (bbl_network_rx_arp K env (bbl_network_rx_arp K env interface eth) eth).arp_resolved =
        (bbl_network_rx_arp K env interface eth).arp_resolved) ∧
    ((bbl_network_rx_icmpv6 K env (bbl_network_rx_icmpv6 K env interface eth) eth).gateway_mac =
        (bbl_network_rx_icmpv6 K env interface eth).gateway_mac ∧
      (bbl_network_rx_icmpv6 K env
          (bbl_network_rx_icmpv6 K env interface eth) eth).icmpv6_nd_resolved =
        (bbl_network_rx_icmpv6 K env interface eth).icmpv6_nd_resolved) :=
  ⟨rx_arp_twice K env interface eth, rx_icmpv6_twice K env interface eth⟩

/-- C16 (as amended): for every received ARP request whose target IP equals the
network interface's IPv4 address or one of the configured secondary IPv4
addresses, if the TXQ has a free slot and the encoder accepts the frame,
`bbl_network_rx_arp` queues exactly one ARP reply on the interface's TXQ when
the sender IP of the request is the configured gateway, with opcode reply,
Ethernet destination = the request's Ethernet source, Ethernet source and ARP
sender MAC = the interface MAC, and ARP sender IP = the requested target IP;
it queues nothing when the sender IP is not the gateway. -/
theorem rx_arp_reply_queued (K : bbl_network_consts) (env : bbl_network_env)
    (interface : bbl_network_interface_s) (eth : bbl_ethernet_header_t) (arp : bbl_arp_t)
    (hnext : eth.next = bbl_ethernet_next.arp arp)
    (hreq : arp.code = K.ARP_REQUEST)
    (htarget : arp.target_ip = interface.ip_address ∨
      arp.target_ip ∈ env.secondary_ip_addresses)
    (hroom : interface.txq.slots.length < interface.txq.size)
    (henc : ∀ frame, env.encode_ethernet frame = true) :
    (arp.sender_ip = interface.gateway →
      ∃ reply arpr,
        (bbl_network_rx_arp K env interface eth).txq.slots =
          interface.txq.slots ++ [reply] ∧
        reply.next = bbl_ethernet_next.arp arpr ∧
        arpr.code = K.ARP_REPLY ∧
        reply.dst = eth.src ∧ reply.src = interface.mac ∧
        arpr.sender = interface.mac ∧ arpr.sender_ip = arp.target_ip) ∧
    (arp.sender_ip ≠ interface.gateway →
      (bbl_network_rx_arp K env interface eth).txq.slots = interface.txq.slots) := by
  constructor
  · intro hgw
    rw [rx_arp_spec K env interface eth arp hnext, if_pos ⟨hgw, hreq, htarget⟩]
    unfold bbl_network_arp_reply
    rw [network_txq_to_buffer_accepted env
      { interface with
        arp_resolved := true,
        gateway_mac := gateway_mac_learn true interface.gateway_mac arp.sender }
      _ hroom (henc _)]
    exact ⟨_, _, rfl, rfl, rfl, rfl, rfl, rfl, rfl⟩
  · intro hgw
    rw [rx_arp_spec K env interface eth arp hnext, if_neg (fun h => hgw h.1)]

/-- The reply to an ARP request of the gateway 10.0.0.1 for the address 10.0.0.2
of the sample interface. -/
theorem rx_arp_reply_queued_witness :
    ∃ reply arpr,
      (bbl_network_rx_arp sample_network_consts {} network_interface_sample
        (arp_frame 1 [0xaa, 0xbb, 0xcc, 0xdd, 0xee, 0xff] 167772161 167772162)).txq.slots =
        network_interface_sample.txq.slots ++ [reply] ∧
      reply.next = bbl_ethernet_next.arp arpr ∧
      arpr.code = sample_network_consts.ARP_REPLY ∧
      reply.dst = [0xaa, 0xbb, 0xcc, 0xdd, 0xee, 0xff] ∧
      reply.src = network_interface_sample.mac ∧
      arpr.sender = network_interface_sample.mac ∧ arpr.sender_ip = 167772162 :=
  (rx_arp_reply_queued sample_network_consts {} network_interface_sample
    (arp_frame 1 [0xaa, 0xbb, 0xcc, 0xdd, 0xee, 0xff] 167772161 167772162)
    { code := 1, sender := [0xaa, 0xbb, 0xcc, 0xdd, 0xee, 0xff], sender_ip := 167772161,
      target_ip := 167772162 }
    rfl rfl (Or.inl rfl) (by decide) (fun _ => rfl)).1 rfl

/-- C16 (as stated) fails: an ARP request for the address of the interface whose
sender IP 10.0.0.5 is not the gateway gets no reply, the TXQ stays empty. -/
theorem rx_arp_not_gateway_counterexample :
    (arp_frame 1 [0xaa, 0xbb, 0xcc, 0xdd, 0xee, 0xff] 167772165 167772162).next =
      bbl_ethernet_next.arp
        { code := sample_network_consts.ARP_REQUEST,
          sender := [0xaa, 0xbb, 0xcc, 0xdd, 0xee, 0xff], sender_ip := 167772165,
          target_ip := network_interface_sample.ip_address } ∧
    (bbl_network_rx_arp sample_network_consts {} network_interface_sample
      (arp_frame 1 [0xaa, 0xbb, 0xcc, 0xdd, 0xee, 0xff] 167772165 167772162)).txq.slots = [] := by
  decide

/-- The function `bbl_stream_delay` applies the update of `min_delay_ns` to the
delay of the two timestamps. -/
theorem stream_delay_min (stream : bbl_stream_s) (rx_timestamp bbl_timestamp : timespec) :
    (bbl_stream_delay stream rx_timestamp bbl_timestamp).min_delay_ns =
      min_delay_step stream.min_delay_ns (bbl_stream_delay_nsec rx_timestamp bbl_timestamp) := by
  unfold bbl_stream_delay min_delay_step bbl_stream_delay_nsec
  simp only
  generalize (((timespec_sub rx_timestamp bbl_timestamp).tv_sec * 1000000000 +
    (timespec_sub rx_timestamp bbl_timestamp).tv_nsec) % (U64 : Int)).toNat = d
  by_cases hmax : d > stream.max_delay_ns
  · by_cases hmin : stream.min_delay_ns = 0
    · simp [hmax, hmin]
    · by_cases hlt : d < stream.min_delay_ns
      · simp [hmax, hmin, hlt, Nat.min_eq_right (Nat.le_of_lt hlt)]
      · simp [hmax, hmin, hlt, Nat.min_eq_left (Nat.le_of_not_lt hlt)]
  · by_cases hmin : stream.min_delay_ns = 0
    · simp [hmax, hmin]
    · by_cases hlt : d < stream.min_delay_ns
      · simp [hmax, hmin, hlt, Nat.min_eq_right (Nat.le_of_lt hlt)]
      · simp [hmax, hmin, hlt, Nat.min_eq_left (Nat.le_of_not_lt hlt)]

/-- Counting an accepted packet applies the update of `min_delay_ns` to its
delay. -/
theorem stream_rx_count_min (eth : bbl_ethernet_header_t) (bbl : bbl_bbl_t)
    (stream : bbl_stream_s) :
    (bbl_stream_rx_count eth bbl stream).min_delay_ns =
      min_delay_step stream.min_delay_ns
        (bbl_stream_delay_nsec eth.timestamp bbl.timestamp) := by
  unfold bbl_stream_rx_count
  rw [stream_delay_min]

/-- An accepted packet applies the update of `min_delay_ns` to its delay, on the
first-seen path as on the verified path. -/
theorem stream_rx_stream_min (eth : bbl_ethernet_header_t) (bbl : bbl_bbl_t)
    (session : Option bbl_session_s) (stream : bbl_stream_s)
    (hacc : (bbl_stream_rx_stream eth bbl session stream).2 = true) :
    (bbl_stream_rx_stream eth bbl session stream).1.min_delay_ns =
      min_delay_step stream.min_delay_ns
        (bbl_stream_delay_nsec eth.timestamp bbl.timestamp) := by
  by_cases hfirst : stream.rx_first_seq = 0
  · obtain ⟨a1, a2, a3, a4, b1, b2, b3, b4, c1, c2, c3, c4, ho⟩ :=
      stream_rx_observe_frame eth stream
    rcases stream_rx_first_cases eth bbl session stream hfirst with h | h | h
    · rw [h] at hacc; cases hacc
    · rw [h] at hacc; cases hacc
    · rw [h, stream_rx_count_min, ho]
  · rw [stream_rx_verified eth bbl session stream hfirst, stream_rx_count_min]
    split_ifs <;> rfl

/-- For normalised timestamps with the RX timestamp not before the TX timestamp
the delay computed by the code is the difference of the timestamps. -/
theorem eth_delay_nsec_eq (eth : bbl_ethernet_header_t)
    (hnorm : eth_timestamps_normalised eth = true)
    (h0 : 0 ≤ delay_ns_as_specified eth) (h64 : delay_ns_as_specified eth < U64) :
    (eth_delay_nsec eth : Int) = delay_ns_as_specified eth := by
  unfold eth_delay_nsec delay_ns_as_specified eth_timestamps_normalised at *
  cases hb : eth.bbl with
  | none => simp
  | some bbl =>
    simp only [hb, decide_eq_true_eq] at hnorm h0 h64 ⊢
    unfold bbl_stream_delay_nsec timespec_sub
    have hU : (U64 : Int) = 18446744073709551616 := by simp [U64]
    rw [hU] at h64 ⊢
    split_ifs <;> simp only <;> omega

/-- A run of accepted packets of one flow folds the update of `min_delay_ns` over
their delays. -/
theorem rx_run_min_delay (f : Nat)
    (inputs : List (bbl_ethernet_header_t × Option bbl_session_s)) :
    ∀ (dict : stream_flow_dict) (s : bbl_stream_s), dict f = some s →
      (∀ x ∈ inputs, eth_flow_id x.1 = some f) →
      (∀ r ∈ (bbl_stream_rx_run inputs dict).2, r ≠ none) →
      ∃ s', (bbl_stream_rx_run inputs dict).1 f = some s' ∧
        s'.min_delay_ns = (rx_delays inputs).foldl min_delay_step s.min_delay_ns := by
  induction inputs with
  | nil =>
    intro dict s hd _ _
    exact ⟨s, hd, rfl⟩
  | cons x xs ih =>
    intro dict s hd hflow hacc
    obtain ⟨eth, session⟩ := x
    have hacc1 : (bbl_stream_rx dict eth session).2 ≠ none :=
      hacc _ (by simp [bbl_stream_rx_run])
    obtain ⟨b, s1, hb, hd1, hr, hdict⟩ := stream_rx_accepted dict eth session hacc1
    have hfid : b.flow_id = f := by
      have := hflow (eth, session) (List.mem_cons_self _ _)
      simpa [eth_flow_id, hb] using this
    rw [hfid] at hd1 hdict
    rw [hd] at hd1
    cases hd1
    have hmin := stream_rx_stream_min eth b session s hr
    have hstep : bbl_stream_rx_run ((eth, session) :: xs) dict =
        ((bbl_stream_rx_run xs (bbl_stream_rx dict eth session).1).1,
          (bbl_stream_rx dict eth session).2 ::
            (bbl_stream_rx_run xs (bbl_stream_rx dict eth session).1).2) := rfl
    rw [hstep]
    have hacc' : ∀ r ∈ (bbl_stream_rx_run xs (bbl_stream_rx dict eth session).1).2,
        r ≠ none := by
      intro r hr
      exact hacc r (by rw [hstep]; exact List.mem_cons_of_mem _ hr)
    rw [hdict] at hacc' ⊢
    obtain ⟨s', e1, e2⟩ := ih _ _ (Function.update_same f _ dict)
      (fun x hx => hflow x (List.mem_cons_of_mem _ hx)) hacc'
    refine ⟨s', e1, ?_⟩
    rw [e2, hmin]
    simp [rx_delays, eth_delay_nsec, hb]

/-- Folding the update over delays from a set minimum takes the minimum, as long
as no delay but the last is 0. -/
theorem foldl_min_delay_step_set (l : List Nat) :
    ∀ m, m ≠ 0 → (∀ d ∈ l.dropLast, d ≠ 0) →
      l.foldl min_delay_step m = l.foldl min m := by
  induction l with
  | nil => intro m _ _; rfl
  | cons d rest ih =>
    intro m hm hpos
    simp only [List.foldl_cons]
    have hstep : min_delay_step m d = min m d := by simp [min_delay_step, hm]
    rw [hstep]
    cases rest with
    | nil => rfl
    | cons e rest' =>
      have hd : d ≠ 0 := hpos d (by simp [List.dropLast])
      apply ih
      · omega
      · intro x hx
        exact hpos x (by simp [List.dropLast]; exact Or.inr (by simpa [List.dropLast] using hx))

/-- The fold of `min` is a lower bound of the start value and of the list, and is
one of them. -/
theorem foldl_min_spec (l : List Nat) :
    ∀ m, l.foldl min m ≤ m ∧ (∀ d ∈ l, l.foldl min m ≤ d) ∧
      (l.foldl min m = m ∨ l.foldl min m ∈ l) := by
  induction l with
  | nil => intro m; simp
  | cons d rest ih =>
    intro m
    obtain ⟨h1, h2, h3⟩ := ih (min m d)
    simp only [List.foldl_cons, List.mem_cons]
    refine ⟨by omega, ?_, ?_⟩
    · intro x hx
      rcases hx with hx | hx
      · rw [hx]; omega
      · exact h2 x hx
    · rcases h3 with h3 | h3
      · rw [h3]
        by_cases hmd : m ≤ d
        · left; omega
        · right; left; omega
      · right; right; exact h3

/-- Folding the update over a non-empty list of delays from "not set" gives the
minimum of the list, as long as no delay but the last is 0. -/
theorem foldl_min_delay_step_min (l : List Nat) (hne : l ≠ [])
    (hpos : ∀ d ∈ l.dropLast, d ≠ 0) :
    l.foldl min_delay_step 0 ∈ l ∧ ∀ d ∈ l, l.foldl min_delay_step 0 ≤ d := by
  cases l with
  | nil => exact absurd rfl hne
  | cons d rest =>
    simp only [List.foldl_cons]
    have h0 : min_delay_step 0 d = d := by simp [min_delay_step]
    rw [h0]
    cases rest with
    | nil => simp
    | cons e rest' =>
      have hd : d ≠ 0 := hpos d (by simp [List.dropLast])
      rw [foldl_min_delay_step_set (e :: rest') d hd
        (by intro x hx; exact hpos x (by simp [List.dropLast]; exact Or.inr (by simpa [List.dropLast] using hx)))]
      obtain ⟨h1, h2, h3⟩ := foldl_min_spec (e :: rest') d
      refine ⟨?_, ?_⟩
      · rcases h3 with h3 | h3
        · rw [h3]; exact List.mem_cons_self _ _
        · exact List.mem_cons_of_mem _ h3
      · intro x hx
        rcases List.mem_cons.mp hx with hx | hx
        · rw [hx]; exact h1
        · exact h2 x hx

/-- C21 (as amended): after any non-empty sequence of packets accepted by
`bbl_stream_rx` for a stream since its creation or last reset
(`min_delay_ns = 0`), whose delays (RX timestamp minus embedded TX timestamp,
in nanoseconds, the timestamps normalised and the RX timestamp not before the
TX timestamp) are not 0 except possibly for the last packet, `min_delay_ns`
equals the minimum of the delays of those packets. -/
theorem min_delay_is_minimum (dict : stream_flow_dict) (f : Nat) (s0 : bbl_stream_s)
    (inputs : List (bbl_ethernet_header_t × Option bbl_session_s))
    (hs0 : dict f = some s0) (hmin0 : s0.min_delay_ns = 0)
    (hne : inputs ≠ [])
    (hflow : ∀ x ∈ inputs, eth_flow_id x.1 = some f)
    (hacc : ∀ r ∈ (bbl_stream_rx_run inputs dict).2, r ≠ none)
    (hts : ∀ x ∈ inputs, eth_timestamps_normalised x.1 = true ∧
      0 ≤ delay_ns_as_specified x.1 ∧ delay_ns_as_specified x.1 < U64)
    (hpos : ∀ x ∈ inputs.dropLast, delay_ns_as_specified x.1 ≠ 0) :
    ∃ s, (bbl_stream_rx_run inputs dict).1 f = some s ∧
      (∃ x ∈ inputs, (s.min_delay_ns : Int) = delay_ns_as_specified x.1) ∧
      ∀ x ∈ inputs, (s.min_delay_ns : Int) ≤ delay_ns_as_specified x.1 := by
  obtain ⟨s, h1, h2⟩ := rx_run_min_delay f inputs dict s0 hs0 hflow hacc
  rw [hmin0] at h2
  have hD : ∀ x ∈ inputs, (eth_delay_nsec x.1 : Int) = delay_ns_as_specified x.1 :=
    fun x hx => eth_delay_nsec_eq x.1 (hts x hx).1 (hts x hx).2.1 (hts x hx).2.2
  have hpos' : ∀ d ∈ (rx_delays inputs).dropLast, d ≠ 0 := by
    intro d hd
    unfold rx_delays at hd
    rw [← List.map_dropLast, List.mem_map] at hd
    obtain ⟨x, hx, rfl⟩ := hd
    have hx' : x ∈ inputs := List.mem_of_mem_dropLast hx
    intro h0
    apply hpos x hx
    rw [← hD x hx', h0]
    rfl
  have hne' : rx_delays inputs ≠ [] := by
    unfold rx_delays
    simpa using hne
  obtain ⟨m1, m2⟩ := foldl_min_delay_step_min (rx_delays inputs) hne' hpos'
  rw [← h2] at m1 m2
  refine ⟨s, h1, ?_, ?_⟩
  · unfold rx_delays at m1
    rw [List.mem_map] at m1
    obtain ⟨x, hx, hxe⟩ := m1
    refine ⟨x, hx, ?_⟩
    rw [← hD x hx, hxe]
  · intro x hx
    rw [← hD x hx]
    have := m2 (eth_delay_nsec x.1) (by unfold rx_delays; exact List.mem_map_of_mem _ hx)
    exact_mod_cast this

/-- The minimum over three accepted packets with delays of 7000, 3000 and 5000
nanoseconds. -/
theorem min_delay_is_minimum_witness :
    ∃ s, (bbl_stream_rx_run
        [(test_frame_at 1 (1, 1000) (1, 8000), none), (test_frame_at 2 (1, 2000) (1, 5000), none),
         (test_frame_at 3 (1, 3000) (1, 8000), none)]
        (dict_of stream_bound_down)).1 1 = some s ∧
      (∃ x ∈ [(test_frame_at 1 (1, 1000) (1, 8000), (none : Option bbl_session_s)),
          (test_frame_at 2 (1, 2000) (1, 5000), none),
          (test_frame_at 3 (1, 3000) (1, 8000), none)],
        (s.min_delay_ns : Int) = delay_ns_as_specified x.1) ∧
      ∀ x ∈ [(test_frame_at 1 (1, 1000) (1, 8000), (none : Option bbl_session_s)),
          (test_frame_at 2 (1, 2000) (1, 5000), none),
          (test_frame_at 3 (1, 3000) (1, 8000), none)],
        (s.min_delay_ns : Int) ≤ delay_ns_as_specified x.1 :=
  min_delay_is_minimum (dict_of stream_bound_down) 1 stream_bound_down
    [(test_frame_at 1 (1, 1000) (1, 8000), none), (test_frame_at 2 (1, 2000) (1, 5000), none),
     (test_frame_at 3 (1, 3000) (1, 8000), none)]
    rfl rfl (by decide) (by decide) (by decide) (by decide) (by decide)

/-- C21 (as stated) fails: after two accepted packets with delays 0 and 5000
nanoseconds `min_delay_ns` is 5000, not the minimum 0: a minimum of 0 counts as
not set and is replaced by the next delay. -/
theorem min_delay_zero_counterexample :
    (∀ r ∈ (bbl_stream_rx_run
        [(test_frame_at 1 (1, 1000) (1, 1000), none), (test_frame_at 2 (1, 2000) (1, 7000), none)]
        (dict_of stream_bound_down)).2, r ≠ none) ∧
    [(test_frame_at 1 (1, 1000) (1, 1000), (none : Option bbl_session_s)),
      (test_frame_at 2 (1, 2000) (1, 7000), none)].map
        (fun x => delay_ns_as_specified x.1) = [0, 5000] ∧
    ((bbl_stream_rx_run
        [(test_frame_at 1 (1, 1000) (1, 1000), none), (test_frame_at 2 (1, 2000) (1, 7000), none)]
        (dict_of stream_bound_down)).1 1).map (fun s => s.min_delay_ns) = some 5000 := by
  decide

/-! Section: Theorems about the configuration of network interfaces. -/

/-- A position returned by `bbl_interface_get` is a position of the list. -/
theorem interface_get_lt (interfaces : List bbl_interface_s) (name : String) (i : Nat)
    (h : bbl_interface_get interfaces name = some i) : i < interfaces.length := by
  unfold bbl_interface_get at h
  by_cases hlt : interfaces.findIdx (fun interface => interface.name == name) < interfaces.length
  · rw [if_pos hlt] at h
    cases h
    exact hlt
  · rw [if_neg hlt] at h
    cases h

/-- The position of the first interface with a name depends on the names only. -/
theorem findIdx_name (name : String) (l : List bbl_interface_s) :
    l.findIdx (fun interface => interface.name == name) =
      (l.map (fun interface => interface.name)).findIdx (fun n => n == name) := by
  induction l with
  | nil => rfl
  | cons a rest ih => simp only [List.findIdx_cons, List.map_cons, ih]

/-- The lookup `bbl_interface_get` depends on the names of the interfaces only. -/
theorem interface_get_names (l l' : List bbl_interface_s) (name : String)
    (h : l'.map (fun interface => interface.name) = l.map (fun interface => interface.name)) :
    bbl_interface_get l' name = bbl_interface_get l name := by
  have hlen : l'.length = l.length := by
    have := congrArg List.length h
    simpa using this
  unfold bbl_interface_get
  rw [findIdx_name name l', findIdx_name name l, h, hlen]

/-- A new network interface has the VLAN of its configuration. -/
theorem network_interface_new_vlan (K : bbl_network_consts) (config : bbl_network_config_s)
    (interface : bbl_interface_s) :
    (bbl_network_interface_new K config interface).vlan = config.vlan := by
  unfold bbl_network_interface_new
  simp only
  split_ifs <;> rfl

/-- The duplicate check fails exactly when no network interface of the physical
interface has the VLAN. -/
theorem interfaces_duplicate_false (interface : bbl_interface_s) (vlan : Nat) :
    bbl_network_interfaces_duplicate interface vlan = false ↔
      vlan ∉ interface.network.map (fun n => n.vlan) := by
  unfold bbl_network_interfaces_duplicate
  simp only [List.any_eq_false, decide_eq_true_eq, List.mem_map, not_exists, not_and]

/-- Attaching a network interface keeps the names of the physical interfaces. -/
theorem interfaces_attach_names (interfaces : List bbl_interface_s) (i : Nat)
    (n : bbl_network_interface_s) (hi : i < interfaces.length) :
    (interfaces_attach interfaces i n).map (fun interface => interface.name) =
      interfaces.map (fun interface => interface.name) := by
  unfold interfaces_attach
  rw [List.map_set]
  apply List.ext_getElem
  · simp
  · intro k h1 h2
    rw [List.getElem_set]
    split_ifs with hk
    · subst hk
      simp [List.getElem?_eq_getElem hi]
    · rfl

/-- Attaching a network interface changes the physical interface at that position
only. -/
theorem interfaces_attach_getD (interfaces : List bbl_interface_s) (i j : Nat)
    (n : bbl_network_interface_s) (hi : i < interfaces.length) :
    (interfaces_attach interfaces i n).getD j {} =
      if j = i then
        { interfaces.getD i {} with network := n :: (interfaces.getD i {}).network }
      else interfaces.getD j {} := by
  unfold interfaces_attach
  by_cases hj : j < interfaces.length
  · rw [List.getD_eq_getElem _ _ (by simpa using hj), List.getElem_set]
    by_cases hji : j = i
    · simp [hji]
    · have : ¬ i = j := fun h => hji h.symm
      simp [hji, this, List.getElem?_eq_getElem hj]
  · have hji : j ≠ i := by omega
    rw [List.getD_eq_default _ _ (by simpa using Nat.le_of_not_lt hj),
      List.getD_eq_default _ _ (Nat.le_of_not_lt hj)]
    simp [hji]

/-- The ways one configuration is handled by `bbl_network_interfaces_add`: a
check fails and nothing changes, or the network interface is attached and the
function fails in the TCP or IS-IS initialisation, or goes on with the rest. -/
theorem interfaces_add_cons (K : bbl_network_consts) (env : bbl_network_env)
    (config : bbl_network_config_s) (rest : List bbl_network_config_s)
    (interfaces : List bbl_interface_s) :
    bbl_network_interfaces_add K env (config :: rest) interfaces = (interfaces, false) ∨
    ∃ i, bbl_interface_get interfaces config.interface = some i ∧
      ¬ ((interfaces.getD i {}).access = true ∧ config.vlan = 0) ∧
      bbl_network_interfaces_duplicate (interfaces.getD i {}) config.vlan = false ∧
      (bbl_network_interfaces_add K env (config :: rest) interfaces =
          (interfaces_attach interfaces i
            (bbl_network_interface_new K config (interfaces.getD i {})), false) ∨
        bbl_network_interfaces_add K env (config :: rest) interfaces =
          bbl_network_interfaces_add K env rest
            (interfaces_attach interfaces i
              (bbl_network_interface_new K config (interfaces.getD i {})))) := by
  rw [bbl_network_interfaces_add]
  cases hget : bbl_interface_get interfaces config.interface with
  | none => left; rfl
  | some i =>
    simp only
    by_cases hacc : (interfaces.getD i {}).access = true ∧ config.vlan = 0
    · left; rw [if_pos hacc]
    · rw [if_neg hacc]
      by_cases hdup : bbl_network_interfaces_duplicate (interfaces.getD i {}) config.vlan = true
      · left; rw [if_pos hdup]
      · rw [if_neg hdup]
        right
        refine ⟨i, rfl, hacc, by simpa using hdup, ?_⟩
        unfold interfaces_attach
        split_ifs
        · left; rfl
        · left; rfl
        · right; rfl

/-- Attaching a network interface that passed the checks keeps the invariant. -/
theorem interfaces_attach_vlans_ok (K : bbl_network_consts) (config : bbl_network_config_s)
    (interfaces : List bbl_interface_s) (i : Nat)
    (hinv : interfaces_vlans_ok interfaces)
    (hacc : ¬ ((interfaces.getD i {}).access = true ∧ config.vlan = 0))
    (hdup : bbl_network_interfaces_duplicate (interfaces.getD i {}) config.vlan = false) :
    interfaces_vlans_ok (interfaces_attach interfaces i
      (bbl_network_interface_new K config (interfaces.getD i {}))) := by
  intro x hx
  unfold interfaces_attach at hx
  rcases List.mem_or_eq_of_mem_set hx with hx | hx
  · exact hinv x hx
  · have hold : ((interfaces.getD i {}).network.map (fun n => n.vlan)).Nodup ∧
        ((interfaces.getD i {}).access = true →
          ∀ n ∈ (interfaces.getD i {}).network, n.vlan ≠ 0) := by
      by_cases hi : i < interfaces.length
      · apply hinv
        rw [List.getD_eq_getElem _ _ hi]
        exact List.getElem_mem _
      · rw [List.getD_eq_default _ _ (Nat.le_of_not_lt hi)]
        simp
    rw [hx]
    simp only [List.map_cons, List.nodup_cons, List.mem_cons, forall_eq_or_imp,
      network_interface_new_vlan]
    refine ⟨⟨(interfaces_duplicate_false _ _).mp hdup, hold.1⟩, ?_⟩
    intro ha
    exact ⟨fun h0 => hacc ⟨ha, h0⟩, hold.2 ha⟩

/-- The invariant of the VLANs is kept by `bbl_network_interfaces_add`, whatever
it returns. -/
theorem interfaces_add_vlans_ok (K : bbl_network_consts) (env : bbl_network_env)
    (configs : List bbl_network_config_s) :
    ∀ interfaces, interfaces_vlans_ok interfaces →
      interfaces_vlans_ok (bbl_network_interfaces_add K env configs interfaces).1 := by
  induction configs with
  | nil => intro interfaces hinv; exact hinv
  | cons config rest ih =>
    intro interfaces hinv
    rcases interfaces_add_cons K env config rest interfaces with h | ⟨i, _, hacc, hdup, h | h⟩
    · rw [h]; exact hinv
    · rw [h]; exact interfaces_attach_vlans_ok K config interfaces i hinv hacc hdup
    · rw [h]
      exact ih _ (interfaces_attach_vlans_ok K config interfaces i hinv hacc hdup)

/-- A run of `bbl_network_interfaces_add` that returns true has found the
physical interface of every configuration, none of them an access interface
for a configuration with VLAN 0 nor one that already had the VLAN, and no two
configurations name the same physical interface and VLAN. -/
theorem interfaces_add_true_checks (K : bbl_network_consts) (env : bbl_network_env)
    (configs : List bbl_network_config_s) :
    ∀ interfaces, (bbl_network_interfaces_add K env configs interfaces).2 = true →
      (∀ c ∈ configs, ∃ i, bbl_interface_get interfaces c.interface = some i ∧
        ¬ ((interfaces.getD i {}).access = true ∧ c.vlan = 0) ∧
        bbl_network_interfaces_duplicate (interfaces.getD i {}) c.vlan = false) ∧
      (configs.map network_config_key).Nodup := by
  induction configs with
  | nil => intro interfaces _; simp
  | cons config rest ih =>
    intro interfaces htrue
    rcases interfaces_add_cons K env config rest interfaces with h | ⟨i, hget, hacc, hdup, h | h⟩
    · rw [h] at htrue; cases htrue
    · rw [h] at htrue; cases htrue
    · rw [h] at htrue
      have hi := interface_get_lt interfaces config.interface i hget
      obtain ⟨ih1, ih2⟩ := ih _ htrue
      have hnames := interfaces_attach_names interfaces i
        (bbl_network_interface_new K config (interfaces.getD i {})) hi
      have hrest : ∀ c ∈ rest, ∃ j, bbl_interface_get interfaces c.interface = some j ∧
          ¬ ((interfaces.getD j {}).access = true ∧ c.vlan = 0) ∧
          bbl_network_interfaces_duplicate (interfaces.getD j {}) c.vlan = false ∧
          (j = i → c.vlan ≠ config.vlan) := by
        intro c hc
        obtain ⟨j, g1, g2, g3⟩ := ih1 c hc
        rw [interface_get_names _ _ _ hnames] at g1
        rw [interfaces_attach_getD _ _ _ _ hi] at g2 g3
        refine ⟨j, g1, ?_, ?_, ?_⟩
        · by_cases hji : j = i
          · rw [if_pos hji] at g2
            rw [hji]
            exact g2
          · rw [if_neg hji] at g2
            exact g2
        · by_cases hji : j = i
          · rw [if_pos hji] at g3
            rw [hji]
            rw [interfaces_duplicate_false] at g3 ⊢
            intro hmem
            apply g3
            simp only [List.map_cons, List.mem_cons]
            exact Or.inr hmem
          · rw [if_neg hji] at g3
            exact g3
        · intro hji
          rw [if_pos hji] at g3
          rw [interfaces_duplicate_false] at g3
          intro heq
          apply g3
          simp only [List.map_cons, List.mem_cons, network_interface_new_vlan]
          exact Or.inl heq
      refine ⟨?_, ?_⟩
      · intro c hc
        rcases List.mem_cons.mp hc with hc | hc
        · rw [hc]; exact ⟨i, hget, hacc, hdup⟩
        · obtain ⟨j, g1, g2, g3, _⟩ := hrest c hc
          exact ⟨j, g1, g2, g3⟩
      · simp only [List.map_cons, List.nodup_cons]
        refine ⟨?_, ih2⟩
        intro hmem
        rw [List.mem_map] at hmem
        obtain ⟨c, hc, hkey⟩ := hmem
        simp only [network_config_key, Prod.mk.injEq] at hkey
        obtain ⟨j, g1, _, _, g4⟩ := hrest c hc
        rw [hkey.1, hget] at g1
        cases g1
        exact g4 rfl hkey.2

/-- C23: starting from physical interfaces with no network interfaces, after any
run of `bbl_network_interfaces_add` that returns true, no two network
interfaces attached to the same physical interface have the same VLAN id and no
network interface with VLAN 0 is attached to a physical interface used for
access; a configuration list containing a missing physical interface, a
duplicate VLAN on one port, or VLAN 0 on an access port makes the function
return false. -/
theorem interfaces_add_vlans (K : bbl_network_consts) (env : bbl_network_env)
    (configs : List bbl_network_config_s) (interfaces : List bbl_interface_s)
    (hempty : ∀ interface ∈ interfaces, interface.network = []) :
    ((bbl_network_interfaces_add K env configs interfaces).2 = true →
      ∀ interface ∈ (bbl_network_interfaces_add K env configs interfaces).1,
        (interface.network.map (fun n => n.vlan)).Nodup ∧
        (interface.access = true → ∀ n ∈ interface.network, n.vlan ≠ 0)) ∧
    ((∃ c ∈ configs, bbl_interface_get interfaces c.interface = none) →
      (bbl_network_interfaces_add K env configs interfaces).2 = false) ∧
    (¬ (configs.map (fun c => (c.interface, c.vlan))).Nodup →
      (bbl_network_interfaces_add K env configs interfaces).2 = false) ∧
    ((∃ c ∈ configs, ∃ i, bbl_interface_get interfaces c.interface = some i ∧
        (interfaces.getD i {}).access = true ∧ c.vlan = 0) →
      (bbl_network_interfaces_add K env configs interfaces).2 = false) := by
  have hinv : interfaces_vlans_ok interfaces := by
    intro x hx
    rw [hempty x hx]
    simp
  refine ⟨fun _ => interfaces_add_vlans_ok K env configs interfaces hinv, ?_, ?_, ?_⟩
  · rintro ⟨c, hc, hnone⟩
    by_contra hres
    have htrue : (bbl_network_interfaces_add K env configs interfaces).2 = true := by
      simpa using hres
    obtain ⟨i, g1, _⟩ := (interfaces_add_true_checks K env configs interfaces htrue).1 c hc
    rw [hnone] at g1
    cases g1
  · intro hdup
    by_contra hres
    have htrue : (bbl_network_interfaces_add K env configs interfaces).2 = true := by
      simpa using hres
    exact hdup (interfaces_add_true_checks K env configs interfaces htrue).2
  · rintro ⟨c, hc, i, hget, hacc, hvlan⟩
    by_contra hres
    have htrue : (bbl_network_interfaces_add K env configs interfaces).2 = true := by
      simpa using hres
    obtain ⟨j, g1, g2, _⟩ := (interfaces_add_true_checks K env configs interfaces htrue).1 c hc
    rw [hget] at g1
    cases g1
    exact g2 ⟨hacc, hvlan⟩

/-- The VLANs 100 and 200 configured on `eth0`, next to an access interface. -/
theorem interfaces_add_vlans_witness :
    (bbl_network_interfaces_add sample_network_consts {} network_configs_two_vlans
      [{ name := "eth0" }, { name := "eth1", access := true }]).2 = true ∧
    ∀ interface ∈ (bbl_network_interfaces_add sample_network_consts {}
        network_configs_two_vlans [{ name := "eth0" }, { name := "eth1", access := true }]).1,
      (interface.network.map (fun n => n.vlan)).Nodup ∧
      (interface.access = true → ∀ n ∈ interface.network, n.vlan ≠ 0) :=
  ⟨by decide,
   (interfaces_add_vlans sample_network_consts {} network_configs_two_vlans
      [{ name := "eth0" }, { name := "eth1", access := true }] (by decide)).1 (by decide)⟩

/-- C24 (the code at the failing input): for the configured MAC
02:00:00:00:00:00 `bbl_network_interfaces_add` gives the network interface the
MAC de:ad:be:ef:00:01 of the physical interface, although a MAC is configured:
the test `*(uint64_t*)network_config->mac & 0xffffffffffff00` does not look at
the first byte of the MAC. -/
theorem interfaces_add_mac_first_byte_ignored :
    network_config_mac_first_byte.mac = [0x02, 0, 0, 0, 0, 0] ∧
    ((bbl_network_interfaces_add sample_network_consts {} [network_config_mac_first_byte]
        [{ name := "eth0", mac := [0xde, 0xad, 0xbe, 0xef, 0x00, 0x01] }]).1.map
      (fun interface => interface.network.map (fun n => n.mac))) =
      [[[0xde, 0xad, 0xbe, 0xef, 0x00, 0x01]]] := by
  decide

/-! Section: Theorems about the dispatch of received frames. -/

/-- C30 (as amended): for a frame as the decoder leaves it,
`bbl_network_rx_handler` calls a handler exactly when the frame is one for
which the specification names a handler (ARP, IS-IS, IPv4 ICMP, TCP, UDP-L2TP
or UDP-QMX-LI, IPv6 ICMPv6) and is not an IPv4 frame whose destination MAC
differs from the interface MAC; it leaves the physical interface's unknown
counter unchanged if and only if it called a handler or the frame is such an
IPv4 frame, which is dropped, and increments the counter by exactly one
otherwise. -/
theorem rx_handler_unknown (K : bbl_network_consts) (env : bbl_network_env)
    (interface : bbl_network_interface_s) (unknown : Nat) (eth : bbl_ethernet_header_t)
    (hK : network_consts_distinct K = true)
    (hdecoded : eth_next_decoded K eth = true) :
    ((bbl_network_rx_handler K env interface unknown eth).2.2 ≠ none ↔
      (frame_has_handler_as_specified K eth = true ∧
        ¬ (eth.type = K.ETH_TYPE_IPV4 ∧ interface.mac ≠ eth.dst))) ∧
    ((bbl_network_rx_handler K env interface unknown eth).2.1 = unknown ↔
      ((bbl_network_rx_handler K env interface unknown eth).2.2 ≠ none ∨
        (eth.type = K.ETH_TYPE_IPV4 ∧ interface.mac ≠ eth.dst))) ∧
    ((bbl_network_rx_handler K env interface unknown eth).2.1 = unknown ∨
      (bbl_network_rx_handler K env interface unknown eth).2.1 = unknown + 1) := by
  simp only [network_consts_distinct, Bool.and_eq_true, decide_eq_true_eq] at hK
  obtain ⟨⟨⟨⟨⟨⟨⟨⟨k1, k2⟩, k3⟩, k4⟩, k5⟩, k6⟩, k7⟩, k8⟩, k9⟩ := hK
  unfold bbl_network_rx_handler frame_has_handler_as_specified
  unfold eth_next_decoded at hdecoded
  by_cases harp : eth.type = K.ETH_TYPE_ARP
  · simp [harp, k1]
  by_cases hv4 : eth.type = K.ETH_TYPE_IPV4
  · by_cases hmac : interface.mac = eth.dst
    · cases hn : eth.next with
      | ipv4 ipv4 =>
        simp only [hn, hv4] at hdecoded
        by_cases hudp : ipv4.protocol = K.PROTOCOL_IPV4_UDP
        · cases hn4 : ipv4.next with
          | udp udp =>
            by_cases hq : udp.protocol = K.UDP_PROTOCOL_QMX_LI
            · simp [hv4, hmac, hn, hudp, hn4, hq, k1.symm, k4, k5, k7, k8]
            · by_cases hl : udp.protocol = K.UDP_PROTOCOL_L2TP
              · have hq2 : ¬ K.UDP_PROTOCOL_L2TP = K.UDP_PROTOCOL_QMX_LI := hl ▸ hq
                simp [hv4, hmac, hn, hudp, hn4, hq2, hl, k1.symm, k4, k5, k7, k8]
              · simp [hv4, hmac, hn, hudp, hn4, hq, hl, k1.symm, k4, k5, k7, k8]
          | icmp _ => simp [hudp, hn4, k4, k6] at hdecoded
          | other => simp [hudp, hn4, k4, k6] at hdecoded
        · by_cases hicmp : ipv4.protocol = K.PROTOCOL_IPV4_ICMP
          · simp [hv4, hmac, hn, hudp, hicmp, k1.symm, k4, k5, k7.symm, k9]
          · by_cases htcp : ipv4.protocol = K.PROTOCOL_IPV4_TCP
            · simp [hv4, hmac, hn, hudp, hicmp, htcp, k1.symm, k4, k5, k8.symm, k9.symm]
            · simp [hv4, hmac, hn, hudp, hicmp, htcp, k1.symm, k4, k5]
      | arp _ => simp [hn, hv4] at hdecoded
      | ipv6 _ => simp [hn, hv4] at hdecoded
      | other => simp [hn, hv4] at hdecoded
    · simp [hv4, hmac, k1.symm]
  by_cases hv6 : eth.type = K.ETH_TYPE_IPV6
  · cases hn : eth.next with
    | ipv6 ipv6 =>
      by_cases h6 : ipv6.protocol = K.IPV6_NEXT_HEADER_ICMPV6
      · simp [hv6, hn, h6, k2.symm, k4.symm, k6]
      · simp [hv6, hn, h6, k2.symm, k4.symm, k6]
    | arp _ => simp [hn, hv6, k4.symm] at hdecoded
    | ipv4 _ => simp [hn, hv6, k4.symm] at hdecoded
    | other => simp [hn, hv6, k4.symm] at hdecoded
  by_cases hisis : eth.type = K.ISIS_PROTOCOL_IDENTIFIER
  · simp [hisis, k3.symm, k5.symm, k6.symm]
  · simp [harp, hv4, hv6, hisis]

/-- The dispatch of an IPv4 frame for the interface MAC with a protocol without
handler: the unknown counter goes from 0 to 1. -/
theorem rx_handler_unknown_witness :
    ((bbl_network_rx_handler sample_network_consts {} network_interface_sample 0
        (ipv4_unhandled_frame network_interface_sample.mac)).2.2 ≠ none ↔
      (frame_has_handler_as_specified sample_network_consts
          (ipv4_unhandled_frame network_interface_sample.mac) = true ∧
        ¬ ((ipv4_unhandled_frame network_interface_sample.mac).type =
            sample_network_consts.ETH_TYPE_IPV4 ∧
          network_interface_sample.mac ≠
            (ipv4_unhandled_frame network_interface_sample.mac).dst))) ∧
    ((bbl_network_rx_handler sample_network_consts {} network_interface_sample 0
        (ipv4_unhandled_frame network_interface_sample.mac)).2.1 = 0 ↔
      ((bbl_network_rx_handler sample_network_consts {} network_interface_sample 0
          (ipv4_unhandled_frame network_interface_sample.mac)).2.2 ≠ none ∨
        ((ipv4_unhandled_frame network_interface_sample.mac).type =
            sample_network_consts.ETH_TYPE_IPV4 ∧
          network_interface_sample.mac ≠
            (ipv4_unhandled_frame network_interface_sample.mac).dst))) ∧
    ((bbl_network_rx_handler sample_network_consts {} network_interface_sample 0
        (ipv4_unhandled_frame network_interface_sample.mac)).2.1 = 0 ∨
      (bbl_network_rx_handler sample_network_consts {} network_interface_sample 0
        (ipv4_unhandled_frame network_interface_sample.mac)).2.1 = 0 + 1) :=
  rx_handler_unknown sample_network_consts {} network_interface_sample 0
    (ipv4_unhandled_frame network_interface_sample.mac) (by decide) (by decide)

/-- C30 (as stated) fails: an IPv4 frame with a protocol without handler whose
destination MAC is not the interface MAC is dispatched to no handler, and the
unknown counter stays 0. -/
theorem rx_handler_wrong_mac_counterexample :
    frame_has_handler_as_specified sample_network_consts
      (ipv4_unhandled_frame [0x02, 0, 0, 0, 0, 0x99]) = false ∧
    (bbl_network_rx_handler sample_network_consts {} network_interface_sample 0
      (ipv4_unhandled_frame [0x02, 0, 0, 0, 0, 0x99])).2 = (0, none) := by
  decide

/-! Section: Theorems about the stream statistics. -/

theorem tx_stats_session_core (type packets : Nat) (stats : bbl_interface_stats_s) :
    stats_core (bbl_stream_tx_stats_session type packets stats) = stats_core stats := by
  unfold bbl_stream_tx_stats_session
  split_ifs <;> rfl

theorem rx_stats_session_core (type packets loss : Nat) (stats : bbl_interface_stats_s) :
    stats_core (bbl_stream_rx_stats_session type packets loss stats) = stats_core stats := by
  unfold bbl_stream_rx_stats_session
  split_ifs <;> rfl

/-- Counting a wrong session leaves the four counters of every interface. -/
theorem rx_wrong_session_core (stream : bbl_stream_s) (links : bbl_stream_links) :
    links_core_eq links (bbl_stream_rx_wrong_session stream links).2 ∧
    (bbl_stream_rx_wrong_session stream links).1 =
      { stream with last_sync_wrong_session := stream.wrong_session } := by
  unfold bbl_stream_rx_wrong_session links_core_eq
  cases ha : links.access_interface with
  | none => simp [ha]
  | some a =>
    refine ⟨⟨?_, ?_, ?_⟩, ?_⟩
    · simp only [ha, Option.map_some', Option.some.injEq]
      split_ifs <;> rfl
    · simp only [ha]
    · simp only [ha]
    · simp only [ha]

theorem tx_stats_session_proj (type packets : Nat) (stats : bbl_interface_stats_s) :
    (bbl_stream_tx_stats_session type packets stats).packets_tx = stats.packets_tx ∧
    (bbl_stream_tx_stats_session type packets stats).stream_tx = stats.stream_tx ∧
    (bbl_stream_tx_stats_session type packets stats).stream_rx = stats.stream_rx ∧
    (bbl_stream_tx_stats_session type packets stats).stream_loss = stats.stream_loss := by
  unfold bbl_stream_tx_stats_session
  split_ifs <;> exact ⟨rfl, rfl, rfl, rfl⟩

theorem rx_stats_session_proj (type packets loss : Nat) (stats : bbl_interface_stats_s) :
    (bbl_stream_rx_stats_session type packets loss stats).packets_tx = stats.packets_tx ∧
    (bbl_stream_rx_stats_session type packets loss stats).stream_tx = stats.stream_tx ∧
    (bbl_stream_rx_stats_session type packets loss stats).stream_rx = stats.stream_rx ∧
    (bbl_stream_rx_stats_session type packets loss stats).stream_loss = stats.stream_loss := by
  unfold bbl_stream_rx_stats_session
  split_ifs <;> exact ⟨rfl, rfl, rfl, rfl⟩

/-- What `bbl_stream_tx_stats` does to the four counters: `packets_tx` and
`stream_tx` of the transmitting interface grow by the packets, every other of
the four counters of every interface stays. -/
theorem tx_stats_spec (stream : bbl_stream_s) (links : bbl_stream_links) (packets bytes : Nat) :
    (stream_tx_interface stream (bbl_stream_tx_stats stream links packets bytes)).map
        (fun a => (a.packets_tx, a.stream_tx)) =
      (stream_tx_interface stream links).map
        (fun a => (a.packets_tx + packets, a.stream_tx + packets)) ∧
    (stream_rx_interface stream (bbl_stream_tx_stats stream links packets bytes)).map
        (fun a => (a.stream_rx, a.stream_loss)) =
      (stream_rx_interface stream links).map (fun a => (a.stream_rx, a.stream_loss)) := by
  have T := tx_stats_session_proj stream.type packets
  have hud : ¬ BBL_DIRECTION_UP = BBL_DIRECTION_DOWN := by decide
  have hdu : ¬ BBL_DIRECTION_DOWN = BBL_DIRECTION_UP := by decide
  unfold bbl_stream_tx_stats stream_tx_interface stream_rx_interface
  by_cases hup : stream.direction = BBL_DIRECTION_UP
  · have hdown : ¬ stream.direction = BBL_DIRECTION_DOWN := by
      rw [hup]; decide
    cases ha : links.access_interface with
    | none => simp [hud, hdu, hup, hdown, ha]
    | some a =>
      cases hs : links.session with
      | none => simp [hud, hdu, hup, hdown, ha, hs]
      | some session =>
        by_cases hst : stream.session_traffic = true
        · simp [hud, hdu, hup, hdown, ha, hs, hst, T]
        · simp [hud, hdu, hup, hdown, ha, hs, hst]
  · cases hn : links.network_interface with
    | some n =>
      cases hs : links.session with
      | none =>
        by_cases hdown : stream.direction = BBL_DIRECTION_DOWN <;> simp [hud, hdu, hup, hdown, hn, hs]
      | some session =>
        cases hl : session.l2tp_session with
        | none =>
          by_cases hst : stream.session_traffic = true <;>
            by_cases hdown : stream.direction = BBL_DIRECTION_DOWN <;>
            simp [hud, hdu, hup, hdown, hn, hs, hl, hst, T]
        | some l2tp =>
          by_cases hst : stream.session_traffic = true <;>
            by_cases hdown : stream.direction = BBL_DIRECTION_DOWN <;>
            simp [hud, hdu, hup, hdown, hn, hs, hl, hst, T]
    | none =>
      cases h10 : links.a10nsp_interface with
      | none =>
        by_cases hdown : stream.direction = BBL_DIRECTION_DOWN <;> simp [hud, hdu, hup, hdown, hn, h10]
      | some a =>
        cases hs : links.session with
        | none =>
          by_cases hdown : stream.direction = BBL_DIRECTION_DOWN <;>
            simp [hud, hdu, hup, hdown, hn, h10, hs]
        | some session =>
          by_cases hst : stream.session_traffic = true <;>
            by_cases hdown : stream.direction = BBL_DIRECTION_DOWN <;>
            simp [hud, hdu, hup, hdown, hn, h10, hs, hst, T]

/-- What `bbl_stream_rx_stats` does to the four counters: `stream_rx` and
`stream_loss` of the receiving interface grow by the packets and the loss,
every other of the four counters of every interface stays. -/
theorem rx_stats_spec (stream : bbl_stream_s) (links : bbl_stream_links)
    (packets bytes loss : Nat) :
    (stream_rx_interface stream (bbl_stream_rx_stats stream links packets bytes loss)).map
        (fun a => (a.stream_rx, a.stream_loss)) =
      (stream_rx_interface stream links).map
        (fun a => (a.stream_rx + packets, a.stream_loss + loss)) ∧
    (stream_tx_interface stream (bbl_stream_rx_stats stream links packets bytes loss)).map
        (fun a => (a.packets_tx, a.stream_tx)) =
      (stream_tx_interface stream links).map (fun a => (a.packets_tx, a.stream_tx)) := by
  have T := rx_stats_session_proj stream.type packets loss
  have hud : ¬ BBL_DIRECTION_UP = BBL_DIRECTION_DOWN := by decide
  have hdu : ¬ BBL_DIRECTION_DOWN = BBL_DIRECTION_UP := by decide
  unfold bbl_stream_rx_stats stream_tx_interface stream_rx_interface
  by_cases hdown : stream.direction = BBL_DIRECTION_DOWN
  · have hup : ¬ stream.direction = BBL_DIRECTION_UP := by
      rw [hdown]; decide
    cases ha : links.access_interface with
    | none => simp [hud, hdu, hup, hdown, ha]
    | some a =>
      cases hs : links.session with
      | none => simp [hud, hdu, hup, hdown, ha, hs]
      | some session =>
        by_cases hst : stream.session_traffic = true
        · simp [hud, hdu, hup, hdown, ha, hs, hst, T]
        · simp [hud, hdu, hup, hdown, ha, hs, hst]
  · cases hn : links.network_interface with
    | some n =>
      cases hs : links.session with
      | none =>
        by_cases hup : stream.direction = BBL_DIRECTION_UP <;> simp [hud, hdu, hup, hdown, hn, hs]
      | some session =>
        cases hl : session.l2tp_session with
        | none =>
          by_cases hst : stream.session_traffic = true <;>
            by_cases hup : stream.direction = BBL_DIRECTION_UP <;>
            simp [hud, hdu, hup, hdown, hn, hs, hl, hst, T]
        | some l2tp =>
          by_cases hst : stream.session_traffic = true <;>
            by_cases hup : stream.direction = BBL_DIRECTION_UP <;>
            simp [hud, hdu, hup, hdown, hn, hs, hl, hst, T]
    | none =>
      cases h10 : links.a10nsp_interface with
      | none =>
        by_cases hup : stream.direction = BBL_DIRECTION_UP <;> simp [hud, hdu, hup, hdown, hn, h10]
      | some a =>
        cases hs : links.session with
        | none =>
          by_cases hup : stream.direction = BBL_DIRECTION_UP <;>
            simp [hud, hdu, hup, hdown, hn, h10, hs]
        | some session =>
          by_cases hst : stream.session_traffic = true <;>
            by_cases hup : stream.direction = BBL_DIRECTION_UP <;>
            simp [hud, hdu, hup, hdown, hn, h10, hs, hst, T]

theorem links_core_eq_refl (l : bbl_stream_links) : links_core_eq l l :=
  ⟨rfl, rfl, rfl⟩

theorem links_core_eq_trans (l l' l'' : bbl_stream_links) (h : links_core_eq l l')
    (h' : links_core_eq l' l'') : links_core_eq l l'' :=
  ⟨h'.1.trans h.1, h'.2.1.trans h.2.1, h'.2.2.trans h.2.2⟩

theorem rx_wrong_session_session (stream : bbl_stream_s) (links : bbl_stream_links) :
    (bbl_stream_rx_wrong_session stream links).2.session = links.session := by
  unfold bbl_stream_rx_wrong_session
  cases ha : links.access_interface <;> rfl

/-- The first part of `bbl_stream_ctrl` keeps the four counters of every
interface and the fields of the stream the synchronisation reads, and goes on
exactly when the stream is verified or becomes verified. -/
theorem ctrl_verify_spec (ctx : bbl_ctx_s) (links : bbl_stream_links) (stream : bbl_stream_s) :
    links_core_eq links (bbl_stream_ctrl_verify ctx links stream).2.1 ∧
    stream_sync_fields (bbl_stream_ctrl_verify ctx links stream).2.2.1 =
      stream_sync_fields stream ∧
    ((bbl_stream_ctrl_verify ctx links stream).2.2.2 = true ↔
      (stream.verified = true ∨
        (stream.rx_first_seq ≠ 0 ∧ (stream.session_traffic = true → links.session ≠ none)))) := by
  have hw : ∀ w : bbl_stream_s × bbl_stream_links,
      w = (if stream.wrong_session ≠ 0 then bbl_stream_rx_wrong_session stream links
        else (stream, links)) →
      links_core_eq links w.2 ∧ w.2.session = links.session ∧
      stream_sync_fields w.1 = stream_sync_fields stream ∧ w.1.verified = stream.verified ∧
      w.1.rx_first_seq = stream.rx_first_seq ∧ w.1.session_traffic = stream.session_traffic := by
    intro w hw
    by_cases h0 : stream.wrong_session ≠ 0
    · rw [if_pos h0] at hw
      subst hw
      refine ⟨(rx_wrong_session_core stream links).1, rx_wrong_session_session stream links, ?_⟩
      rw [(rx_wrong_session_core stream links).2]
      exact ⟨rfl, rfl, rfl, rfl⟩
    · rw [if_neg h0] at hw
      subst hw
      exact ⟨links_core_eq_refl links, rfl, rfl, rfl, rfl, rfl⟩
  unfold bbl_stream_ctrl_verify
  generalize hwe : (if stream.wrong_session ≠ 0 then bbl_stream_rx_wrong_session stream links
        else (stream, links)) = w
  obtain ⟨hc, hs, hf, hv, hr, ht⟩ := hw w hwe.symm
  obtain ⟨sw, lw⟩ := w
  simp only at hc hs hf hv hr ht ⊢
  rw [← hv, ← hr, ← ht, ← hs, ← hf]
  clear hv hr ht hs hf hwe hw
  by_cases hver : sw.verified = true
  · simp [hver, hc]
  · have hver2 : sw.verified = false := by simpa using hver
    by_cases hrx : sw.rx_first_seq = 0
    · simp [hver2, hrx, hc]
    · by_cases hst : sw.session_traffic = true
      · cases hse : lw.session with
        | none => simp [hver2, hrx, hst, hse, hc]
        | some session =>
          by_cases hstop : ctx.traffic_stop_verified = true
          · simp [hver2, hrx, hst, hse, hstop]
            exact ⟨hc, rfl⟩
          · simp [hver2, hrx, hst, hse, hstop]
            exact ⟨hc, rfl⟩
      · by_cases hstop : ctx.traffic_stop_verified = true
        · simp [hver2, hrx, hst, hstop]
          exact ⟨hc, rfl⟩
        · simp [hver2, hrx, hst, hstop]
          exact ⟨hc, rfl⟩

theorem option_map_comp {α β γ : Type} (f : α → β) (g : β → γ) (x x' : Option α)
    (h : x'.map f = x.map f) :
    x'.map (fun a => g (f a)) = x.map (fun a => g (f a)) := by
  have := congrArg (Option.map g) h
  simpa [Option.map_map, Function.comp] using this

theorem stream_tx_interface_core (s s' : bbl_stream_s) (l l' : bbl_stream_links)
    (hd : s'.direction = s.direction) (h : links_core_eq l l') :
    (stream_tx_interface s' l').map stats_core = (stream_tx_interface s l).map stats_core := by
  obtain ⟨ha, hn, h10⟩ := h
  unfold stream_tx_interface
  rw [hd]
  split_ifs
  · exact ha
  · cases hl : l.network_interface <;> cases hl2 : l'.network_interface <;>
      simp_all

theorem stream_rx_interface_core (s s' : bbl_stream_s) (l l' : bbl_stream_links)
    (hd : s'.direction = s.direction) (h : links_core_eq l l') :
    (stream_rx_interface s' l').map stats_core = (stream_rx_interface s l).map stats_core := by
  obtain ⟨ha, hn, h10⟩ := h
  unfold stream_rx_interface
  rw [hd]
  split_ifs
  · exact ha
  · cases hl : l.network_interface <;> cases hl2 : l'.network_interface <;>
      simp_all

theorem stream_tx_interface_direction (s s' : bbl_stream_s) (l : bbl_stream_links)
    (hd : s'.direction = s.direction) : stream_tx_interface s' l = stream_tx_interface s l := by
  unfold stream_tx_interface
  rw [hd]

theorem stream_rx_interface_direction (s s' : bbl_stream_s) (l : bbl_stream_links)
    (hd : s'.direction = s.direction) : stream_rx_interface s' l = stream_rx_interface s l := by
  unfold stream_rx_interface
  rw [hd]

theorem tx_stats_spec_direction (s s' : bbl_stream_s) (hd : s'.direction = s.direction)
    (links : bbl_stream_links) (packets bytes : Nat) :
    (stream_tx_interface s (bbl_stream_tx_stats s' links packets bytes)).map
        (fun a => (a.packets_tx, a.stream_tx)) =
      (stream_tx_interface s links).map
        (fun a => (a.packets_tx + packets, a.stream_tx + packets)) ∧
    (stream_rx_interface s (bbl_stream_tx_stats s' links packets bytes)).map
        (fun a => (a.stream_rx, a.stream_loss)) =
      (stream_rx_interface s links).map (fun a => (a.stream_rx, a.stream_loss)) := by
  rw [← stream_tx_interface_direction s s' _ hd, ← stream_tx_interface_direction s s' _ hd,
    ← stream_rx_interface_direction s s' _ hd, ← stream_rx_interface_direction s s' _ hd]
  exact tx_stats_spec s' links packets bytes

theorem rx_stats_spec_direction (s s' : bbl_stream_s) (hd : s'.direction = s.direction)
    (links : bbl_stream_links) (packets bytes loss : Nat) :
    (stream_rx_interface s (bbl_stream_rx_stats s' links packets bytes loss)).map
        (fun a => (a.stream_rx, a.stream_loss)) =
      (stream_rx_interface s links).map
        (fun a => (a.stream_rx + packets, a.stream_loss + loss)) ∧
    (stream_tx_interface s (bbl_stream_rx_stats s' links packets bytes loss)).map
        (fun a => (a.packets_tx, a.stream_tx)) =
      (stream_tx_interface s links).map (fun a => (a.packets_tx, a.stream_tx)) := by
  rw [← stream_tx_interface_direction s s' _ hd, ← stream_tx_interface_direction s s' _ hd,
    ← stream_rx_interface_direction s s' _ hd, ← stream_rx_interface_direction s s' _ hd]
  exact rx_stats_spec s' links packets bytes loss

/-- The second part of `bbl_stream_ctrl`: the counters of the transmitting and
of the receiving interface grow by the differences to the last
synchronisation, and the stream remembers the present counters. -/
theorem ctrl_sync_spec (links : bbl_stream_links) (stream : bbl_stream_s) :
    (stream_tx_interface stream (bbl_stream_ctrl_sync links stream).1).map
        (fun a => (a.packets_tx, a.stream_tx)) =
      (stream_tx_interface stream links).map (fun a =>
        (a.packets_tx + (stream.packets_tx + U64 - stream.last_sync_packets_tx) % U64,
          a.stream_tx + (stream.packets_tx + U64 - stream.last_sync_packets_tx) % U64)) ∧
    (stream_rx_interface stream (bbl_stream_ctrl_sync links stream).1).map
        (fun a => (a.stream_rx, a.stream_loss)) =
      (stream_rx_interface stream links).map (fun a =>
        (a.stream_rx + (stream.packets_rx + U64 - stream.last_sync_packets_rx) % U64,
          a.stream_loss + (stream.loss + U64 - stream.last_sync_loss) % U64)) ∧
    (bbl_stream_ctrl_sync links stream).2 =
      { stream with
        last_sync_packets_tx := stream.packets_tx,
        last_sync_packets_rx := stream.packets_rx,
        last_sync_loss := stream.loss } := by
  unfold bbl_stream_ctrl_sync
  refine ⟨?_, ?_, rfl⟩
  · refine Eq.trans (rx_stats_spec_direction stream _ ?_ _ _ _ _).2
      (tx_stats_spec_direction stream _ ?_ _ _ _).1 <;> rfl
  · refine Eq.trans (rx_stats_spec_direction stream _ ?_ _ _ _ _).1 ?_
    · rfl
    · exact option_map_comp (fun a : bbl_interface_stats_s => (a.stream_rx, a.stream_loss))
        (fun c => (c.1 + (stream.packets_rx + U64 - stream.last_sync_packets_rx) % U64,
          c.2 + (stream.loss + U64 - stream.last_sync_loss) % U64)) _ _
        (tx_stats_spec_direction stream _ rfl _ _ _).2

/-- C22 (as amended): for a stream that is verified, or that becomes verified in
this run (it has received its first packet and, if it is session traffic, has a
session), one run of `bbl_stream_ctrl` adds `packets_tx - last_sync_packets_tx`
(in 64-bit arithmetic) to the `packets_tx` and `stream_tx` counters of the
transmitting interface, adds `packets_rx - last_sync_packets_rx` and
`loss - last_sync_loss` to the `stream_rx` and `stream_loss` counters of the
receiving interface, and afterwards `last_sync_packets_tx = packets_tx`,
`last_sync_packets_rx = packets_rx` and `last_sync_loss = loss`, the three
counters of the stream being unchanged. -/
theorem stream_ctrl_sync_counters (ctx : bbl_ctx_s) (links : bbl_stream_links)
    (stream : bbl_stream_s)
    (hv : stream.verified = true ∨
      (stream.rx_first_seq ≠ 0 ∧ (stream.session_traffic = true → links.session ≠ none))) :
    (stream_tx_interface stream (bbl_stream_ctrl ctx links stream).2.1).map
        (fun a => (a.packets_tx, a.stream_tx)) =
      (stream_tx_interface stream links).map (fun a =>
        (a.packets_tx + (stream.packets_tx + U64 - stream.last_sync_packets_tx) % U64,
          a.stream_tx + (stream.packets_tx + U64 - stream.last_sync_packets_tx) % U64)) ∧
    (stream_rx_interface stream (bbl_stream_ctrl ctx links stream).2.1).map
        (fun a => (a.stream_rx, a.stream_loss)) =
      (stream_rx_interface stream links).map (fun a =>
        (a.stream_rx + (stream.packets_rx + U64 - stream.last_sync_packets_rx) % U64,
          a.stream_loss + (stream.loss + U64 - stream.last_sync_loss) % U64)) ∧
    (bbl_stream_ctrl ctx links stream).2.2.last_sync_packets_tx =
      (bbl_stream_ctrl ctx links stream).2.2.packets_tx ∧
    (bbl_stream_ctrl ctx links stream).2.2.last_sync_packets_rx =
      (bbl_stream_ctrl ctx links stream).2.2.packets_rx ∧
    (bbl_stream_ctrl ctx links stream).2.2.last_sync_loss =
      (bbl_stream_ctrl ctx links stream).2.2.loss ∧
    (bbl_stream_ctrl ctx links stream).2.2.packets_tx = stream.packets_tx ∧
    (bbl_stream_ctrl ctx links stream).2.2.packets_rx = stream.packets_rx ∧
    (bbl_stream_ctrl ctx links stream).2.2.loss = stream.loss := by
  obtain ⟨hc, hf, hgo⟩ := ctrl_verify_spec ctx links stream
  have hgo2 := hgo.2 hv
  unfold bbl_stream_ctrl
  simp only [hgo2, Bool.true_eq_false, if_false]
  generalize (bbl_stream_ctrl_verify ctx links stream).2.1 = l1 at hc hf ⊢
  generalize (bbl_stream_ctrl_verify ctx links stream).2.2.1 = s1 at hf ⊢
  unfold stream_sync_fields at hf
  simp only [Prod.mk.injEq] at hf
  obtain ⟨hd, hptx, hprx, hloss, hltx, hlrx, hll, -, -⟩ := hf
  obtain ⟨htx, hrx, hs⟩ := ctrl_sync_spec l1 s1
  refine ⟨?_, ?_, ?_⟩
  · rw [← stream_tx_interface_direction stream s1 _ hd, htx, hptx, hltx]
    exact option_map_comp stats_core
      (fun c => (c.1 + (stream.packets_tx + U64 - stream.last_sync_packets_tx) % U64,
        c.2.1 + (stream.packets_tx + U64 - stream.last_sync_packets_tx) % U64)) _ _
      (stream_tx_interface_core stream s1 links l1 hd hc)
  · rw [← stream_rx_interface_direction stream s1 _ hd, hrx, hprx, hlrx, hloss, hll]
    exact option_map_comp stats_core
      (fun c => (c.2.2.1 + (stream.packets_rx + U64 - stream.last_sync_packets_rx) % U64,
        c.2.2.2 + (stream.loss + U64 - stream.last_sync_loss) % U64)) _ _
      (stream_rx_interface_core stream s1 links l1 hd hc)
  · rw [hs]
    exact ⟨rfl, rfl, rfl, hptx, hprx, hloss⟩

theorem stream_ctrl_sync_counters_witness :
    (bbl_stream_ctrl {} links_sample stream_synced_sample).2.1.network_interface.map
        (fun a => (a.packets_tx, a.stream_tx)) = some (1010, 510) ∧
    (bbl_stream_ctrl {} links_sample stream_synced_sample).2.1.access_interface.map
        (fun a => (a.stream_rx, a.stream_loss)) = some (15, 2) ∧
    (bbl_stream_ctrl {} links_sample stream_synced_sample).2.2.last_sync_packets_tx = 110 := by
  have h := stream_ctrl_sync_counters {} links_sample stream_synced_sample (Or.inl rfl)
  refine ⟨?_, ?_, ?_⟩
  · exact h.1.trans (by decide)
  · exact h.2.1.trans (by decide)
  · exact h.2.2.1.trans (h.2.2.2.2.2.1.trans (by decide))

/-- A run of `bbl_stream_ctrl` on a stream that has not received a packet yet
returns before the synchronisation: the ten packets sent are added to no
counter and `last_sync_packets_tx` stays behind `packets_tx`. -/
theorem stream_ctrl_unverified_counterexample :
    stream_tx_interface stream_unverified_sample links_sample =
      links_sample.network_interface ∧
    (stream_unverified_sample.packets_tx + U64 -
      stream_unverified_sample.last_sync_packets_tx) % U64 = 10 ∧
    (bbl_stream_ctrl {} links_sample stream_unverified_sample).2.1.network_interface.map
        (fun a => (a.packets_tx, a.stream_tx)) =
      some (1000, 500) ∧
    (bbl_stream_ctrl {} links_sample stream_unverified_sample).2.2.last_sync_packets_tx = 0 ∧
    (bbl_stream_ctrl {} links_sample stream_unverified_sample).2.2.packets_tx = 10 := by
  decide

/-! Section: Theorems about the creation of streams. -/

theorem add_jobs_stream (io_tx : List io_handle_s) (stream : bbl_stream_s) :
    ∃ thread, (bbl_stream_add_jobs io_tx stream).2 = { stream with thread := thread } := by
  unfold bbl_stream_add_jobs
  cases io_tx with
  | nil => exact ⟨stream.thread, rfl⟩
  | cons io rest =>
    cases h : io.thread with
    | none => exact ⟨stream.thread, by simp only [h]⟩
    | some t => exact ⟨some (bbl_stream_add_jobs_select (io :: rest) 0 0 t.pps_reserved),
        by simp only [h]⟩

theorem creation_ok_id : creation_ok (fun registry => registry) :=
  ⟨fun _ => ⟨[], (List.append_nil _).symm⟩, fun _ _ _ h _ _ => h⟩

theorem creation_ok_comp (a b : bbl_stream_registry → bbl_stream_registry)
    (ha : creation_ok a) (hb : creation_ok b) : creation_ok (fun registry => b (a registry)) := by
  refine ⟨fun registry => ?_, fun N f0 registry hd hN hU => ?_⟩
  · obtain ⟨l, hl⟩ := ha.1 registry
    obtain ⟨l2, hl2⟩ := hb.1 (a registry)
    exact ⟨l ++ l2, by rw [hl2, hl, List.append_assoc]⟩
  · obtain ⟨l2, hl2⟩ := hb.1 (a registry)
    have hlen : (a registry).created.length ≤ N := by
      have := congrArg List.length hl2
      rw [List.length_append] at this
      simp only at hN
      omega
    exact hb.2 N f0 (a registry) (ha.2 N f0 registry hd hlen hU) hN hU

/-- The block of one direction on a registry that satisfies the invariant: the
stream is created with the value of the counter as flow id and `flow_seq = 1`,
and the invariant holds again. -/
theorem add_direction_spec (registry : bbl_stream_registry) (config : bbl_stream_config_s)
    (direction interface f0 : Nat) (hd : registry_dense f0 registry)
    (hU : f0 + registry.created.length + 1 < U64) :
    (bbl_stream_add_direction registry config direction interface).2 = true ∧
    registry_dense f0 (bbl_stream_add_direction registry config direction interface).1 ∧
    ∃ stream, (bbl_stream_add_direction registry config direction interface).1.created =
        registry.created ++ [stream] ∧
      stream.flow_id = registry.ctx.flow_id ∧ stream.flow_seq = 1 ∧
      stream.direction = direction ∧ stream.config = config := by
  obtain ⟨hc, hfresh, hmap, hreg⟩ := hd
  have hnone : registry.stream_flow_dict registry.ctx.flow_id = none :=
    hfresh _ (Nat.le_refl _)
  obtain ⟨thread, hj⟩ := add_jobs_stream (registry.io_tx.getD interface [])
    { flow_id := registry.ctx.flow_id, flow_seq := 1, config := config,
      type := config.type, direction := direction }
  have hmod : (registry.ctx.flow_id + 1) % U64 = registry.ctx.flow_id + 1 :=
    Nat.mod_eq_of_lt (by omega)
  unfold bbl_stream_add_direction
  simp only [dict_insert, hnone, Option.isNone_none, Bool.true_eq_false, if_false, hj, hmod]
  refine ⟨trivial, ⟨?_, ?_, ?_, ?_⟩, ⟨_, rfl, rfl, rfl, rfl, rfl⟩⟩
  · simp only [List.length_append, List.length_singleton]
    omega
  · intro key hkey
    simp only at hkey
    simp only [dict_datum_set]
    rw [if_neg (by omega)]
    exact hfresh key (by omega)
  · simp only [List.map_append, List.length_append, List.length_singleton, List.range_succ,
      List.map_cons, List.map_nil, hmap, hc]
  · intro s hs
    simp only [List.mem_append, List.mem_singleton] at hs
    simp only [dict_datum_set]
    rcases hs with hs | hs
    · obtain ⟨h1, h2⟩ := hreg s hs
      refine ⟨by omega, ?_⟩
      rw [if_neg (by omega)]
      exact h2
    · subst hs
      exact ⟨by simp only; omega, by simp only [if_true]⟩

theorem add_direction_created (registry : bbl_stream_registry) (config : bbl_stream_config_s)
    (direction interface : Nat) :
    ∃ l, (bbl_stream_add_direction registry config direction interface).1.created =
      registry.created ++ l ∧ l.length ≤ 1 ∧
      ((bbl_stream_add_direction registry config direction interface).2 = false → l = []) := by
  unfold bbl_stream_add_direction
  simp only
  split_ifs
  · exact ⟨[], (List.append_nil _).symm, by simp, fun _ => rfl⟩
  · exact ⟨[_], rfl, by simp, fun h => by simp at h⟩

theorem add_direction_ok (config : bbl_stream_config_s) (direction interface : Nat) :
    creation_ok (fun registry =>
      (bbl_stream_add_direction registry config direction interface).1) := by
  refine ⟨fun registry => ?_, fun N f0 registry hd hN hU => ?_⟩
  · obtain ⟨l, hl, -, -⟩ := add_direction_created registry config direction interface
    exact ⟨l, hl⟩
  · simp only at hN ⊢
    by_cases hlt : f0 + registry.created.length + 1 < U64
    · exact (add_direction_spec registry config direction interface f0 hd hlt).2.1
    · exfalso
      -- the dictionary is fresh at the counter whatever the width: the stream is created
      obtain ⟨hc, hfresh, -, -⟩ := hd
      have hnone : registry.stream_flow_dict registry.ctx.flow_id = none :=
        hfresh _ (Nat.le_refl _)
      have hlen : (bbl_stream_add_direction registry config direction interface).1.created.length
          = registry.created.length + 1 := by
        unfold bbl_stream_add_direction
        simp only [dict_insert, hnone, Option.isNone_none, Bool.true_eq_false, if_false,
          List.length_append, List.length_singleton]
      omega

theorem creation_ok_ite (c : Prop) [Decidable c]
    (a b : bbl_stream_registry → bbl_stream_registry)
    (ha : creation_ok a) (hb : creation_ok b) :
    creation_ok (fun registry => if c then a registry else b registry) := by
  by_cases h : c
  · simpa only [h, if_true] using ha
  · simpa only [h, if_false] using hb

theorem add_directions_cases (registry : bbl_stream_registry) (config : bbl_stream_config_s)
    (access_interface interface : Nat) :
    (bbl_stream_add_directions registry config access_interface interface).1 =
      (if config.direction &&& BBL_DIRECTION_UP ≠ 0 then
        if (bbl_stream_add_direction registry config BBL_DIRECTION_UP access_interface).2 = false
        then (bbl_stream_add_direction registry config BBL_DIRECTION_UP access_interface).1
        else if config.direction &&& BBL_DIRECTION_DOWN ≠ 0 then
          (bbl_stream_add_direction
            (bbl_stream_add_direction registry config BBL_DIRECTION_UP access_interface).1
            config BBL_DIRECTION_DOWN interface).1
        else (bbl_stream_add_direction registry config BBL_DIRECTION_UP access_interface).1
      else if config.direction &&& BBL_DIRECTION_DOWN ≠ 0 then
        (bbl_stream_add_direction registry config BBL_DIRECTION_DOWN interface).1
      else registry) := by
  unfold bbl_stream_add_directions
  by_cases h1 : config.direction &&& BBL_DIRECTION_UP ≠ 0
  · rw [if_pos h1, if_pos h1]
    by_cases hr : (bbl_stream_add_direction registry config BBL_DIRECTION_UP
        access_interface).2 = false
    · simp only [hr, if_true]
    · simp only [hr, if_false]
      split_ifs <;> rfl
  · rw [if_neg h1, if_neg h1]
    simp only [Bool.true_eq_false, if_false]
    split_ifs <;> rfl

theorem creation_ok_guard (a b : bbl_stream_registry → bbl_stream_registry)
    (c : bbl_stream_registry → Prop) [DecidablePred c]
    (ha : creation_ok a) (hb : creation_ok b) :
    creation_ok (fun registry => if c registry then a registry else b registry) := by
  refine ⟨fun registry => ?_, fun N f0 registry hd hN hU => ?_⟩
  · by_cases h : c registry
    · simp only [h, if_true]
      exact ha.1 registry
    · simp only [h, if_false]
      exact hb.1 registry
  · by_cases h : c registry
    · simp only [h, if_true] at hN ⊢
      exact ha.2 N f0 registry hd hN hU
    · simp only [h, if_false] at hN ⊢
      exact hb.2 N f0 registry hd hN hU

theorem add_directions_ok (config : bbl_stream_config_s) (access_interface interface : Nat) :
    creation_ok (fun registry =>
      (bbl_stream_add_directions registry config access_interface interface).1) := by
  have hup := add_direction_ok config BBL_DIRECTION_UP access_interface
  have hdown := add_direction_ok config BBL_DIRECTION_DOWN interface
  have heq := funext (fun registry =>
    add_directions_cases registry config access_interface interface)
  rw [heq]
  exact creation_ok_guard _ _ _
    (creation_ok_guard _ _ _ hup
      (creation_ok_guard _ _ _ (creation_ok_comp _ _ hup hdown) hup))
    (creation_ok_guard _ _ _ hdown creation_ok_id)

theorem stream_add_ok (interfaces : List bbl_interface_s)
    (a10nsp_interface_get : String → Option Nat) (config : bbl_stream_config_s)
    (session : bbl_session_interfaces) :
    creation_ok (fun registry =>
      (bbl_stream_add interfaces a10nsp_interface_get registry config session).1) := by
  unfold bbl_stream_add
  generalize bbl_stream_add_select interfaces a10nsp_interface_get config session = selected
  obtain ⟨network_interface, a10nsp_interface⟩ := selected
  cases a10nsp_interface with
  | some a => exact add_directions_ok config session.access_interface a
  | none =>
    cases network_interface with
    | some n => exact add_directions_ok config session.access_interface n
    | none => exact creation_ok_id

theorem stream_init_raw_cases (interfaces : List bbl_interface_s)
    (config : bbl_stream_config_s) (rest : List bbl_stream_config_s)
    (registry : bbl_stream_registry) :
    (bbl_stream_init_raw interfaces (config :: rest) registry).1 =
      (if config.stream_group_id = 0 ∧
          (bbl_network_interface_get interfaces config.network_interface).isSome = true then
        if config.direction &&& BBL_DIRECTION_DOWN ≠ 0 then
          if (bbl_stream_add_direction registry config BBL_DIRECTION_DOWN
              (((bbl_network_interface_get interfaces config.network_interface).map
                (fun n => n.1)).getD 0)).2 = false then
            (bbl_stream_add_direction registry config BBL_DIRECTION_DOWN
              (((bbl_network_interface_get interfaces config.network_interface).map
                (fun n => n.1)).getD 0)).1
          else
            (bbl_stream_init_raw interfaces rest
              (bbl_stream_add_direction registry config BBL_DIRECTION_DOWN
                (((bbl_network_interface_get interfaces config.network_interface).map
                  (fun n => n.1)).getD 0)).1).1
        else (bbl_stream_init_raw interfaces rest registry).1
      else if config.stream_group_id = 0 then registry
      else (bbl_stream_init_raw interfaces rest registry).1) := by
  rw [bbl_stream_init_raw]
  by_cases hg : config.stream_group_id = 0
  · cases hn : bbl_network_interface_get interfaces config.network_interface with
    | none => simp [hg]
    | some network_interface =>
      simp only [hg, if_true, Option.isSome_some, and_self, Option.map_some', Option.getD_some]
      split_ifs <;> rfl
  · simp only [hg, if_false, false_and]

theorem stream_init_raw_ok (interfaces : List bbl_interface_s)
    (configs : List bbl_stream_config_s) :
    creation_ok (fun registry => (bbl_stream_init_raw interfaces configs registry).1) := by
  induction configs with
  | nil => exact creation_ok_id
  | cons config rest ih =>
    have heq := funext (fun registry => stream_init_raw_cases interfaces config rest registry)
    rw [heq]
    have hdown := add_direction_ok config BBL_DIRECTION_DOWN
      (((bbl_network_interface_get interfaces config.network_interface).map
        (fun n => n.1)).getD 0)
    exact creation_ok_guard _ _ _
      (creation_ok_guard _ _ _
        (creation_ok_guard _ _ _ hdown (creation_ok_comp _ _ hdown ih)) ih)
      (creation_ok_guard _ _ _ creation_ok_id ih)

theorem stream_init_created (interfaces : List bbl_interface_s)
    (registry : bbl_stream_registry) :
    (bbl_stream_init interfaces registry).1 =
      (bbl_stream_init_raw interfaces registry.ctx.stream_config registry).1 := by
  unfold bbl_stream_init
  simp only
  split_ifs
  · rfl
  · split <;> rfl
  · rfl

theorem stream_init_ok (interfaces : List bbl_interface_s) :
    creation_ok (fun registry => (bbl_stream_init interfaces registry).1) := by
  refine ⟨fun registry => ?_, fun N f0 registry hd hN hU => ?_⟩
  · beta_reduce
    rw [stream_init_created]
    exact (stream_init_raw_ok interfaces registry.ctx.stream_config).1 registry
  · simp only [stream_init_created] at hN ⊢
    exact (stream_init_raw_ok interfaces registry.ctx.stream_config).2 N f0 registry hd hN hU

theorem creation_step_ok (interfaces : List bbl_interface_s)
    (a10nsp_interface_get : String → Option Nat) (call : bbl_stream_creation) :
    creation_ok (fun registry =>
      bbl_stream_creation_step interfaces a10nsp_interface_get registry call) := by
  cases call with
  | bbl_stream_init => exact stream_init_ok interfaces
  | bbl_stream_add config session =>
    exact stream_add_ok interfaces a10nsp_interface_get config session

theorem creation_run_ok (interfaces : List bbl_interface_s)
    (a10nsp_interface_get : String → Option Nat) (calls : List bbl_stream_creation) :
    creation_ok (fun registry =>
      bbl_stream_creation_run interfaces a10nsp_interface_get calls registry) := by
  induction calls with
  | nil => exact creation_ok_id
  | cons call rest ih =>
    exact creation_ok_comp
      (fun registry => bbl_stream_creation_step interfaces a10nsp_interface_get registry call)
      (fun registry => bbl_stream_creation_run interfaces a10nsp_interface_get rest registry)
      (creation_step_ok interfaces a10nsp_interface_get call) ih

theorem creation_run_append (interfaces : List bbl_interface_s)
    (a10nsp_interface_get : String → Option Nat) (pre post : List bbl_stream_creation)
    (registry : bbl_stream_registry) :
    bbl_stream_creation_run interfaces a10nsp_interface_get (pre ++ post) registry =
      bbl_stream_creation_run interfaces a10nsp_interface_get post
        (bbl_stream_creation_run interfaces a10nsp_interface_get pre registry) := by
  induction pre generalizing registry with
  | nil => rfl
  | cons call rest ih => exact ih _

theorem add_direction_spec_bounded (registry : bbl_stream_registry)
    (config : bbl_stream_config_s) (direction interface f0 N : Nat)
    (hd : registry_dense f0 registry)
    (hN : (bbl_stream_add_direction registry config direction interface).1.created.length ≤ N)
    (hU : f0 + N < U64) :
    (bbl_stream_add_direction registry config direction interface).2 = true ∧
    registry_dense f0 (bbl_stream_add_direction registry config direction interface).1 ∧
    ∃ stream, (bbl_stream_add_direction registry config direction interface).1.created =
        registry.created ++ [stream] ∧
      stream.flow_id = registry.ctx.flow_id ∧ stream.flow_seq = 1 ∧
      stream.direction = direction ∧ stream.config = config := by
  have hnone : registry.stream_flow_dict registry.ctx.flow_id = none :=
    hd.2.1 _ (Nat.le_refl _)
  have hlen : (bbl_stream_add_direction registry config direction interface).1.created.length
      = registry.created.length + 1 := by
    unfold bbl_stream_add_direction
    simp only [dict_insert, hnone, Option.isNone_none, Bool.true_eq_false, if_false,
      List.length_append, List.length_singleton]
  exact add_direction_spec registry config direction interface f0 hd (by omega)

/-- A call of `bbl_stream_add` that returns true for a configuration with both
direction bits creates the upstream stream, then the downstream stream. -/
theorem stream_add_both (interfaces : List bbl_interface_s)
    (a10nsp_interface_get : String → Option Nat) (registry : bbl_stream_registry)
    (config : bbl_stream_config_s) (session : bbl_session_interfaces) (f0 N : Nat)
    (hd : registry_dense f0 registry)
    (hN : (bbl_stream_add interfaces a10nsp_interface_get registry config
      session).1.created.length ≤ N)
    (hU : f0 + N < U64)
    (hup : config.direction &&& BBL_DIRECTION_UP ≠ 0)
    (hdown : config.direction &&& BBL_DIRECTION_DOWN ≠ 0)
    (hr : (bbl_stream_add interfaces a10nsp_interface_get registry config session).2 = true) :
    ∃ up down,
      (bbl_stream_add interfaces a10nsp_interface_get registry config session).1.created =
        registry.created ++ [up, down] ∧
      up.direction = BBL_DIRECTION_UP ∧ down.direction = BBL_DIRECTION_DOWN ∧
      up.config = config ∧ down.config = config ∧
      up.flow_id = registry.ctx.flow_id ∧ down.flow_id = up.flow_id + 1 ∧
      up.flow_seq = 1 ∧ down.flow_seq = 1 := by
  have key : ∀ interface : Nat,
      (bbl_stream_add_directions registry config session.access_interface
        interface).1.created.length ≤ N →
      ∃ up down,
        (bbl_stream_add_directions registry config session.access_interface
          interface).1.created = registry.created ++ [up, down] ∧
        up.direction = BBL_DIRECTION_UP ∧ down.direction = BBL_DIRECTION_DOWN ∧
        up.config = config ∧ down.config = config ∧
        up.flow_id = registry.ctx.flow_id ∧ down.flow_id = up.flow_id + 1 ∧
        up.flow_seq = 1 ∧ down.flow_seq = 1 := by
    intro interface hlen
    rw [add_directions_cases, if_pos hup] at hlen ⊢
    by_cases hf : (bbl_stream_add_direction registry config BBL_DIRECTION_UP
        session.access_interface).2 = false
    · exfalso
      rw [if_pos hf] at hlen
      have := (add_direction_spec_bounded registry config BBL_DIRECTION_UP
        session.access_interface f0 N hd hlen hU).1
      rw [hf] at this
      cases this
    · rw [if_neg hf, if_pos hdown] at hlen ⊢
      obtain ⟨l, hl, -, -⟩ := add_direction_created
        (bbl_stream_add_direction registry config BBL_DIRECTION_UP session.access_interface).1
        config BBL_DIRECTION_DOWN interface
      have hlen1 : (bbl_stream_add_direction registry config BBL_DIRECTION_UP
          session.access_interface).1.created.length ≤ N := by
        have := congrArg List.length hl
        rw [List.length_append] at this
        omega
      obtain ⟨-, hd1, up, hc1, hid1, hseq1, hdir1, hcfg1⟩ :=
        add_direction_spec_bounded registry config BBL_DIRECTION_UP
          session.access_interface f0 N hd hlen1 hU
      obtain ⟨-, -, down, hc2, hid2, hseq2, hdir2, hcfg2⟩ :=
        add_direction_spec_bounded _ config BBL_DIRECTION_DOWN interface f0 N hd1 hlen hU
      refine ⟨up, down, ?_, hdir1, hdir2, hcfg1, hcfg2, hid1, ?_, hseq1, hseq2⟩
      · rw [hc2, hc1, List.append_assoc]
        rfl
      · rw [hid2, hd1.1, hid1, hd.1, hc1, List.length_append, List.length_singleton]
        omega
  unfold bbl_stream_add at hN hr ⊢
  generalize bbl_stream_add_select interfaces a10nsp_interface_get config session = selected
    at hN hr ⊢
  obtain ⟨network_interface, a10nsp_interface⟩ := selected
  cases a10nsp_interface with
  | some a => exact key a hN
  | none =>
    cases network_interface with
    | some n => exact key n hN
    | none => cases hr

/-- C25: across any sequence of creating calls (`bbl_stream_init`,
`bbl_stream_add`) that starts with no stream created, no flow id from the
counter value `f0` on registered, and that does not drive the 64-bit counter to
`2^64`: the k-th stream created (counted from 0 here) has `flow_id = f0 + k`
and `flow_seq = 1`; the counter ends at `f0` plus the number of streams; the
flow ids of the streams are pairwise distinct, smaller than the counter, and
each stream is the one registered under its flow id; and a call of
`bbl_stream_add` in the sequence that succeeds for a configuration with both
direction bits creates two streams, the upstream one first, with consecutive
flow ids. -/
theorem stream_flow_ids_dense (interfaces : List bbl_interface_s)
    (a10nsp_interface_get : String → Option Nat) (calls : List bbl_stream_creation)
    (registry : bbl_stream_registry)
    (hcreated : registry.created = [])
    (hfresh : ∀ key, registry.ctx.flow_id ≤ key → registry.stream_flow_dict key = none)
    (hU : registry.ctx.flow_id +
      (bbl_stream_creation_run interfaces a10nsp_interface_get calls registry).created.length
        < U64) :
    (∀ k (hk : k <
        (bbl_stream_creation_run interfaces a10nsp_interface_get calls registry).created.length),
      ((bbl_stream_creation_run interfaces a10nsp_interface_get calls registry).created.get
        ⟨k, hk⟩).flow_id = registry.ctx.flow_id + k ∧
      ((bbl_stream_creation_run interfaces a10nsp_interface_get calls registry).created.get
        ⟨k, hk⟩).flow_seq = 1) ∧
    (bbl_stream_creation_run interfaces a10nsp_interface_get calls registry).ctx.flow_id =
      registry.ctx.flow_id +
        (bbl_stream_creation_run interfaces a10nsp_interface_get calls
          registry).created.length ∧
    ((bbl_stream_creation_run interfaces a10nsp_interface_get calls registry).created.map
      (fun stream => stream.flow_id)).Nodup ∧
    (∀ stream ∈ (bbl_stream_creation_run interfaces a10nsp_interface_get calls
        registry).created,
      stream.flow_id <
        (bbl_stream_creation_run interfaces a10nsp_interface_get calls registry).ctx.flow_id ∧
      (bbl_stream_creation_run interfaces a10nsp_interface_get calls
        registry).stream_flow_dict stream.flow_id = some stream) ∧
    (∀ pre config session post,
      calls = pre ++ bbl_stream_creation.bbl_stream_add config session :: post →
      config.direction &&& BBL_DIRECTION_UP ≠ 0 →
      config.direction &&& BBL_DIRECTION_DOWN ≠ 0 →
      (bbl_stream_add interfaces a10nsp_interface_get
        (bbl_stream_creation_run interfaces a10nsp_interface_get pre registry)
        config session).2 = true →
      ∃ up down,
        (bbl_stream_add interfaces a10nsp_interface_get
          (bbl_stream_creation_run interfaces a10nsp_interface_get pre registry)
          config session).1.created =
          (bbl_stream_creation_run interfaces a10nsp_interface_get pre registry).created ++
            [up, down] ∧
        up.direction = BBL_DIRECTION_UP ∧ down.direction = BBL_DIRECTION_DOWN ∧
        up.config = config ∧ down.config = config ∧
        down.flow_id = up.flow_id + 1) := by
  have hd0 : registry_dense registry.ctx.flow_id registry := by
    refine ⟨by rw [hcreated]; rfl, hfresh, by rw [hcreated]; rfl, ?_⟩
    intro s hs
    rw [hcreated] at hs
    cases hs
  have hrun := creation_run_ok interfaces a10nsp_interface_get
  obtain ⟨hc, -, hmap, hreg⟩ := (hrun calls).2 _ _ registry hd0 (Nat.le_refl _) hU
  simp only at hc hmap hreg
  refine ⟨?_, hc, ?_, hreg, ?_⟩
  · intro k hk
    have h1 := congrArg (fun l => l[k]?) hmap
    simp only [List.getElem?_map, List.getElem?_range hk, List.getElem?_eq_getElem hk,
      Option.map_some', Option.some.injEq, Prod.mk.injEq] at h1
    exact h1
  · have h1 := congrArg (List.map Prod.fst) hmap
    simp only [List.map_map] at h1
    have h2 : (Prod.fst ∘ fun s : bbl_stream_s => (s.flow_id, s.flow_seq)) =
        fun stream => stream.flow_id := rfl
    rw [h2] at h1
    rw [h1]
    refine List.Nodup.map ?_ (List.nodup_range _)
    intro a b hab
    simp only [Function.comp] at hab
    omega
  · intro pre config session post hcalls hup hdown hr
    subst hcalls
    have hsplit := creation_run_append interfaces a10nsp_interface_get pre
      (bbl_stream_creation.bbl_stream_add config session :: post) registry
    rw [hsplit] at hU
    obtain ⟨l, hl⟩ := (hrun post).1
      (bbl_stream_add interfaces a10nsp_interface_get
        (bbl_stream_creation_run interfaces a10nsp_interface_get pre registry)
        config session).1
    have hlen1 : (bbl_stream_add interfaces a10nsp_interface_get
        (bbl_stream_creation_run interfaces a10nsp_interface_get pre registry)
        config session).1.created.length ≤
        (bbl_stream_creation_run interfaces a10nsp_interface_get
          (bbl_stream_creation.bbl_stream_add config session :: post)
          (bbl_stream_creation_run interfaces a10nsp_interface_get pre
            registry)).created.length := by
      have := congrArg List.length hl
      rw [List.length_append] at this
      simp only [bbl_stream_creation_run, bbl_stream_creation_step] at this ⊢
      omega
    obtain ⟨l0, hl0⟩ := (stream_add_ok interfaces a10nsp_interface_get config session).1
      (bbl_stream_creation_run interfaces a10nsp_interface_get pre registry)
    have hlen0 : (bbl_stream_creation_run interfaces a10nsp_interface_get pre
        registry).created.length ≤
        (bbl_stream_creation_run interfaces a10nsp_interface_get
          (bbl_stream_creation.bbl_stream_add config session :: post)
          (bbl_stream_creation_run interfaces a10nsp_interface_get pre
            registry)).created.length := by
      have := congrArg List.length hl0
      rw [List.length_append] at this
      simp only at this
      omega
    have hdpre := (hrun pre).2 _ _ registry hd0 hlen0 hU
    obtain ⟨up, down, h1, h2, h3, h4, h5, -, h7, -, -⟩ :=
      stream_add_both interfaces a10nsp_interface_get _ config session _ _ hdpre hlen1 hU
        hup hdown hr
    exact ⟨up, down, h1, h2, h3, h4, h5, h7⟩

theorem stream_flow_ids_dense_witness :
    registry_sample.ctx.flow_id = 1 ∧
    (bbl_stream_creation_run stream_interfaces_sample (fun _ => none)
      stream_creations_sample registry_sample).created.map
        (fun stream => (stream.flow_id, stream.flow_seq, stream.direction)) =
      [(1, 1, 2), (2, 1, 1), (3, 1, 2)] ∧
    (bbl_stream_creation_run stream_interfaces_sample (fun _ => none)
      stream_creations_sample registry_sample).ctx.flow_id =
      registry_sample.ctx.flow_id +
        (bbl_stream_creation_run stream_interfaces_sample (fun _ => none)
          stream_creations_sample registry_sample).created.length :=
  ⟨rfl, by decide,
    (stream_flow_ids_dense stream_interfaces_sample (fun _ => none)
      stream_creations_sample registry_sample rfl (fun _ _ => rfl) (by decide)).2.1⟩

/-! Section: Theorems about the ring I/O. -/

theorem tx_no_buffer_frame (thread : Bool) (io : io_handle_s) :
    (io_packet_mmap_tx_no_buffer thread io).ring = io.ring ∧
    (io_packet_mmap_tx_no_buffer thread io).cursor = io.cursor ∧
    (io_packet_mmap_tx_no_buffer thread io).queued = io.queued ∧
    (io_packet_mmap_tx_no_buffer thread io).stats_packets = io.stats_packets ∧
    (io_packet_mmap_tx_no_buffer thread io).stats_io_errors = io.stats_io_errors ∧
    (io_packet_mmap_tx_no_buffer thread io).req_tp_frame_nr = io.req_tp_frame_nr := by
  unfold io_packet_mmap_tx_no_buffer poll_kernel
  cases thread <;> exact ⟨rfl, rfl, rfl, rfl, rfl, rfl⟩

/-- The stream part of a burst writes stream packets only, and calls
`bbl_stream_io_stop` at most once, at its end. -/
theorem tx_burst_streams_events (K : io_consts) (E : io_tx_env) (thread : Bool) (burst : Nat) :
    ∀ s : io_tx_state, ∃ streams : List Nat,
      (io_packet_mmap_tx_burst_streams K E thread burst s).events =
        s.events ++ streams.map io_tx_event.stream ∨
      (io_packet_mmap_tx_burst_streams K E thread burst s).events =
        s.events ++ (streams.map io_tx_event.stream ++ [io_tx_event.stop]) := by
  induction burst with
  | zero =>
    intro s
    exact ⟨[], Or.inl (by simp [io_packet_mmap_tx_burst_streams])⟩
  | succ burst ih =>
    intro s
    rw [io_packet_mmap_tx_burst_streams]
    by_cases ha : (io_tphdr s.io).tp_status ≠ K.TP_STATUS_AVAILABLE
    · rw [if_pos ha]
      exact ⟨[], Or.inl (by simp)⟩
    · rw [if_neg ha]
      by_cases ht : E.traffic = false
      · rw [if_pos ht]
        exact ⟨[], Or.inr (by simp)⟩
      · rw [if_neg ht]
        cases hs : s.send_iter with
        | nil => exact ⟨[], Or.inl (by simp)⟩
        | cons r rest =>
          cases r with
          | none => exact ⟨[], Or.inl (by simp)⟩
          | some packet =>
            simp only
            obtain ⟨streams, h⟩ := ih
              { s with
                send_iter := rest,
                io := io_packet_mmap_tx_slot K s.io packet,
                events := s.events ++ [io_tx_event.stream s.io.cursor] }
            refine ⟨s.io.cursor :: streams, ?_⟩
            rcases h with h | h
            · exact Or.inl (by rw [h]; simp)
            · exact Or.inr (by rw [h]; simp)

/-- The events of a burst are ordered: control packets, then stream packets. -/
theorem tx_burst_events (K : io_consts) (E : io_tx_env) (thread : Bool) (burst : Nat) :
    ∀ s : io_tx_state, ∃ events,
      (io_packet_mmap_tx_burst K E thread burst s).events = s.events ++ events ∧
      io_tx_events_ordered events := by
  induction burst with
  | zero =>
    intro s
    exact ⟨[], by simp [io_packet_mmap_tx_burst], [], [], [], rfl, Or.inl rfl⟩
  | succ burst ih =>
    intro s
    rw [io_packet_mmap_tx_burst]
    by_cases ha : (io_tphdr s.io).tp_status ≠ K.TP_STATUS_AVAILABLE
    · rw [if_pos ha]
      exact ⟨[], by simp, [], [], [], rfl, Or.inl rfl⟩
    · rw [if_neg ha]
      have hev : (io_packet_mmap_tx_control thread s).2.events = s.events := by
        unfold io_packet_mmap_tx_control
        cases thread
        · cases s.bbl_tx <;> rfl
        · cases s.txq <;> rfl
      generalize io_packet_mmap_tx_control thread s = c at hev
      obtain ⟨r, s1⟩ := c
      simp only at hev
      cases r with
      | some packet =>
        simp only
        obtain ⟨events, h1, controls, streams, tail, h2, h3⟩ := ih
          { s1 with
            io := io_packet_mmap_tx_slot K s1.io packet,
            events := s1.events ++ [io_tx_event.control s1.io.cursor] }
        refine ⟨io_tx_event.control s1.io.cursor :: events, ?_,
          s1.io.cursor :: controls, streams, tail, ?_, h3⟩
        · rw [h1, hev]
          simp
        · rw [h2]
          rfl
      | none =>
        simp only
        obtain ⟨streams, h⟩ := tx_burst_streams_events K E thread (burst + 1)
          { s1 with events := s1.events ++ [io_tx_event.control_empty] }
        rcases h with h | h
        · exact ⟨io_tx_event.control_empty :: streams.map io_tx_event.stream,
            by rw [h, hev]; simp, [], streams, _, rfl, Or.inr (Or.inl rfl)⟩
        · exact ⟨io_tx_event.control_empty :: (streams.map io_tx_event.stream ++
              [io_tx_event.stop]),
            by rw [h, hev]; simp, [], streams, _, rfl, Or.inr (Or.inr rfl)⟩

theorem tx_notify_events (E : io_tx_env) (s : io_tx_state) :
    (io_packet_mmap_tx_notify E s).events = s.events := by
  unfold io_packet_mmap_tx_notify
  split_ifs <;> rfl

theorem thread_tx_turn_cases (K : io_consts) (E : io_tx_env) (s : io_tx_state) :
    io_packet_mmap_thread_tx_run_fn_turn K E s =
      if (io_tphdr s.io).tp_status ≠ K.TP_STATUS_AVAILABLE then
        { s with
          io := poll_kernel
            { s.io with stats_no_buffer := (s.io.stats_no_buffer + 1) % U64 } }
      else
        io_packet_mmap_tx_notify E
          (io_packet_mmap_tx_burst K E true (E.io_burst % U16)
            { s with io := { s.io with timestamp := E.timestamp } }) := by
  unfold io_packet_mmap_thread_tx_run_fn_turn io_packet_mmap_thread_tx_run_fn_burst
  by_cases ha : (io_tphdr s.io).tp_status ≠ K.TP_STATUS_AVAILABLE
  · rw [if_pos ha, if_pos ha]
    rfl
  · rw [if_neg ha, if_neg ha]
    rfl

/-- C26: within one run of `io_packet_mmap_tx_job`, and within one turn of the
loop of `io_packet_mmap_thread_tx_run_fn`, what is written to the ring is
ordered: first control packets only; after the control source has reported
nothing to send, stream packets only.  So every control packet precedes every
stream packet, and no stream packet is written before the control source has
reported nothing to send. -/
theorem tx_control_before_streams (K : io_consts) (E : io_tx_env) (s : io_tx_state) :
    (∃ events, (io_packet_mmap_tx_job K E s).events = s.events ++ events ∧
      io_tx_events_ordered events) ∧
    (∃ events, (io_packet_mmap_thread_tx_run_fn_turn K E s).events = s.events ++ events ∧
      io_tx_events_ordered events) := by
  constructor
  · unfold io_packet_mmap_tx_job io_packet_mmap_tx_job_burst
    rw [tx_notify_events]
    split_ifs
    · exact ⟨[], by simp, [], [], [], rfl, Or.inl rfl⟩
    · exact tx_burst_events K E false _ _
  · rw [thread_tx_turn_cases]
    split_ifs
    · exact ⟨[], by simp, [], [], [], rfl, Or.inl rfl⟩
    · rw [tx_notify_events]
      exact tx_burst_events K E true _ _

theorem io_tx_slots_append (a b : List io_tx_event) :
    io_tx_slots (a ++ b) = io_tx_slots a ++ io_tx_slots b := by
  induction a with
  | nil => rfl
  | cons e rest ih =>
    cases e <;> simp [io_tx_slots, ih]

theorem io_tx_progress_zero (K : io_consts) (s s' : io_tx_state)
    (h1 : s'.io.req_tp_frame_nr = s.io.req_tp_frame_nr) (h2 : s'.io.ring = s.io.ring)
    (h3 : s'.io.stats_packets = s.io.stats_packets) (h4 : s'.io.queued = s.io.queued)
    (h5 : s'.io.cursor = s.io.cursor) (h6 : s'.io.stats_io_errors = s.io.stats_io_errors)
    (h7 : s'.sendto_calls = s.sendto_calls)
    (events : List io_tx_event) (h8 : s'.events = s.events ++ events)
    (h9 : io_tx_slots events = [])
    (hp : s.io.stats_packets < U64) (hq : s.io.queued < U16)
    (hc : s.io.cursor < s.io.req_tp_frame_nr) :
    io_tx_progress K s s' 0 := by
  refine ⟨h1, by rw [h2], ?_, ?_, ?_, h6, h7, events, h8, ?_, ?_⟩
  · rw [h3, Nat.add_zero, Nat.mod_eq_of_lt hp]
  · rw [h4, Nat.add_zero, Nat.mod_eq_of_lt hq]
  · rw [h5, Nat.add_zero, Nat.mod_eq_of_lt hc]
  · rw [h9]; rfl
  · intro j
    rw [h9, h2]
    simp

/-- Writing one frame and then `n` more is writing `n + 1` frames. -/
theorem io_tx_progress_step (K : io_consts) (s s' : io_tx_state) (packet : List Nat)
    (src : io_tx_state) (e : io_tx_event) (n : Nat)
    (hio : src.io = s.io) (hsc : src.sendto_calls = s.sendto_calls)
    (hev : src.events = s.events) (he : io_tx_slots [e] = [s.io.cursor])
    (hc : s.io.cursor < s.io.req_tp_frame_nr) (hN : s.io.req_tp_frame_nr ≤ U16)
    (hl : s.io.ring.length = s.io.req_tp_frame_nr)
    (h : io_tx_progress K
      { src with io := io_packet_mmap_tx_slot K src.io packet, events := src.events ++ [e] }
      s' n) :
    io_tx_progress K s s' (n + 1) := by
  obtain ⟨h1, h2, h3, h4, h5, h6, h7, events, h8, h9, h10⟩ := h
  simp only [io_packet_mmap_tx_slot, hio, hev, hsc, List.length_set] at h1 h2 h3 h4 h5 h6 h7 h8 h9 h10
  have hmod : (s.io.cursor + 1) % s.io.req_tp_frame_nr % U16 =
      (s.io.cursor + 1) % s.io.req_tp_frame_nr := by
    apply Nat.mod_eq_of_lt
    have := Nat.mod_lt (s.io.cursor + 1) (Nat.lt_of_le_of_lt (Nat.zero_le _) hc)
    omega
  rw [hmod] at h5 h9
  refine ⟨h1, h2, ?_, ?_, ?_, h6, h7, e :: events, ?_, ?_, ?_⟩
  · rw [h3, Nat.mod_add_mod]
    congr 1
    omega
  · rw [h4, Nat.mod_add_mod]
    congr 1
    omega
  · rw [h5, Nat.mod_add_mod]
    congr 1
    omega
  · rw [h8]
    simp
  · have : io_tx_slots (e :: events) = s.io.cursor :: io_tx_slots events := by
      have := io_tx_slots_append [e] events
      rw [he] at this
      exact this
    rw [this, h9, List.range_succ_eq_map, List.map_cons, List.map_map]
    have h0 : (s.io.cursor + 0) % s.io.req_tp_frame_nr = s.io.cursor := by
      rw [Nat.add_zero, Nat.mod_eq_of_lt hc]
    rw [h0]
    congr 1
    apply List.map_congr_left
    intro i _
    simp only [Function.comp, Nat.mod_add_mod]
    congr 1
    omega
  · intro j
    have hs : io_tx_slots (e :: events) = s.io.cursor :: io_tx_slots events := by
      have := io_tx_slots_append [e] events
      rw [he] at this
      exact this
    rw [hs, h10 j]
    by_cases hj : j ∈ io_tx_slots events
    · simp [hj]
    · by_cases hjc : j = s.io.cursor
      · subst hjc
        have hlt : s.io.cursor < s.io.ring.length := by omega
        simp [hj, List.getD_eq_getElem?_getD, List.getElem?_set, hlt]
      · have hne : s.io.cursor ≠ j := fun h => hjc h.symm
        simp [hj, hjc, List.getD_eq_getElem?_getD, List.getElem?_set, hne]

theorem tx_control_frame (thread : Bool) (s : io_tx_state) :
    (io_packet_mmap_tx_control thread s).2.io = s.io ∧
    (io_packet_mmap_tx_control thread s).2.events = s.events ∧
    (io_packet_mmap_tx_control thread s).2.sendto_calls = s.sendto_calls := by
  unfold io_packet_mmap_tx_control
  cases thread
  · cases s.bbl_tx <;> exact ⟨rfl, rfl, rfl⟩
  · cases s.txq <;> exact ⟨rfl, rfl, rfl⟩

theorem tx_slot_bounds (K : io_consts) (io : io_handle_s) (packet : List Nat)
    (hc : io.cursor < io.req_tp_frame_nr) (hl : io.ring.length = io.req_tp_frame_nr) :
    (io_packet_mmap_tx_slot K io packet).cursor < (io_packet_mmap_tx_slot K io packet).req_tp_frame_nr ∧
    (io_packet_mmap_tx_slot K io packet).req_tp_frame_nr = io.req_tp_frame_nr ∧
    (io_packet_mmap_tx_slot K io packet).ring.length =
      (io_packet_mmap_tx_slot K io packet).req_tp_frame_nr ∧
    (io_packet_mmap_tx_slot K io packet).stats_packets < U64 ∧
    (io_packet_mmap_tx_slot K io packet).queued < U16 := by
  have h0 : 0 < io.req_tp_frame_nr := Nat.lt_of_le_of_lt (Nat.zero_le _) hc
  refine ⟨?_, rfl, ?_, Nat.mod_lt _ (by unfold U64; omega), Nat.mod_lt _ (by unfold U16; omega)⟩
  · exact Nat.lt_of_le_of_lt (Nat.mod_le _ _) (Nat.mod_lt _ h0)
  · unfold io_packet_mmap_tx_slot
    simp only [List.length_set]
    exact hl

/-- Progress from a state that differs from `s` in fields the relation does not
read, and in events that write no frame. -/
theorem io_tx_progress_congr (K : io_consts) (s s0 s' : io_tx_state) (n : Nat)
    (pre : List io_tx_event) (hio : s0.io = s.io) (hsc : s0.sendto_calls = s.sendto_calls)
    (hev : s0.events = s.events ++ pre) (hpre : io_tx_slots pre = [])
    (h : io_tx_progress K s0 s' n) : io_tx_progress K s s' n := by
  obtain ⟨h1, h2, h3, h4, h5, h6, h7, events, h8, h9, h10⟩ := h
  rw [hio] at h1 h2 h3 h4 h5 h6 h9 h10
  rw [hsc] at h7
  rw [hev] at h8
  have hs : io_tx_slots (pre ++ events) = io_tx_slots events := by
    rw [io_tx_slots_append, hpre, List.nil_append]
  refine ⟨h1, h2, h3, h4, h5, h6, h7, pre ++ events, ?_, ?_, ?_⟩
  · rw [h8, List.append_assoc]
  · rw [hs, h9]
  · rw [hs]
    exact h10

/-- The stream part of a burst writes at most `burst` frames, the frames from
the cursor on. -/
theorem tx_burst_streams_progress (K : io_consts) (E : io_tx_env) (thread : Bool)
    (burst : Nat) :
    ∀ s : io_tx_state, s.io.cursor < s.io.req_tp_frame_nr → s.io.req_tp_frame_nr ≤ U16 →
      s.io.ring.length = s.io.req_tp_frame_nr → s.io.stats_packets < U64 →
      s.io.queued < U16 →
      ∃ n, n ≤ burst ∧
        io_tx_progress K s (io_packet_mmap_tx_burst_streams K E thread burst s) n := by
  induction burst with
  | zero =>
    intro s hc hN hl hp hq
    exact ⟨0, Nat.le_refl _, io_tx_progress_zero K s _ rfl rfl rfl rfl rfl rfl rfl []
      (by simp [io_packet_mmap_tx_burst_streams]) rfl hp hq hc⟩
  | succ burst ih =>
    intro s hc hN hl hp hq
    rw [io_packet_mmap_tx_burst_streams]
    by_cases ha : (io_tphdr s.io).tp_status ≠ K.TP_STATUS_AVAILABLE
    · rw [if_pos ha]
      obtain ⟨f1, f2, f3, f4, f5, f6⟩ := tx_no_buffer_frame thread s.io
      exact ⟨0, Nat.zero_le _, io_tx_progress_zero K s _ f6 f1 f4 f3 f2 f5 rfl []
        (by simp) rfl hp hq hc⟩
    · rw [if_neg ha]
      by_cases ht : E.traffic = false
      · rw [if_pos ht]
        exact ⟨0, Nat.zero_le _, io_tx_progress_zero K s _ rfl rfl rfl rfl rfl rfl rfl
          [io_tx_event.stop] rfl rfl hp hq hc⟩
      · rw [if_neg ht]
        cases hs : s.send_iter with
        | nil =>
          exact ⟨0, Nat.zero_le _, io_tx_progress_zero K s _ rfl rfl rfl rfl rfl rfl rfl []
            (by simp) rfl hp hq hc⟩
        | cons r rest =>
          cases r with
          | none =>
            exact ⟨0, Nat.zero_le _, io_tx_progress_zero K s _ rfl rfl rfl rfl rfl rfl rfl []
              (by simp) rfl hp hq hc⟩
          | some packet =>
            simp only
            obtain ⟨b1, b2, b3, b4, b5⟩ := tx_slot_bounds K s.io packet hc hl
            obtain ⟨n, hn, h⟩ := ih
              { s with
                send_iter := rest,
                io := io_packet_mmap_tx_slot K s.io packet,
                events := s.events ++ [io_tx_event.stream s.io.cursor] }
              b1 (by rw [b2]; exact hN) b3 b4 b5
            exact ⟨n + 1, Nat.succ_le_succ hn,
              io_tx_progress_step K s _ packet { s with send_iter := rest }
                (io_tx_event.stream s.io.cursor) n rfl rfl rfl rfl hc hN hl h⟩

/-- A burst writes at most `burst` frames, the frames from the cursor on. -/
theorem tx_burst_progress (K : io_consts) (E : io_tx_env) (thread : Bool) (burst : Nat) :
    ∀ s : io_tx_state, s.io.cursor < s.io.req_tp_frame_nr → s.io.req_tp_frame_nr ≤ U16 →
      s.io.ring.length = s.io.req_tp_frame_nr → s.io.stats_packets < U64 →
      s.io.queued < U16 →
      ∃ n, n ≤ burst ∧ io_tx_progress K s (io_packet_mmap_tx_burst K E thread burst s) n := by
  induction burst with
  | zero =>
    intro s hc hN hl hp hq
    exact ⟨0, Nat.le_refl _, io_tx_progress_zero K s _ rfl rfl rfl rfl rfl rfl rfl []
      (by simp [io_packet_mmap_tx_burst]) rfl hp hq hc⟩
  | succ burst ih =>
    intro s hc hN hl hp hq
    rw [io_packet_mmap_tx_burst]
    by_cases ha : (io_tphdr s.io).tp_status ≠ K.TP_STATUS_AVAILABLE
    · rw [if_pos ha]
      obtain ⟨f1, f2, f3, f4, f5, f6⟩ := tx_no_buffer_frame thread s.io
      exact ⟨0, Nat.zero_le _, io_tx_progress_zero K s _ f6 f1 f4 f3 f2 f5 rfl []
        (by simp) rfl hp hq hc⟩
    · rw [if_neg ha]
      obtain ⟨c1, c2, c3⟩ := tx_control_frame thread s
      generalize io_packet_mmap_tx_control thread s = c at c1 c2 c3
      obtain ⟨r, s1⟩ := c
      simp only at c1 c2 c3
      cases r with
      | some packet =>
        simp only
        obtain ⟨b1, b2, b3, b4, b5⟩ := tx_slot_bounds K s.io packet hc hl
        rw [← c1] at b1 b2 b3 b4 b5
        obtain ⟨n, hn, h⟩ := ih
          { s1 with
            io := io_packet_mmap_tx_slot K s1.io packet,
            events := s1.events ++ [io_tx_event.control s1.io.cursor] }
          b1 (by rw [b2, c1]; exact hN) b3 b4 b5
        exact ⟨n + 1, Nat.succ_le_succ hn,
          io_tx_progress_step K s _ packet s1 (io_tx_event.control s1.io.cursor) n c1 c3 c2
            (by rw [c1]; rfl) hc hN hl h⟩
      | none =>
        simp only
        obtain ⟨n, hn, h⟩ := tx_burst_streams_progress K E thread (burst + 1)
          { s1 with events := s1.events ++ [io_tx_event.control_empty] }
          (by rw [c1]; exact hc) (by rw [c1]; exact hN) (by rw [c1]; exact hl)
          (by rw [c1]; exact hp) (by rw [c1]; exact hq)
        exact ⟨n, hn, io_tx_progress_congr K s
          { s1 with events := s1.events ++ [io_tx_event.control_empty] } _ n
          [io_tx_event.control_empty] c1 c3 (by rw [← c2]) rfl h⟩

theorem tx_notify_frame (E : io_tx_env) (s : io_tx_state) :
    (io_packet_mmap_tx_notify E s).io.ring = s.io.ring ∧
    (io_packet_mmap_tx_notify E s).io.cursor = s.io.cursor ∧
    (io_packet_mmap_tx_notify E s).io.stats_packets = s.io.stats_packets ∧
    (io_packet_mmap_tx_notify E s).io.stats_no_buffer = s.io.stats_no_buffer ∧
    (io_packet_mmap_tx_notify E s).io.queued =
      (if s.io.queued ≠ 0 ∧ ¬ E.sendto < 0 then 0 else s.io.queued) := by
  unfold io_packet_mmap_tx_notify
  by_cases hq : s.io.queued ≠ 0
  · by_cases hs : E.sendto < 0
    · rw [if_pos hq, if_pos hs, if_neg (fun h => h.2 hs)]
      exact ⟨rfl, rfl, rfl, rfl, rfl⟩
    · rw [if_pos hq, if_neg hs, if_pos ⟨hq, hs⟩]
      exact ⟨rfl, rfl, rfl, rfl, rfl⟩
  · rw [if_neg hq, if_neg (fun h => hq h.1)]
    exact ⟨rfl, rfl, rfl, rfl, rfl⟩

/-- C27 (as amended): one run of `io_packet_mmap_tx_job` on a ring of
`frame_nr <= 2^16` frames with the cursor inside the ring.  If the frame at the
cursor is available, it writes `n <= io_burst` frames, the `n` frames from the
cursor on in ring order: these are marked `TP_STATUS_SEND_REQUEST` and no other
frame changes its status, `stats.packets` grows by `n` (in 64-bit arithmetic),
the cursor advances by `n` modulo `frame_nr`, and `queued` grows by `n` (in
16-bit arithmetic) up to the notification of the kernel, which sets it to 0 if
it is not 0 and `sendto` succeeds.  If the frame at the cursor is not
available, ring, cursor and events are unchanged and `no_buffer` is
incremented. -/
theorem tx_job_accounting (K : io_consts) (E : io_tx_env) (s : io_tx_state)
    (hc : s.io.cursor < s.io.req_tp_frame_nr) (hN : s.io.req_tp_frame_nr ≤ U16)
    (hl : s.io.ring.length = s.io.req_tp_frame_nr) (hp : s.io.stats_packets < U64)
    (hq : s.io.queued < U16) :
    ((io_tphdr s.io).tp_status = K.TP_STATUS_AVAILABLE →
      ∃ n, n ≤ E.io_burst % U16 ∧
        io_tx_progress K s (io_packet_mmap_tx_job_burst K E s) n ∧
        (io_packet_mmap_tx_job K E s).io.ring = (io_packet_mmap_tx_job_burst K E s).io.ring ∧
        (io_packet_mmap_tx_job K E s).events = (io_packet_mmap_tx_job_burst K E s).events ∧
        (io_packet_mmap_tx_job K E s).io.stats_packets = (s.io.stats_packets + n) % U64 ∧
        (io_packet_mmap_tx_job K E s).io.cursor =
          (s.io.cursor + n) % s.io.req_tp_frame_nr ∧
        (io_packet_mmap_tx_job K E s).io.queued =
          (if (s.io.queued + n) % U16 ≠ 0 ∧ ¬ E.sendto < 0 then 0
           else (s.io.queued + n) % U16)) ∧
    ((io_tphdr s.io).tp_status ≠ K.TP_STATUS_AVAILABLE →
      (io_packet_mmap_tx_job K E s).io.ring = s.io.ring ∧
      (io_packet_mmap_tx_job K E s).io.cursor = s.io.cursor ∧
      (io_packet_mmap_tx_job K E s).events = s.events ∧
      (io_packet_mmap_tx_job K E s).io.stats_no_buffer =
        (s.io.stats_no_buffer + 1) % U64) := by
  obtain ⟨f1, f2, f3, f4, f5⟩ := tx_notify_frame E (io_packet_mmap_tx_job_burst K E s)
  have fe := tx_notify_events E (io_packet_mmap_tx_job_burst K E s)
  constructor
  · intro ha
    have hb : io_packet_mmap_tx_job_burst K E s =
        io_packet_mmap_tx_burst K E false (E.io_burst % U16)
          { s with io := { s.io with timestamp := E.timestamp } } := by
      unfold io_packet_mmap_tx_job_burst
      rw [if_neg (fun h => h ha)]
    obtain ⟨n, hn, h⟩ := tx_burst_progress K E false (E.io_burst % U16)
      { s with io := { s.io with timestamp := E.timestamp } } hc hN hl hp hq
    have hprog : io_tx_progress K s (io_packet_mmap_tx_job_burst K E s) n := by
      rw [hb]
      exact h
    obtain ⟨-, -, h3, h4, h5, -⟩ := id hprog
    refine ⟨n, hn, hprog, f1, fe, ?_, ?_, ?_⟩
    · unfold io_packet_mmap_tx_job
      rw [f3, h3]
    · unfold io_packet_mmap_tx_job
      rw [f2, h5]
    · unfold io_packet_mmap_tx_job
      rw [f5, h4]
  · intro ha
    have hb : io_packet_mmap_tx_job_burst K E s =
        { s with
          io := { poll_kernel s.io with
            stats_no_buffer := ((poll_kernel s.io).stats_no_buffer + 1) % U64 } } := by
      unfold io_packet_mmap_tx_job_burst
      rw [if_pos ha]
    unfold io_packet_mmap_tx_job
    rw [f1, f2, fe, f4, hb]
    exact ⟨rfl, rfl, rfl, rfl⟩

theorem tx_job_accounting_witness :
    (io_tphdr io_tx_sample.io).tp_status = io_consts_linux.TP_STATUS_AVAILABLE ∧
    ∃ n, n ≤ 3 ∧
      (io_packet_mmap_tx_job io_consts_linux io_tx_env_sample io_tx_sample).io.cursor =
        (3 + n) % 4 ∧
      (io_packet_mmap_tx_job io_consts_linux io_tx_env_sample io_tx_sample).io.stats_packets =
        (0 + n) % U64 := by
  obtain ⟨n, hn, -, -, -, h1, h2, -⟩ :=
    (tx_job_accounting io_consts_linux io_tx_env_sample io_tx_sample (by decide) (by decide)
      (by decide) (by decide) (by decide)).1 (by decide)
  exact ⟨by decide, n, hn, h2, h1⟩

/-- A run of `io_packet_mmap_tx_job` that writes three frames and notifies the
kernel with success: `stats.packets` has grown by three, `queued` is 0 as
before. -/
theorem tx_job_queued_counterexample :
    io_tx_slots (io_packet_mmap_tx_job io_consts_linux io_tx_env_sample io_tx_sample).events =
      [3, 0, 1] ∧
    (io_packet_mmap_tx_job io_consts_linux io_tx_env_sample io_tx_sample).io.ring.map
      (fun frame => frame.tp_status) = [1, 1, 0, 1] ∧
    io_tx_sample.io.stats_packets = 0 ∧
    (io_packet_mmap_tx_job io_consts_linux io_tx_env_sample io_tx_sample).io.stats_packets = 3 ∧
    io_tx_sample.io.queued = 0 ∧
    (io_packet_mmap_tx_job io_consts_linux io_tx_env_sample io_tx_sample).io.queued = 0 := by
  decide

theorem tx_slot_frame (K : io_consts) (io : io_handle_s) (packet : List Nat) :
    (io_packet_mmap_tx_slot K io packet).stats_io_errors = io.stats_io_errors := rfl

theorem tx_burst_streams_frame (K : io_consts) (E : io_tx_env) (thread : Bool) (burst : Nat) :
    ∀ s : io_tx_state,
      (io_packet_mmap_tx_burst_streams K E thread burst s).sendto_calls = s.sendto_calls ∧
      (io_packet_mmap_tx_burst_streams K E thread burst s).io.stats_io_errors =
        s.io.stats_io_errors := by
  induction burst with
  | zero =>
    intro s
    exact ⟨rfl, rfl⟩
  | succ burst ih =>
    intro s
    rw [io_packet_mmap_tx_burst_streams]
    by_cases ha : (io_tphdr s.io).tp_status ≠ K.TP_STATUS_AVAILABLE
    · rw [if_pos ha]
      exact ⟨rfl, (tx_no_buffer_frame thread s.io).2.2.2.2.1⟩
    · rw [if_neg ha]
      by_cases ht : E.traffic = false
      · rw [if_pos ht]
        exact ⟨rfl, rfl⟩
      · rw [if_neg ht]
        cases hs : s.send_iter with
        | nil => exact ⟨rfl, rfl⟩
        | cons r rest =>
          cases r with
          | none => exact ⟨rfl, rfl⟩
          | some packet => exact ih _

theorem tx_burst_frame (K : io_consts) (E : io_tx_env) (thread : Bool) (burst : Nat) :
    ∀ s : io_tx_state,
      (io_packet_mmap_tx_burst K E thread burst s).sendto_calls = s.sendto_calls ∧
      (io_packet_mmap_tx_burst K E thread burst s).io.stats_io_errors =
        s.io.stats_io_errors := by
  induction burst with
  | zero =>
    intro s
    exact ⟨rfl, rfl⟩
  | succ burst ih =>
    intro s
    rw [io_packet_mmap_tx_burst]
    by_cases ha : (io_tphdr s.io).tp_status ≠ K.TP_STATUS_AVAILABLE
    · rw [if_pos ha]
      exact ⟨rfl, (tx_no_buffer_frame thread s.io).2.2.2.2.1⟩
    · rw [if_neg ha]
      obtain ⟨c1, c2, c3⟩ := tx_control_frame thread s
      generalize io_packet_mmap_tx_control thread s = c at c1 c2 c3
      obtain ⟨r, s1⟩ := c
      simp only at c1 c2 c3
      cases r with
      | some packet =>
        simp only
        obtain ⟨h1, h2⟩ := ih
          { s1 with
            io := io_packet_mmap_tx_slot K s1.io packet,
            events := s1.events ++ [io_tx_event.control s1.io.cursor] }
        exact ⟨h1.trans c3, h2.trans (by rw [tx_slot_frame, c1])⟩
      | none =>
        simp only
        obtain ⟨h1, h2⟩ := tx_burst_streams_frame K E thread (burst + 1)
          { s1 with events := s1.events ++ [io_tx_event.control_empty] }
        exact ⟨h1.trans c3, h2.trans (by rw [c1])⟩

theorem tx_job_burst_frame (K : io_consts) (E : io_tx_env) (s : io_tx_state) :
    (io_packet_mmap_tx_job_burst K E s).sendto_calls = s.sendto_calls ∧
    (io_packet_mmap_tx_job_burst K E s).io.stats_io_errors = s.io.stats_io_errors ∧
    ((io_tphdr s.io).tp_status ≠ K.TP_STATUS_AVAILABLE →
      (io_packet_mmap_tx_job_burst K E s).io.queued = s.io.queued) := by
  unfold io_packet_mmap_tx_job_burst
  by_cases ha : (io_tphdr s.io).tp_status ≠ K.TP_STATUS_AVAILABLE
  · rw [if_pos ha]
    exact ⟨rfl, rfl, fun _ => rfl⟩
  · rw [if_neg ha]
    obtain ⟨h1, h2⟩ := tx_burst_frame K E false (E.io_burst % U16)
      { s with io := { s.io with timestamp := E.timestamp } }
    exact ⟨h1, h2, fun h => absurd h ha⟩

/-- C28: at the end of `io_packet_mmap_tx_job`, with `queued` as the burst has
left it: if it is 0, `sendto` is not called; if it is not 0, `sendto` is called
exactly once; when the call succeeds `queued` becomes 0 and `io_errors` is
unchanged; when it fails `io_errors` grows by one and `queued` keeps its value,
so that a later run of the job that writes no frame calls `sendto` again. -/
theorem tx_job_notify (K : io_consts) (E : io_tx_env) (s : io_tx_state)
    (he : s.io.stats_io_errors + 1 < U64) :
    ((io_packet_mmap_tx_job_burst K E s).io.queued = 0 →
      (io_packet_mmap_tx_job K E s).sendto_calls = s.sendto_calls ∧
      (io_packet_mmap_tx_job K E s).io.queued = 0 ∧
      (io_packet_mmap_tx_job K E s).io.stats_io_errors = s.io.stats_io_errors) ∧
    ((io_packet_mmap_tx_job_burst K E s).io.queued ≠ 0 →
      (io_packet_mmap_tx_job K E s).sendto_calls = s.sendto_calls + 1 ∧
      (¬ E.sendto < 0 →
        (io_packet_mmap_tx_job K E s).io.queued = 0 ∧
        (io_packet_mmap_tx_job K E s).io.stats_io_errors = s.io.stats_io_errors) ∧
      (E.sendto < 0 →
        (io_packet_mmap_tx_job K E s).io.queued =
          (io_packet_mmap_tx_job_burst K E s).io.queued ∧
        (io_packet_mmap_tx_job K E s).io.stats_io_errors = s.io.stats_io_errors + 1 ∧
        ∀ E2 : io_tx_env,
          (io_tphdr (io_packet_mmap_tx_job K E s).io).tp_status ≠ K.TP_STATUS_AVAILABLE →
          (io_packet_mmap_tx_job K E2 (io_packet_mmap_tx_job K E s)).sendto_calls =
            (io_packet_mmap_tx_job K E s).sendto_calls + 1)) := by
  obtain ⟨b1, b2, -⟩ := tx_job_burst_frame K E s
  have hnot : ∀ (E1 : io_tx_env) (t : io_tx_state), t.io.queued ≠ 0 →
      (io_packet_mmap_tx_notify E1 t).sendto_calls = t.sendto_calls + 1 := by
    intro E1 t ht
    unfold io_packet_mmap_tx_notify
    rw [if_pos ht]
    split_ifs <;> rfl
  constructor
  · intro hq
    unfold io_packet_mmap_tx_job io_packet_mmap_tx_notify
    rw [if_neg (fun h => h hq)]
    exact ⟨b1, hq, b2⟩
  · intro hq
    refine ⟨(hnot E _ hq).trans (by rw [b1]), ?_, ?_⟩
    · intro hs
      unfold io_packet_mmap_tx_job io_packet_mmap_tx_notify
      rw [if_pos hq, if_neg hs]
      exact ⟨rfl, b2⟩
    · intro hs
      have hr : io_packet_mmap_tx_job K E s =
          { io_packet_mmap_tx_job_burst K E s with
            sendto_calls := (io_packet_mmap_tx_job_burst K E s).sendto_calls + 1,
            io := { (io_packet_mmap_tx_job_burst K E s).io with
              stats_io_errors :=
                ((io_packet_mmap_tx_job_burst K E s).io.stats_io_errors + 1) % U64 } } := by
        unfold io_packet_mmap_tx_job io_packet_mmap_tx_notify
        rw [if_pos hq, if_pos hs]
      refine ⟨by rw [hr], ?_, ?_⟩
      · rw [hr]
        simp only
        rw [b2, Nat.mod_eq_of_lt he]
      · intro E2 ha
        have hq2 : (io_packet_mmap_tx_job K E s).io.queued ≠ 0 := by
          rw [hr]
          exact hq
        obtain ⟨d1, -, d3⟩ := tx_job_burst_frame K E2 (io_packet_mmap_tx_job K E s)
        have hq3 : (io_packet_mmap_tx_job_burst K E2 (io_packet_mmap_tx_job K E s)).io.queued
            ≠ 0 := by
          rw [d3 ha]
          exact hq2
        have := hnot E2 _ hq3
        rw [d1] at this
        exact this

theorem tx_job_notify_witness :
    (io_packet_mmap_tx_job_burst io_consts_linux io_tx_env_failing io_tx_sample).io.queued = 3 ∧
    (io_packet_mmap_tx_job io_consts_linux io_tx_env_failing io_tx_sample).sendto_calls = 1 ∧
    (io_packet_mmap_tx_job io_consts_linux io_tx_env_failing io_tx_sample).io.queued = 3 ∧
    (io_packet_mmap_tx_job io_consts_linux io_tx_env_failing io_tx_sample).io.stats_io_errors
      = 1 := by
  have h := (tx_job_notify io_consts_linux io_tx_env_failing io_tx_sample (by decide)).2
    (by decide)
  have hf := h.2.2 (by decide)
  exact ⟨by decide, h.1, hf.1.trans (by decide), hf.2.1⟩

theorem ring_position_ne (N c d : Nat) (hc : c < N) (h0 : 0 < d) (hd : d < N) :
    (c + d) % N ≠ c := by
  rw [Nat.add_mod_eq_ite, Nat.mod_eq_of_lt hc, Nat.mod_eq_of_lt hd]
  split_ifs <;> omega

theorem ring_positions_succ (N c k : Nat) (hc : c < N) :
    ring_positions N c (k + 1) = c :: ring_positions N ((c + 1) % N) k := by
  unfold ring_positions
  rw [List.range_succ_eq_map, List.map_cons, List.map_map, Nat.add_zero, Nat.mod_eq_of_lt hc]
  congr 1
  apply List.map_congr_left
  intro i _
  simp only [Function.comp, Nat.mod_add_mod]
  congr 1
  omega

/-- The body of the RX loop on a ring with the cursor inside: the frame at the
cursor is returned to the kernel, every other frame is untouched, the cursor
moves on by one in ring order. -/
theorem rx_frame_spec (K : io_consts) (E : io_rx_env) (s : io_rx_state)
    (hc : s.io.cursor < s.io.req_tp_frame_nr) (hN : s.io.req_tp_frame_nr ≤ U16)
    (hl : s.io.ring.length = s.io.req_tp_frame_nr) :
    (io_packet_mmap_rx_frame K E s).io.cursor = (s.io.cursor + 1) % s.io.req_tp_frame_nr ∧
    (io_packet_mmap_rx_frame K E s).io.req_tp_frame_nr = s.io.req_tp_frame_nr ∧
    (io_packet_mmap_rx_frame K E s).io.ring.length = s.io.req_tp_frame_nr ∧
    (io_packet_mmap_rx_frame K E s).processed = s.processed ++ [s.io.cursor] ∧
    (io_packet_mmap_rx_frame K E s).io.stats_packets = (s.io.stats_packets + 1) % U64 ∧
    ∀ j, (io_packet_mmap_rx_frame K E s).io.ring.getD j {} =
      if j = s.io.cursor then
        { s.io.ring.getD j {} with tp_status := K.TP_STATUS_KERNEL }
      else s.io.ring.getD j {} := by
  have h0 : 0 < s.io.req_tp_frame_nr := Nat.lt_of_le_of_lt (Nat.zero_le _) hc
  have hmod : (s.io.cursor + 1) % s.io.req_tp_frame_nr % U16 =
      (s.io.cursor + 1) % s.io.req_tp_frame_nr := by
    apply Nat.mod_eq_of_lt
    have := Nat.mod_lt (s.io.cursor + 1) h0
    omega
  have hring : ∀ j, (s.io.ring.set s.io.cursor
      { io_tphdr s.io with tp_status := K.TP_STATUS_KERNEL }).getD j {} =
      if j = s.io.cursor then
        { s.io.ring.getD j {} with tp_status := K.TP_STATUS_KERNEL }
      else s.io.ring.getD j {} := by
    intro j
    by_cases hj : j = s.io.cursor
    · subst hj
      have hlt : s.io.cursor < s.io.ring.length := by omega
      simp [List.getD_eq_getElem?_getD, List.getElem?_set, hlt, io_tphdr]
    · have hne : s.io.cursor ≠ j := fun h => hj h.symm
      simp [List.getD_eq_getElem?_getD, List.getElem?_set, hne, hj]
  unfold io_packet_mmap_rx_frame
  simp only []
  split
  · refine ⟨hmod, rfl, ?_, rfl, rfl, hring⟩
    simp only [List.length_set]
    exact hl
  · refine ⟨hmod, rfl, ?_, rfl, rfl, hring⟩
    simp only [List.length_set]
    exact hl
  · refine ⟨hmod, rfl, ?_, rfl, rfl, hring⟩
    simp only [List.length_set]
    exact hl

/-- The RX loop on `k < frame_nr` frames of the user followed by a frame that
is not: with more fuel than `k` it ends after these `k` frames. -/
theorem rx_loop_spec (K : io_consts) (E : io_rx_env) (k : Nat) :
    ∀ (s : io_rx_state) (fuel : Nat),
      s.io.cursor < s.io.req_tp_frame_nr → s.io.req_tp_frame_nr ≤ U16 →
      s.io.ring.length = s.io.req_tp_frame_nr → k < s.io.req_tp_frame_nr →
      (∀ i, i < k → frame_user K s.io.ring ((s.io.cursor + i) % s.io.req_tp_frame_nr)) →
      ¬ frame_user K s.io.ring ((s.io.cursor + k) % s.io.req_tp_frame_nr) →
      k < fuel →
      ∃ r, io_packet_mmap_rx_loop K E fuel s = some r ∧
        r.processed = s.processed ++ ring_positions s.io.req_tp_frame_nr s.io.cursor k ∧
        r.io.cursor = (s.io.cursor + k) % s.io.req_tp_frame_nr ∧
        r.io.req_tp_frame_nr = s.io.req_tp_frame_nr ∧
        r.io.ring.length = s.io.req_tp_frame_nr ∧
        ∀ j, r.io.ring.getD j {} =
          if j ∈ ring_positions s.io.req_tp_frame_nr s.io.cursor k then
            { s.io.ring.getD j {} with tp_status := K.TP_STATUS_KERNEL }
          else s.io.ring.getD j {} := by
  induction k with
  | zero =>
    intro s fuel hc hN hl _ _ hstop hfuel
    obtain ⟨fuel, rfl⟩ : ∃ f, fuel = f + 1 := ⟨fuel - 1, by omega⟩
    rw [Nat.add_zero, Nat.mod_eq_of_lt hc] at hstop
    refine ⟨s, ?_, ?_, ?_, rfl, hl, ?_⟩
    · rw [io_packet_mmap_rx_loop,
        if_neg (show ¬ ((io_tphdr s.io).tp_status &&& K.TP_STATUS_USER ≠ 0) from hstop)]
    · simp [ring_positions]
    · rw [Nat.add_zero, Nat.mod_eq_of_lt hc]
    · intro j
      simp [ring_positions]
  | succ k ih =>
    intro s fuel hc hN hl hk huser hstop hfuel
    obtain ⟨fuel, rfl⟩ : ∃ f, fuel = f + 1 := ⟨fuel - 1, by omega⟩
    have hu0 : frame_user K s.io.ring s.io.cursor := by
      have := huser 0 (Nat.succ_pos _)
      rwa [Nat.add_zero, Nat.mod_eq_of_lt hc] at this
    obtain ⟨f1, f2, f3, f4, f5, f6⟩ := rx_frame_spec K E s hc hN hl
    have h0 : 0 < s.io.req_tp_frame_nr := Nat.lt_of_le_of_lt (Nat.zero_le _) hc
    have hkeep : ∀ d, 0 < d → d < s.io.req_tp_frame_nr →
        (frame_user K (io_packet_mmap_rx_frame K E s).io.ring
            (((s.io.cursor + 1) % s.io.req_tp_frame_nr + (d - 1)) % s.io.req_tp_frame_nr) ↔
          frame_user K s.io.ring ((s.io.cursor + d) % s.io.req_tp_frame_nr)) := by
      intro d hd0 hd
      have e1 : ((s.io.cursor + 1) % s.io.req_tp_frame_nr + (d - 1)) % s.io.req_tp_frame_nr =
          (s.io.cursor + d) % s.io.req_tp_frame_nr := by
        rw [Nat.mod_add_mod]
        congr 1
        omega
      rw [e1]
      unfold frame_user
      rw [f6, if_neg (ring_position_ne _ _ d hc hd0 hd)]
    obtain ⟨r, hr, g1, g2, g3, g4, g6⟩ := ih (io_packet_mmap_rx_frame K E s) fuel
      (by rw [f1, f2]; exact Nat.mod_lt _ h0) (by rw [f2]; exact hN) (by rw [f3, f2])
      (by rw [f2]; omega)
      (by
        intro i hi
        rw [f1, f2]
        have := (hkeep (i + 1) (Nat.succ_pos _) (by omega)).2 (huser (i + 1) (by omega))
        simpa using this)
      (by
        rw [f1, f2]
        intro hcon
        have := (hkeep (k + 1) (Nat.succ_pos _) hk).1 (by simpa using hcon)
        exact hstop this)
      (by omega)
    refine ⟨r, ?_, ?_, ?_, ?_, ?_, ?_⟩
    · rw [io_packet_mmap_rx_loop,
        if_pos (show (io_tphdr s.io).tp_status &&& K.TP_STATUS_USER ≠ 0 from hu0)]
      exact hr
    · rw [g1, f4, f1, f2, ring_positions_succ _ _ _ hc]
      simp
    · rw [g2, f1, f2, Nat.mod_add_mod]
      congr 1
      omega
    · rw [g3, f2]
    · rw [g4, f2]
    · intro j
      rw [g6 j, f1, f2, ring_positions_succ _ _ _ hc, f6 j]
      by_cases hj : j ∈ ring_positions s.io.req_tp_frame_nr
          ((s.io.cursor + 1) % s.io.req_tp_frame_nr) k
      · by_cases hjc : j = s.io.cursor
        · simp [hj, hjc]
        · simp [hj, hjc]
      · by_cases hjc : j = s.io.cursor
        · simp [hj, hjc]
        · simp [hj, hjc]

/-- C29: let `io_packet_mmap_rx_job` start on a ring of `frame_nr <= 2^16`
frames with the cursor `c < frame_nr`, the frame states `TP_STATUS_KERNEL` and
`TP_STATUS_USER` sharing no bit.  If exactly `k >= 1` frames from `c` on in
ring order are owned by the user (`k <= frame_nr`; for `k < frame_nr` the next
frame is not), the job ends (any fuel above `k` suffices) having processed
these `k` frames in ring order; each of them has the state `TP_STATUS_KERNEL`
afterwards, every other frame is as before, and the cursor is
`(c + k) mod frame_nr`, below `frame_nr`.  If the frame at `c` is not owned by
the user, ring and cursor are unchanged. -/
theorem rx_job_drains (K : io_consts) (E : io_rx_env) (s : io_rx_state)
    (hK : K.TP_STATUS_KERNEL &&& K.TP_STATUS_USER = 0)
    (hc : s.io.cursor < s.io.req_tp_frame_nr) (hN : s.io.req_tp_frame_nr ≤ U16)
    (hl : s.io.ring.length = s.io.req_tp_frame_nr) :
    (∀ k fuel, 1 ≤ k → k ≤ s.io.req_tp_frame_nr →
      (∀ i, i < k → frame_user K s.io.ring ((s.io.cursor + i) % s.io.req_tp_frame_nr)) →
      (k < s.io.req_tp_frame_nr →
        ¬ frame_user K s.io.ring ((s.io.cursor + k) % s.io.req_tp_frame_nr)) →
      k < fuel →
      ∃ r, io_packet_mmap_rx_job K E fuel s = some r ∧
        r.processed = s.processed ++ ring_positions s.io.req_tp_frame_nr s.io.cursor k ∧
        r.io.cursor = (s.io.cursor + k) % s.io.req_tp_frame_nr ∧
        r.io.cursor < s.io.req_tp_frame_nr ∧
        r.io.req_tp_frame_nr = s.io.req_tp_frame_nr ∧
        r.io.ring.length = s.io.ring.length ∧
        (∀ j, j ∈ ring_positions s.io.req_tp_frame_nr s.io.cursor k →
          r.io.ring.getD j {} =
            { s.io.ring.getD j {} with tp_status := K.TP_STATUS_KERNEL }) ∧
        (∀ j, j ∉ ring_positions s.io.req_tp_frame_nr s.io.cursor k →
          r.io.ring.getD j {} = s.io.ring.getD j {})) ∧
    (¬ frame_user K s.io.ring s.io.cursor →
      ∀ fuel, ∃ r, io_packet_mmap_rx_job K E fuel s = some r ∧
        r.io.ring = s.io.ring ∧ r.io.cursor = s.io.cursor ∧ r.processed = s.processed) := by
  have h0 : 0 < s.io.req_tp_frame_nr := Nat.lt_of_le_of_lt (Nat.zero_le _) hc
  constructor
  · intro k fuel hk1 hkN huser hstop hfuel
    obtain ⟨k, rfl⟩ : ∃ k', k = k' + 1 := ⟨k - 1, by omega⟩
    obtain ⟨fuel, rfl⟩ : ∃ f, fuel = f + 1 := ⟨fuel - 1, by omega⟩
    have hu0 : frame_user K s.io.ring s.io.cursor := by
      have := huser 0 (Nat.succ_pos _)
      rwa [Nat.add_zero, Nat.mod_eq_of_lt hc] at this
    obtain ⟨f1, f2, f3, f4, -, f6⟩ := rx_frame_spec K E
      { s with io := { s.io with timestamp := E.timestamp } } hc hN hl
    simp only at f1 f2 f3 f4 f6
    have hkeep : ∀ d, 0 < d → d < s.io.req_tp_frame_nr →
        (frame_user K (io_packet_mmap_rx_frame K E
            { s with io := { s.io with timestamp := E.timestamp } }).io.ring
            (((s.io.cursor + 1) % s.io.req_tp_frame_nr + (d - 1)) % s.io.req_tp_frame_nr) ↔
          frame_user K s.io.ring ((s.io.cursor + d) % s.io.req_tp_frame_nr)) := by
      intro d hd0 hd
      have e1 : ((s.io.cursor + 1) % s.io.req_tp_frame_nr + (d - 1)) % s.io.req_tp_frame_nr =
          (s.io.cursor + d) % s.io.req_tp_frame_nr := by
        rw [Nat.mod_add_mod]
        congr 1
        omega
      rw [e1]
      unfold frame_user
      rw [f6, if_neg (ring_position_ne _ _ d hc hd0 hd)]
    obtain ⟨r, hr, g1, g2, g3, g4, g6⟩ := rx_loop_spec K E k
      (io_packet_mmap_rx_frame K E { s with io := { s.io with timestamp := E.timestamp } }) fuel
      (by rw [f1, f2]; exact Nat.mod_lt _ h0) (by rw [f2]; exact hN) (by rw [f3, f2])
      (by rw [f2]; omega)
      (by
        intro i hi
        rw [f1, f2]
        have := (hkeep (i + 1) (Nat.succ_pos _) (by omega)).2 (huser (i + 1) (by omega))
        simpa using this)
      (by
        rw [f1, f2]
        intro hcon
        by_cases hlt : k + 1 < s.io.req_tp_frame_nr
        · have := (hkeep (k + 1) (Nat.succ_pos _) hlt).1 (by simpa using hcon)
          exact hstop hlt this
        · have hkeq : k + 1 = s.io.req_tp_frame_nr := by omega
          have e1 : ((s.io.cursor + 1) % s.io.req_tp_frame_nr + k) % s.io.req_tp_frame_nr =
              s.io.cursor := by
            rw [Nat.mod_add_mod]
            have : s.io.cursor + 1 + k = s.io.cursor + s.io.req_tp_frame_nr := by omega
            rw [this, Nat.add_mod_right, Nat.mod_eq_of_lt hc]
          rw [e1] at hcon
          unfold frame_user at hcon
          rw [f6, if_pos rfl] at hcon
          exact hcon hK)
      (by omega)
    rw [f1, f2] at g1 g2 g6
    rw [f2] at g3 g4
    rw [f4] at g1
    have hjob : io_packet_mmap_rx_job K E (fuel + 1) s = some r := by
      unfold io_packet_mmap_rx_job
      rw [if_neg (show ¬ ((io_tphdr s.io).tp_status &&& K.TP_STATUS_USER = 0) from hu0),
        io_packet_mmap_rx_loop,
        if_pos (show (io_tphdr ({ s with io := { s.io with timestamp := E.timestamp } } :
          io_rx_state).io).tp_status &&& K.TP_STATUS_USER ≠ 0 from hu0)]
      exact hr
    refine ⟨r, hjob, ?_, ?_, ?_, g3, by rw [g4, hl], ?_, ?_⟩
    · rw [g1, ring_positions_succ _ _ _ hc]
      simp
    · rw [g2, Nat.mod_add_mod]
      congr 1
      omega
    · rw [g2]
      exact Nat.mod_lt _ h0
    · intro j hj
      rw [ring_positions_succ _ _ _ hc] at hj
      rw [g6 j, f6 j]
      by_cases hjc : j = s.io.cursor
      · by_cases hj2 : j ∈ ring_positions s.io.req_tp_frame_nr
            ((s.io.cursor + 1) % s.io.req_tp_frame_nr) k
        · simp [hjc, hj2]
        · simp [hjc, hj2]
      · have hj2 : j ∈ ring_positions s.io.req_tp_frame_nr
            ((s.io.cursor + 1) % s.io.req_tp_frame_nr) k := by
          rcases List.mem_cons.1 hj with h | h
          · exact absurd h hjc
          · exact h
        simp [hjc, hj2]
    · intro j hj
      rw [ring_positions_succ _ _ _ hc] at hj
      have hjc : j ≠ s.io.cursor := fun h => hj (h ▸ List.mem_cons_self _ _)
      have hj2 : j ∉ ring_positions s.io.req_tp_frame_nr
          ((s.io.cursor + 1) % s.io.req_tp_frame_nr) k :=
        fun h => hj (List.mem_cons_of_mem _ h)
      rw [g6 j, f6 j, if_neg hj2, if_neg hjc]
  · intro hu fuel
    refine ⟨{ s with io := poll_kernel s.io }, ?_, rfl, rfl, rfl⟩
    unfold io_packet_mmap_rx_job
    rw [if_pos]
    unfold frame_user at hu
    exact not_not.1 hu

theorem rx_job_drains_witness :
    ∃ r, io_packet_mmap_rx_job io_consts_linux io_rx_env_sample 3 io_rx_sample = some r ∧
      r.processed = [3, 0] ∧ r.io.cursor = 1 ∧
      (r.io.ring.getD 3 {}).tp_status = 0 ∧ (r.io.ring.getD 0 {}).tp_status = 0 ∧
      r.io.ring.getD 1 {} = io_rx_sample.io.ring.getD 1 {} := by
  obtain ⟨r, h1, h2, h3, -, -, -, h4, h5⟩ :=
    (rx_job_drains io_consts_linux io_rx_env_sample io_rx_sample (by decide) (by decide)
      (by decide) (by decide)).1 2 3 (by decide) (by decide)
      (by
        intro i hi
        unfold frame_user
        interval_cases i <;> decide)
      (by
        intro _
        unfold frame_user
        decide)
      (by decide)
  exact ⟨r, h1, h2.trans (by decide), h3.trans (by decide),
    (congrArg (fun frame => frame.tp_status) (h4 3 (by decide))).trans (by decide),
    (congrArg (fun frame => frame.tp_status) (h4 0 (by decide))).trans (by decide),
    h5 1 (by decide)⟩

/-! Section: Theorems about the patches of the template, the template build and the first packets of a flow. -/

/-- The results of the calls for the first `n` frames are the first `n`
results of the calls for all frames. -/
theorem rx_run_take (inputs : List (bbl_ethernet_header_t × Option bbl_session_s)) :
    ∀ (n : Nat) (dict : stream_flow_dict),
      (bbl_stream_rx_run (inputs.take n) dict).2 = (bbl_stream_rx_run inputs dict).2.take n := by
  induction inputs with
  | nil =>
    intro n dict
    simp [bbl_stream_rx_run]
  | cons x xs ih =>
    intro n dict
    obtain ⟨eth, session⟩ := x
    cases n with
    | zero => simp [bbl_stream_rx_run]
    | succ n =>
      simp only [List.take_succ_cons, bbl_stream_rx_run, List.take_succ_cons]
      rw [ih n]

/-- From a fresh or reset stream, a non-empty sequence of accepted packets with
increasing sequence numbers from 1 on leaves the first and the largest sequence
number on record and keeps the loss equation. -/
theorem rx_run_fresh_in_order (dict : stream_flow_dict) (f : Nat) (s0 : bbl_stream_s)
    (inputs : List (bbl_ethernet_header_t × Option bbl_session_s))
    (hs0 : dict f = some s0) (hfirst : s0.rx_first_seq = 0)
    (hrx : s0.packets_rx = 0) (hloss : s0.loss = 0)
    (hne : inputs ≠ [])
    (hflow : ∀ x ∈ inputs, eth_flow_id x.1 = some f)
    (hacc : ∀ r ∈ (bbl_stream_rx_run inputs dict).2, r ≠ none)
    (hseq : ∀ x ∈ inputs, 1 ≤ eth_flow_seq x.1 ∧ eth_flow_seq x.1 < U64)
    (hord : (rx_flow_seqs inputs).Pairwise (· < ·)) :
    ∃ s, (bbl_stream_rx_run inputs dict).1 f = some s ∧
      some s.rx_first_seq = (rx_flow_seqs inputs).head? ∧
      s.rx_last_seq = (rx_flow_seqs inputs).foldr max 0 ∧
      s.packets_rx + s.loss = s.rx_last_seq - s.rx_first_seq + 1 := by
  cases inputs with
  | nil => exact absurd rfl hne
  | cons x xs =>
    obtain ⟨eth, session⟩ := x
    have hacc1 : (bbl_stream_rx dict eth session).2 ≠ none :=
      hacc _ (by simp [bbl_stream_rx_run])
    obtain ⟨b, s1, hb, hd1, hr, hdict⟩ := stream_rx_accepted dict eth session hacc1
    have hfid : b.flow_id = f := by
      have := hflow (eth, session) (List.mem_cons_self _ _)
      simpa [eth_flow_id, hb] using this
    rw [hfid] at hd1 hdict
    rw [hs0] at hd1
    cases hd1
    have hq : eth_flow_seq eth = b.flow_seq := by simp [eth_flow_seq, hb]
    have hq1 := hseq (eth, session) (List.mem_cons_self _ _)
    simp only [hq] at hq1
    obtain ⟨a1, a2, a3, a4, b1, b2, b3, b4, c1, c2, c3, c4, ho⟩ :=
      stream_rx_observe_frame eth s0
    obtain ⟨mn, mx, hcount⟩ := stream_rx_count_frame eth b
      { bbl_stream_rx_observe eth s0 with rx_first_seq := b.flow_seq }
    have hs1 : bbl_stream_rx_stream eth b session s0 =
        (bbl_stream_rx_count eth b
          { bbl_stream_rx_observe eth s0 with rx_first_seq := b.flow_seq }, true) := by
      rcases stream_rx_first_cases eth b session s0 hfirst with h | h | h
      · rw [h] at hr; cases hr
      · rw [h] at hr; cases hr
      · exact h
    rw [hcount, ho] at hs1
    have hstep : bbl_stream_rx_run ((eth, session) :: xs) dict =
        ((bbl_stream_rx_run xs (bbl_stream_rx dict eth session).1).1,
          (bbl_stream_rx dict eth session).2 ::
            (bbl_stream_rx_run xs (bbl_stream_rx dict eth session).1).2) := rfl
    rw [hstep]
    have hacc' : ∀ r ∈ (bbl_stream_rx_run xs (bbl_stream_rx dict eth session).1).2,
        r ≠ none := by
      intro r hr
      exact hacc r (by rw [hstep]; exact List.mem_cons_of_mem _ hr)
    rw [hdict, hs1] at hacc' ⊢
    simp only at hacc' ⊢
    have hord' : (b.flow_seq :: rx_flow_seqs xs).Pairwise (· < ·) := by
      simpa [rx_flow_seqs, hq] using hord
    obtain ⟨s', e1, e2, e3, e4⟩ := rx_run_in_order f xs _ _ (Function.update_same f _ dict)
      (by simpa using hq1.1) (by simp) (by simpa using hq1.2)
      (by simp [hrx, hloss, U64])
      (fun x hx => hflow x (List.mem_cons_of_mem _ hx))
      hacc'
      (fun x hx => (hseq x (List.mem_cons_of_mem _ hx)).2)
      (by simpa using hord')
    refine ⟨s', e1, ?_, ?_, e4⟩
    · rw [e2]
      simp [rx_flow_seqs, hq]
    · rw [e3]
      simp only [rx_flow_seqs, List.map_cons, List.foldr_cons, hq]
      rw [foldr_max_init b.flow_seq]

/-- C32: starting from a fresh or reset stream (`rx_first_seq = 0`,
`packets_rx = loss = 0`), if the test packets of its flow accepted by
`bbl_stream_rx` arrive with strictly increasing `flow_seq`, each at least 1,
then after every call (after the first `n` packets, for every `n ≥ 1`)
`packets_rx + loss = rx_last_seq − rx_first_seq + 1`, `rx_last_seq` is the
largest `flow_seq` received so far and `rx_first_seq` the first one. -/
theorem loss_equation_after_every_call (dict : stream_flow_dict) (f : Nat)
    (s0 : bbl_stream_s) (inputs : List (bbl_ethernet_header_t × Option bbl_session_s))
    (hs0 : dict f = some s0) (hfirst : s0.rx_first_seq = 0)
    (hrx : s0.packets_rx = 0) (hloss : s0.loss = 0)
    (hflow : ∀ x ∈ inputs, eth_flow_id x.1 = some f)
    (hacc : ∀ r ∈ (bbl_stream_rx_run inputs dict).2, r ≠ none)
    (hseq : ∀ x ∈ inputs, 1 ≤ eth_flow_seq x.1 ∧ eth_flow_seq x.1 < U64)
    (hord : (rx_flow_seqs inputs).Pairwise (· < ·)) :
    ∀ n, 1 ≤ n → n ≤ inputs.length →
      ∃ s, (bbl_stream_rx_run (inputs.take n) dict).1 f = some s ∧
        s.packets_rx + s.loss = s.rx_last_seq - s.rx_first_seq + 1 ∧
        s.rx_last_seq = (rx_flow_seqs (inputs.take n)).foldr max 0 ∧
        some s.rx_first_seq = (rx_flow_seqs inputs).head? := by
  intro n hn1 hn
  have hne : inputs.take n ≠ [] := by
    intro h
    have := congrArg List.length h
    simp only [List.length_take, List.length_nil] at this
    omega
  obtain ⟨s, h1, h2, h3, h4⟩ := rx_run_fresh_in_order dict f s0 (inputs.take n) hs0 hfirst
    hrx hloss hne
    (fun x hx => hflow x (List.mem_of_mem_take hx))
    (by
      intro r hr
      rw [rx_run_take] at hr
      exact hacc r (List.mem_of_mem_take hr))
    (fun x hx => hseq x (List.mem_of_mem_take hx))
    (by
      have : rx_flow_seqs (inputs.take n) = (rx_flow_seqs inputs).take n := by
        simp [rx_flow_seqs, List.map_take]
      rw [this]
      exact List.Pairwise.sublist (List.take_sublist _ _) hord)
  refine ⟨s, h1, h4, h3, ?_⟩
  rw [h2]
  cases inputs with
  | nil => simp at hn; omega
  | cons x xs =>
    cases n with
    | zero => omega
    | succ n => simp [rx_flow_seqs]

/-- The loss equation after each of the accepted packets 3, 4, 9 of a fresh
stream. -/
theorem loss_equation_after_every_call_witness :
    ∃ s, (bbl_stream_rx_run
        ([(test_frame 3 1 [], none), (test_frame 4 1 [], none),
          (test_frame 9 1 [], none)].take 2)
        (dict_of stream_bound_down)).1 1 = some s ∧
      s.packets_rx + s.loss = s.rx_last_seq - s.rx_first_seq + 1 ∧
      s.rx_last_seq = 4 ∧ s.rx_first_seq = 3 := by
  obtain ⟨s, h1, h2, h3, h4⟩ :=
    loss_equation_after_every_call (dict_of stream_bound_down) 1 stream_bound_down
      [(test_frame 3 1 [], none), (test_frame 4 1 [], none), (test_frame 9 1 [], none)]
      rfl rfl rfl rfl (by decide) (by decide) (by decide) (by decide) 2 (by decide)
      (by decide)
  refine ⟨s, h1, h2, h3.trans (by decide), ?_⟩
  have : some s.rx_first_seq = some 3 := h4.trans (by decide)
  exact Option.some.inj this

/-- Recording the observed attributes: the four frame attributes are those of
the frame, the MPLS fields of a label the frame carries are those of the label,
and the MPLS fields of a label the frame does not carry stay. -/
theorem stream_rx_observe_values (eth : bbl_ethernet_header_t) (stream : bbl_stream_s) :
    bbl_stream_rx_observe eth stream =
      { stream with
        rx_len := eth.length, rx_priority := eth.tos,
        rx_outer_vlan_pbit := eth.vlan_outer_priority,
        rx_inner_vlan_pbit := eth.vlan_inner_priority,
        rx_mpls1 := (mpls_on_record eth.mpls 0 (stream.rx_mpls1, stream.rx_mpls1_label,
          stream.rx_mpls1_exp, stream.rx_mpls1_ttl)).1,
        rx_mpls1_label := (mpls_on_record eth.mpls 0 (stream.rx_mpls1, stream.rx_mpls1_label,
          stream.rx_mpls1_exp, stream.rx_mpls1_ttl)).2.1,
        rx_mpls1_exp := (mpls_on_record eth.mpls 0 (stream.rx_mpls1, stream.rx_mpls1_label,
          stream.rx_mpls1_exp, stream.rx_mpls1_ttl)).2.2.1,
        rx_mpls1_ttl := (mpls_on_record eth.mpls 0 (stream.rx_mpls1, stream.rx_mpls1_label,
          stream.rx_mpls1_exp, stream.rx_mpls1_ttl)).2.2.2,
        rx_mpls2 := (mpls_on_record eth.mpls 1 (stream.rx_mpls2, stream.rx_mpls2_label,
          stream.rx_mpls2_exp, stream.rx_mpls2_ttl)).1,
        rx_mpls2_label := (mpls_on_record eth.mpls 1 (stream.rx_mpls2, stream.rx_mpls2_label,
          stream.rx_mpls2_exp, stream.rx_mpls2_ttl)).2.1,
        rx_mpls2_exp := (mpls_on_record eth.mpls 1 (stream.rx_mpls2, stream.rx_mpls2_label,
          stream.rx_mpls2_exp, stream.rx_mpls2_ttl)).2.2.1,
        rx_mpls2_ttl := (mpls_on_record eth.mpls 1 (stream.rx_mpls2, stream.rx_mpls2_label,
          stream.rx_mpls2_exp, stream.rx_mpls2_ttl)).2.2.2 } := by
  unfold bbl_stream_rx_observe
  cases eth.mpls with
  | nil => rfl
  | cons m1 rest =>
    cases rest with
    | nil => rfl
    | cons m2 _ => rfl

/-- A packet rejected for a stream that is not yet verified counts a wrong
session only if the session comparison fails. -/
theorem stream_rx_rejected_cases (eth : bbl_ethernet_header_t) (bbl : bbl_bbl_t)
    (session : Option bbl_session_s) (stream : bbl_stream_s)
    (hfirst : stream.rx_first_seq = 0)
    (hrej : (bbl_stream_rx_stream eth bbl session stream).2 = false) :
    bbl_stream_rx_stream eth bbl session stream = (bbl_stream_rx_observe eth stream, false) ∨
    (bbl_stream_rx_session_mismatch bbl session stream = true ∧
      bbl_stream_rx_stream eth bbl session stream =
        ({ bbl_stream_rx_observe eth stream with
            wrong_session := (stream.wrong_session + 1) % U64 }, false)) := by
  obtain ⟨a1, a2, a3, a4, b1, b2, b3, b4, c1, c2, c3, c4, ho⟩ :=
    stream_rx_observe_frame eth stream
  have hm : bbl_stream_rx_session_mismatch bbl session (bbl_stream_rx_observe eth stream) =
      bbl_stream_rx_session_mismatch bbl session stream := by
    rw [ho]
    rfl
  unfold bbl_stream_rx_stream at hrej ⊢
  simp only [hfirst, ne_eq, not_true_eq_false, if_false] at hrej ⊢
  split_ifs at hrej ⊢ with h1 h2 h3 h4
  · exact Or.inl rfl
  · exact Or.inl rfl
  · exact Or.inl rfl
  · right
    refine ⟨hm ▸ h4, ?_⟩
    rw [ho]

/-- C33 (as amended): a test packet that `bbl_stream_rx` rejects for a stream
that is not yet verified (`rx_first_seq = 0`, the call returns `NULL`) leaves
every field of the stream unchanged except the observed RX attributes, which
are recorded from the rejected packet before the checks, and `wrong_session`:
`rx_len`, `rx_priority` and the two VLAN priority fields take the values of
the packet; the MPLS fields of the outer label take the values of the outer
label of the packet if it carries one and stay as they were if it carries
none; likewise the MPLS fields of the inner label; `wrong_session` is
incremented in the case of a session mismatch only.  Every other stream is
unchanged. -/
theorem rx_rejected_first_seen (dict : stream_flow_dict) (eth : bbl_ethernet_header_t)
    (bbl : bbl_bbl_t) (session : Option bbl_session_s) (stream : bbl_stream_s)
    (hb : eth.bbl = some bbl) (ht : bbl.type = BBL_TYPE_UNICAST_SESSION)
    (hd : dict bbl.flow_id = some stream) (hfirst : stream.rx_first_seq = 0)
    (hrej : (bbl_stream_rx dict eth session).2 = none) :
    (∃ w,
      (bbl_stream_rx dict eth session).1 bbl.flow_id =
        some { stream with
          rx_len := eth.length, rx_priority := eth.tos,
          rx_outer_vlan_pbit := eth.vlan_outer_priority,
          rx_inner_vlan_pbit := eth.vlan_inner_priority,
          rx_mpls1 := (mpls_on_record eth.mpls 0 (stream.rx_mpls1, stream.rx_mpls1_label,
            stream.rx_mpls1_exp, stream.rx_mpls1_ttl)).1,
          rx_mpls1_label := (mpls_on_record eth.mpls 0 (stream.rx_mpls1, stream.rx_mpls1_label,
            stream.rx_mpls1_exp, stream.rx_mpls1_ttl)).2.1,
          rx_mpls1_exp := (mpls_on_record eth.mpls 0 (stream.rx_mpls1, stream.rx_mpls1_label,
            stream.rx_mpls1_exp, stream.rx_mpls1_ttl)).2.2.1,
          rx_mpls1_ttl := (mpls_on_record eth.mpls 0 (stream.rx_mpls1, stream.rx_mpls1_label,
            stream.rx_mpls1_exp, stream.rx_mpls1_ttl)).2.2.2,
          rx_mpls2 := (mpls_on_record eth.mpls 1 (stream.rx_mpls2, stream.rx_mpls2_label,
            stream.rx_mpls2_exp, stream.rx_mpls2_ttl)).1,
          rx_mpls2_label := (mpls_on_record eth.mpls 1 (stream.rx_mpls2, stream.rx_mpls2_label,
            stream.rx_mpls2_exp, stream.rx_mpls2_ttl)).2.1,
          rx_mpls2_exp := (mpls_on_record eth.mpls 1 (stream.rx_mpls2, stream.rx_mpls2_label,
            stream.rx_mpls2_exp, stream.rx_mpls2_ttl)).2.2.1,
          rx_mpls2_ttl := (mpls_on_record eth.mpls 1 (stream.rx_mpls2, stream.rx_mpls2_label,
            stream.rx_mpls2_exp, stream.rx_mpls2_ttl)).2.2.2,
          wrong_session := w } ∧
      (w = stream.wrong_session ∨
        (bbl_stream_rx_session_mismatch bbl session stream = true ∧
          w = (stream.wrong_session + 1) % U64))) ∧
    (∀ flow_id, flow_id ≠ bbl.flow_id →
      (bbl_stream_rx dict eth session).1 flow_id = dict flow_id) := by
  have hrx : bbl_stream_rx dict eth session =
      (Function.update dict bbl.flow_id (some (bbl_stream_rx_stream eth bbl session stream).1),
        if (bbl_stream_rx_stream eth bbl session stream).2 then
          some (bbl_stream_rx_stream eth bbl session stream).1 else none) := by
    unfold bbl_stream_rx
    simp only [hb, ht, ne_eq, not_true_eq_false, if_false, hd]
  rw [hrx] at hrej ⊢
  have hfalse : (bbl_stream_rx_stream eth bbl session stream).2 = false := by
    cases h : (bbl_stream_rx_stream eth bbl session stream).2 with
    | false => rfl
    | true => simp [h] at hrej
  have ho := stream_rx_observe_values eth stream
  refine ⟨?_, fun flow_id hne => Function.update_noteq hne _ _⟩
  simp only [Function.update_same]
  rcases stream_rx_rejected_cases eth bbl session stream hfirst hfalse with h | ⟨hm, h⟩
  · refine ⟨stream.wrong_session, ?_, Or.inl rfl⟩
    rw [h, ho]
  · refine ⟨(stream.wrong_session + 1) % U64, ?_, Or.inr ⟨hm, rfl⟩⟩
    rw [h, ho]

/-- A frame with the outer label 200 (exp 3, ttl 64) and no inner label is
rejected for a stream that expects the label 100: the stream keeps its
counters, has the length and the outer label of the frame on record and keeps
its inner label fields. -/
theorem rx_rejected_first_seen_witness :
    (bbl_stream_rx (dict_of stream_down_expecting_label)
        (test_frame 1 1 [{ label := 200, exp := 3, ttl := 64 }]) none).2 = none ∧
    (bbl_stream_rx (dict_of stream_down_expecting_label)
        (test_frame 1 1 [{ label := 200, exp := 3, ttl := 64 }]) none).1 1 =
      some { stream_down_expecting_label with
        rx_len := 128, rx_mpls1 := true, rx_mpls1_label := 200, rx_mpls1_exp := 3,
        rx_mpls1_ttl := 64 } := by
  have hrej : (bbl_stream_rx (dict_of stream_down_expecting_label)
      (test_frame 1 1 [{ label := 200, exp := 3, ttl := 64 }]) none).2 = none := by decide
  obtain ⟨⟨w, h, hw⟩, -⟩ :=
    rx_rejected_first_seen (dict_of stream_down_expecting_label)
      (test_frame 1 1 [{ label := 200, exp := 3, ttl := 64 }])
      { type := 1, sub_type := 1, direction := 2, session_id := 1,
        outer_vlan_id := 100, inner_vlan_id := 7, flow_id := 1, flow_seq := 1 }
      none stream_down_expecting_label rfl rfl rfl rfl hrej
  have hw0 : w = 0 := by
    rcases hw with hw | ⟨hm, -⟩
    · exact hw
    · exact absurd hm (by decide)
  refine ⟨hrej, ?_⟩
  rw [h, hw0]
  rfl

/-- C33 (as stated) fails: the frame with the outer label 200, rejected on the
first-seen path of a stream that expects the label 100, changes `rx_len`,
`rx_mpls1` and `rx_mpls1_label` of the stream. -/
theorem rx_rejected_records_counterexample :
    stream_down_expecting_label.rx_first_seq = 0 ∧
    (bbl_stream_rx (dict_of stream_down_expecting_label)
      (test_frame 1 1 [{ label := 200 }]) none).2 = none ∧
    (stream_down_expecting_label.rx_len, stream_down_expecting_label.rx_mpls1,
      stream_down_expecting_label.rx_mpls1_label) = (0, false, 0) ∧
    ((bbl_stream_rx (dict_of stream_down_expecting_label)
      (test_frame 1 1 [{ label := 200 }]) none).1 1).map
        (fun s => (s.rx_len, s.rx_mpls1, s.rx_mpls1_label)) = some (128, true, 200) := by
  decide

/-- A store over a segment of the buffer replaces that segment. -/
theorem poke_append (A X R Y : List Nat) (h : X.length = Y.length) :
    poke (A ++ X ++ R) A.length Y = A ++ Y ++ R := by
  have h1 : (A ++ X ++ R).take A.length = A := by
    rw [List.append_assoc]; exact List.take_left' rfl
  have h2 : (A ++ X ++ R).drop (A.length + Y.length) = R :=
    List.drop_left' (by rw [List.length_append, h])
  unfold poke
  rw [h1, h2]

/-- The send loop on a template laid out as `A ++ B ++ T ++ R`, with the 8 bytes
`B` of `flow_seq` at `tx_len - 16` and the 8 bytes `T` of the timestamp behind
them: every accepted packet is `A`, the `flow_seq` of the moment and `T`; the
buffer keeps `A`, `T` and `R`. -/
theorem tx_loop_packets (io_send : Nat → Bool) (A T R : List Nat) (hT : T.length = 8)
    (packets : Nat) :
    ∀ (calls : Nat) (stream : bbl_stream_s) (B : List Nat),
      stream.buf = some (A ++ B ++ (T ++ R)) → B.length = 8 →
      stream.tx_len = A.length + 16 → stream.flow_seq < U64 →
      (bbl_stream_tx_loop io_send packets calls stream).2 =
        (List.range (bbl_stream_tx_loop io_send packets calls stream).2.length).map
          (fun i => A ++ le_bytes 8 ((stream.flow_seq + i) % U64) ++ T) ∧
      ∃ B', B'.length = 8 ∧
        (bbl_stream_tx_loop io_send packets calls stream).1.buf =
          some (A ++ B' ++ (T ++ R)) := by
  induction packets with
  | zero =>
    intro calls stream B hb hB htl hfs
    simp only [bbl_stream_tx_loop, List.length_nil, List.range_zero, List.map_nil, true_and]
    exact ⟨B, hB, hb⟩
  | succ p ih =>
    intro calls stream B hb hB htl hfs
    have hoff : stream.tx_len - 16 = A.length := by omega
    have hpoke : poke (A ++ B ++ (T ++ R)) (stream.tx_len - 16) (le_bytes 8 stream.flow_seq) =
        A ++ le_bytes 8 stream.flow_seq ++ (T ++ R) := by
      rw [hoff]
      exact poke_append A B (T ++ R) _ (by rw [length_le_bytes, hB])
    have htake : (A ++ le_bytes 8 stream.flow_seq ++ (T ++ R)).take stream.tx_len =
        A ++ le_bytes 8 stream.flow_seq ++ T := by
      rw [← List.append_assoc]
      apply List.take_left'
      simp only [List.length_append, length_le_bytes, hT]
      omega
    simp only [bbl_stream_tx_loop, hb, hpoke]
    by_cases hio : io_send calls = true
    · simp only [hio, if_true]
      have hm : ∀ x : Nat, x % U64 < U64 := fun x => Nat.mod_lt _ (by unfold U64; omega)
      obtain ⟨h1, B', hB', h2⟩ := ih (calls + 1)
        { stream with
          buf := some (A ++ le_bytes 8 stream.flow_seq ++ (T ++ R)),
          send_window_packets := (stream.send_window_packets + 1) % U64,
          packets_tx := (stream.packets_tx + 1) % U64,
          flow_seq := (stream.flow_seq + 1) % U64 }
        (le_bytes 8 stream.flow_seq) rfl (length_le_bytes _ _) htl (hm _)
      refine ⟨?_, B', hB', h2⟩
      simp only [List.length_cons, List.range_succ_eq_map, List.map_cons, List.map_map,
        Nat.add_zero]
      rw [Nat.mod_eq_of_lt hfs, htake]
      congr 1
      rw [h1]
      simp only [List.length_map, List.length_range]
      apply List.map_congr_left
      intro i _
      simp only [Function.comp]
      have : ((stream.flow_seq + 1) % U64 + i) % U64 = (stream.flow_seq + (i + 1)) % U64 := by
        unfold U64; omega
      rw [this]
    · simp only [hio, Bool.false_eq_true, if_false, List.length_nil, List.range_zero,
        List.map_nil, true_and]
      exact ⟨_, length_le_bytes _ _, rfl⟩

/-- A buffer of at least `tx_len ≥ 16` bytes splits into the bytes before the
patched fields, the 8 bytes of `flow_seq`, the two 4-byte halves of the
timestamp, and the bytes behind `tx_len`. -/
theorem template_split (b : List Nat) (tx_len : Nat) (h16 : 16 ≤ tx_len)
    (hlen : tx_len ≤ b.length) :
    ∃ B S N, B.length = 8 ∧ S.length = 4 ∧ N.length = 4 ∧
      b = b.take (tx_len - 16) ++ B ++ (S ++ (N ++ b.drop tx_len)) := by
  refine ⟨(b.drop (tx_len - 16)).take 8, (b.drop (tx_len - 8)).take 4,
    (b.drop (tx_len - 4)).take 4, ?_, ?_, ?_, ?_⟩
  · simp only [List.length_take, List.length_drop]; omega
  · simp only [List.length_take, List.length_drop]; omega
  · simp only [List.length_take, List.length_drop]; omega
  · have e1 : b.drop (tx_len - 16) =
        (b.drop (tx_len - 16)).take 8 ++ b.drop (tx_len - 8) := by
      have := (List.take_append_drop 8 (b.drop (tx_len - 16))).symm
      rw [List.drop_drop, show tx_len - 16 + 8 = tx_len - 8 by omega] at this
      exact this
    have e2 : b.drop (tx_len - 8) = (b.drop (tx_len - 8)).take 4 ++ b.drop (tx_len - 4) := by
      have := (List.take_append_drop 4 (b.drop (tx_len - 8))).symm
      rw [List.drop_drop, show tx_len - 8 + 4 = tx_len - 4 by omega] at this
      exact this
    have e3 : b.drop (tx_len - 4) = (b.drop (tx_len - 4)).take 4 ++ b.drop tx_len := by
      have := (List.take_append_drop 4 (b.drop (tx_len - 4))).symm
      rw [List.drop_drop, show tx_len - 4 + 4 = tx_len by omega] at this
      exact this
    calc b = b.take (tx_len - 16) ++ b.drop (tx_len - 16) := (List.take_append_drop _ _).symm
      _ = _ := by rw [List.append_assoc, ← e3, ← e2, ← e1]

/-- The send part on a cached template: every accepted packet is the template
up to `tx_len - 16`, then the `flow_seq` of the moment, then the seconds and the
nanoseconds of the tick; the buffer keeps all bytes but these sixteen. -/
theorem tx_job_send_packets (ctx : bbl_ctx_s) (e : tx_env) (stream : bbl_stream_s)
    (b : List Nat) (hb : stream.buf = some b) (h16 : 16 ≤ stream.tx_len)
    (hlen : stream.tx_len ≤ b.length) (hfs : stream.flow_seq < U64) :
    (bbl_stream_tx_job_send ctx e stream).2 =
      (List.range (bbl_stream_tx_job_send ctx e stream).2.length).map
        (fun i => b.take (stream.tx_len - 16) ++ le_bytes 8 ((stream.flow_seq + i) % U64) ++
          (le_bytes 4 (e.now.tv_sec % (U32 : Int)).toNat ++
            le_bytes 4 (e.now.tv_nsec % (U32 : Int)).toNat)) ∧
    ∃ B, B.length = 8 ∧
      (bbl_stream_tx_job_send ctx e stream).1.buf =
        some (b.take (stream.tx_len - 16) ++ B ++
          ((le_bytes 4 (e.now.tv_sec % (U32 : Int)).toNat ++
            le_bytes 4 (e.now.tv_nsec % (U32 : Int)).toNat) ++ b.drop stream.tx_len)) := by
  obtain ⟨w, ws, t, hsw⟩ := send_window_frame ctx stream e.now
  obtain ⟨B, S, N, hB, hS, hN, hsplit⟩ := template_split b stream.tx_len h16 hlen
  have hA : (b.take (stream.tx_len - 16)).length = stream.tx_len - 16 := by
    rw [List.length_take]; omega
  generalize hAdef : b.take (stream.tx_len - 16) = A at hsplit hA ⊢
  generalize hRdef : b.drop stream.tx_len = R at hsplit ⊢
  generalize hsec : le_bytes 4 (e.now.tv_sec % (U32 : Int)).toNat = sec
  generalize hnsec : le_bytes 4 (e.now.tv_nsec % (U32 : Int)).toNat = nsec
  have hsecl : sec.length = 4 := by rw [← hsec, length_le_bytes]
  have hnsecl : nsec.length = 4 := by rw [← hnsec, length_le_bytes]
  have hp1 : poke b (stream.tx_len - 8) sec = A ++ B ++ sec ++ (N ++ R) := by
    have h0 : stream.tx_len - 8 = (A ++ B).length := by
      rw [List.length_append, hA, hB]; omega
    rw [h0, hsplit, show A ++ B ++ (S ++ (N ++ R)) = (A ++ B) ++ S ++ (N ++ R) by
      simp only [List.append_assoc]]
    exact poke_append (A ++ B) S (N ++ R) sec (by rw [hS, hsecl])
  have hp2 : poke (A ++ B ++ sec ++ (N ++ R)) (stream.tx_len - 4) nsec =
      A ++ B ++ ((sec ++ nsec) ++ R) := by
    have h0 : stream.tx_len - 4 = (A ++ B ++ sec).length := by
      simp only [List.length_append, hA, hB, hsecl]; omega
    rw [h0, show A ++ B ++ sec ++ (N ++ R) = (A ++ B ++ sec) ++ N ++ R by
      simp only [List.append_assoc]]
    rw [poke_append (A ++ B ++ sec) N R nsec (by rw [hN, hnsecl])]
    simp only [List.append_assoc]
  have hjob : bbl_stream_tx_job_send ctx e stream =
      bbl_stream_tx_loop e.io_send (bbl_stream_send_window ctx stream e.now).2 0
        { (bbl_stream_send_window ctx stream e.now).1 with
          buf := some (A ++ B ++ ((sec ++ nsec) ++ R)) } := by
    unfold bbl_stream_tx_job_send
    simp only [hsw, hb, hsec, hnsec, hp1, hp2]
  rw [hjob]
  obtain ⟨h1, B', hB', h2⟩ := tx_loop_packets e.io_send A (sec ++ nsec) R
    (by rw [List.length_append, hsecl, hnsecl])
    (bbl_stream_send_window ctx stream e.now).2 0
    { (bbl_stream_send_window ctx stream e.now).1 with
      buf := some (A ++ B ++ ((sec ++ nsec) ++ R)) }
    B rfl hB (by rw [hsw]; show stream.tx_len = A.length + 16; omega)
    (by rw [hsw]; exact hfs)
  refine ⟨?_, B', hB', h2⟩
  rw [h1]
  simp only [hsw, List.length_map, List.length_range]

/-- A call of `bbl_stream_can_send` that returns true leaves the stream as it
is. -/
theorem can_send_true_frame (K : bbl_consts) (g : Bool) (session : Option bbl_session_s)
    (stream : bbl_stream_s) (h : (bbl_stream_can_send K g session stream).2 = true) :
    bbl_stream_can_send K g session stream = (stream, true) := by
  cases g with
  | true => rw [can_send_init_phase] at h; cases h
  | false =>
    rcases can_send_after_init K session stream with ⟨_, h1⟩ | h1 | ⟨_, h1⟩
    · exact h1
    · rw [h1] at h; cases h
    · rw [h1] at h; cases h

/-- A call of `bbl_stream_can_send` that returns false releases the template or
leaves `buf` and `tx_len` as they are. -/
theorem can_send_false_template (K : bbl_consts) (g : Bool) (session : Option bbl_session_s)
    (stream : bbl_stream_s) (h : (bbl_stream_can_send K g session stream).2 = false) :
    (bbl_stream_can_send K g session stream).1.buf = none ∨
    ((bbl_stream_can_send K g session stream).1.buf = stream.buf ∧
      (bbl_stream_can_send K g session stream).1.tx_len = stream.tx_len) := by
  cases g with
  | true => rw [can_send_init_phase]; exact Or.inr ⟨rfl, rfl⟩
  | false =>
    rcases can_send_after_init K session stream with ⟨_, h1⟩ | h1 | ⟨_, h1⟩
    · rw [h1] at h; cases h
    · rw [h1]
      obtain ⟨tl, h2⟩ := can_send_FREE_buf_none stream
      rw [h2]; exact Or.inl rfl
    · rw [h1]
      obtain ⟨tl, h2⟩ := can_send_FREE_buf_none { stream with reset := false, flow_seq := 1 }
      rw [h2]; exact Or.inl rfl

/-- The ways a run of `bbl_stream_tx_job` goes on a cached template: no packet
with the template released or untouched, or the send part on the stream as it
is. -/
theorem tx_job_cached_cases (K : bbl_consts) (ctx : bbl_ctx_s) (e : tx_env)
    (stream : bbl_stream_s) (b : List Nat) (hb : stream.buf = some b) :
    ((bbl_stream_tx_job K ctx e stream).2 = [] ∧
      ((bbl_stream_tx_job K ctx e stream).1.buf = none ∨
        ((bbl_stream_tx_job K ctx e stream).1.buf = stream.buf ∧
          (bbl_stream_tx_job K ctx e stream).1.tx_len = stream.tx_len))) ∨
    bbl_stream_tx_job K ctx e stream = bbl_stream_tx_job_send ctx e stream := by
  by_cases hc : (bbl_stream_can_send K e.g_init_phase e.session stream).2 = true
  · have hcs := can_send_true_frame K e.g_init_phase e.session stream hc
    have hjob : bbl_stream_tx_job K ctx e stream = bbl_stream_tx_job_paced ctx e stream := by
      unfold bbl_stream_tx_job
      simp [hcs, hb]
    rw [hjob]
    rcases tx_job_paced_cases ctx e stream with h | h
    · rw [h]; exact Or.inl ⟨rfl, Or.inr ⟨rfl, rfl⟩⟩
    · exact Or.inr h
  · have hc2 : (bbl_stream_can_send K e.g_init_phase e.session stream).2 = false := by
      simpa using hc
    have hjob : bbl_stream_tx_job K ctx e stream =
        ((bbl_stream_can_send K e.g_init_phase e.session stream).1, []) := by
      unfold bbl_stream_tx_job
      simp [hc2]
    rw [hjob]
    exact Or.inl ⟨rfl, can_send_false_template K e.g_init_phase e.session stream hc2⟩

/-- C35: for a cached template `b` of `tx_len ≥ 48` bytes, every packet that a
run of `bbl_stream_tx_job` hands to `io_send` with success is the template up to
`tx_len - 16` (offset +32 of the trailing 48-byte BBL header), followed by the
8 little-endian bytes of the `flow_seq` of the moment, the 4 bytes of the
seconds and the 4 bytes of the nanoseconds of the tick time, each modulo 2^32;
it has `tx_len` bytes.  The buffer left in the stream, which is also the packet
of a last refused `io_send`, differs from `b` in these sixteen bytes only, and
`tx_len` is unchanged, unless the gate has released the template. -/
theorem tx_job_patches_trailer (K : bbl_consts) (ctx : bbl_ctx_s) (e : tx_env)
    (stream : bbl_stream_s) (b : List Nat) (hb : stream.buf = some b)
    (h48 : 48 ≤ stream.tx_len) (hlen : stream.tx_len ≤ b.length)
    (hfs : stream.flow_seq < U64) :
    (bbl_stream_tx_job K ctx e stream).2 =
      (List.range (bbl_stream_tx_job K ctx e stream).2.length).map
        (fun i => b.take (stream.tx_len - 16) ++ le_bytes 8 ((stream.flow_seq + i) % U64) ++
          (le_bytes 4 (e.now.tv_sec % (U32 : Int)).toNat ++
            le_bytes 4 (e.now.tv_nsec % (U32 : Int)).toNat)) ∧
    (∀ p ∈ (bbl_stream_tx_job K ctx e stream).2, p.length = stream.tx_len) ∧
    ((bbl_stream_tx_job K ctx e stream).1.buf = none ∨
      ((bbl_stream_tx_job K ctx e stream).1.tx_len = stream.tx_len ∧
        ∃ t, t.length = 16 ∧
          (bbl_stream_tx_job K ctx e stream).1.buf =
            some (b.take (stream.tx_len - 16) ++ t ++ b.drop stream.tx_len))) := by
  have hA : (b.take (stream.tx_len - 16)).length = stream.tx_len - 16 := by
    rw [List.length_take]; omega
  rcases tx_job_cached_cases K ctx e stream b hb with ⟨h1, h2⟩ | h
  · rw [h1]
    refine ⟨rfl, (by intro p hp; cases hp), ?_⟩
    rcases h2 with h2 | ⟨h2, h3⟩
    · exact Or.inl h2
    · obtain ⟨B, S, N, hB, hS, hN, hsplit⟩ :=
        template_split b stream.tx_len (by omega) hlen
      refine Or.inr ⟨h3, B ++ (S ++ N), by simp only [List.length_append, hB, hS, hN], ?_⟩
      rw [h2, hb]
      congr 1
      calc b = b.take (stream.tx_len - 16) ++ B ++ (S ++ (N ++ b.drop stream.tx_len)) := hsplit
        _ = _ := by simp only [List.append_assoc]
  · rw [h]
    obtain ⟨h1, B, hB, h2⟩ := tx_job_send_packets ctx e stream b hb (by omega) hlen hfs
    refine ⟨h1, ?_, Or.inr ⟨(tx_job_send_template ctx e stream).1, ?_⟩⟩
    · intro p hp
      rw [h1] at hp
      obtain ⟨i, _, hi⟩ := List.mem_map.mp hp
      rw [← hi]
      simp only [List.length_append, hA, length_le_bytes]
      omega
    · refine ⟨B ++ (le_bytes 4 (e.now.tv_sec % (U32 : Int)).toNat ++
        le_bytes 4 (e.now.tv_nsec % (U32 : Int)).toNat),
        by simp only [List.length_append, hB, length_le_bytes], ?_⟩
      rw [h2]
      simp only [List.append_assoc]

/-- C31: when `bbl_stream_build_packet` fails for a sendable stream without
cached template, `bbl_stream_tx_job` emits no packet and leaves the stream as it
was (`packets_tx`, `flow_seq`, `send_window_packets`, `buf = NULL`,
`tx_len = 0`); a later tick whose build succeeds builds and caches the
template. -/
theorem tx_job_build_failed (K : bbl_consts) (ctx : bbl_ctx_s) (e : tx_env)
    (stream : bbl_stream_s)
    (hsend : (bbl_stream_can_send K e.g_init_phase e.session stream).2 = true)
    (hbuf : stream.buf = none) (htl : stream.tx_len = 0)
    (hfail : (bbl_stream_build_packet e.build stream).2 = false) :
    bbl_stream_tx_job K ctx e stream = (stream, []) ∧
    ∀ (e2 : tx_env) (bytes : List Nat),
      (bbl_stream_can_send K e2.g_init_phase e2.session stream).2 = true →
      e2.build = build_outcome.built bytes →
      (bbl_stream_tx_job K ctx e2 (bbl_stream_tx_job K ctx e stream).1).1.buf ≠ none ∧
      (bbl_stream_tx_job K ctx e2 (bbl_stream_tx_job K ctx e stream).1).1.tx_len =
        bytes.length := by
  have hcs := can_send_true_frame K e.g_init_phase e.session stream hsend
  have hjob : bbl_stream_tx_job K ctx e stream = (stream, []) := by
    have hb1 : (bbl_stream_build_packet e.build stream).1 = stream := by
      cases hbd : e.build with
      | refused => rfl
      | encode_error =>
        show { stream with buf := none, tx_len := 0 } = stream
        rw [← hbuf, ← htl]
      | built bytes => rw [hbd] at hfail; cases hfail
    unfold bbl_stream_tx_job
    simp [hcs, hbuf, hfail, hb1]
  refine ⟨hjob, ?_⟩
  intro e2 bytes hsend2 hbuild
  rw [hjob]
  have hcs2 := can_send_true_frame K e2.g_init_phase e2.session stream hsend2
  have hjob2 : bbl_stream_tx_job K ctx e2 stream =
      bbl_stream_tx_job_paced ctx e2
        { stream with buf := some bytes, tx_len := bytes.length } := by
    unfold bbl_stream_tx_job
    simp [hcs2, hbuf, hbuild, bbl_stream_build_packet]
  rw [hjob2]
  rcases tx_job_paced_cases ctx e2
    { stream with buf := some bytes, tx_len := bytes.length } with h | h
  · rw [h]; exact ⟨by simp, rfl⟩
  · rw [h]
    obtain ⟨h1, h2⟩ := tx_job_send_template ctx e2
      { stream with buf := some bytes, tx_len := bytes.length }
    exact ⟨(by intro hn; cases h2 hn), h1⟩

/-- The first tick of a raw stream with a cached 64-byte template, at 5 s and
7 ns: one packet, the template with sequence number 1 and the tick time in its
last sixteen bytes. -/
theorem tx_job_patches_trailer_witness :
    (bbl_stream_tx_job sample_consts {} (tick 5 7) stream_raw_cached).2 =
      [List.replicate 48 9 ++ [1, 0, 0, 0, 0, 0, 0, 0] ++ ([5, 0, 0, 0] ++ [7, 0, 0, 0])] ∧
    (bbl_stream_tx_job sample_consts {} (tick 5 7) stream_raw_cached).1.tx_len = 64 := by
  have h := tx_job_patches_trailer sample_consts {} (tick 5 7) stream_raw_cached
    (List.replicate 64 9) rfl (by decide) (by decide) (by decide)
  have hlen : (bbl_stream_tx_job sample_consts {} (tick 5 7) stream_raw_cached).2.length = 1 := by
    decide
  rw [hlen] at h
  refine ⟨h.1, ?_⟩
  rcases h.2.2 with h1 | ⟨h1, _⟩
  · exact absurd h1 (by decide)
  · exact h1

/-- A raw stream without session and without explicit destination address is
refused by the builder before the encoder is called. -/
theorem build_raw_refused (K : bbl_consts) (B : build_env) (stream : bbl_stream_s)
    (hraw : stream.config.stream_group_id = 0)
    (h4 : stream.config.ipv4_destination_address = 0)
    (h6 : ipv6_word0 stream.config.ipv6_destination_address = 0) :
    bbl_stream_build_outcome K B none stream = build_outcome.refused := by
  have h : bbl_stream_build_packet_bbl K B none stream = none := by
    unfold bbl_stream_build_packet_bbl
    rw [if_pos hraw]
    unfold bbl_stream_build_network_packet
    simp only [h4, h6]
    split_ifs <;> first | rfl | contradiction
  unfold bbl_stream_build_outcome
  rw [h]

/-- A raw IPv4 stream without session and destination address at a tick with
the gate open: the build is refused, no packet is sent and the stream is as
before. -/
theorem tx_job_build_failed_witness :
    (tick_raw_build stream_raw_no_destination).build = build_outcome.refused ∧
    bbl_stream_tx_job sample_consts {} (tick_raw_build stream_raw_no_destination)
      stream_raw_no_destination = (stream_raw_no_destination, []) :=
  ⟨by decide,
   (tx_job_build_failed sample_consts {} (tick_raw_build stream_raw_no_destination)
      stream_raw_no_destination (by decide) (by decide) (by decide) (by decide)).1⟩

/-- The two access builders, the two A10NSP builders and the network builder
write `BBL_SUB_TYPE_IPV4` for an IPv4 stream and `BBL_SUB_TYPE_IPV6` for an
IPv6 and for an IPv6-PD stream; the L2TP builder writes `BBL_SUB_TYPE_IPV4`. -/
theorem build_bbl_sub_type (K : bbl_consts) (B : build_env) (session : Option bbl_session_s)
    (stream : bbl_stream_s) (bbl : bbl_bbl_t)
    (h : bbl_stream_build_packet_bbl K B session stream = some bbl) :
    bbl.sub_type = BBL_SUB_TYPE_IPV4 ∨ bbl.sub_type = BBL_SUB_TYPE_IPV6 := by
  have hnet : ∀ b, bbl_stream_build_network_packet session stream = some b →
      b.sub_type = BBL_SUB_TYPE_IPV4 ∨ b.sub_type = BBL_SUB_TYPE_IPV6 := by
    intro b hb
    unfold bbl_stream_build_network_packet at hb
    simp only at hb
    split_ifs at hb <;>
      (cases Option.some.inj hb; first | exact Or.inl rfl | exact Or.inr rfl)
  have hacc1 : ∀ s b, bbl_stream_build_access_pppoe_packet B s stream = some b →
      b.sub_type = BBL_SUB_TYPE_IPV4 ∨ b.sub_type = BBL_SUB_TYPE_IPV6 := by
    intro s b hb
    unfold bbl_stream_build_access_pppoe_packet at hb
    simp only at hb
    split_ifs at hb <;>
      (cases Option.some.inj hb; first | exact Or.inl rfl | exact Or.inr rfl)
  have hacc2 : ∀ s b, bbl_stream_build_access_ipoe_packet B s stream = some b →
      b.sub_type = BBL_SUB_TYPE_IPV4 ∨ b.sub_type = BBL_SUB_TYPE_IPV6 := by
    intro s b hb
    unfold bbl_stream_build_access_ipoe_packet at hb
    simp only at hb
    split_ifs at hb <;>
      (cases Option.some.inj hb; first | exact Or.inl rfl | exact Or.inr rfl)
  have ha1 : ∀ s b, bbl_stream_build_a10nsp_pppoe_packet B s stream = some b →
      b.sub_type = BBL_SUB_TYPE_IPV4 ∨ b.sub_type = BBL_SUB_TYPE_IPV6 := by
    intro s b hb
    unfold bbl_stream_build_a10nsp_pppoe_packet at hb
    simp only at hb
    split_ifs at hb <;>
      (cases Option.some.inj hb; first | exact Or.inl rfl | exact Or.inr rfl)
  have ha2 : ∀ s b, bbl_stream_build_a10nsp_ipoe_packet B s stream = some b →
      b.sub_type = BBL_SUB_TYPE_IPV4 ∨ b.sub_type = BBL_SUB_TYPE_IPV6 := by
    intro s b hb
    unfold bbl_stream_build_a10nsp_ipoe_packet at hb
    simp only at hb
    split_ifs at hb <;>
      (cases Option.some.inj hb; first | exact Or.inl rfl | exact Or.inr rfl)
  have hl : ∀ s b, bbl_stream_build_l2tp_packet s stream = some b →
      b.sub_type = BBL_SUB_TYPE_IPV4 ∨ b.sub_type = BBL_SUB_TYPE_IPV6 := by
    intro s b hb
    unfold bbl_stream_build_l2tp_packet at hb
    cases Option.some.inj hb
    exact Or.inl rfl
  unfold bbl_stream_build_packet_bbl at h
  cases session with
  | none =>
    simp only at h
    split_ifs at h
    · exact hnet _ h
  | some s =>
    simp only at h
    split_ifs at h
    · exact hnet _ h
    · exact hacc1 _ _ h
    · exact hl _ _ h
    · exact ha1 _ _ h
    · exact hacc1 _ _ h
    · exact hnet _ h
    · exact ha2 _ _ h
    · exact hacc2 _ _ h
    · exact hnet _ h

/-- A packet whose sub-type or direction differs from the stream is rejected on
the first-seen path, and the stream stays unverified. -/
theorem stream_rx_type_mismatch (eth : bbl_ethernet_header_t) (bbl : bbl_bbl_t)
    (session : Option bbl_session_s) (stream : bbl_stream_s)
    (hfirst : stream.rx_first_seq = 0)
    (hm : bbl.sub_type ≠ stream.type ∨ bbl.direction ≠ stream.direction) :
    (bbl_stream_rx_stream eth bbl session stream).2 = false ∧
    (bbl_stream_rx_stream eth bbl session stream).1.rx_first_seq = 0 := by
  obtain ⟨a1, a2, a3, a4, b1, b2, b3, b4, c1, c2, c3, c4, ho⟩ :=
    stream_rx_observe_frame eth stream
  have ht : (bbl_stream_rx_observe eth stream).type = stream.type := by rw [ho]
  have hd : (bbl_stream_rx_observe eth stream).direction = stream.direction := by rw [ho]
  have hf : (bbl_stream_rx_observe eth stream).rx_first_seq = 0 := by rw [ho]; exact hfirst
  unfold bbl_stream_rx_stream
  simp only [hfirst, ne_eq, not_true_eq_false, if_false]
  split_ifs with h1 h2 h3 h4
  · exact ⟨rfl, hf⟩
  · exact ⟨rfl, hf⟩
  · exact ⟨rfl, hf⟩
  · exact ⟨rfl, hf⟩
  · rw [ht, hd] at h3
    exact absurd hm h3

/-- The header of a built template carries the direction of the stream, for a
stream whose direction is up or down and, if raw, down. -/
theorem build_bbl_direction (K : bbl_consts) (B : build_env) (session : Option bbl_session_s)
    (stream : bbl_stream_s) (bbl : bbl_bbl_t)
    (hd : stream.direction = BBL_DIRECTION_UP ∨ stream.direction = BBL_DIRECTION_DOWN)
    (hraw : stream.config.stream_group_id = 0 → stream.direction = BBL_DIRECTION_DOWN)
    (h : bbl_stream_build_packet_bbl K B session stream = some bbl) :
    bbl.direction = stream.direction := by
  have hud : BBL_DIRECTION_UP ≠ BBL_DIRECTION_DOWN := by decide
  have hnet : ∀ b, stream.direction = BBL_DIRECTION_DOWN →
      bbl_stream_build_network_packet session stream = some b →
      b.direction = stream.direction := by
    intro b hdn hb
    rw [hdn]
    unfold bbl_stream_build_network_packet at hb
    simp only at hb
    split_ifs at hb <;> (cases Option.some.inj hb; rfl)
  have hacc1 : ∀ s b, stream.direction = BBL_DIRECTION_UP →
      bbl_stream_build_access_pppoe_packet B s stream = some b →
      b.direction = stream.direction := by
    intro s b hup hb
    rw [hup]
    unfold bbl_stream_build_access_pppoe_packet at hb
    simp only at hb
    split_ifs at hb <;> (cases Option.some.inj hb; rfl)
  have hacc2 : ∀ s b, stream.direction = BBL_DIRECTION_UP →
      bbl_stream_build_access_ipoe_packet B s stream = some b →
      b.direction = stream.direction := by
    intro s b hup hb
    rw [hup]
    unfold bbl_stream_build_access_ipoe_packet at hb
    simp only at hb
    split_ifs at hb <;> (cases Option.some.inj hb; rfl)
  have ha1 : ∀ s b, bbl_stream_build_a10nsp_pppoe_packet B s stream = some b →
      b.direction = stream.direction := by
    intro s b hb
    unfold bbl_stream_build_a10nsp_pppoe_packet at hb
    simp only at hb
    rcases hd with hd | hd
    · simp only [hd, if_true] at hb ⊢
      split_ifs at hb <;> (cases Option.some.inj hb; rfl)
    · simp only [hd, if_neg hud.symm] at hb ⊢
      split_ifs at hb <;> (cases Option.some.inj hb; rfl)
  have ha2 : ∀ s b, bbl_stream_build_a10nsp_ipoe_packet B s stream = some b →
      b.direction = stream.direction := by
    intro s b hb
    unfold bbl_stream_build_a10nsp_ipoe_packet at hb
    simp only at hb
    rcases hd with hd | hd
    · simp only [hd, if_true] at hb ⊢
      split_ifs at hb <;> (cases Option.some.inj hb; rfl)
    · simp only [hd, if_neg hud.symm] at hb ⊢
      split_ifs at hb <;> (cases Option.some.inj hb; rfl)
  have hl : ∀ s b, stream.direction = BBL_DIRECTION_DOWN →
      bbl_stream_build_l2tp_packet s stream = some b → b.direction = stream.direction := by
    intro s b hdn hb
    rw [hdn]
    unfold bbl_stream_build_l2tp_packet at hb
    cases Option.some.inj hb
    rfl
  have hdown : stream.direction ≠ BBL_DIRECTION_UP → stream.direction = BBL_DIRECTION_DOWN := by
    intro hn
    rcases hd with hd | hd
    · exact absurd hd hn
    · exact hd
  unfold bbl_stream_build_packet_bbl at h
  cases session with
  | none =>
    simp only at h
    split_ifs at h with h0
    · exact hnet _ (hraw h0) h
  | some s =>
    simp only at h
    split_ifs at h with h0 h1 h2 h3 h4 h5 h6 h7 h8 h9
    · exact hnet _ (hraw h0) h
    · exact hacc1 _ _ h3 h
    · exact hl _ _ (hdown h3) h
    · exact ha1 _ _ h
    · exact hacc1 _ _ (by assumption) h
    · exact hnet _ (hdown (by assumption)) h
    · exact ha2 _ _ h
    · exact hacc2 _ _ (by assumption) h
    · exact hnet _ (hdown (by assumption)) h

/-- The header of a built template of an IPv4 stream carries the sub-type of
the stream configuration. -/
theorem build_bbl_sub_type_ipv4 (K : bbl_consts) (B : build_env)
    (session : Option bbl_session_s) (stream : bbl_stream_s) (bbl : bbl_bbl_t)
    (ht : stream.config.type = BBL_SUB_TYPE_IPV4)
    (h : bbl_stream_build_packet_bbl K B session stream = some bbl) :
    bbl.sub_type = stream.config.type := by
  have h46 : BBL_SUB_TYPE_IPV4 ≠ BBL_SUB_TYPE_IPV6 := by decide
  rw [ht]
  have hnet : ∀ b, bbl_stream_build_network_packet session stream = some b →
      b.sub_type = BBL_SUB_TYPE_IPV4 := by
    intro b hb
    unfold bbl_stream_build_network_packet at hb
    simp only [ht, if_true] at hb
    split_ifs at hb <;> (cases Option.some.inj hb; rfl)
  have hacc1 : ∀ s b, bbl_stream_build_access_pppoe_packet B s stream = some b →
      b.sub_type = BBL_SUB_TYPE_IPV4 := by
    intro s b hb
    unfold bbl_stream_build_access_pppoe_packet at hb
    simp only [ht, if_true] at hb
    split_ifs at hb <;> (cases Option.some.inj hb; rfl)
  have hacc2 : ∀ s b, bbl_stream_build_access_ipoe_packet B s stream = some b →
      b.sub_type = BBL_SUB_TYPE_IPV4 := by
    intro s b hb
    unfold bbl_stream_build_access_ipoe_packet at hb
    simp only [ht, if_true] at hb
    split_ifs at hb <;> (cases Option.some.inj hb; rfl)
  have ha1 : ∀ s b, bbl_stream_build_a10nsp_pppoe_packet B s stream = some b →
      b.sub_type = BBL_SUB_TYPE_IPV4 := by
    intro s b hb
    unfold bbl_stream_build_a10nsp_pppoe_packet at hb
    simp only [ht, if_true] at hb
    split_ifs at hb <;> (cases Option.some.inj hb; rfl)
  have ha2 : ∀ s b, bbl_stream_build_a10nsp_ipoe_packet B s stream = some b →
      b.sub_type = BBL_SUB_TYPE_IPV4 := by
    intro s b hb
    unfold bbl_stream_build_a10nsp_ipoe_packet at hb
    simp only [ht, if_true] at hb
    split_ifs at hb <;> (cases Option.some.inj hb; rfl)
  have hl : ∀ s b, bbl_stream_build_l2tp_packet s stream = some b →
      b.sub_type = BBL_SUB_TYPE_IPV4 := by
    intro s b hb
    unfold bbl_stream_build_l2tp_packet at hb
    cases Option.some.inj hb
    rfl
  unfold bbl_stream_build_packet_bbl at h
  cases session with
  | none =>
    simp only at h
    split_ifs at h
    · exact hnet _ h
  | some s =>
    simp only at h
    split_ifs at h
    · exact hnet _ h
    · exact hacc1 _ _ h
    · exact hl _ _ h
    · exact ha1 _ _ h
    · exact hacc1 _ _ h
    · exact hnet _ h
    · exact ha2 _ _ h
    · exact hacc2 _ _ h
    · exact hnet _ h

/-- C34, evaluated on IPv6-PD streams: whatever template `bbl_stream_build_packet`
builds for a stream of type `BBL_SUB_TYPE_IPV6PD`, its BBL header carries the
sub-type `BBL_SUB_TYPE_IPV6`, which differs from the type of the stream; the
packet, received unmodified with any `flow_seq` and timestamp, is rejected by
the sub-type check of `bbl_stream_rx` and the stream stays unverified. -/
theorem build_ipv6pd_rejected (K : bbl_consts) (B : build_env)
    (session : Option bbl_session_s) (stream : bbl_stream_s) (bbl : bbl_bbl_t)
    (htype : stream.type = BBL_SUB_TYPE_IPV6PD) (hfirst : stream.rx_first_seq = 0)
    (hbuild : bbl_stream_build_packet_bbl K B session stream = some bbl) :
    bbl.sub_type ≠ stream.type ∧
    ∀ (eth : bbl_ethernet_header_t) (flow_seq : Nat) (timestamp : timespec)
      (rx_session : Option bbl_session_s),
      (bbl_stream_rx_stream eth { bbl with flow_seq := flow_seq, timestamp := timestamp }
        rx_session stream).2 = false ∧
      (bbl_stream_rx_stream eth { bbl with flow_seq := flow_seq, timestamp := timestamp }
        rx_session stream).1.rx_first_seq = 0 := by
  have hne : bbl.sub_type ≠ stream.type := by
    rw [htype]
    rcases build_bbl_sub_type K B session stream bbl hbuild with h | h <;> rw [h] <;> decide
  refine ⟨hne, ?_⟩
  intro eth flow_seq timestamp rx_session
  exact stream_rx_type_mismatch eth _ rx_session stream hfirst (Or.inl hne)

/-- The IPv6-PD upstream stream of an established PPPoE session: the template
is built with sub-type 2 for the stream of type 3, and the frame is rejected. -/
theorem build_ipv6pd_rejected_witness :
    bbl_stream_build_packet_bbl sample_consts {} (some session_pppoe_ipv6pd)
        stream_ipv6pd_up =
      some { type := 1, sub_type := 2, direction := 1, session_id := 1,
             outer_vlan_id := 100, inner_vlan_id := 7, flow_id := 1 } ∧
    (bbl_stream_can_send sample_consts false (some session_pppoe_ipv6pd)
        stream_ipv6pd_up).2 = true ∧
    (bbl_stream_rx (dict_of stream_ipv6pd_up)
        (frame_of { type := 1, sub_type := 2, direction := 1, session_id := 1,
                    outer_vlan_id := 100, inner_vlan_id := 7, flow_id := 1, flow_seq := 1 })
        (some session_pppoe_ipv6pd)).2 = none ∧
    (2 : Nat) ≠ stream_ipv6pd_up.type ∧
    (bbl_stream_rx_stream
        (frame_of { type := 1, sub_type := 2, direction := 1, session_id := 1,
                    outer_vlan_id := 100, inner_vlan_id := 7, flow_id := 1, flow_seq := 1 })
        { type := 1, sub_type := 2, direction := 1, session_id := 1,
          outer_vlan_id := 100, inner_vlan_id := 7, flow_id := 1, flow_seq := 1 }
        (some session_pppoe_ipv6pd) stream_ipv6pd_up).2 = false :=
  ⟨by decide, by decide, by decide,
    (build_ipv6pd_rejected sample_consts {} (some session_pppoe_ipv6pd) stream_ipv6pd_up
      { type := 1, sub_type := 2, direction := 1, session_id := 1,
        outer_vlan_id := 100, inner_vlan_id := 7, flow_id := 1 }
      (by decide) (by decide) (by decide)).1,
    ((build_ipv6pd_rejected sample_consts {} (some session_pppoe_ipv6pd) stream_ipv6pd_up
      { type := 1, sub_type := 2, direction := 1, session_id := 1,
        outer_vlan_id := 100, inner_vlan_id := 7, flow_id := 1 }
      (by decide) (by decide) (by decide)).2 _ 1 {} (some session_pppoe_ipv6pd)).1⟩

/-! Section: Theorems about the threaded receive path. -/

/-- The two restorations of the VLAN tag agree when the kernel reports no TCI,
and when it reports a VLAN id that is not zero and differs from the outer VLAN
of the decoded frame. -/
theorem thread_rx_vlan_agrees (K : io_consts) (vlan_tci vlan_tpid : Nat)
    (eth : bbl_ethernet_header_t)
    (h : vlan_tci = 0 ∨ (vlan_tci &&& K.BBL_ETH_VLAN_ID_MAX ≠ 0 ∧
      eth.vlan_outer ≠ vlan_tci &&& K.BBL_ETH_VLAN_ID_MAX)) :
    io_thread_rx_vlan K vlan_tci vlan_tpid eth =
      io_packet_mmap_rx_vlan K { tp_vlan_tci := vlan_tci, tp_vlan_tpid := vlan_tpid } eth := by
  unfold io_thread_rx_vlan io_packet_mmap_rx_vlan
  rcases h with h | ⟨h1, h2⟩
  · subst h
    simp
  · have h0 : vlan_tci ≠ 0 := by
      intro h0
      rw [h0, Nat.zero_and] at h1
      exact h1 rfl
    simp only [ne_eq, h0, not_false_eq_true, if_true, h1, h2, and_self]

/-- C36, evaluated where the two paths differ.  For a priority-tagged frame
(TCI `0xA000`: priority 5, VLAN id 0) decoded as an untagged frame the
main-thread path leaves the frame as decoded and the threaded path sets the
outer priority to 5; for a TCI with VLAN id 100 and the QinQ TPID on a frame
decoded with outer VLAN 100, the main-thread path leaves the frame as decoded
and the threaded path makes 100 the inner VLAN as well and sets `qinq`.  The
frames given to `bbl_rx_handler` by `io_packet_mmap_rx_job` and, through
`io_thread_rx_handler` and the TXQ, by `io_thread_main_rx_job` differ
accordingly. -/
theorem thread_rx_vlan_differs :
    io_packet_mmap_rx_vlan io_consts_linux { tp_vlan_tci := 40960, tp_vlan_tpid := 33024 } {} =
      {} ∧
    io_thread_rx_vlan io_consts_linux 40960 33024 {} = { vlan_outer_priority := 5 } ∧
    io_packet_mmap_rx_vlan io_consts_linux { tp_vlan_tci := 100, tp_vlan_tpid := 34984 }
      { vlan_outer := 100 } = { vlan_outer := 100 } ∧
    io_thread_rx_vlan io_consts_linux 100 34984 { vlan_outer := 100 } =
      { vlan_outer := 100, vlan_inner := 100, qinq := true } ∧
    (io_packet_mmap_rx_job io_consts_linux io_rx_env_untagged 2
        { io := { req_tp_frame_nr := 2, ring := ring_priority_tagged } }).map
        (fun r => r.handled) = some [{}] ∧
    (io_packet_mmap_thread_rx_run_fn io_consts_linux io_thread_rx_env_sample {} 2
        (io_thread_rx_sample 4 [])).map
        (fun r => (r.rx_thread,
          (io_thread_main_rx_job io_consts_linux io_rx_env_untagged r.txq {}).handled)) =
      some ([{ vlan_outer_priority := 5 }], [{ vlan_outer_priority := 5 }]) := by
  refine ⟨by decide, by decide, by decide, by decide, by decide, by decide⟩

/-- The slot that `redirect` writes for the packet in the IO handle. -/
theorem redirect_cases (E : io_thread_rx_env) (s : io_thread_rx_state) :
    (E.BBL_TXQ_BUFFER_LEN < s.io.buf_len ∧ redirect E s = (s, io_result_t.IO_ERROR)) ∨
    (s.io.buf_len ≤ E.BBL_TXQ_BUFFER_LEN ∧ s.txq.length < s.txq_size ∧
      redirect E s =
        ({ s with
            txq := s.txq ++
              [{ timestamp := s.io.timestamp,
                 vlan_tci := s.io.vlan_tci,
                 vlan_tpid := s.io.vlan_tpid,
                 packet_len := s.io.buf_len,
                 packet := s.io.buf.take s.io.buf_len }] },
          io_result_t.IO_REDIRECT)) ∨
    (s.io.buf_len ≤ E.BBL_TXQ_BUFFER_LEN ∧ s.txq_size ≤ s.txq.length ∧
      redirect E s = (s, io_result_t.IO_FULL)) := by
  unfold redirect
  by_cases h1 : E.BBL_TXQ_BUFFER_LEN < s.io.buf_len
  · exact Or.inl ⟨h1, by rw [if_pos h1]⟩
  · by_cases h2 : s.txq.length < s.txq_size
    · exact Or.inr (Or.inl ⟨by omega, h2, by rw [if_neg h1, if_pos h2]⟩)
    · exact Or.inr (Or.inr ⟨by omega, by omega, by rw [if_neg h1, if_neg h2]⟩)

/-- The function `io_thread_rx_handler` counts the packet and then either hands
the frame to `bbl_rx_thread`, which consumes it, or calls `redirect`; up to
`redirect` it changes only the counters and the record of the frames given to
`bbl_rx_thread`. -/
theorem rx_handler_cases (K : io_consts) (E : io_thread_rx_env) (s : io_thread_rx_state) :
    ∃ p b u pe rt,
      (io_thread_rx_handler K E s =
          redirect E
            { s with
              io := { s.io with
                stats_packets := p, stats_bytes := b, stats_unknown := u,
                stats_protocol_errors := pe },
              rx_thread := rt } ∨
       (io_thread_rx_handler K E s =
          ({ s with
              io := { s.io with
                stats_packets := p, stats_bytes := b, stats_unknown := u,
                stats_protocol_errors := pe },
              rx_thread := rt }, io_result_t.IO_SUCCESS) ∧
        ∃ eth, rt = s.rx_thread ++ [eth] ∧ E.bbl_rx_thread eth = true)) := by
  unfold io_thread_rx_handler
  simp only []
  by_cases hb : E.packet_is_bbl s.io.buf s.io.buf_len = true
  · rw [if_pos hb]
    cases hd : E.decode_ethernet s.io.buf s.io.buf_len with
    | success eth =>
      simp only []
      split_ifs with hr
      · exact ⟨_, _, _, _, _, Or.inr ⟨rfl, _, rfl, hr⟩⟩
      · exact ⟨_, _, _, _, _, Or.inl rfl⟩
    | unknown_protocol => exact ⟨_, _, _, _, _, Or.inl rfl⟩
    | error => exact ⟨_, _, _, _, _, Or.inl rfl⟩
  · rw [if_neg hb]
    exact ⟨_, _, _, _, _, Or.inl rfl⟩

/-- How a call of `io_thread_rx_handler` ends: the frame consumed by
`bbl_rx_thread`, the packet too long for a TXQ slot, the packet written to one
new TXQ slot, or the TXQ full and untouched.  The ring, the cursor and the
packet loaded in the IO handle are as before in each case. -/
theorem rx_handler_spec (K : io_consts) (E : io_thread_rx_env) (s : io_thread_rx_state) :
    ((io_thread_rx_handler K E s).1.io.ring = s.io.ring ∧
      (io_thread_rx_handler K E s).1.cursor = s.cursor ∧
      (io_thread_rx_handler K E s).1.txq_size = s.txq_size ∧
      (io_thread_rx_handler K E s).1.io.req_tp_frame_nr = s.io.req_tp_frame_nr) ∧
    (((io_thread_rx_handler K E s).2 = io_result_t.IO_SUCCESS ∧
        (io_thread_rx_handler K E s).1.txq = s.txq ∧
        ∃ eth, (io_thread_rx_handler K E s).1.rx_thread = s.rx_thread ++ [eth] ∧
          E.bbl_rx_thread eth = true) ∨
      ((io_thread_rx_handler K E s).2 = io_result_t.IO_ERROR ∧
        E.BBL_TXQ_BUFFER_LEN < s.io.buf_len ∧
        (io_thread_rx_handler K E s).1.txq = s.txq) ∨
      ((io_thread_rx_handler K E s).2 = io_result_t.IO_REDIRECT ∧
        s.io.buf_len ≤ E.BBL_TXQ_BUFFER_LEN ∧ s.txq.length < s.txq_size ∧
        (io_thread_rx_handler K E s).1.txq = s.txq ++
          [{ timestamp := s.io.timestamp,
             vlan_tci := s.io.vlan_tci,
             vlan_tpid := s.io.vlan_tpid,
             packet_len := s.io.buf_len,
             packet := s.io.buf.take s.io.buf_len }]) ∨
      ((io_thread_rx_handler K E s).2 = io_result_t.IO_FULL ∧
        s.io.buf_len ≤ E.BBL_TXQ_BUFFER_LEN ∧ s.txq_size ≤ s.txq.length ∧
        (io_thread_rx_handler K E s).1.txq = s.txq)) := by
  obtain ⟨p, b, u, pe, rt, h | ⟨h, eth, hrt, hr⟩⟩ := rx_handler_cases K E s
  · rw [h]
    rcases redirect_cases E
      { s with
        io := { s.io with
          stats_packets := p, stats_bytes := b, stats_unknown := u,
          stats_protocol_errors := pe },
        rx_thread := rt } with ⟨h1, h2⟩ | ⟨h1, h2, h3⟩ | ⟨h1, h2, h3⟩
    · rw [h2]
      exact ⟨⟨rfl, rfl, rfl, rfl⟩, Or.inr (Or.inl ⟨rfl, h1, rfl⟩)⟩
    · rw [h3]
      exact ⟨⟨rfl, rfl, rfl, rfl⟩, Or.inr (Or.inr (Or.inl ⟨rfl, h1, h2, rfl⟩))⟩
    · rw [h3]
      exact ⟨⟨rfl, rfl, rfl, rfl⟩, Or.inr (Or.inr (Or.inr ⟨rfl, h1, h2, rfl⟩))⟩
  · rw [h]
    exact ⟨⟨rfl, rfl, rfl, rfl⟩, Or.inl ⟨rfl, rfl, eth, hrt, hr⟩⟩

/-- C37: let the frame at the cursor of `io_packet_mmap_thread_rx_run_fn` be
owned by the user and let `io_thread_rx_handler` return `IO_FULL` for it.  Then
the TXQ is full, and the drain cycle ends (any fuel above 0 suffices) with the
TXQ, the ring and the cursor as before: the frame is still owned by the user
at the cursor.  When the frame is offered again after the consumer has made
room in the TXQ, the handler does not return `IO_FULL`; the frame is either
consumed by `bbl_rx_thread` with the TXQ untouched, or written to exactly one
new TXQ slot with its length, bytes and VLAN metadata, and the frame is
returned to the kernel and the cursor advanced by one. -/
theorem thread_rx_full_keeps_frame (K : io_consts) (E : io_thread_rx_env) (now : timespec)
    (s : io_thread_rx_state)
    (huser : frame_user K s.io.ring s.cursor)
    (hfull : (io_thread_rx_handler K E
      (io_packet_mmap_thread_rx_load { s with io := { s.io with timestamp := now } })).2 =
        io_result_t.IO_FULL) :
    ∃ r, (∀ fuel, 0 < fuel → io_packet_mmap_thread_rx_run_fn K E now fuel s = some r) ∧
      s.txq_size ≤ s.txq.length ∧
      r.txq = s.txq ∧ r.io.ring = s.io.ring ∧ r.cursor = s.cursor ∧
      frame_user K r.io.ring r.cursor ∧
      ∀ (now2 : timespec) (txq2 : List bbl_txq_slot_t), txq2.length < s.txq_size →
        ∃ r2, io_packet_mmap_thread_rx_frame K E
            { r with txq := txq2, io := { r.io with timestamp := now2 } } = (r2, false) ∧
          r2.io.ring = s.io.ring.set s.cursor
            { io_thread_tphdr s with tp_status := K.TP_STATUS_KERNEL } ∧
          r2.cursor = ((s.cursor + 1) % s.io.req_tp_frame_nr) % U16 ∧
          (r2.txq = txq2 ++
              [{ timestamp := now2,
                 vlan_tci := (io_thread_tphdr s).tp_vlan_tci,
                 vlan_tpid := (io_thread_tphdr s).tp_vlan_tpid,
                 packet_len := (io_thread_tphdr s).tp_len % U16,
                 packet := (io_thread_tphdr s).packet.take ((io_thread_tphdr s).tp_len % U16) }] ∨
            (r2.txq = txq2 ∧ ∃ eth, r2.rx_thread = r.rx_thread ++ [eth] ∧
              E.bbl_rx_thread eth = true)) := by
  generalize hs1 : io_packet_mmap_thread_rx_load { s with io := { s.io with timestamp := now } }
    = s1 at hfull
  have hs1ring : s1.io.ring = s.io.ring := by rw [← hs1]; rfl
  have hs1cur : s1.cursor = s.cursor := by rw [← hs1]; rfl
  have hs1txq : s1.txq = s.txq := by rw [← hs1]; rfl
  have hs1size : s1.txq_size = s.txq_size := by rw [← hs1]; rfl
  have hs1nr : s1.io.req_tp_frame_nr = s.io.req_tp_frame_nr := by rw [← hs1]; rfl
  have hs1len : s1.io.buf_len = (io_thread_tphdr s).tp_len % U16 := by rw [← hs1]; rfl
  obtain ⟨⟨f1, f2, f3, f4⟩, hc⟩ := rx_handler_spec K E s1
  have hfullc : s1.io.buf_len ≤ E.BBL_TXQ_BUFFER_LEN ∧ s1.txq_size ≤ s1.txq.length ∧
      (io_thread_rx_handler K E s1).1.txq = s1.txq := by
    rcases hc with ⟨h, _⟩ | ⟨h, _⟩ | ⟨h, _⟩ | ⟨_, h⟩
    · rw [hfull] at h; cases h
    · rw [hfull] at h; cases h
    · rw [hfull] at h; cases h
    · exact h
  obtain ⟨hlen, hsz, htxq⟩ := hfullc
  have hframe : io_packet_mmap_thread_rx_frame K E
      { s with io := { s.io with timestamp := now } } =
        ((io_thread_rx_handler K E s1).1, true) := by
    unfold io_packet_mmap_thread_rx_frame
    simp only [hs1, hfull, if_true]
  have hu : (io_thread_tphdr s).tp_status &&& K.TP_STATUS_USER ≠ 0 := huser
  refine ⟨(io_thread_rx_handler K E s1).1, ?_, by rw [← hs1size, ← hs1txq]; exact hsz,
    by rw [htxq, hs1txq], by rw [f1, hs1ring], by rw [f2, hs1cur],
    by rw [f1, f2, hs1ring, hs1cur]; exact huser, ?_⟩
  · intro fuel hfuel
    obtain ⟨fuel, rfl⟩ : ∃ f, fuel = f + 1 := ⟨fuel - 1, by omega⟩
    unfold io_packet_mmap_thread_rx_run_fn
    rw [if_neg hu]
    unfold io_packet_mmap_thread_rx_loop
    rw [if_pos (show (io_thread_tphdr { s with io := { s.io with timestamp := now } }).tp_status
      &&& K.TP_STATUS_USER ≠ 0 from hu)]
    simp only [hframe, if_true]
  · intro now2 txq2 hroom
    generalize hr : (io_thread_rx_handler K E s1).1 = r at f1 f2 f3 f4 htxq ⊢
    have htp : io_thread_tphdr { r with txq := txq2, io := { r.io with timestamp := now2 } } =
        io_thread_tphdr s := by
      unfold io_thread_tphdr
      simp only [f1, f2, hs1ring, hs1cur]
    generalize hs2 : io_packet_mmap_thread_rx_load
      { r with txq := txq2, io := { r.io with timestamp := now2 } } = s2
    have hs2ring : s2.io.ring = s.io.ring := by rw [← hs2, ← hs1ring, ← f1]; rfl
    have hs2cur : s2.cursor = s.cursor := by rw [← hs2, ← hs1cur, ← f2]; rfl
    have hs2txq : s2.txq = txq2 := by rw [← hs2]; rfl
    have hs2size : s2.txq_size = s.txq_size := by rw [← hs2, ← hs1size, ← f3]; rfl
    have hs2rt : s2.rx_thread = r.rx_thread := by rw [← hs2]; rfl
    have hs2ts : s2.io.timestamp = now2 := by rw [← hs2]; rfl
    have hs2len : s2.io.buf_len = (io_thread_tphdr s).tp_len % U16 := by
      rw [← hs2]
      show (io_thread_tphdr _).tp_len % U16 = _
      rw [htp]
    have hs2buf : s2.io.buf = (io_thread_tphdr s).packet := by
      rw [← hs2]
      show (io_thread_tphdr _).packet = _
      rw [htp]
    have hs2tci : s2.io.vlan_tci = (io_thread_tphdr s).tp_vlan_tci := by
      rw [← hs2]
      show (io_thread_tphdr _).tp_vlan_tci = _
      rw [htp]
    have hs2tpid : s2.io.vlan_tpid = (io_thread_tphdr s).tp_vlan_tpid := by
      rw [← hs2]
      show (io_thread_tphdr _).tp_vlan_tpid = _
      rw [htp]
    obtain ⟨⟨g1, g2, g3, g4⟩, hc2⟩ := rx_handler_spec K E s2
    have hnf : (io_thread_rx_handler K E s2).2 ≠ io_result_t.IO_FULL := by
      intro hf
      rcases hc2 with ⟨h, _⟩ | ⟨h, _⟩ | ⟨h, _⟩ | ⟨_, _, h, _⟩
      · rw [hf] at h; cases h
      · rw [hf] at h; cases h
      · rw [hf] at h; cases h
      · rw [hs2txq, hs2size] at h; omega
    have hframe2 : io_packet_mmap_thread_rx_frame K E
        { r with txq := txq2, io := { r.io with timestamp := now2 } } =
        ({ (io_thread_rx_handler K E s2).1 with
            io := { (io_thread_rx_handler K E s2).1.io with
              ring := (io_thread_rx_handler K E s2).1.io.ring.set r.cursor
                { io_thread_tphdr s with tp_status := K.TP_STATUS_KERNEL } },
            cursor := ((r.cursor + 1) % r.io.req_tp_frame_nr) % U16 }, false) := by
      unfold io_packet_mmap_thread_rx_frame
      simp only [hs2, if_neg hnf, htp]
    refine ⟨_, hframe2, ?_, ?_, ?_⟩
    · show (io_thread_rx_handler K E s2).1.io.ring.set r.cursor _ = _
      rw [g1, hs2ring, f2, hs1cur]
    · show ((r.cursor + 1) % r.io.req_tp_frame_nr) % U16 = _
      rw [f2, f4, hs1cur, hs1nr]
    · show (io_thread_rx_handler K E s2).1.txq = _ ∨
        ((io_thread_rx_handler K E s2).1.txq = _ ∧
          ∃ eth, (io_thread_rx_handler K E s2).1.rx_thread = _ ∧ _)
      rcases hc2 with ⟨_, h2, eth, h3, h4⟩ | ⟨_, h, _⟩ | ⟨_, _, _, h⟩ | ⟨h, _⟩
      · exact Or.inr ⟨by rw [h2, hs2txq], eth, by rw [h3, hs2rt], h4⟩
      · rw [hs2len, ← hs1len] at h; omega
      · left
        rw [h, hs2txq, hs2ts, hs2tci, hs2tpid, hs2len, hs2buf]
      · exact absurd h hnf

/-- The ring `ring_priority_tagged` with a TXQ of one slot that is taken: the
drain cycle leaves the frame at the cursor; after the consumer has emptied the
TXQ the frame is written to it once. -/
theorem thread_rx_full_keeps_frame_witness :
    (io_packet_mmap_thread_rx_run_fn io_consts_linux io_thread_rx_env_sample
        { tv_sec := 5, tv_nsec := 0 } 3 (io_thread_rx_sample 1 [{}])).map
        (fun r => (r.txq, r.cursor, r.io.ring)) =
      some ([{}], 0, ring_priority_tagged) ∧
    ((io_packet_mmap_thread_rx_run_fn io_consts_linux io_thread_rx_env_sample
        { tv_sec := 5, tv_nsec := 0 } 3 (io_thread_rx_sample 1 [{}])).bind
        (fun r => io_packet_mmap_thread_rx_run_fn io_consts_linux io_thread_rx_env_sample
          { tv_sec := 6, tv_nsec := 0 } 3 { r with txq := [] })).map
        (fun r => (r.txq, r.cursor, r.io.ring)) =
      some ([{ timestamp := { tv_sec := 6, tv_nsec := 0 }, vlan_tci := 40960,
               vlan_tpid := 33024, packet_len := 2, packet := [7, 8] }], 1,
            [{ tp_status := 0, tp_len := 2, tp_vlan_tci := 40960, tp_vlan_tpid := 33024,
               packet := [7, 8] }, {}]) := by
  obtain ⟨r, h1, -, h3, h4, h5, -, -⟩ :=
    thread_rx_full_keeps_frame io_consts_linux io_thread_rx_env_sample
      { tv_sec := 5, tv_nsec := 0 } (io_thread_rx_sample 1 [{}])
      (by unfold frame_user; decide) (by decide)
  refine ⟨?_, by decide⟩
  rw [h1 3 (by decide)]
  simp only [Option.map_some', h3, h4, h5]
  rfl

/-! Section: Theorems about the verified counter. -/

/-- The first part of `bbl_stream_ctrl` raises `stream_traffic_flows_verified`
exactly when it sets the `verified` flag of a stream that is not session
traffic. -/
theorem ctrl_verify_counter (ctx : bbl_ctx_s) (links : bbl_stream_links)
    (stream : bbl_stream_s) :
    (bbl_stream_ctrl_verify ctx links stream).1.stats_stream_traffic_flows_verified +
        stream_verified_flag (some stream) =
      ctx.stats_stream_traffic_flows_verified +
        stream_verified_flag (some (bbl_stream_ctrl_verify ctx links stream).2.2.1) ∧
    (bbl_stream_ctrl_verify ctx links stream).1.stats_stream_traffic_flows =
      ctx.stats_stream_traffic_flows := by
  have hw : ∀ w : bbl_stream_s × bbl_stream_links,
      w = (if stream.wrong_session ≠ 0 then bbl_stream_rx_wrong_session stream links
        else (stream, links)) →
      w.1.verified = stream.verified ∧ w.1.session_traffic = stream.session_traffic := by
    intro w hw
    by_cases h0 : stream.wrong_session ≠ 0
    · rw [if_pos h0] at hw
      subst hw
      rw [(rx_wrong_session_core stream links).2]
      exact ⟨rfl, rfl⟩
    · rw [if_neg h0] at hw
      subst hw
      exact ⟨rfl, rfl⟩
  unfold bbl_stream_ctrl_verify stream_verified_flag
  generalize hwe : (if stream.wrong_session ≠ 0 then bbl_stream_rx_wrong_session stream links
        else (stream, links)) = w
  obtain ⟨hv, ht⟩ := hw w hwe.symm
  obtain ⟨sw, lw⟩ := w
  simp only at hv ht ⊢
  rw [← hv, ← ht]
  clear hv ht hwe hw
  by_cases hver : sw.verified = true
  · simp [hver]
  · have hver2 : sw.verified = false := by simpa using hver
    by_cases hrx : sw.rx_first_seq = 0
    · simp [hver2, hrx]
    · by_cases hst : sw.session_traffic = true
      · cases hse : lw.session with
        | none => simp [hver2, hrx, hst, hse]
        | some session =>
          by_cases hstop : ctx.traffic_stop_verified = true
          · simp [hver2, hrx, hst, hse, hstop]
          · simp [hver2, hrx, hst, hse, hstop]
      · by_cases hstop : ctx.traffic_stop_verified = true
        · simp [hver2, hrx, hst, hstop]
        · simp [hver2, hrx, hst, hstop]

/-- A run of `bbl_stream_ctrl` raises `stream_traffic_flows_verified` exactly
when it sets the `verified` flag of a stream that is not session traffic, and
leaves `stream_traffic_flows`. -/
theorem ctrl_counter (ctx : bbl_ctx_s) (links : bbl_stream_links) (stream : bbl_stream_s) :
    (bbl_stream_ctrl ctx links stream).1.stats_stream_traffic_flows_verified +
        stream_verified_flag (some stream) =
      ctx.stats_stream_traffic_flows_verified +
        stream_verified_flag (some (bbl_stream_ctrl ctx links stream).2.2) ∧
    (bbl_stream_ctrl ctx links stream).1.stats_stream_traffic_flows =
      ctx.stats_stream_traffic_flows := by
  obtain ⟨h1, h2⟩ := ctrl_verify_counter ctx links stream
  unfold bbl_stream_ctrl
  simp only []
  split_ifs
  · exact ⟨h1, h2⟩
  · refine ⟨?_, h2⟩
    rw [(ctrl_sync_spec _ _).2.2]
    exact h1

/-- The matcher leaves the `verified` flag and the session-traffic mark of the
stream. -/
theorem stream_rx_stream_flag (eth : bbl_ethernet_header_t) (bbl : bbl_bbl_t)
    (session : Option bbl_session_s) (stream : bbl_stream_s) :
    stream_verified_flag (some (bbl_stream_rx_stream eth bbl session stream).1) =
      stream_verified_flag (some stream) := by
  have hcount : ∀ s : bbl_stream_s,
      stream_verified_flag (some (bbl_stream_rx_count eth bbl s)) =
        stream_verified_flag (some s) := by
    intro s
    obtain ⟨mn, mx, h⟩ := stream_rx_count_frame eth bbl s
    rw [h]
    rfl
  by_cases hf : stream.rx_first_seq = 0
  · obtain ⟨a1, a2, a3, a4, b1, b2, b3, b4, c1, c2, c3, c4, ho⟩ :=
      stream_rx_observe_frame eth stream
    rcases stream_rx_first_cases eth bbl session stream hf with h | h | h
    · rw [h, ho]; rfl
    · rw [h, ho]; rfl
    · rw [h, hcount, ho]; rfl
  · rw [stream_rx_verified eth bbl session stream hf, hcount]
    split_ifs <;> rfl

/-- A call of `bbl_stream_rx` leaves the `verified` flag and the
session-traffic mark of every stream, and registers no stream. -/
theorem stream_rx_flag (dict : stream_flow_dict) (eth : bbl_ethernet_header_t)
    (session : Option bbl_session_s) (f : Nat) :
    stream_verified_flag ((bbl_stream_rx dict eth session).1 f) =
      stream_verified_flag (dict f) ∧
    ((bbl_stream_rx dict eth session).1 f ≠ none → dict f ≠ none) := by
  unfold bbl_stream_rx
  cases hb : eth.bbl with
  | none => exact ⟨rfl, id⟩
  | some bbl =>
    simp only []
    split_ifs
    · exact ⟨rfl, id⟩
    · cases hd : dict bbl.flow_id with
      | none => exact ⟨rfl, id⟩
      | some stream =>
        simp only []
        by_cases hff : f = bbl.flow_id
        · subst hff
          rw [Function.update_same, hd]
          exact ⟨stream_rx_stream_flag eth bbl session stream, fun _ => by simp⟩
        · rw [Function.update_noteq hff]
          exact ⟨rfl, id⟩

/-- Replacing the stream of one flow id changes the number of verified streams
by the difference of the two flags. -/
theorem verified_streams_update (flows : List Nat) (hnd : flows.Nodup)
    (dict : stream_flow_dict) (f : Nat) (hf : f ∈ flows) (s : Option bbl_stream_s) :
    verified_streams flows (Function.update dict f s) + stream_verified_flag (dict f) =
      verified_streams flows dict + stream_verified_flag s := by
  unfold verified_streams
  induction flows with
  | nil => cases hf
  | cons g rest ih =>
    have hg : g ∉ rest := (List.nodup_cons.mp hnd).1
    have hr : rest.Nodup := (List.nodup_cons.mp hnd).2
    simp only [List.map_cons, List.sum_cons]
    by_cases hfg : g = f
    · subst hfg
      have hsame : rest.map (fun x => stream_verified_flag (Function.update dict g s x)) =
          rest.map (fun x => stream_verified_flag (dict x)) := by
        apply List.map_congr_left
        intro x hx
        rw [Function.update_noteq]
        intro hxg
        exact hg (hxg ▸ hx)
      rw [hsame, Function.update_same]
      omega
    · have hfr : f ∈ rest := by
        rcases List.mem_cons.mp hf with h | h
        · exact absurd h.symm hfg
        · exact h
      have := ih hr hfr
      rw [Function.update_noteq hfg]
      omega

/-- The number of verified streams depends on the flags only. -/
theorem verified_streams_congr (flows : List Nat) (dict dict' : stream_flow_dict)
    (h : ∀ f, stream_verified_flag (dict' f) = stream_verified_flag (dict f)) :
    verified_streams flows dict' = verified_streams flows dict := by
  unfold verified_streams
  congr 1
  apply List.map_congr_left
  intro f _
  exact h f

/-- One event: the counter and the number of verified streams move together
unless the event is a reset, which can only lower the number of verified
streams; `stream_traffic_flows` and the registered flow ids stay. -/
theorem stream_world_step_spec (flows : List Nat) (hnd : flows.Nodup) (w : stream_world)
    (e : stream_event) (hkeys : ∀ f, w.dict f ≠ none → f ∈ flows) :
    (∀ f, (stream_world_step w e).dict f ≠ none → f ∈ flows) ∧
    (stream_world_step w e).ctx.stats_stream_traffic_flows =
      w.ctx.stats_stream_traffic_flows ∧
    (e.is_reset = false →
      (stream_world_step w e).ctx.stats_stream_traffic_flows_verified +
          verified_streams flows w.dict =
        w.ctx.stats_stream_traffic_flows_verified +
          verified_streams flows (stream_world_step w e).dict) ∧
    (e.is_reset = true →
      (stream_world_step w e).ctx.stats_stream_traffic_flows_verified =
        w.ctx.stats_stream_traffic_flows_verified ∧
      verified_streams flows (stream_world_step w e).dict ≤ verified_streams flows w.dict) := by
  cases e with
  | rx eth session =>
    refine ⟨?_, rfl, ?_, (by intro h; cases h)⟩
    · intro f hf
      exact hkeys f ((stream_rx_flag w.dict eth session f).2 hf)
    · intro _
      show w.ctx.stats_stream_traffic_flows_verified + _ = _ +
        verified_streams flows (bbl_stream_rx w.dict eth session).1
      rw [verified_streams_congr flows w.dict _
        (fun f => (stream_rx_flag w.dict eth session f).1)]
  | ctrl flow_id links =>
    cases hd : w.dict flow_id with
    | none =>
      have hstep : stream_world_step w (stream_event.ctrl flow_id links) = w := by
        simp only [stream_world_step, hd]
      rw [hstep]
      exact ⟨hkeys, rfl, fun _ => rfl, (by intro h; cases h)⟩
    | some stream =>
      have hstep : stream_world_step w (stream_event.ctrl flow_id links) =
          { ctx := (bbl_stream_ctrl w.ctx links stream).1,
            dict := Function.update w.dict flow_id
              (some (bbl_stream_ctrl w.ctx links stream).2.2) } := by
        simp only [stream_world_step, hd]
      rw [hstep]
      simp only []
      have hin : flow_id ∈ flows := hkeys flow_id (by rw [hd]; simp)
      obtain ⟨h1, h2⟩ := ctrl_counter w.ctx links stream
      refine ⟨?_, h2, ?_, (by intro h; cases h)⟩
      · intro f hf
        by_cases hff : f = flow_id
        · rw [hff]; exact hin
        · rw [Function.update_noteq hff] at hf
          exact hkeys f hf
      · intro _
        have hu := verified_streams_update flows hnd w.dict flow_id hin
          (some (bbl_stream_ctrl w.ctx links stream).2.2)
        rw [hd] at hu
        omega
  | reset flow_id =>
    cases hd : w.dict flow_id with
    | none =>
      have hstep : stream_world_step w (stream_event.reset flow_id) = w := by
        simp only [stream_world_step, hd]
      rw [hstep]
      exact ⟨hkeys, rfl, (by intro h; cases h), fun _ => ⟨rfl, le_refl _⟩⟩
    | some stream =>
      have hstep : stream_world_step w (stream_event.reset flow_id) =
          { w with dict := Function.update w.dict flow_id (bbl_stream_reset (some stream)) } := by
        simp only [stream_world_step, hd]
      rw [hstep]
      simp only []
      have hin : flow_id ∈ flows := hkeys flow_id (by rw [hd]; simp)
      refine ⟨?_, trivial, (by intro h; cases h), fun _ => ⟨trivial, ?_⟩⟩
      · intro f hf
        by_cases hff : f = flow_id
        · rw [hff]; exact hin
        · rw [Function.update_noteq hff] at hf
          exact hkeys f hf
      · have hu := verified_streams_update flows hnd w.dict flow_id hin
          (bbl_stream_reset (some stream))
        have h0 : stream_verified_flag (bbl_stream_reset (some stream)) = 0 := by
          unfold bbl_stream_reset stream_verified_flag
          simp
        omega

/-- A run of events: the number of verified streams never exceeds the counter,
and equals it as long as the counter and the number agree at the start and no
stream is reset. -/
theorem stream_world_run_spec (flows : List Nat) (hnd : flows.Nodup)
    (events : List stream_event) :
    ∀ w : stream_world, (∀ f, w.dict f ≠ none → f ∈ flows) →
      verified_streams flows w.dict ≤ w.ctx.stats_stream_traffic_flows_verified →
      (stream_world_run events w).ctx.stats_stream_traffic_flows =
        w.ctx.stats_stream_traffic_flows ∧
      verified_streams flows (stream_world_run events w).dict ≤
        (stream_world_run events w).ctx.stats_stream_traffic_flows_verified ∧
      ((∀ e ∈ events, stream_event.is_reset e = false) →
        verified_streams flows w.dict = w.ctx.stats_stream_traffic_flows_verified →
        verified_streams flows (stream_world_run events w).dict =
          (stream_world_run events w).ctx.stats_stream_traffic_flows_verified) := by
  induction events with
  | nil => intro w _ hle; exact ⟨rfl, hle, fun _ h => h⟩
  | cons e es ih =>
    intro w hkeys hle
    obtain ⟨s1, s2, s3, s4⟩ := stream_world_step_spec flows hnd w e hkeys
    have hle1 : verified_streams flows (stream_world_step w e).dict ≤
        (stream_world_step w e).ctx.stats_stream_traffic_flows_verified := by
      cases hr : stream_event.is_reset e with
      | false => have := s3 hr; omega
      | true => obtain ⟨a, b⟩ := s4 hr; omega
    obtain ⟨i1, i2, i3⟩ := ih (stream_world_step w e) s1 hle1
    have hfl : (stream_world_run (e :: es) w).ctx.stats_stream_traffic_flows =
        w.ctx.stats_stream_traffic_flows := by
      show (stream_world_run es (stream_world_step w e)).ctx.stats_stream_traffic_flows = _
      rw [i1, s2]
    refine ⟨hfl, i2, ?_⟩
    intro hnr heq
    apply i3 (fun e' he' => hnr e' (List.mem_cons_of_mem _ he'))
    have := s3 (hnr e (List.mem_cons_self _ _))
    omega

/-- C38 (as amended): from a state in which no stream is verified and the
verified counter is zero, with `stream_traffic_flows` the number of created
streams, every state reachable through `bbl_stream_rx` and `bbl_stream_ctrl`
has `stream_traffic_flows_verified` equal to the number of streams that are
verified and are not session traffic, hence at most `stream_traffic_flows`;
when `bbl_stream_reset` is among the calls, the number of such streams is at
most the counter. -/
theorem verified_counter_invariant (flows : List Nat) (w : stream_world)
    (events : List stream_event) (hnd : flows.Nodup)
    (hkeys : ∀ f, w.dict f ≠ none → f ∈ flows)
    (hnone : ∀ f s, w.dict f = some s → s.verified = false)
    (hzero : w.ctx.stats_stream_traffic_flows_verified = 0)
    (hflows : w.ctx.stats_stream_traffic_flows = flows.length) :
    verified_streams flows (stream_world_run events w).dict ≤
      (stream_world_run events w).ctx.stats_stream_traffic_flows_verified ∧
    ((∀ e ∈ events, stream_event.is_reset e = false) →
      (stream_world_run events w).ctx.stats_stream_traffic_flows_verified =
        verified_streams flows (stream_world_run events w).dict ∧
      (stream_world_run events w).ctx.stats_stream_traffic_flows_verified ≤
        (stream_world_run events w).ctx.stats_stream_traffic_flows) := by
  have h0 : verified_streams flows w.dict = 0 := by
    unfold verified_streams
    apply List.sum_eq_zero
    intro x hx
    obtain ⟨f, _, rfl⟩ := List.mem_map.mp hx
    unfold stream_verified_flag
    cases hd : w.dict f with
    | none => rfl
    | some s => simp [hnone f s hd]
  obtain ⟨i1, i2, i3⟩ := stream_world_run_spec flows hnd events w hkeys (by omega)
  refine ⟨i2, fun hnr => ?_⟩
  have heq := i3 hnr (by omega)
  refine ⟨heq.symm, ?_⟩
  rw [← heq, i1, hflows]
  unfold verified_streams
  have hb : ∀ (l : List Nat) (d : stream_flow_dict),
      (l.map (fun f => stream_verified_flag (d f))).sum ≤ l.length := by
    intro l d
    induction l with
    | nil => simp
    | cons a t ih =>
      simp only [List.map_cons, List.sum_cons, List.length_cons]
      have : stream_verified_flag (d a) ≤ 1 := by
        unfold stream_verified_flag
        cases d a with
        | none => simp
        | some s => simp only []; split_ifs <;> simp
      omega
  exact hb _ _

/-- One stream that receives its first packet and is marked verified by the
timer job: the counter is 1, and so is the number of verified streams. -/
theorem verified_counter_invariant_witness :
    (stream_world_run [stream_event.rx (test_frame 1 1 []) none, stream_event.ctrl 1 {}]
        stream_world_sample).ctx.stats_stream_traffic_flows_verified = 1 ∧
    verified_streams [1]
      (stream_world_run [stream_event.rx (test_frame 1 1 []) none, stream_event.ctrl 1 {}]
        stream_world_sample).dict = 1 := by
  have h := verified_counter_invariant [1] stream_world_sample
    [stream_event.rx (test_frame 1 1 []) none, stream_event.ctrl 1 {}]
    (by decide)
    (by intro f hf
        by_cases h1 : f = 1
        · rw [h1]; exact List.mem_singleton_self 1
        · exact absurd (show stream_world_sample.dict f = none by
            show dict_of stream_bound_down f = none
            unfold dict_of; rw [if_neg h1]) hf)
    (by intro f s hd
        have : stream_world_sample.dict f = dict_of stream_bound_down f := rfl
        rw [this] at hd
        unfold dict_of at hd
        split_ifs at hd
        cases Option.some.inj hd
        rfl)
    rfl rfl
  have hc : (stream_world_run [stream_event.rx (test_frame 1 1 []) none, stream_event.ctrl 1 {}]
      stream_world_sample).ctx.stats_stream_traffic_flows_verified = 1 := by decide
  exact ⟨hc, by rw [← (h.2 (by decide)).1, hc]⟩

/-- C38 fails with `bbl_stream_reset`: a stream that is verified and then
reset leaves the counter at 1 with no stream verified, and when it is verified
again the counter is 2 with one stream created. -/
theorem verified_counter_reset_counterexample :
    (stream_world_run
        [stream_event.rx (test_frame 1 1 []) none, stream_event.ctrl 1 {}, stream_event.reset 1]
        stream_world_sample).ctx.stats_stream_traffic_flows_verified = 1 ∧
    verified_streams [1]
      (stream_world_run
        [stream_event.rx (test_frame 1 1 []) none, stream_event.ctrl 1 {}, stream_event.reset 1]
        stream_world_sample).dict = 0 ∧
    (stream_world_run
        [stream_event.rx (test_frame 1 1 []) none, stream_event.ctrl 1 {}, stream_event.reset 1,
         stream_event.rx (test_frame 1 1 []) none, stream_event.ctrl 1 {}]
        stream_world_sample).ctx.stats_stream_traffic_flows_verified = 2 ∧
    (stream_world_run
        [stream_event.rx (test_frame 1 1 []) none, stream_event.ctrl 1 {}, stream_event.reset 1,
         stream_event.rx (test_frame 1 1 []) none, stream_event.ctrl 1 {}]
        stream_world_sample).ctx.stats_stream_traffic_flows = 1 := by
  refine ⟨by decide, by decide, by decide, by decide⟩

/-! Section: Theorems about the session-traffic configurations and the IS-IS P2P hello. -/

/-- The IPv4 block writes the two IPv4 configurations only. -/
theorem session_traffic_ipv4_frame (c : bbl_session_traffic_s) :
    ∃ u d, bbl_stream_init_session_traffic_ipv4 c =
      { c with stream_config_session_ipv4_up := u, stream_config_session_ipv4_down := d } := by
  unfold bbl_stream_init_session_traffic_ipv4
  split_ifs
  · exact ⟨_, _, rfl⟩
  · exact ⟨_, _, rfl⟩

/-- The IPv6 block writes the two IPv6 configurations only. -/
theorem session_traffic_ipv6_frame (c : bbl_session_traffic_s) :
    ∃ u d, bbl_stream_init_session_traffic_ipv6 c =
      { c with stream_config_session_ipv6_up := u, stream_config_session_ipv6_down := d } := by
  unfold bbl_stream_init_session_traffic_ipv6
  split_ifs
  · exact ⟨_, _, rfl⟩
  · exact ⟨_, _, rfl⟩

/-- The IPv6-PD block writes the two IPv6-PD configurations only. -/
theorem session_traffic_ipv6pd_frame (c : bbl_session_traffic_s) :
    ∃ u d, bbl_stream_init_session_traffic_ipv6pd c =
      { c with
        stream_config_session_ipv6pd_up := u, stream_config_session_ipv6pd_down := d } := by
  unfold bbl_stream_init_session_traffic_ipv6pd
  split_ifs
  · exact ⟨_, _, rfl⟩
  · exact ⟨_, _, rfl⟩

/-- The IPv4 and the IPv6 session-traffic configurations are created with the
rate configured for their type. -/
theorem session_traffic_ipv4_ipv6_pps (c : bbl_session_traffic_s) :
    (c.session_traffic_ipv4_pps_num ≠ 0 →
      config_kind (bbl_stream_init_session_traffic c).stream_config_session_ipv4_up =
        some (BBL_SUB_TYPE_IPV4, BBL_DIRECTION_UP, true) ∧
      config_kind (bbl_stream_init_session_traffic c).stream_config_session_ipv4_down =
        some (BBL_SUB_TYPE_IPV4, BBL_DIRECTION_DOWN, true) ∧
      config_pps (bbl_stream_init_session_traffic c).stream_config_session_ipv4_up =
        some (c.session_traffic_ipv4_pps_num, c.session_traffic_ipv4_pps_den) ∧
      config_pps (bbl_stream_init_session_traffic c).stream_config_session_ipv4_down =
        some (c.session_traffic_ipv4_pps_num, c.session_traffic_ipv4_pps_den)) ∧
    (c.session_traffic_ipv6_pps_num ≠ 0 →
      config_kind (bbl_stream_init_session_traffic c).stream_config_session_ipv6_up =
        some (BBL_SUB_TYPE_IPV6, BBL_DIRECTION_UP, true) ∧
      config_kind (bbl_stream_init_session_traffic c).stream_config_session_ipv6_down =
        some (BBL_SUB_TYPE_IPV6, BBL_DIRECTION_DOWN, true) ∧
      config_pps (bbl_stream_init_session_traffic c).stream_config_session_ipv6_up =
        some (c.session_traffic_ipv6_pps_num, c.session_traffic_ipv6_pps_den) ∧
      config_pps (bbl_stream_init_session_traffic c).stream_config_session_ipv6_down =
        some (c.session_traffic_ipv6_pps_num, c.session_traffic_ipv6_pps_den)) := by
  unfold bbl_stream_init_session_traffic
  generalize hc4 : bbl_stream_init_session_traffic_ipv4 c = c4
  generalize hc6 : bbl_stream_init_session_traffic_ipv6 c4 = c6
  obtain ⟨u4, d4, h4f⟩ := session_traffic_ipv4_frame c
  obtain ⟨u6, d6, h6f⟩ := session_traffic_ipv6_frame c4
  obtain ⟨up, dp, hpf⟩ := session_traffic_ipv6pd_frame c6
  rw [hc4] at h4f
  rw [hc6] at h6f
  constructor
  · intro h4
    have e1 : c6.stream_config_session_ipv4_up = c4.stream_config_session_ipv4_up := by
      rw [h6f]
    have e2 : c6.stream_config_session_ipv4_down = c4.stream_config_session_ipv4_down := by
      rw [h6f]
    rw [hpf]
    simp only [e1, e2]
    rw [← hc4]
    unfold bbl_stream_init_session_traffic_ipv4
    rw [if_pos h4]
    exact ⟨rfl, rfl, rfl, rfl⟩
  · intro h6
    have e : c4.session_traffic_ipv6_pps_num = c.session_traffic_ipv6_pps_num := by rw [h4f]
    have e2 : c4.session_traffic_ipv6_pps_den = c.session_traffic_ipv6_pps_den := by rw [h4f]
    rw [hpf]
    simp only []
    rw [← hc6]
    unfold bbl_stream_init_session_traffic_ipv6
    rw [if_pos (by rw [e]; exact h6)]
    simp only [e, e2]
    exact ⟨rfl, rfl, rfl, rfl⟩

/-- C39, evaluated on the IPv6-PD rate: when `session_traffic_ipv6pd_pps` is not
zero, `bbl_stream_init` creates the upstream and the downstream IPv6-PD
session-traffic configuration, and both take the rate
`session_traffic_ipv6_pps` configured for IPv6, not the rate configured for
IPv6-PD. -/
theorem session_traffic_ipv6pd_rate (c : bbl_session_traffic_s)
    (hpd : c.session_traffic_ipv6pd_pps_num ≠ 0) :
    config_kind (bbl_stream_init_session_traffic c).stream_config_session_ipv6pd_up =
      some (BBL_SUB_TYPE_IPV6PD, BBL_DIRECTION_UP, true) ∧
    config_kind (bbl_stream_init_session_traffic c).stream_config_session_ipv6pd_down =
      some (BBL_SUB_TYPE_IPV6PD, BBL_DIRECTION_DOWN, true) ∧
    config_pps (bbl_stream_init_session_traffic c).stream_config_session_ipv6pd_up =
      some (c.session_traffic_ipv6_pps_num, c.session_traffic_ipv6_pps_den) ∧
    config_pps (bbl_stream_init_session_traffic c).stream_config_session_ipv6pd_down =
      some (c.session_traffic_ipv6_pps_num, c.session_traffic_ipv6_pps_den) := by
  unfold bbl_stream_init_session_traffic
  generalize hc4 : bbl_stream_init_session_traffic_ipv4 c = c4
  generalize hc6 : bbl_stream_init_session_traffic_ipv6 c4 = c6
  obtain ⟨u4, d4, h4f⟩ := session_traffic_ipv4_frame c
  obtain ⟨u6, d6, h6f⟩ := session_traffic_ipv6_frame c4
  rw [hc4] at h4f
  rw [hc6] at h6f
  have e0 : c6.session_traffic_ipv6pd_pps_num = c.session_traffic_ipv6pd_pps_num := by
    rw [h6f, h4f]
  have e1 : c6.session_traffic_ipv6_pps_num = c.session_traffic_ipv6_pps_num := by
    rw [h6f, h4f]
  have e2 : c6.session_traffic_ipv6_pps_den = c.session_traffic_ipv6_pps_den := by
    rw [h6f, h4f]
  unfold bbl_stream_init_session_traffic_ipv6pd
  rw [if_pos (by rw [e0]; exact hpd)]
  simp only [e1, e2]
  exact ⟨rfl, rfl, rfl, rfl⟩

/-- With an IPv6-PD rate of 5 packets per second and no IPv6 session traffic,
the two IPv6-PD configurations are created with the rate 0. -/
theorem session_traffic_ipv6pd_rate_witness :
    config_pps (bbl_stream_init_session_traffic
      { session_traffic_ipv6pd_pps_num := 5 }).stream_config_session_ipv6pd_up = some (0, 1) ∧
    config_pps (bbl_stream_init_session_traffic
      { session_traffic_ipv6pd_pps_num := 5 }).stream_config_session_ipv6pd_down =
        some (0, 1) ∧
    config_pps (bbl_stream_init_session_traffic
      { session_traffic_ipv6pd_pps_num := 5, session_traffic_ipv6_pps_num := 10 }
      ).stream_config_session_ipv6pd_up = some (10, 1) :=
  ⟨(session_traffic_ipv6pd_rate { session_traffic_ipv6pd_pps_num := 5 } (by decide)).2.2.1,
   (session_traffic_ipv6pd_rate { session_traffic_ipv6pd_pps_num := 5 } (by decide)).2.2.2,
   (session_traffic_ipv6pd_rate
      { session_traffic_ipv6pd_pps_num := 5, session_traffic_ipv6_pps_num := 10 }
      (by decide)).2.2.1⟩

/-- C40, evaluated on a hello that fails authentication:
`isis_p2p_hello_handler_rx` treats it as one that passes, but for the log
line.  For an adjacency that is down, a hello of a level-2 system that
announces the state Initializing and fails authentication resets the timeout,
overwrites the level and the system id of the peer, brings the adjacency up
and calls `isis_adjacency_up` for both levels. -/
theorem p2p_hello_auth_failure_processed :
    (∀ (K : isis_consts) (isis_adjacency : Nat → Bool)
        (adjacency : Option isis_adjacency_p2p_t) (pdu : isis_pdu_t),
      (isis_p2p_hello_handler_rx K false isis_adjacency adjacency pdu).1 =
        (isis_p2p_hello_handler_rx K true isis_adjacency adjacency pdu).1 ∧
      (isis_p2p_hello_handler_rx K false isis_adjacency adjacency pdu).2.1 =
        (isis_p2p_hello_handler_rx K true isis_adjacency adjacency pdu).2.1) ∧
    isis_p2p_hello_handler_rx isis_consts_sample false (fun _ => true)
        (some isis_adjacency_sample) isis_hello_sample =
      (some { state := 0, timeout := 0, stats_hello_rx := 8,
              peer := { level := 2, system_id := [6, 6, 6, 6, 6, 6] } },
        [0, 1], true) := by
  refine ⟨?_, by decide⟩
  intro K isis_adjacency adjacency pdu
  cases adjacency with
  | none => exact ⟨rfl, rfl⟩
  | some a => exact ⟨rfl, rfl⟩

end BngBlaster
